import Mathlib

/-!
# OpenChoreo telemetry query builder: a verification development

A shallow embedding of `internal/telemetry/clickstack/query_builder.go` and of the
query parameter model in `pkg/telemetry/query/types.go`.

Modelling conventions

* Go `string` values are Lean `String`s (sequences of Unicode code points); Go text is
  taken to be valid UTF-8, for which the byte-wise order of Go coincides with the
  code-point order used here.
* Go `int` is a 64-bit two's complement integer: values are `Int`s and the one
  arithmetic operation of the builder (a multiplication) wraps through `wrapInt`.
* A Go slice result that may be `nil` is an `Option (List _)`, `none` being `nil`.
* A Go `error` is an `Option String` holding the message, `none` being `nil`.
* A Go `map[string]string` is the list of its entries in the order in which a
  `range` loop happens to visit them; a well-formed map has pairwise distinct keys.
* Methods with a pointer receiver that mutate a `conditionBuilder` return the new value.
-/

namespace OpenChoreo

/-! ## Go runtime values -/

/-- A `time.Time` value: seconds and nanoseconds elapsed since January 1, year 1,
00:00:00 UTC, the optional monotonic clock reading, and the location
(`none` is UTC). -/
structure Time where
  sec : Int
  nsec : Nat
  mono : Option Int
  loc : Option String
deriving DecidableEq, Repr

/-- Go `Time.IsZero`: the instant is January 1, year 1, 00:00:00 UTC. -/
def Time.IsZero (t : Time) : Bool := t.sec == 0 && t.nsec == 0

/-- Go `Time.UTC`: the same instant with the location set to UTC; the monotonic
clock reading is stripped. -/
def Time.UTC (t : Time) : Time := { t with mono := none, loc := none }

/-- A value of the Go type `any` as the builder produces them: a time, a string or
an int. -/
inductive Arg where
  | time (t : Time)
  | str (s : String)
  | int (n : Int)
deriving DecidableEq, Repr

/-- Two's complement wrap-around of a 64-bit Go `int`. -/
def wrapInt (x : Int) : Int := (x + 2 ^ 63) % 2 ^ 64 - 2 ^ 63

/-- Go `strings.Join`. -/
def stringsJoin : List String → String → String
  | [], _ => ""
  | [a], _ => a
  | a :: b :: rest, sep => a ++ sep ++ stringsJoin (b :: rest) sep

/-- Go `strings.Contains`: `substr` occurs in `s` as a contiguous block. -/
def stringsContains (s substr : String) : Prop := substr.data <:+: s.data

instance (s substr : String) : Decidable (stringsContains s substr) :=
  inferInstanceAs (Decidable (substr.data <:+: s.data))

/-- Go `strings.EqualFold(o, "asc")`: equality under Unicode simple case folding.
The runes equivalent to `a` are `a`, `A`; to `s` are `s`, `S` and U+017F (the
long s); to `c` are `c`, `C`. -/
def equalFoldAsc (o : String) : Bool :=
  match o.data with
  | [x, y, z] =>
    (x == 'a' || x == 'A') &&
    (y == 's' || y == 'S' || y == Char.ofNat 0x17F) &&
    (z == 'c' || z == 'C')
  | _ => false

/-- A Go `map[string]string`, as the list of its entries in iteration order. -/
abbrev GoMap := List (String × String)

/-- The keys of a map, in iteration order. -/
def GoMap.keys (m : GoMap) : List String := m.map Prod.fst

/-- A map holds each key once. -/
def GoMap.WF (m : GoMap) : Prop := (GoMap.keys m).Nodup

instance (m : GoMap) : Decidable (GoMap.WF m) :=
  inferInstanceAs (Decidable (List.Nodup _))

/-- Go index expression `m[k]`: the value stored under `k`, else the zero value. -/
def GoMap.get (m : GoMap) (k : String) : String := (m.lookup k).getD ""

/-- The order `keys[i] < keys[j]` of Go strings, as a non-strict relation. -/
def keyLE (a b : String) : Prop := a.data ≤ b.data

instance : DecidableRel keyLE := fun a b => inferInstanceAs (Decidable (a.data ≤ b.data))

/-! ## Query parameter model (`pkg/telemetry/query/types.go`) -/

structure TimeRange where
  Start : Time
  End : Time
deriving DecidableEq, Repr

structure BaseLogQuery where
  TimeRange : TimeRange
  SearchPhrase : String
  LogLevels : List String
  Limit : Int
  SortOrder : String
  Namespace : String
  Versions : List String
  VersionIDs : List String
  LogType : String
deriving DecidableEq, Repr

structure ComponentLogQuery where
  BaseLogQuery : BaseLogQuery
  ComponentID : String
  EnvironmentID : String
  BuildID : String
  BuildUUID : String
deriving DecidableEq, Repr

structure ProjectLogQuery where
  BaseLogQuery : BaseLogQuery
  ProjectID : String
  ComponentIDs : List String
  EnvironmentID : String
deriving DecidableEq, Repr

structure OrganizationLogQuery where
  BaseLogQuery : BaseLogQuery
  OrganizationID : String
  EnvironmentID : String
  PodLabels : GoMap
deriving DecidableEq, Repr

structure GatewayLogQuery where
  BaseLogQuery : BaseLogQuery
  OrganizationID : String
  APIIDToVersionMap : GoMap
  GatewayVHosts : List String
deriving DecidableEq, Repr

structure ComponentTraceQuery where
  ServiceName : String
  TimeRange : TimeRange
  Limit : Int
deriving DecidableEq, Repr

structure CostReportQuery where
  Start : Time
  End : Time
deriving DecidableEq, Repr

/-- The fields of `config.ClickStackConfig` that the builder reads. -/
structure ClickStackConfig where
  LogsTable : String
  TracesTable : String
  MaxOpenConns : Int
deriving DecidableEq, Repr

/-! ## The builder (`internal/telemetry/clickstack/query_builder.go`) -/

structure QueryBuilder where
  logTable : String
  traceTable : String
  maxLimit : Int
deriving DecidableEq, Repr

/-- The triple `(string, []any, error)` returned by every entry point. -/
structure BuildResult where
  sql : String
  args : Option (List Arg)
  err : Option String
deriving DecidableEq, Repr

def NewQueryBuilder (cfg : ClickStackConfig) : QueryBuilder :=
  let defaultMaxLimit : Int := 2000
  let max :=
    if cfg.MaxOpenConns > 0 ∧ wrapInt (cfg.MaxOpenConns * 100) > defaultMaxLimit then
      wrapInt (cfg.MaxOpenConns * 100)
    else defaultMaxLimit
  { logTable := cfg.LogsTable, traceTable := cfg.TracesTable, maxLimit := max }

structure conditionBuilder where
  clauses : List String
  args : List Arg
deriving DecidableEq, Repr

def newConditionBuilder : conditionBuilder := { clauses := [], args := [] }

def conditionBuilder.add (c : conditionBuilder) (clause : String) (args : List Arg) :
    conditionBuilder :=
  if clause = "" then c
  else
    { clauses := c.clauses ++ [clause],
      args := if args.length > 0 then c.args ++ args else c.args }

def conditionBuilder.whereClause (c : conditionBuilder) : String :=
  if c.clauses.length = 0 then "1=1" else stringsJoin c.clauses " AND "

def placeholders (n : Nat) : String :=
  if n ≤ 0 then "" else stringsJoin (List.replicate n "?") ", "

def sortedKeys (m : GoMap) : List String := (GoMap.keys m).insertionSort keyLE

/-- Go `strings.ReplaceAll(key, "'", "\\'")`: each single quote becomes a backslash
followed by a single quote. -/
def escapeJSONPath (key : String) : String :=
  String.mk (key.data.flatMap fun c => if c = Char.ofNat 39 then [Char.ofNat 92, Char.ofNat 39] else [c])

def QueryBuilder.resolveLimit (qb : QueryBuilder) (limit : Int) : Int :=
  let limit := if limit ≤ 0 then 100 else limit
  if limit > qb.maxLimit then qb.maxLimit else limit

def QueryBuilder.order (_qb : QueryBuilder) (o : String) : String :=
  if equalFoldAsc o then "ASC" else "DESC"

def QueryBuilder.addInClause (_qb : QueryBuilder) (cb : conditionBuilder) (column : String)
    (values : List String) : conditionBuilder :=
  if values.length = 0 then cb
  else cb.add (column ++ " IN (" ++ placeholders values.length ++ ")") (values.map Arg.str)

/-- The base filters shared by the log builders; the result is the updated condition
builder and the error. -/
def QueryBuilder.applyBaseFilters (qb : QueryBuilder) (cb : conditionBuilder)
    (base : BaseLogQuery) : conditionBuilder × Option String :=
  if base.TimeRange.Start.IsZero || base.TimeRange.End.IsZero then
    (cb, some "time range is required")
  else
    let cb := cb.add "timestamp BETWEEN ? AND ?"
      [Arg.time base.TimeRange.Start.UTC, Arg.time base.TimeRange.End.UTC]
    let cb := if base.SearchPhrase ≠ "" then
      cb.add "positionCaseInsensitive(log, ?) > 0" [Arg.str base.SearchPhrase] else cb
    let cb := if base.LogLevels.length > 0 then
      qb.addInClause cb "log_level" base.LogLevels else cb
    let cb := if base.Namespace ≠ "" then
      cb.add "namespace = ?" [Arg.str base.Namespace] else cb
    let cb := if base.Versions.length > 0 then
      qb.addInClause cb "version" base.Versions else cb
    let cb := if base.VersionIDs.length > 0 then
      qb.addInClause cb "version_id" base.VersionIDs else cb
    let cb := if base.LogType ≠ "" then
      cb.add "log_type = ?" [Arg.str base.LogType] else cb
    (cb, none)

/-- The text of the log statement up to the table name. -/
def logSelect : String :=
  "SELECT\n    timestamp,\n    log,\n    log_level,\n    component_id,\n    environment_id,\n    project_id,\n    version,\n    version_id,\n    namespace,\n    pod_id,\n    container_name,\n    labels_json,\n    count() OVER () AS total_count\nFROM "

def QueryBuilder.assembleLogQuery (qb : QueryBuilder) (cb : conditionBuilder) (order : String)
    (limit : Int) : BuildResult :=
  if qb.logTable = "" then ⟨"", none, some "log table is not configured"⟩
  else
    let whereText := cb.whereClause
    let sql := logSelect ++ qb.logTable ++ "\nWHERE " ++ whereText ++
      "\nORDER BY timestamp " ++ qb.order order ++ "\nLIMIT ?"
    ⟨sql, some (cb.args ++ [Arg.int limit]), none⟩

def QueryBuilder.ComponentLogs (qb : QueryBuilder) (params : ComponentLogQuery) : BuildResult :=
  if params.ComponentID = "" then ⟨"", none, some "component id is required"⟩
  else
    match qb.applyBaseFilters newConditionBuilder params.BaseLogQuery with
    | (_, some err) => ⟨"", none, some err⟩
    | (cb, none) =>
      let cb := cb.add "component_id = ?" [Arg.str params.ComponentID]
      let cb := if params.EnvironmentID ≠ "" then
        cb.add "environment_id = ?" [Arg.str params.EnvironmentID] else cb
      let cb := if params.BuildID ≠ "" then
        cb.add "build_id = ?" [Arg.str params.BuildID] else cb
      let cb := if params.BuildUUID ≠ "" then
        cb.add "build_uuid = ?" [Arg.str params.BuildUUID] else cb
      qb.assembleLogQuery cb params.BaseLogQuery.SortOrder
        (qb.resolveLimit params.BaseLogQuery.Limit)

def QueryBuilder.ProjectLogs (qb : QueryBuilder) (params : ProjectLogQuery) : BuildResult :=
  if params.ProjectID = "" then ⟨"", none, some "project id is required"⟩
  else
    match qb.applyBaseFilters newConditionBuilder params.BaseLogQuery with
    | (_, some err) => ⟨"", none, some err⟩
    | (cb, none) =>
      let cb := cb.add "project_id = ?" [Arg.str params.ProjectID]
      let cb := if params.EnvironmentID ≠ "" then
        cb.add "environment_id = ?" [Arg.str params.EnvironmentID] else cb
      let cb := if params.ComponentIDs.length > 0 then
        qb.addInClause cb "component_id" params.ComponentIDs else cb
      qb.assembleLogQuery cb params.BaseLogQuery.SortOrder
        (qb.resolveLimit params.BaseLogQuery.Limit)

/-- One pass of the loop of `GatewayLogs` over the sorted API ids; `acc` holds the
local slices `clauses` and `args`. -/
def gatewayStep (m : GoMap) (acc : List String × List Arg) (apiID : String) :
    List String × List Arg :=
  let version := GoMap.get m apiID
  if version = "" then (acc.1 ++ ["(api_id = ?)"], acc.2 ++ [Arg.str apiID])
  else (acc.1 ++ ["(api_id = ? AND api_version = ?)"], acc.2 ++ [Arg.str apiID, Arg.str version])

def QueryBuilder.GatewayLogs (qb : QueryBuilder) (params : GatewayLogQuery) : BuildResult :=
  if params.OrganizationID = "" then ⟨"", none, some "organization id is required"⟩
  else
    match qb.applyBaseFilters newConditionBuilder params.BaseLogQuery with
    | (_, some err) => ⟨"", none, some err⟩
    | (cb, none) =>
      let cb := cb.add "organization_id = ?" [Arg.str params.OrganizationID]
      let cb := if params.GatewayVHosts.length > 0 then
        qb.addInClause cb "gateway_vhost" params.GatewayVHosts else cb
      let cb := if params.APIIDToVersionMap.length > 0 then
        let keys := sortedKeys params.APIIDToVersionMap
        let acc := keys.foldl (gatewayStep params.APIIDToVersionMap) ([], [])
        cb.add ("(" ++ stringsJoin acc.1 " OR " ++ ")") acc.2
      else cb
      qb.assembleLogQuery cb params.BaseLogQuery.SortOrder
        (qb.resolveLimit params.BaseLogQuery.Limit)

/-- One pass of the loop of `OrganizationLogs` over the sorted pod-label keys. -/
def podLabelStep (m : GoMap) (cb : conditionBuilder) (k : String) : conditionBuilder :=
  let v := GoMap.get m k
  cb.add ("JSONExtractString(labels_json, '" ++ escapeJSONPath k ++ "') = ?") [Arg.str v]

def QueryBuilder.OrganizationLogs (qb : QueryBuilder) (params : OrganizationLogQuery) :
    BuildResult :=
  if params.OrganizationID = "" then ⟨"", none, some "organization id is required"⟩
  else
    match qb.applyBaseFilters newConditionBuilder params.BaseLogQuery with
    | (_, some err) => ⟨"", none, some err⟩
    | (cb, none) =>
      let cb := cb.add "organization_id = ?" [Arg.str params.OrganizationID]
      let cb := if params.EnvironmentID ≠ "" then
        cb.add "environment_id = ?" [Arg.str params.EnvironmentID] else cb
      let cb := if params.PodLabels.length > 0 then
        (sortedKeys params.PodLabels).foldl (podLabelStep params.PodLabels) cb
      else cb
      qb.assembleLogQuery cb params.BaseLogQuery.SortOrder
        (qb.resolveLimit params.BaseLogQuery.Limit)

/-- The text of the trace statement up to the table name. -/
def traceSelect : String :=
  "SELECT\n    start_time,\n    end_time,\n    span_name,\n    span_id,\n    trace_id,\n    duration_in_nanos,\n    count() OVER () AS total_count\nFROM "

/-- The text of the trace statement after the table name. -/
def traceTail : String :=
  "\nWHERE service_name = ?\n  AND start_time BETWEEN ? AND ?\nORDER BY start_time DESC\nLIMIT ?"

def QueryBuilder.ComponentTraces (qb : QueryBuilder) (params : ComponentTraceQuery) :
    BuildResult :=
  if params.ServiceName = "" then ⟨"", none, some "service name is required"⟩
  else if params.TimeRange.Start.IsZero || params.TimeRange.End.IsZero then
    ⟨"", none, some "time range is required"⟩
  else if qb.traceTable = "" then ⟨"", none, some "trace table is not configured"⟩
  else
    let limit := params.Limit
    let limit := if limit ≤ 0 then 500 else limit
    let limit := if limit > qb.maxLimit then qb.maxLimit else limit
    let sql := traceSelect ++ qb.traceTable ++ traceTail
    ⟨sql, some [Arg.str params.ServiceName, Arg.time params.TimeRange.Start.UTC,
      Arg.time params.TimeRange.End.UTC, Arg.int limit], none⟩

/-- The text of the cost statement up to the table name. -/
def costSelect : String :=
  "SELECT\n    coalesce(JSONExtractString(labels_json, 'organization-name'), 'unknown') AS organization_id,\n    coalesce(project_id, 'unknown') AS project_id,\n    coalesce(component_id, 'unknown') AS component_id,\n    count() AS log_count,\n    sum(lengthUTF8(log)) AS raw_bytes\nFROM "

/-- The text of the cost statement after the table name. -/
def costTail : String :=
  "\nWHERE timestamp BETWEEN ? AND ?\nGROUP BY organization_id, project_id, component_id\nORDER BY organization_id, project_id, component_id"

def QueryBuilder.CostReport (qb : QueryBuilder) (params : CostReportQuery) : BuildResult :=
  if qb.logTable = "" then ⟨"", none, some "log table is not configured"⟩
  else if params.Start.IsZero || params.End.IsZero then
    ⟨"", none, some "cost report requires start and end time"⟩
  else
    ⟨costSelect ++ qb.logTable ++ costTail,
      some [Arg.time params.Start.UTC, Arg.time params.End.UTC], none⟩

/-! ## Predicates, derived quantities and sample inputs of the statements -/

/-- The builder `c'` holds the clauses and arguments of `c`, followed by further ones. -/
def Extends (c c' : conditionBuilder) : Prop :=
  c.clauses <+: c'.clauses ∧ c.args <+: c'.args

/-- The condition builder after the time predicate alone. -/
def timeBuilder (base : BaseLogQuery) : conditionBuilder :=
  { clauses := ["timestamp BETWEEN ? AND ?"],
    args := [Arg.time base.TimeRange.Start.UTC, Arg.time base.TimeRange.End.UTC] }

/-- The call failed: an error, no SQL text, and a nil argument slice. -/
def Rejected (r : BuildResult) : Prop := r.err ≠ none ∧ r.sql = "" ∧ r.args = none

instance (r : BuildResult) : Decidable (Rejected r) :=
  inferInstanceAs (Decidable (_ ∧ _ ∧ _))

/-- The final positional argument is an integer between 1 and the ceiling of `qb`. -/
def LimitBounded (qb : QueryBuilder) (r : BuildResult) : Prop :=
  ∃ l L, r.args = some l ∧ l.getLast? = some (Arg.int L) ∧ 1 ≤ L ∧ L ≤ qb.maxLimit

/-- The configuration of the source's own test. -/
def testConfig : ClickStackConfig :=
  { LogsTable := "telemetry.logs_mv", TracesTable := "telemetry.traces_mv", MaxOpenConns := 0 }

/-- The builder of the source's own test. -/
def testBuilder : QueryBuilder := NewQueryBuilder testConfig

/-- A non-zero instant in a non-UTC location, carrying a monotonic reading. -/
def sampleStart : Time := { sec := 63900000000, nsec := 7, mono := some 12, loc := some "Local" }

/-- A later non-zero instant. -/
def sampleEnd : Time := { sec := 63900003600, nsec := 9, mono := some 3612, loc := some "Local" }

/-- A base query holding only the time window, with limit 50 and descending order. -/
def sampleBase : BaseLogQuery :=
  { TimeRange := { Start := sampleStart, End := sampleEnd }, SearchPhrase := "", LogLevels := [],
    Limit := 50, SortOrder := "desc", Namespace := "", Versions := [], VersionIDs := [],
    LogType := "" }

/-- The query of scenario A. -/
def scenarioA : ComponentLogQuery :=
  { BaseLogQuery := sampleBase, ComponentID := "comp-1", EnvironmentID := "dev", BuildID := "",
    BuildUUID := "" }

instance : IsTotal String keyLE := ⟨fun a b => le_total a.data b.data⟩

instance : IsTrans String keyLE := ⟨fun _ _ _ h₁ h₂ => le_trans h₁ h₂⟩

instance : IsAntisymm String keyLE := ⟨fun _ _ h₁ h₂ => String.ext (le_antisymm h₁ h₂)⟩

/-- A gateway query with two API ids, one of them without a version. -/
def sampleGateway : GatewayLogQuery :=
  { BaseLogQuery := sampleBase, OrganizationID := "org-1",
    APIIDToVersionMap := [("orders", "v2"), ("billing", "")], GatewayVHosts := ["gw.example"] }

/-- An organization query with two pod labels. -/
def sampleOrganization : OrganizationLogQuery :=
  { BaseLogQuery := sampleBase, OrganizationID := "org-1", EnvironmentID := "dev",
    PodLabels := [("tier", "web"), ("app", "shop")] }

/-- The clause that `GatewayLogs` emits for an API id: `(api_id = ?)` when the map holds
the empty version for it, and `(api_id = ? AND api_version = ?)` otherwise. -/
def apiClause (m : GoMap) (id : String) : String :=
  if GoMap.get m id = "" then "(api_id = ?)" else "(api_id = ? AND api_version = ?)"

/-- The arguments that `GatewayLogs` binds for an API id: the id alone when the map
holds the empty version for it, and the id followed by the version otherwise. -/
def apiArgs (m : GoMap) (id : String) : List Arg :=
  if GoMap.get m id = "" then [Arg.str id] else [Arg.str id, Arg.str (GoMap.get m id)]

/-- The clause that `OrganizationLogs` emits for a pod-label key. -/
def podLabelClause (k : String) : String :=
  "JSONExtractString(labels_json, '" ++ escapeJSONPath k ++ "') = ?"

/-- The clauses that precede the API chain in the WHERE clause of `GatewayLogs`: those of
the base filters, the organization clause, and the virtual-host clause if any. -/
def gatewayLeadClauses (qb : QueryBuilder) (q : GatewayLogQuery) : List String :=
  (qb.applyBaseFilters newConditionBuilder q.BaseLogQuery).1.clauses ++ ["organization_id = ?"] ++
    (if q.GatewayVHosts = [] then []
      else ["gateway_vhost" ++ " IN (" ++ placeholders q.GatewayVHosts.length ++ ")"])

/-- The arguments that precede those of the API chain in `GatewayLogs`: those of the base
filters, the organization id, and the virtual hosts. -/
def gatewayLeadArgs (qb : QueryBuilder) (q : GatewayLogQuery) : List Arg :=
  (qb.applyBaseFilters newConditionBuilder q.BaseLogQuery).1.args ++ [Arg.str q.OrganizationID] ++
    q.GatewayVHosts.map Arg.str

/-- No clause of the builder is a pod-label clause. -/
def NoLabelClause (cb : conditionBuilder) : Prop :=
  ∀ c ∈ cb.clauses, ∀ k, c ≠ podLabelClause k

/-- The clauses that precede the pod-label clauses in the WHERE clause of
`OrganizationLogs`: those of the base filters, the organization clause, and the
environment clause if any. -/
def organizationLeadClauses (qb : QueryBuilder) (q : OrganizationLogQuery) : List String :=
  (qb.applyBaseFilters newConditionBuilder q.BaseLogQuery).1.clauses ++ ["organization_id = ?"] ++
    (if q.EnvironmentID = "" then [] else ["environment_id = ?"])

/-- The arguments that precede the pod-label values in `OrganizationLogs`: those of the
base filters, the organization id, and the environment id if any. -/
def organizationLeadArgs (qb : QueryBuilder) (q : OrganizationLogQuery) : List Arg :=
  (qb.applyBaseFilters newConditionBuilder q.BaseLogQuery).1.args ++ [Arg.str q.OrganizationID] ++
    (if q.EnvironmentID = "" then [] else [Arg.str q.EnvironmentID])

/-- An organization query whose pod-label keys include one holding a single quote. -/
def sampleQuoted : OrganizationLogQuery :=
  { BaseLogQuery := sampleBase, OrganizationID := "org-1", EnvironmentID := "dev",
    PodLabels := [("o'k", "yes"), ("app", "shop")] }

/-- Both strings are empty or both are non-empty. -/
def SamePresence (a b : String) : Prop := a = "" ↔ b = ""

instance (a b : String) : Decidable (SamePresence a b) :=
  inferInstanceAs (Decidable (_ ↔ _))

/-- Two base queries are valid (non-zero start and end) and agree on their shape: on
which of search phrase, namespace and log type are present, on the lengths of the
log-level, version and version-id lists, and on the resolved sort direction. -/
def BaseShapeAgree (qb : QueryBuilder) (b₁ b₂ : BaseLogQuery) : Prop :=
  b₁.TimeRange.Start.IsZero = false ∧ b₁.TimeRange.End.IsZero = false ∧
  b₂.TimeRange.Start.IsZero = false ∧ b₂.TimeRange.End.IsZero = false ∧
  SamePresence b₁.SearchPhrase b₂.SearchPhrase ∧
  b₁.LogLevels.length = b₂.LogLevels.length ∧
  SamePresence b₁.Namespace b₂.Namespace ∧
  b₁.Versions.length = b₂.Versions.length ∧
  b₁.VersionIDs.length = b₂.VersionIDs.length ∧
  SamePresence b₁.LogType b₂.LogType ∧
  qb.order b₁.SortOrder = qb.order b₂.SortOrder

instance (qb : QueryBuilder) (b₁ b₂ : BaseLogQuery) : Decidable (BaseShapeAgree qb b₁ b₂) :=
  inferInstanceAs (Decidable (_ ∧ _ ∧ _ ∧ _ ∧ _ ∧ _ ∧ _ ∧ _ ∧ _ ∧ _ ∧ _))

/-- Whether the version is empty, read along the API ids in ascending order. -/
def versionPattern (m : GoMap) : List Bool :=
  (sortedKeys m).map fun k => decide (GoMap.get m k = "")

/-- A gateway query whose API ids are `a` (version `v1`) and `b` (no version). -/
def gatewayLeft : GatewayLogQuery :=
  { BaseLogQuery := sampleBase, OrganizationID := "org-1",
    APIIDToVersionMap := [("a", "v1"), ("b", "")], GatewayVHosts := [] }

/-- A gateway query whose API ids are `b` (no version) and `c` (version `v1`). -/
def gatewayRight : GatewayLogQuery :=
  { BaseLogQuery := sampleBase, OrganizationID := "org-1",
    APIIDToVersionMap := [("b", ""), ("c", "v1")], GatewayVHosts := [] }

/-- A component query differing from scenario A in every value but not in shape. -/
def scenarioAlt : ComponentLogQuery :=
  { BaseLogQuery := { sampleBase with Limit := 7, SortOrder := "" },
    ComponentID := "x", EnvironmentID := "prod", BuildID := "", BuildUUID := "" }

/-- A gateway query of the shape of `sampleGateway` with other ids, hosts and versions. -/
def sampleGatewayAlt : GatewayLogQuery :=
  { BaseLogQuery := sampleBase, OrganizationID := "org-2",
    APIIDToVersionMap := [("alpha", ""), ("beta", "v9")], GatewayVHosts := ["other.example"] }

/-- An organization query of the shape of `sampleOrganization` with other values. -/
def sampleOrganizationAlt : OrganizationLogQuery :=
  { BaseLogQuery := sampleBase, OrganizationID := "org-2", EnvironmentID := "prod",
    PodLabels := [("app", "cart"), ("tier", "db")] }

/-- A project query filtering on two components, one log level and a search phrase. -/
def sampleProject : ProjectLogQuery :=
  { BaseLogQuery := { sampleBase with SearchPhrase := "timeout", LogLevels := ["ERROR"] },
    ProjectID := "proj-1", ComponentIDs := ["c1", "c2"], EnvironmentID := "" }

/-- A base query of the shape of that of `sampleProject` with other values. -/
def sampleBaseAlt : BaseLogQuery :=
  { sampleBase with
    SearchPhrase := "x' OR 1=1 --", LogLevels := ["WARN"], SortOrder := "DESC", Limit := 0 }

/-- A project query of the shape of `sampleProject` with other values. -/
def sampleProjectAlt : ProjectLogQuery :=
  { BaseLogQuery := sampleBaseAlt, ProjectID := "proj-2", ComponentIDs := ["c8", "c9"],
    EnvironmentID := "" }

/-- A configuration whose connection count times 100 exceeds the range of a 64-bit
integer. -/
def overflowConfig : ClickStackConfig :=
  { LogsTable := "telemetry.logs_mv", TracesTable := "telemetry.traces_mv",
    MaxOpenConns := 92233720368547759 }

/-- A trace query asking for the largest 64-bit limit. -/
def sampleTrace : ComponentTraceQuery :=
  { ServiceName := "checkout", TimeRange := { Start := sampleStart, End := sampleEnd },
    Limit := 9223372036854775807 }

/-- The zero time. -/
def zeroTime : Time := { sec := 0, nsec := 0, mono := none, loc := none }

/-- The zero instant read in another location. -/
def zeroTimeLocal : Time := { sec := 0, nsec := 0, mono := none, loc := some "Local" }

/-- The base query `sampleBase` with the given window. -/
def sampleBaseAt (s e : Time) : BaseLogQuery :=
  { sampleBase with TimeRange := { Start := s, End := e } }

/-! ## Sort direction and trace limit: quantities of the statements -/

/-- Go `strings.HasSuffix`. -/
def stringsHasSuffix (s suffix : String) : Prop := suffix.data <:+ s.data

instance (s suffix : String) : Decidable (stringsHasSuffix s suffix) :=
  inferInstanceAs (Decidable (suffix.data <:+ s.data))

/-- The strings that equal `asc` when letter case is ignored, in the sense of Unicode
simple case folding: the eight ASCII spellings, and the four spellings with U+017F (the
long s, a lower-case letter whose upper case is `S`) in place of `s`. -/
def ascSpellings : List String :=
  ["asc", "asC", "aSc", "aSC", "Asc", "AsC", "ASc", "ASC",
    String.mk ['a', Char.ofNat 0x17F, 'c'], String.mk ['a', Char.ofNat 0x17F, 'C'],
    String.mk ['A', Char.ofNat 0x17F, 'c'], String.mk ['A', Char.ofNat 0x17F, 'C']]

/-- The statement ends with the ordering on `timestamp` in direction `dir`, followed by
the limit clause. -/
def OrdersBy (r : BuildResult) (dir : String) : Prop :=
  stringsHasSuffix r.sql ("\nORDER BY timestamp " ++ dir ++ "\nLIMIT ?")

instance (r : BuildResult) (dir : String) : Decidable (OrdersBy r dir) :=
  inferInstanceAs (Decidable (stringsHasSuffix _ _))

/-- The log query `scenarioA` with the given sort order. -/
def scenarioSorted (o : String) : ComponentLogQuery :=
  { scenarioA with BaseLogQuery := { sampleBase with SortOrder := o } }

/-- The trace query `sampleTrace` with the given limit. -/
def sampleTraceLimit (n : Int) : ComponentTraceQuery := { sampleTrace with Limit := n }

/-- The statement of `r` orders by ascending timestamp exactly when `o` equals `asc` up
to letter case, and by descending timestamp exactly when it does not. -/
def SortResolved (r : BuildResult) (o : String) : Prop :=
  (OrdersBy r "ASC" ↔ o ∈ ascSpellings) ∧ (OrdersBy r "DESC" ↔ o ∉ ascSpellings)

/-! ## Time order and the window of the cost statement -/

/-- The order of two instants (Go `!u.After(t)`): by seconds, then by nanoseconds; the
location and the monotonic reading play no part. -/
def Time.le (t u : Time) : Bool :=
  decide (t.sec < u.sec) || (decide (t.sec = u.sec) && decide (t.nsec ≤ u.nsec))

/-- The SQL predicate `x BETWEEN lo AND hi`, which stands for `lo <= x AND x <= hi`: both
bounds belong to the range. -/
def sqlBetween (x lo hi : Time) : Bool := lo.le x && x.le hi

/-- Whether the WHERE clause `timestamp BETWEEN ? AND ?` of the cost statement admits a
row of timestamp `t`, its two placeholders being bound to the two arguments of `r`. -/
def costWindowAdmits (r : BuildResult) (t : Time) : Bool :=
  match r.args with
  | some [Arg.time lo, Arg.time hi] => sqlBetween t lo hi
  | _ => false

/-- Midnight UTC on 1 January 2025, as `time.Parse("2006-01", "2025-01")` returns it. -/
def january2025 : Time := { sec := 63871286400, nsec := 0, mono := none, loc := none }

/-- Midnight UTC on 1 February 2025: `january2025.AddDate(0, 1, 0)`. -/
def february2025 : Time := { sec := 63873964800, nsec := 0, mono := none, loc := none }

/-- Midnight UTC on 1 March 2025. -/
def march2025 : Time := { sec := 63876384000, nsec := 0, mono := none, loc := none }

/-! ## Records and results (`pkg/telemetry/query/types.go`) -/

structure LogRecord where
  Timestamp : Time
  Log : String
  LogLevel : String
  ComponentID : String
  EnvironmentID : String
  ProjectID : String
  Version : String
  VersionID : String
  Namespace : String
  PodID : String
  ContainerName : String
  Labels : Option GoMap
deriving DecidableEq, Repr

structure TraceRecord where
  DurationInNanos : Int
  EndTime : Time
  Name : String
  SpanID : String
  StartTime : Time
  TraceID : String
deriving DecidableEq, Repr

structure LogResult where
  Logs : List LogRecord
  TotalCount : Int
  Took : Int
deriving DecidableEq, Repr

structure TraceResult where
  Spans : List TraceRecord
  TotalCount : Int
  Took : Int
deriving DecidableEq, Repr

/-- The `float64` fields hold rationals: the cost arithmetic is read over exact
arithmetic. -/
structure CostReportRow where
  OrganizationID : String
  ProjectID : String
  ComponentID : String
  LogCount : Int
  EstimatedStorageB : ℚ
  EstimatedCostUSD : ℚ
deriving DecidableEq, Repr

structure CostReport where
  Start : Time
  End : Time
  Rows : List CostReportRow
  Total : ℚ
deriving DecidableEq, Repr

/-- A line written through a `slog.Logger`. -/
inductive Level where
  | Debug
  | Info
  | Warn
  | Error
deriving DecidableEq, Repr

/-- An attribute value of a log line. -/
inductive LogValue where
  | str (s : String)
  | int (n : Int)
  | strs (l : List String)
  | map (m : GoMap)
  | err (e : String)
deriving DecidableEq, Repr

structure LogLine where
  level : Level
  msg : String
  attrs : List (String × LogValue)
deriving DecidableEq, Repr

/-- The interface `query.StorageProvider`. A method yields its result or its error,
together with the lines it wrote to the logger of the provider. -/
structure StorageProvider where
  GetComponentLogs : ComponentLogQuery → Except String LogResult × List LogLine
  GetProjectLogs : ProjectLogQuery → Except String LogResult × List LogLine
  GetGatewayLogs : GatewayLogQuery → Except String LogResult × List LogLine
  GetOrganizationLogs : OrganizationLogQuery → Except String LogResult × List LogLine
  GetComponentTraces : ComponentTraceQuery → Except String TraceResult × List LogLine
  GetCostReport : CostReportQuery → Except String CostReport × List LogLine
  HealthCheck : Option String

/-! ## The provider (`internal/telemetry/clickstack/provider.go`) -/

/-- What the database answers to `QueryContext` followed by the row loop: the query
fails, or it yields rows, each of which `rows.Scan` reads or fails to read, then the
final `rows.Err()` and the milliseconds elapsed since the query was sent. -/
inductive QueryOutcome (α : Type) where
  | queryError (err : String)
  | rows (scans : List (Except String α)) (iterErr : Option String) (elapsedMs : Int)

/-- The values that `rows.Scan` stores for a row of a log statement; a `sql.NullString`
or `sql.NullInt64` is an `Option`, `none` being the invalid (NULL) value. The scan does
not write the field `Labels` of `record`, which the loop sets. -/
structure logScan where
  record : LogRecord
  labelsJSON : Option String
  totalCount : Option Int

/-- The values that `rows.Scan` stores for a row of the trace statement. -/
structure traceScan where
  record : TraceRecord
  totalCount : Option Int

/-- The values that `rows.Scan` stores for a row of the cost statement. -/
structure costScan where
  org : Option String
  project : Option String
  component : Option String
  logCount : Int
  rawBytes : ℚ

/-- The provider: its builder, the database as the answers it gives to a statement and
its arguments, and `json.Unmarshal` into a `map[string]string` (`none` is the nil map
that the JSON value `null` leaves). -/
structure Provider where
  builder : QueryBuilder
  queryLogs : String → List Arg → QueryOutcome logScan
  queryTraces : String → List Arg → QueryOutcome traceScan
  queryCost : String → List Arg → QueryOutcome costScan
  jsonUnmarshalLabels : String → Except String (Option GoMap)

def storageCostPerTBUSD : ℚ := 0.50

def logProcessingCostPerMillion : ℚ := 2.0

def nullString (v : Option String) (fallback : String) : String :=
  match v with
  | some s => if s ≠ "" then s else fallback
  | none => fallback

/-- The row loop of `executeLogQuery`, from the scans still to come and the result so
far. -/
def executeLogLoop (p : Provider) :
    List (Except String logScan) → LogResult → Except String LogResult × List LogLine
  | [], result => (Except.ok result, [])
  | Except.error e :: _, _ => (Except.error ("scan log row: " ++ e), [])
  | Except.ok s :: rest, result =>
    let decoded : Option GoMap × List LogLine :=
      match s.labelsJSON with
      | some text =>
        match p.jsonUnmarshalLabels text with
        | Except.ok labels => (labels, [])
        | Except.error e =>
          (some [], [⟨Level.Warn, "Failed to decode labels JSON", [("error", LogValue.err e)]⟩])
      | none => (none, [])
    let record := { s.record with Labels := decoded.1 }
    let total := match s.totalCount with
      | some n => n
      | none => result.TotalCount
    let next := executeLogLoop p rest
      { result with TotalCount := total, Logs := result.Logs ++ [record] }
    (next.1, decoded.2 ++ next.2)

def Provider.executeLogQuery (p : Provider) (sqlStmt : String) (args : List Arg) :
    Except String LogResult × List LogLine :=
  match p.queryLogs sqlStmt args with
  | QueryOutcome.queryError e => (Except.error ("clickstack log query failed: " ++ e), [])
  | QueryOutcome.rows scans iterErr elapsedMs =>
    match executeLogLoop p scans { Logs := [], TotalCount := 0, Took := 0 } with
    | (Except.error e, lines) => (Except.error e, lines)
    | (Except.ok result, lines) =>
      match iterErr with
      | some e => (Except.error ("iterate log rows: " ++ e), lines)
      | none => (Except.ok { result with Took := elapsedMs }, lines)

/-- The row loop of `executeTraceQuery`. -/
def executeTraceLoop : List (Except String traceScan) → TraceResult → Except String TraceResult
  | [], result => Except.ok result
  | Except.error e :: _, _ => Except.error ("scan trace row: " ++ e)
  | Except.ok s :: rest, result =>
    let total := match s.totalCount with
      | some n => n
      | none => result.TotalCount
    executeTraceLoop rest { result with TotalCount := total, Spans := result.Spans ++ [s.record] }

def Provider.executeTraceQuery (p : Provider) (sqlStmt : String) (args : List Arg) :
    Except String TraceResult × List LogLine :=
  match p.queryTraces sqlStmt args with
  | QueryOutcome.queryError e => (Except.error ("clickstack trace query failed: " ++ e), [])
  | QueryOutcome.rows scans iterErr elapsedMs =>
    match executeTraceLoop scans { Spans := [], TotalCount := 0, Took := 0 } with
    | Except.error e => (Except.error e, [])
    | Except.ok result =>
      match iterErr with
      | some e => (Except.error ("iterate trace rows: " ++ e), [])
      | none => (Except.ok { result with Took := elapsedMs }, [])

def Provider.GetComponentLogs (p : Provider) (params : ComponentLogQuery) :
    Except String LogResult × List LogLine :=
  let r := p.builder.ComponentLogs params
  match r.err with
  | some err => (Except.error err, [])
  | none => p.executeLogQuery r.sql (r.args.getD [])

def Provider.GetProjectLogs (p : Provider) (params : ProjectLogQuery) :
    Except String LogResult × List LogLine :=
  let r := p.builder.ProjectLogs params
  match r.err with
  | some err => (Except.error err, [])
  | none => p.executeLogQuery r.sql (r.args.getD [])

def Provider.GetGatewayLogs (p : Provider) (params : GatewayLogQuery) :
    Except String LogResult × List LogLine :=
  let r := p.builder.GatewayLogs params
  match r.err with
  | some err => (Except.error err, [])
  | none => p.executeLogQuery r.sql (r.args.getD [])

def Provider.GetOrganizationLogs (p : Provider) (params : OrganizationLogQuery) :
    Except String LogResult × List LogLine :=
  let r := p.builder.OrganizationLogs params
  match r.err with
  | some err => (Except.error err, [])
  | none => p.executeLogQuery r.sql (r.args.getD [])

def Provider.GetComponentTraces (p : Provider) (params : ComponentTraceQuery) :
    Except String TraceResult × List LogLine :=
  let r := p.builder.ComponentTraces params
  match r.err with
  | some err => (Except.error err, [])
  | none => p.executeTraceQuery r.sql (r.args.getD [])

/-- The row loop of `GetCostReport`, from the scans still to come and the report so
far. -/
def costReportLoop : List (Except String costScan) → CostReport → Except String CostReport
  | [], report => Except.ok report
  | Except.error e :: _, _ => Except.error ("scan cost report row: " ++ e)
  | Except.ok s :: rest, report =>
    let storageTB := s.rawBytes / (1024 * 1024 * 1024 * 1024)
    let storageCost := storageTB * storageCostPerTBUSD
    let processingCost := (s.logCount : ℚ) / 1000000 * logProcessingCostPerMillion
    let total := storageCost + processingCost
    costReportLoop rest
      { report with
        Rows := report.Rows ++
          [{ OrganizationID := nullString s.org "unknown",
             ProjectID := nullString s.project "unknown",
             ComponentID := nullString s.component "unknown",
             LogCount := s.logCount,
             EstimatedStorageB := s.rawBytes,
             EstimatedCostUSD := total }],
        Total := report.Total + total }

def Provider.GetCostReport (p : Provider) (params : CostReportQuery) :
    Except String CostReport × List LogLine :=
  let r := p.builder.CostReport params
  match r.err with
  | some err => (Except.error err, [])
  | none =>
    match p.queryCost r.sql (r.args.getD []) with
    | QueryOutcome.queryError e =>
      (Except.error ("clickstack cost report query failed: " ++ e), [])
    | QueryOutcome.rows scans iterErr _ =>
      match costReportLoop scans
          { Start := params.Start, End := params.End, Rows := [], Total := 0 } with
      | Except.error e => (Except.error e, [])
      | Except.ok report =>
        match iterErr with
        | some e => (Except.error ("iterate cost rows: " ++ e), [])
        | none => (Except.ok report, [])

/-- The provider as a value of the interface `query.StorageProvider`; `ping` is the
outcome of `HealthCheck`. -/
def Provider.asStorage (p : Provider) (ping : Option String) : StorageProvider :=
  { GetComponentLogs := p.GetComponentLogs,
    GetProjectLogs := p.GetProjectLogs,
    GetGatewayLogs := p.GetGatewayLogs,
    GetOrganizationLogs := p.GetOrganizationLogs,
    GetComponentTraces := p.GetComponentTraces,
    GetCostReport := p.GetCostReport,
    HealthCheck := ping }

/-! ## Types of package `opensearch` used by the service

The package `internal/observer/opensearch` is not among the sources at hand. Its types
are declared here with the fields that the service and the handlers read or write; its
functions are taken as parameters. -/

namespace opensearch

structure QueryParams where
  StartTime : String
  EndTime : String
  SearchPhrase : String
  LogLevels : List String
  Limit : Int
  SortOrder : String
  ComponentID : String
  EnvironmentID : String
  ProjectID : String
  OrganizationID : String
  Namespace : String
  Versions : List String
  VersionIDs : List String
  LogType : String
deriving DecidableEq, Repr

structure ComponentQueryParams where
  QueryParams : QueryParams
  BuildID : String
  BuildUUID : String
deriving DecidableEq, Repr

structure GatewayQueryParams where
  QueryParams : QueryParams
  OrganizationID : String
  APIIDToVersionMap : GoMap
  GatewayVHosts : List String
deriving DecidableEq, Repr

structure ComponentTracesRequestParams where
  ServiceName : String
  StartTime : String
  EndTime : String
  Limit : Int
deriving DecidableEq, Repr

structure LogEntry where
  Timestamp : Time
  Log : String
  LogLevel : String
  ComponentID : String
  EnvironmentID : String
  ProjectID : String
  Version : String
  VersionID : String
  Namespace : String
  PodID : String
  ContainerName : String
  Labels : Option GoMap
deriving DecidableEq, Repr

structure Span where
  DurationInNanos : Int
  EndTime : Time
  Name : String
  SpanID : String
  StartTime : Time
  TraceID : String
deriving DecidableEq, Repr

structure TraceResponse where
  Spans : List Span
  TotalCount : Int
  Took : Int
deriving DecidableEq, Repr

/-- The fields of `SearchResponse` that the service reads: `Hits.Hits`,
`Hits.Total.Value` and `Took`. -/
structure SearchResponse (Hit : Type) where
  Hits : List Hit
  TotalValue : Int
  Took : Int

/-- The methods of `opensearch.QueryBuilder` that the service calls; `Body` is the type
of a query body. -/
structure QueryBuilder (Body : Type) where
  GenerateIndices : String → String → Except String (List String)
  BuildComponentLogsQuery : ComponentQueryParams → Body
  BuildProjectLogsQuery : QueryParams → List String → Body
  BuildGatewayLogsQuery : GatewayQueryParams → Body
  BuildOrganizationLogsQuery : QueryParams → GoMap → Body
  BuildComponentTracesQuery : ComponentTracesRequestParams → Body

end opensearch

/-! ## Configuration and state of the service -/

/-- A `float64` as far as comparisons go: not-a-number, the two infinities, or a finite
value. -/
inductive F64 where
  | NaN
  | negInf
  | fin (q : ℚ)
  | posInf
deriving DecidableEq, Repr

/-- Go `a < b` on `float64`. -/
def F64.lt : F64 → F64 → Bool
  | F64.NaN, _ => false
  | _, F64.NaN => false
  | F64.negInf, F64.negInf => false
  | F64.negInf, _ => true
  | F64.fin _, F64.negInf => false
  | F64.fin a, F64.fin b => decide (a < b)
  | F64.fin _, F64.posInf => true
  | F64.posInf, _ => false

/-- Go `a <= b` on `float64`. -/
def F64.le : F64 → F64 → Bool
  | F64.NaN, _ => false
  | _, F64.NaN => false
  | F64.negInf, _ => true
  | F64.fin _, F64.negInf => false
  | F64.fin a, F64.fin b => decide (a ≤ b)
  | F64.fin _, F64.posInf => true
  | F64.posInf, F64.posInf => true
  | F64.posInf, _ => false

/-- The configuration `config.HyperDXConfig`; `TTL` is a `time.Duration`, in nanoseconds. -/
structure HyperDXConfig where
  BaseURL : String
  SigningKey : String
  TTL : Int
deriving DecidableEq, Repr

structure TelemetryConfig where
  Backend : String
  DualRead : Bool
  DualSampleRate : F64
  HyperDX : HyperDXConfig
deriving DecidableEq, Repr

/-- The fields of `config.Config` that the service reads: the index prefix of the
OpenSearch configuration and the telemetry configuration. -/
structure Config where
  OpenSearchIndex : String
  Telemetry : TelemetryConfig
deriving DecidableEq, Repr

/-- The interface `OpenSearchClient`, as far as the five dispatcher operations use it. -/
structure OpenSearchClient (Body Hit : Type) where
  Search : List String → Body → Except String (opensearch.SearchResponse Hit)
  HealthCheck : Option String

structure HyperDXSigner where
  baseURL : String
  key : String
  ttl : Int
deriving DecidableEq, Repr

/-- The sampler. The mutex is left out: calls are taken one at a time. The generator
`rng` is the sequence of the values that `Float64` returns, read at a position that
the caller threads; `none` is the nil generator. -/
structure dualSampler where
  enabled : Bool
  rate : F64
  rng : Option (Nat → ℚ)

/-- Functions of packages outside the sources at hand that the service calls:
`opensearch.NewQueryBuilder`, `opensearch.ParseLogEntry`, `opensearch.ParseSpanEntry`,
`time.Parse` (layout, then value), the verb `%q` of `fmt`, and the verbs `%.0f` and
`%.4f` of `fmt` (number of decimals, then value). -/
structure Env (Body Hit : Type) where
  NewQueryBuilder : String → opensearch.QueryBuilder Body
  ParseLogEntry : Hit → opensearch.LogEntry
  ParseSpanEntry : Hit → opensearch.Span
  timeParse : String → String → Option Time
  quote : String → String
  formatFloat : Nat → ℚ → String

structure LoggingService (Body Hit : Type) where
  osClient : Option (OpenSearchClient Body Hit)
  storage : Option StorageProvider
  queryBuilder : opensearch.QueryBuilder Body
  config : Config
  dualSampler : Option dualSampler
  hyperdx : Option HyperDXSigner
  env : Env Body Hit

structure LogResponse where
  Logs : List opensearch.LogEntry
  TotalCount : Int
  Took : Int
deriving DecidableEq, Repr

/-- What a call of the service does besides returning: a line written to the logger of
the service, a call of a method of the storage provider (with the lines that the
provider logged), or a call of `Search` on the OpenSearch client. -/
inductive Event where
  | log (line : LogLine)
  | storage (method : String) (lines : List LogLine)
  | search (indices : List String)
deriving DecidableEq, Repr

/-- The return of a Go function of result type `(*T, error)`: a value with a nil error,
an error with a nil value, or a run-time panic on a nil dereference. -/
inductive Ret (α : Type) where
  | ok (val : α)
  | err (e : String)
  | panic
deriving DecidableEq, Repr

/-- The outcome of a call of the service: what it returns, what it did, and the
position of the generator of the sampler afterwards. -/
structure Outcome (α : Type) where
  ret : Ret α
  events : List Event
  rngPos : Nat

/-! ## The service (`internal/observer/service/service.go`) -/

/-- Whether Unicode simple case folding identifies the rune `x` with the lower-case
ASCII letter `t`: `x` is `t`, or its upper case, or the Kelvin sign U+212A for `k`, or
the long s U+017F for `s`. -/
def foldsToLetter (x t : Char) : Bool :=
  x == t || x.toNat + 32 == t.toNat ||
    (t == 'k' && x == Char.ofNat 0x212A) || (t == 's' && x == Char.ofNat 0x17F)

/-- Go `strings.EqualFold(s, t)` for a target `t` made of lower-case ASCII letters. -/
def equalFoldLetters (s t : String) : Bool :=
  s.data.length == t.data.length &&
    (List.zip s.data t.data).all fun p => foldsToLetter p.1 p.2

/-- Go `strings.TrimRight(s, "/")`. -/
def trimRightSlash (s : String) : String :=
  String.mk (s.data.reverse.dropWhile fun c => c == '/').reverse

def newHyperDXSigner (cfg : HyperDXConfig) : Option HyperDXSigner :=
  if cfg.SigningKey = "" ∨ cfg.BaseURL = "" then none
  else
    let ttl := if cfg.TTL ≤ 0 then 15 * (60 * 1000000000) else cfg.TTL
    some { baseURL := trimRightSlash cfg.BaseURL, key := cfg.SigningKey, ttl := ttl }

/-- The sampler of a configuration; `source` is the generator seeded from the clock. -/
def newDualSampler (cfg : TelemetryConfig) (source : Nat → ℚ) : dualSampler :=
  if !cfg.DualRead || F64.le cfg.DualSampleRate (F64.fin 0) then
    { enabled := false, rate := F64.fin 0, rng := none }
  else
    { enabled := true, rate := cfg.DualSampleRate, rng := some source }

/-- The decision of the sampler with the generator at position `pos`: the decision
(`none` is a panic on the nil generator) and the position afterwards. -/
def dualSampler.shouldSample (d : dualSampler) (pos : Nat) : Option Bool × Nat :=
  if !d.enabled then (some false, pos)
  else if F64.le (F64.fin 1) d.rate then (some true, pos)
  else
    match d.rng with
    | none => (none, pos)
    | some rng => (some (F64.lt (F64.fin (rng pos)) d.rate), pos + 1)

def NewLoggingService {Body Hit : Type} (storage : Option StorageProvider)
    (osClient : Option (OpenSearchClient Body Hit)) (cfg : Config) (env : Env Body Hit)
    (source : Nat → ℚ) : LoggingService Body Hit :=
  { osClient := osClient,
    storage := storage,
    queryBuilder := env.NewQueryBuilder cfg.OpenSearchIndex,
    config := cfg,
    dualSampler := some (newDualSampler cfg.Telemetry source),
    hyperdx := newHyperDXSigner cfg.Telemetry.HyperDX,
    env := env }

def LoggingService.useClickStack {Body Hit : Type} (s : LoggingService Body Hit) : Bool :=
  s.storage.isSome && equalFoldLetters s.config.Telemetry.Backend "clickstack"

def LoggingService.supportsCostReporting {Body Hit : Type} (s : LoggingService Body Hit) :
    Bool :=
  s.storage.isSome && s.useClickStack

def timeLayouts : List String :=
  ["2006-01-02T15:04:05.999999999Z07:00", "2006-01-02T15:04:05Z07:00",
    "2006-01-02T15:04:05Z07:00", "2006-01-02T15:04:05.000Z07:00"]

/-- The loop of `parseTimestamp` over the layouts still to try. -/
def parseTimestampWith {Body Hit : Type} (env : Env Body Hit) (value : String) :
    List String → Except String Time
  | [] => Except.error ("cannot parse timestamp " ++ env.quote value)
  | layout :: rest =>
    match env.timeParse layout value with
    | some ts => Except.ok ts
    | none => parseTimestampWith env value rest

def parseTimestamp {Body Hit : Type} (env : Env Body Hit) (value : String) :
    Except String Time :=
  parseTimestampWith env value timeLayouts

def buildTimeRange {Body Hit : Type} (env : Env Body Hit) (start finish : String) :
    Except String TimeRange :=
  match parseTimestamp env start with
  | Except.error e => Except.error ("invalid startTime: " ++ e)
  | Except.ok startTime =>
    match parseTimestamp env finish with
    | Except.error e => Except.error ("invalid endTime: " ++ e)
    | Except.ok endTime => Except.ok { Start := startTime, End := endTime }

def buildBaseLogQuery {Body Hit : Type} (env : Env Body Hit) (params : opensearch.QueryParams) :
    Except String BaseLogQuery :=
  match buildTimeRange env params.StartTime params.EndTime with
  | Except.error e => Except.error e
  | Except.ok timeRange =>
    let order := if equalFoldAsc params.SortOrder then "asc" else "desc"
    Except.ok
      { TimeRange := timeRange, SearchPhrase := params.SearchPhrase,
        LogLevels := params.LogLevels, Limit := params.Limit, SortOrder := order,
        Namespace := params.Namespace, Versions := params.Versions,
        VersionIDs := params.VersionIDs, LogType := params.LogType }

def buildComponentLogQuery {Body Hit : Type} (env : Env Body Hit)
    (params : opensearch.ComponentQueryParams) : Except String ComponentLogQuery :=
  match buildBaseLogQuery env params.QueryParams with
  | Except.error e => Except.error e
  | Except.ok base =>
    Except.ok
      { BaseLogQuery := base, ComponentID := params.QueryParams.ComponentID,
        EnvironmentID := params.QueryParams.EnvironmentID, BuildID := params.BuildID,
        BuildUUID := params.BuildUUID }

def buildProjectLogQuery {Body Hit : Type} (env : Env Body Hit)
    (params : opensearch.QueryParams) (componentIDs : List String) :
    Except String ProjectLogQuery :=
  match buildBaseLogQuery env params with
  | Except.error e => Except.error e
  | Except.ok base =>
    Except.ok
      { BaseLogQuery := base, ProjectID := params.ProjectID, ComponentIDs := componentIDs,
        EnvironmentID := params.EnvironmentID }

def buildGatewayLogQuery {Body Hit : Type} (env : Env Body Hit)
    (params : opensearch.GatewayQueryParams) : Except String GatewayLogQuery :=
  match buildBaseLogQuery env params.QueryParams with
  | Except.error e => Except.error e
  | Except.ok base =>
    Except.ok
      { BaseLogQuery := base, OrganizationID := params.OrganizationID,
        APIIDToVersionMap := params.APIIDToVersionMap, GatewayVHosts := params.GatewayVHosts }

def buildOrganizationLogQuery {Body Hit : Type} (env : Env Body Hit)
    (params : opensearch.QueryParams) (podLabels : GoMap) :
    Except String OrganizationLogQuery :=
  match buildBaseLogQuery env params with
  | Except.error e => Except.error e
  | Except.ok base =>
    Except.ok
      { BaseLogQuery := base, OrganizationID := params.OrganizationID,
        EnvironmentID := params.EnvironmentID, PodLabels := podLabels }

def buildComponentTraceQuery {Body Hit : Type} (env : Env Body Hit)
    (params : opensearch.ComponentTracesRequestParams) : Except String ComponentTraceQuery :=
  match buildTimeRange env params.StartTime params.EndTime with
  | Except.error e => Except.error e
  | Except.ok timeRange =>
    Except.ok { ServiceName := params.ServiceName, TimeRange := timeRange, Limit := params.Limit }

def convertLogResult (result : LogResult) : LogResponse :=
  { Logs := result.Logs.map fun record =>
      { Timestamp := record.Timestamp, Log := record.Log, LogLevel := record.LogLevel,
        ComponentID := record.ComponentID, EnvironmentID := record.EnvironmentID,
        ProjectID := record.ProjectID, Version := record.Version,
        VersionID := record.VersionID, Namespace := record.Namespace, PodID := record.PodID,
        ContainerName := record.ContainerName, Labels := record.Labels },
    TotalCount := result.TotalCount,
    Took := result.Took }

def convertTraceResult (result : TraceResult) : opensearch.TraceResponse :=
  { Spans := result.Spans.map fun span =>
      { DurationInNanos := span.DurationInNanos, EndTime := span.EndTime, Name := span.Name,
        SpanID := span.SpanID, StartTime := span.StartTime, TraceID := span.TraceID },
    TotalCount := result.TotalCount,
    Took := result.Took }

def parseOpenSearchLogs {Body Hit : Type} (env : Env Body Hit)
    (response : opensearch.SearchResponse Hit) : LogResponse :=
  { Logs := response.Hits.map env.ParseLogEntry,
    TotalCount := response.TotalValue,
    Took := response.Took }

def parseOpenSearchTraces {Body Hit : Type} (env : Env Body Hit)
    (response : opensearch.SearchResponse Hit) : opensearch.TraceResponse :=
  { Spans := response.Hits.map env.ParseSpanEntry,
    TotalCount := response.TotalValue,
    Took := response.Took }

def LoggingService.getComponentLogsFromOpenSearch {Body Hit : Type}
    (s : LoggingService Body Hit) (params : opensearch.ComponentQueryParams) :
    Ret LogResponse × List Event :=
  let started := [Event.log ⟨Level.Info, "Getting component logs",
    [("component_id", LogValue.str params.QueryParams.ComponentID),
      ("environment_id", LogValue.str params.QueryParams.EnvironmentID),
      ("search_phrase", LogValue.str params.QueryParams.SearchPhrase)]⟩]
  match s.queryBuilder.GenerateIndices params.QueryParams.StartTime
      params.QueryParams.EndTime with
  | Except.error e =>
    (Ret.err ("failed to generate indices: " ++ e),
      started ++ [Event.log ⟨Level.Error, "Failed to generate indices",
        [("error", LogValue.err e)]⟩])
  | Except.ok indices =>
    let queryBody := s.queryBuilder.BuildComponentLogsQuery params
    match s.osClient with
    | none => (Ret.panic, started)
    | some client =>
      match client.Search indices queryBody with
      | Except.error e =>
        (Ret.err ("failed to execute search: " ++ e),
          started ++ [Event.search indices,
            Event.log ⟨Level.Error, "Failed to execute component logs search",
              [("error", LogValue.err e)]⟩])
      | Except.ok response =>
        (Ret.ok (parseOpenSearchLogs s.env response), started ++ [Event.search indices])

def LoggingService.getProjectLogsFromOpenSearch {Body Hit : Type}
    (s : LoggingService Body Hit) (params : opensearch.QueryParams)
    (componentIDs : List String) : Ret LogResponse × List Event :=
  let started := [Event.log ⟨Level.Info, "Getting project logs",
    [("project_id", LogValue.str params.ProjectID),
      ("environment_id", LogValue.str params.EnvironmentID),
      ("component_ids", LogValue.strs componentIDs),
      ("search_phrase", LogValue.str params.SearchPhrase)]⟩]
  match s.queryBuilder.GenerateIndices params.StartTime params.EndTime with
  | Except.error e =>
    (Ret.err ("failed to generate indices: " ++ e),
      started ++ [Event.log ⟨Level.Error, "Failed to generate indices",
        [("error", LogValue.err e)]⟩])
  | Except.ok indices =>
    let queryBody := s.queryBuilder.BuildProjectLogsQuery params componentIDs
    match s.osClient with
    | none => (Ret.panic, started)
    | some client =>
      match client.Search indices queryBody with
      | Except.error e =>
        (Ret.err ("failed to execute search: " ++ e),
          started ++ [Event.search indices,
            Event.log ⟨Level.Error, "Failed to execute project logs search",
              [("error", LogValue.err e)]⟩])
      | Except.ok response =>
        (Ret.ok (parseOpenSearchLogs s.env response), started ++ [Event.search indices])

def LoggingService.getGatewayLogsFromOpenSearch {Body Hit : Type}
    (s : LoggingService Body Hit) (params : opensearch.GatewayQueryParams) :
    Ret LogResponse × List Event :=
  let started := [Event.log ⟨Level.Info, "Getting gateway logs",
    [("organization_id", LogValue.str params.OrganizationID),
      ("gateway_vhosts", LogValue.strs params.GatewayVHosts),
      ("search_phrase", LogValue.str params.QueryParams.SearchPhrase)]⟩]
  match s.queryBuilder.GenerateIndices params.QueryParams.StartTime
      params.QueryParams.EndTime with
  | Except.error e =>
    (Ret.err ("failed to generate indices: " ++ e),
      started ++ [Event.log ⟨Level.Error, "Failed to generate indices",
        [("error", LogValue.err e)]⟩])
  | Except.ok indices =>
    let queryBody := s.queryBuilder.BuildGatewayLogsQuery params
    match s.osClient with
    | none => (Ret.panic, started)
    | some client =>
      match client.Search indices queryBody with
      | Except.error e =>
        (Ret.err ("failed to execute search: " ++ e),
          started ++ [Event.search indices,
            Event.log ⟨Level.Error, "Failed to execute gateway logs search",
              [("error", LogValue.err e)]⟩])
      | Except.ok response =>
        (Ret.ok (parseOpenSearchLogs s.env response), started ++ [Event.search indices])

def LoggingService.getOrganizationLogsFromOpenSearch {Body Hit : Type}
    (s : LoggingService Body Hit) (params : opensearch.QueryParams) (podLabels : GoMap) :
    Ret LogResponse × List Event :=
  let started := [Event.log ⟨Level.Info, "Getting organization logs",
    [("organization_id", LogValue.str params.OrganizationID),
      ("environment_id", LogValue.str params.EnvironmentID),
      ("pod_labels", LogValue.map podLabels),
      ("search_phrase", LogValue.str params.SearchPhrase)]⟩]
  match s.queryBuilder.GenerateIndices params.StartTime params.EndTime with
  | Except.error e =>
    (Ret.err ("failed to generate indices: " ++ e),
      started ++ [Event.log ⟨Level.Error, "Failed to generate indices",
        [("error", LogValue.err e)]⟩])
  | Except.ok indices =>
    let queryBody := s.queryBuilder.BuildOrganizationLogsQuery params podLabels
    match s.osClient with
    | none => (Ret.panic, started)
    | some client =>
      match client.Search indices queryBody with
      | Except.error e =>
        (Ret.err ("failed to execute search: " ++ e),
          started ++ [Event.search indices,
            Event.log ⟨Level.Error, "Failed to execute organization logs search",
              [("error", LogValue.err e)]⟩])
      | Except.ok response =>
        (Ret.ok (parseOpenSearchLogs s.env response), started ++ [Event.search indices])

def LoggingService.getComponentTracesFromOpenSearch {Body Hit : Type}
    (s : LoggingService Body Hit) (params : opensearch.ComponentTracesRequestParams) :
    Ret opensearch.TraceResponse × List Event :=
  let started := [Event.log ⟨Level.Info, "Getting component traces",
    [("serviceName", LogValue.str params.ServiceName)]⟩]
  let queryBody := s.queryBuilder.BuildComponentTracesQuery params
  match s.osClient with
  | none => (Ret.panic, started)
  | some client =>
    match client.Search ["otel-v1-apm-span"] queryBody with
    | Except.error e =>
      (Ret.err ("failed to execute search: " ++ e),
        started ++ [Event.search ["otel-v1-apm-span"],
          Event.log ⟨Level.Error, "Failed to execute component traces search",
            [("error", LogValue.err e)]⟩])
    | Except.ok response =>
      (Ret.ok (parseOpenSearchTraces s.env response),
        started ++ [Event.search ["otel-v1-apm-span"]])

def LoggingService.getComponentLogsFromClickStack {Body Hit : Type}
    (s : LoggingService Body Hit) (params : opensearch.ComponentQueryParams) :
    Ret LogResponse × List Event :=
  match buildComponentLogQuery s.env params with
  | Except.error e => (Ret.err e, [])
  | Except.ok queryParams =>
    match s.storage with
    | none => (Ret.panic, [])
    | some storage =>
      match storage.GetComponentLogs queryParams with
      | (Except.error e, lines) => (Ret.err e, [Event.storage "GetComponentLogs" lines])
      | (Except.ok result, lines) =>
        (Ret.ok (convertLogResult result), [Event.storage "GetComponentLogs" lines])

def LoggingService.getProjectLogsFromClickStack {Body Hit : Type}
    (s : LoggingService Body Hit) (params : opensearch.QueryParams)
    (componentIDs : List String) : Ret LogResponse × List Event :=
  match buildProjectLogQuery s.env params componentIDs with
  | Except.error e => (Ret.err e, [])
  | Except.ok queryParams =>
    match s.storage with
    | none => (Ret.panic, [])
    | some storage =>
      match storage.GetProjectLogs queryParams with
      | (Except.error e, lines) => (Ret.err e, [Event.storage "GetProjectLogs" lines])
      | (Except.ok result, lines) =>
        (Ret.ok (convertLogResult result), [Event.storage "GetProjectLogs" lines])

def LoggingService.getGatewayLogsFromClickStack {Body Hit : Type}
    (s : LoggingService Body Hit) (params : opensearch.GatewayQueryParams) :
    Ret LogResponse × List Event :=
  match buildGatewayLogQuery s.env params with
  | Except.error e => (Ret.err e, [])
  | Except.ok queryParams =>
    match s.storage with
    | none => (Ret.panic, [])
    | some storage =>
      match storage.GetGatewayLogs queryParams with
      | (Except.error e, lines) => (Ret.err e, [Event.storage "GetGatewayLogs" lines])
      | (Except.ok result, lines) =>
        (Ret.ok (convertLogResult result), [Event.storage "GetGatewayLogs" lines])

def LoggingService.getOrganizationLogsFromClickStack {Body Hit : Type}
    (s : LoggingService Body Hit) (params : opensearch.QueryParams) (podLabels : GoMap) :
    Ret LogResponse × List Event :=
  match buildOrganizationLogQuery s.env params podLabels with
  | Except.error e => (Ret.err e, [])
  | Except.ok queryParams =>
    match s.storage with
    | none => (Ret.panic, [])
    | some storage =>
      match storage.GetOrganizationLogs queryParams with
      | (Except.error e, lines) => (Ret.err e, [Event.storage "GetOrganizationLogs" lines])
      | (Except.ok result, lines) =>
        (Ret.ok (convertLogResult result), [Event.storage "GetOrganizationLogs" lines])

def LoggingService.getComponentTracesFromClickStack {Body Hit : Type}
    (s : LoggingService Body Hit) (params : opensearch.ComponentTracesRequestParams) :
    Ret opensearch.TraceResponse × List Event :=
  match buildComponentTraceQuery s.env params with
  | Except.error e => (Ret.err e, [])
  | Except.ok traceQuery =>
    match s.storage with
    | none => (Ret.panic, [])
    | some storage =>
      match storage.GetComponentTraces traceQuery with
      | (Except.error e, lines) => (Ret.err e, [Event.storage "GetComponentTraces" lines])
      | (Except.ok result, lines) =>
        (Ret.ok (convertTraceResult result), [Event.storage "GetComponentTraces" lines])

/-- The decision to issue a shadow read with the generator at position `pos`: the
decision (`none` is a panic) and the position afterwards. -/
def LoggingService.shouldDualRead {Body Hit : Type} (s : LoggingService Body Hit)
    (pos : Nat) : Option Bool × Nat :=
  match s.dualSampler with
  | none => (some false, pos)
  | some d => if d.enabled && s.osClient.isSome then d.shouldSample pos else (some false, pos)

def LoggingService.emitDualReadResult {Body Hit : Type} (_s : LoggingService Body Hit)
    (scope : String) (err : Option String) (primary : LogResponse)
    (secondary : Option LogResponse) : List Event :=
  match err with
  | some e =>
    [Event.log ⟨Level.Warn, "dual-read OpenSearch fetch failed",
      [("scope", LogValue.str scope), ("error", LogValue.err e)]⟩]
  | none =>
    match secondary with
    | none => []
    | some secondary =>
      if primary.TotalCount ≠ secondary.TotalCount ∨
          primary.Logs.length ≠ secondary.Logs.length then
        [Event.log ⟨Level.Warn, "dual-read mismatch",
          [("scope", LogValue.str scope),
            ("primary_total", LogValue.int primary.TotalCount),
            ("secondary_total", LogValue.int secondary.TotalCount),
            ("primary_len", LogValue.int primary.Logs.length),
            ("secondary_len", LogValue.int secondary.Logs.length)]⟩]
      else []

/-- The tail shared by the four `maybeDualRead...Logs`: the shadow fetch has returned
`fetched`, and `emitDualReadResult` is called on its value and error. -/
def LoggingService.emitFetched {Body Hit : Type} (s : LoggingService Body Hit)
    (scope : String) (primary : LogResponse) (fetched : Ret LogResponse × List Event)
    (pos : Nat) : Outcome Unit :=
  match fetched with
  | (Ret.panic, events) => ⟨Ret.panic, events, pos⟩
  | (Ret.err e, events) =>
    ⟨Ret.ok (), events ++ s.emitDualReadResult scope (some e) primary none, pos⟩
  | (Ret.ok secondary, events) =>
    ⟨Ret.ok (), events ++ s.emitDualReadResult scope none primary (some secondary), pos⟩

def LoggingService.maybeDualReadComponentLogs {Body Hit : Type}
    (s : LoggingService Body Hit) (pos : Nat) (params : opensearch.ComponentQueryParams)
    (primary : LogResponse) : Outcome Unit :=
  match s.shouldDualRead pos with
  | (none, pos) => ⟨Ret.panic, [], pos⟩
  | (some false, pos) => ⟨Ret.ok (), [], pos⟩
  | (some true, pos) =>
    s.emitFetched "component" primary (s.getComponentLogsFromOpenSearch params) pos

def LoggingService.maybeDualReadProjectLogs {Body Hit : Type}
    (s : LoggingService Body Hit) (pos : Nat) (params : opensearch.QueryParams)
    (componentIDs : List String) (primary : LogResponse) : Outcome Unit :=
  match s.shouldDualRead pos with
  | (none, pos) => ⟨Ret.panic, [], pos⟩
  | (some false, pos) => ⟨Ret.ok (), [], pos⟩
  | (some true, pos) =>
    s.emitFetched "project" primary (s.getProjectLogsFromOpenSearch params componentIDs) pos

def LoggingService.maybeDualReadGatewayLogs {Body Hit : Type}
    (s : LoggingService Body Hit) (pos : Nat) (params : opensearch.GatewayQueryParams)
    (primary : LogResponse) : Outcome Unit :=
  match s.shouldDualRead pos with
  | (none, pos) => ⟨Ret.panic, [], pos⟩
  | (some false, pos) => ⟨Ret.ok (), [], pos⟩
  | (some true, pos) =>
    s.emitFetched "gateway" primary (s.getGatewayLogsFromOpenSearch params) pos

def LoggingService.maybeDualReadOrganizationLogs {Body Hit : Type}
    (s : LoggingService Body Hit) (pos : Nat) (params : opensearch.QueryParams)
    (podLabels : GoMap) (primary : LogResponse) : Outcome Unit :=
  match s.shouldDualRead pos with
  | (none, pos) => ⟨Ret.panic, [], pos⟩
  | (some false, pos) => ⟨Ret.ok (), [], pos⟩
  | (some true, pos) =>
    s.emitFetched "organization" primary
      (s.getOrganizationLogsFromOpenSearch params podLabels) pos

def LoggingService.maybeDualReadComponentTraces {Body Hit : Type}
    (s : LoggingService Body Hit) (pos : Nat)
    (params : opensearch.ComponentTracesRequestParams)
    (primary : opensearch.TraceResponse) : Outcome Unit :=
  match s.shouldDualRead pos with
  | (none, pos) => ⟨Ret.panic, [], pos⟩
  | (some false, pos) => ⟨Ret.ok (), [], pos⟩
  | (some true, pos) =>
    match s.getComponentTracesFromOpenSearch params with
    | (Ret.panic, events) => ⟨Ret.panic, events, pos⟩
    | (Ret.err e, events) =>
      ⟨Ret.ok (), events ++ [Event.log ⟨Level.Warn, "dual-read trace fetch failed",
        [("error", LogValue.err e)]⟩], pos⟩
    | (Ret.ok secondary, events) =>
      if primary.TotalCount ≠ secondary.TotalCount then
        ⟨Ret.ok (), events ++ [Event.log ⟨Level.Warn, "dual-read trace mismatch",
          [("primary_total", LogValue.int primary.TotalCount),
            ("secondary_total", LogValue.int secondary.TotalCount)]⟩], pos⟩
      else ⟨Ret.ok (), events, pos⟩

/-- The tail shared by the five dispatcher operations on the columnar backend: the
primary read has returned `primary`, and `shadow` is the call of the matching
`maybeDualRead...`. -/
def dispatchPrimary {α : Type} (primary : Ret α × List Event) (pos : Nat)
    (shadow : α → Outcome Unit) : Outcome α :=
  match primary with
  | (Ret.panic, events) => ⟨Ret.panic, events, pos⟩
  | (Ret.err e, events) => ⟨Ret.err e, events, pos⟩
  | (Ret.ok resp, events) =>
    match shadow resp with
    | ⟨Ret.ok _, more, pos⟩ => ⟨Ret.ok resp, events ++ more, pos⟩
    | ⟨Ret.err e, more, pos⟩ => ⟨Ret.err e, events ++ more, pos⟩
    | ⟨Ret.panic, more, pos⟩ => ⟨Ret.panic, events ++ more, pos⟩

def LoggingService.GetComponentLogs {Body Hit : Type} (s : LoggingService Body Hit)
    (pos : Nat) (params : opensearch.ComponentQueryParams) : Outcome LogResponse :=
  if s.useClickStack then
    dispatchPrimary (s.getComponentLogsFromClickStack params) pos
      fun resp => s.maybeDualReadComponentLogs pos params resp
  else
    let r := s.getComponentLogsFromOpenSearch params
    ⟨r.1, r.2, pos⟩

def LoggingService.GetProjectLogs {Body Hit : Type} (s : LoggingService Body Hit)
    (pos : Nat) (params : opensearch.QueryParams) (componentIDs : List String) :
    Outcome LogResponse :=
  if s.useClickStack then
    dispatchPrimary (s.getProjectLogsFromClickStack params componentIDs) pos
      fun resp => s.maybeDualReadProjectLogs pos params componentIDs resp
  else
    let r := s.getProjectLogsFromOpenSearch params componentIDs
    ⟨r.1, r.2, pos⟩

def LoggingService.GetGatewayLogs {Body Hit : Type} (s : LoggingService Body Hit)
    (pos : Nat) (params : opensearch.GatewayQueryParams) : Outcome LogResponse :=
  if s.useClickStack then
    dispatchPrimary (s.getGatewayLogsFromClickStack params) pos
      fun resp => s.maybeDualReadGatewayLogs pos params resp
  else
    let r := s.getGatewayLogsFromOpenSearch params
    ⟨r.1, r.2, pos⟩

def LoggingService.GetOrganizationLogs {Body Hit : Type} (s : LoggingService Body Hit)
    (pos : Nat) (params : opensearch.QueryParams) (podLabels : GoMap) :
    Outcome LogResponse :=
  if s.useClickStack then
    dispatchPrimary (s.getOrganizationLogsFromClickStack params podLabels) pos
      fun resp => s.maybeDualReadOrganizationLogs pos params podLabels resp
  else
    let r := s.getOrganizationLogsFromOpenSearch params podLabels
    ⟨r.1, r.2, pos⟩

def LoggingService.GetComponentTraces {Body Hit : Type} (s : LoggingService Body Hit)
    (pos : Nat) (params : opensearch.ComponentTracesRequestParams) :
    Outcome opensearch.TraceResponse :=
  if s.useClickStack then
    dispatchPrimary (s.getComponentTracesFromClickStack params) pos
      fun resp => s.maybeDualReadComponentTraces pos params resp
  else
    let r := s.getComponentTracesFromOpenSearch params
    ⟨r.1, r.2, pos⟩

/-- Go `unicode.IsSpace`. -/
def unicodeIsSpace (c : Char) : Bool :=
  let n := c.toNat
  (9 ≤ n && n ≤ 13) || n == 32 || n == 0x85 || n == 0xA0 || n == 0x1680 ||
    (0x2000 ≤ n && n ≤ 0x200A) || n == 0x2028 || n == 0x2029 || n == 0x202F ||
    n == 0x205F || n == 0x3000

/-- The method `fieldNeedsQuotes` of `csv.Writer`, for the comma delimiter. -/
def csvFieldNeedsQuotes (field : String) : Bool :=
  if field = "" then false
  else if field = "\\." then true
  else if field.data.any fun c =>
      c == Char.ofNat 10 || c == Char.ofNat 13 || c == Char.ofNat 34 || c == ',' then true
  else
    match field.data.head? with
    | some r1 => unicodeIsSpace r1
    | none => false

/-- The text that `csv.Writer.Write` appends for a record, with the comma delimiter and
without `UseCRLF`: the fields separated by commas, a field that needs quotes being put
between double quotes with its double quotes doubled, then a line feed. -/
def csvWrite (record : List String) : String :=
  stringsJoin (record.map fun field =>
    if csvFieldNeedsQuotes field then
      "\"" ++ String.mk (field.data.flatMap fun c =>
        if c == Char.ofNat 34 then [Char.ofNat 34, Char.ofNat 34] else [c]) ++ "\""
    else field) "," ++ "\n"

/-- Go `strconv.Itoa`. -/
def strconvItoa (n : Int) : String := toString n

def costReportHeader : List String :=
  ["organization_id", "project_id", "component_id", "log_count", "estimated_storage_bytes",
    "estimated_cost_usd"]

/-- The CSV export of the cost report. The writer works on a buffer in memory and its
delimiter is the comma, so that none of its calls fails. -/
def LoggingService.GenerateCostReportCSV {Body Hit : Type} (s : LoggingService Body Hit)
    (params : CostReportQuery) : Ret String × List Event :=
  if !s.supportsCostReporting then
    (Ret.err "cost reporting requires ClickStack telemetry backend", [])
  else
    match s.storage with
    | none => (Ret.panic, [])
    | some storage =>
      match storage.GetCostReport params with
      | (Except.error e, lines) => (Ret.err e, [Event.storage "GetCostReport" lines])
      | (Except.ok report, lines) =>
        let buf := csvWrite costReportHeader
        let buf := report.Rows.foldl (fun buf row =>
          buf ++ csvWrite [row.OrganizationID, row.ProjectID, row.ComponentID,
            strconvItoa row.LogCount, s.env.formatFloat 0 row.EstimatedStorageB,
            s.env.formatFloat 4 row.EstimatedCostUSD]) buf
        (Ret.ok buf, [Event.storage "GetCostReport" lines])

/-! ## Sample inputs for the provider and the service -/

/-- The monthly cost query for January 2025, as `ExportCostReport` builds it. -/
def januaryQuery : CostReportQuery := { Start := january2025, End := february2025 }

/-- The monthly cost query for February 2025. -/
def februaryQuery : CostReportQuery := { Start := february2025, End := march2025 }

/-- Two aggregated rows: one tebibyte with a million lines, and no bytes with half a
million lines and no organization. -/
def sampleCostScans : List costScan :=
  [{ org := some "acme", project := some "shop", component := some "cart",
     logCount := 1000000, rawBytes := 1099511627776 },
   { org := none, project := some "", component := some "api",
     logCount := 500000, rawBytes := 0 }]

/-- A provider on the builder of the source's test whose database answers every cost
statement with `scans` and no error. -/
def costProvider (scans : List costScan) : Provider :=
  { builder := testBuilder,
    queryLogs := fun _ _ => QueryOutcome.rows [] none 0,
    queryTraces := fun _ _ => QueryOutcome.rows [] none 0,
    queryCost := fun _ _ => QueryOutcome.rows (scans.map Except.ok) none 3,
    jsonUnmarshalLabels := fun _ => Except.ok none }

/-- A stand-in for the collaborators of package `opensearch` and of the standard library,
on hits that are numbers and query bodies that are strings. -/
def sampleEnv : Env String Nat :=
  { NewQueryBuilder := fun _ =>
      { GenerateIndices := fun _ _ => Except.ok ["logs-2025.01"],
        BuildComponentLogsQuery := fun _ => "component",
        BuildProjectLogsQuery := fun _ _ => "project",
        BuildGatewayLogsQuery := fun _ => "gateway",
        BuildOrganizationLogsQuery := fun _ _ => "organization",
        BuildComponentTracesQuery := fun _ => "traces" },
    ParseLogEntry := fun n =>
      { Timestamp := sampleStart, Log := "line", LogLevel := "INFO", ComponentID := "comp-1",
        EnvironmentID := "dev", ProjectID := "", Version := "", VersionID := "",
        Namespace := "", PodID := toString n, ContainerName := "", Labels := none },
    ParseSpanEntry := fun n =>
      { DurationInNanos := n, EndTime := sampleEnd, Name := "span", SpanID := "s",
        StartTime := sampleStart, TraceID := "t" },
    timeParse := fun _ value =>
      if value = "start" then some sampleStart
      else if value = "end" then some sampleEnd else none,
    quote := fun s => "\"" ++ s ++ "\"",
    formatFloat := fun _ _ => "0" }

/-- A telemetry configuration on the columnar backend with the given dual-read flag and
sample rate. -/
def sampleTelemetry (dualRead : Bool) (rate : F64) : TelemetryConfig :=
  { Backend := "ClickStack", DualRead := dualRead, DualSampleRate := rate,
    HyperDX := { BaseURL := "", SigningKey := "", TTL := 0 } }

/-- A configuration on the columnar backend with the given dual-read flag and sample
rate. -/
def sampleConfig (dualRead : Bool) (rate : F64) : Config :=
  { OpenSearchIndex := "logs-", Telemetry := sampleTelemetry dualRead rate }

/-- A generator whose every draw is one quarter. -/
def quarterSource : Nat → ℚ := fun _ => 1 / 4

/-- A service on the columnar backend over the provider `costProvider scans`, without
an OpenSearch client and without dual read. -/
def costService (scans : List costScan) : LoggingService String Nat :=
  NewLoggingService (some ((costProvider scans).asStorage none)) none
    (sampleConfig false (F64.fin 0)) sampleEnv quarterSource

/-- The sampler of the service never panics: its decision is always defined. -/
def SamplerReady {Body Hit : Type} (s : LoggingService Body Hit) : Prop :=
  ∀ pos, (s.shouldDualRead pos).1 ≠ none

/-- The number of lines `dual-read mismatch` written at level `Warn` to the logger of
the service. -/
def mismatchWarnings (events : List Event) : Nat :=
  (events.filter fun e =>
    match e with
    | Event.log line => line.level == Level.Warn && line.msg == "dual-read mismatch"
    | _ => false).length

/-- The lines written at level `Warn` to the logger of the service. -/
def warnings (events : List Event) : List LogLine :=
  events.filterMap fun e =>
    match e with
    | Event.log line => if line.level == Level.Warn then some line else none
    | _ => none

def sampleRecord : LogRecord :=
  { Timestamp := sampleStart, Log := "line", LogLevel := "INFO", ComponentID := "comp-1",
    EnvironmentID := "dev", ProjectID := "", Version := "", VersionID := "", Namespace := "",
    PodID := "", ContainerName := "", Labels := none }

def sampleSpanRecord : TraceRecord :=
  { DurationInNanos := 1500, EndTime := sampleEnd, Name := "span", SpanID := "s",
    StartTime := sampleStart, TraceID := "t" }

/-- A storage provider that answers every log and trace read with `n` records and the
total count `total`. -/
def sampleStorage (n : Nat) (total : Int) : StorageProvider :=
  { GetComponentLogs := fun _ =>
      (Except.ok { Logs := List.replicate n sampleRecord, TotalCount := total, Took := 5 }, []),
    GetProjectLogs := fun _ =>
      (Except.ok { Logs := List.replicate n sampleRecord, TotalCount := total, Took := 5 }, []),
    GetGatewayLogs := fun _ =>
      (Except.ok { Logs := List.replicate n sampleRecord, TotalCount := total, Took := 5 }, []),
    GetOrganizationLogs := fun _ =>
      (Except.ok { Logs := List.replicate n sampleRecord, TotalCount := total, Took := 5 }, []),
    GetComponentTraces := fun _ =>
      (Except.ok { Spans := List.replicate n sampleSpanRecord, TotalCount := total, Took := 5 },
        []),
    GetCostReport := fun _ => (Except.error "not supported", []),
    HealthCheck := none }

/-- An OpenSearch client that answers every search with `n` hits and the total `total`. -/
def sampleClient (n : Nat) (total : Int) : OpenSearchClient String Nat :=
  { Search := fun _ _ => Except.ok { Hits := List.range n, TotalValue := total, Took := 7 },
    HealthCheck := none }

/-- An OpenSearch client whose every search fails. -/
def failingClient : OpenSearchClient String Nat :=
  { Search := fun _ _ => Except.error "connection refused", HealthCheck := none }

/-- A service on the columnar backend whose storage answers with 10 records and total
10, with the given OpenSearch client, dual-read flag and sample rate. -/
def dualService (client : Option (OpenSearchClient String Nat)) (dualRead : Bool)
    (rate : F64) : LoggingService String Nat :=
  NewLoggingService (some (sampleStorage 10 10)) client (sampleConfig dualRead rate) sampleEnv
    quarterSource

def sampleQueryParams : opensearch.QueryParams :=
  { StartTime := "start", EndTime := "end", SearchPhrase := "", LogLevels := [], Limit := 50,
    SortOrder := "desc", ComponentID := "comp-1", EnvironmentID := "dev", ProjectID := "proj-1",
    OrganizationID := "org-1", Namespace := "", Versions := [], VersionIDs := [],
    LogType := "" }

def sampleComponentParams : opensearch.ComponentQueryParams :=
  { QueryParams := sampleQueryParams, BuildID := "", BuildUUID := "" }

def sampleGatewayParams : opensearch.GatewayQueryParams :=
  { QueryParams := sampleQueryParams, OrganizationID := "org-1", APIIDToVersionMap := [],
    GatewayVHosts := [] }

def sampleTraceParams : opensearch.ComponentTracesRequestParams :=
  { ServiceName := "checkout", StartTime := "start", EndTime := "end", Limit := 0 }

/-- Two responses differ in their total count or in their number of records. -/
def responsesDiffer (primary secondary : LogResponse) : Prop :=
  primary.TotalCount ≠ secondary.TotalCount ∨ primary.Logs.length ≠ secondary.Logs.length

instance (primary secondary : LogResponse) : Decidable (responsesDiffer primary secondary) :=
  inferInstanceAs (Decidable (_ ∨ _))

/-- The line that `emitDualReadResult` writes on a mismatch. -/
def mismatchLine (scope : String) (primary secondary : LogResponse) : LogLine :=
  ⟨Level.Warn, "dual-read mismatch",
    [("scope", LogValue.str scope),
      ("primary_total", LogValue.int primary.TotalCount),
      ("secondary_total", LogValue.int secondary.TotalCount),
      ("primary_len", LogValue.int primary.Logs.length),
      ("secondary_len", LogValue.int secondary.Logs.length)]⟩

/-- The response that the service returns for the answer of `sampleStorage 10 10`. -/
def tenRecords : LogResponse :=
  convertLogResult { Logs := List.replicate 10 sampleRecord, TotalCount := 10, Took := 5 }

/-- The trace response that the service returns for the answer of `sampleStorage 10 10`. -/
def tenSpans : opensearch.TraceResponse :=
  convertTraceResult
    { Spans := List.replicate 10 sampleSpanRecord, TotalCount := 10, Took := 5 }

/-! ## Backend selection: quantities of the statements -/

/-- The number of calls of a method of the storage provider among the events. -/
def storageCalls (events : List Event) : Nat :=
  (events.filter fun e =>
    match e with
    | Event.storage _ _ => true
    | _ => false).length

/-- The number of calls of `Search` on the OpenSearch client among the events. -/
def searchCalls (events : List Event) : Nat :=
  (events.filter fun e =>
    match e with
    | Event.search _ => true
    | _ => false).length

/-- The operation was answered by the legacy search path alone: it returns what the
legacy read `legacy` returns, does what that read does, leaves the generator of the
sampler at `pos`, calls no method of the storage provider and searches at most once. -/
def LegacyOnly {α : Type} (o : Outcome α) (legacy : Ret α × List Event) (pos : Nat) : Prop :=
  o.ret = legacy.1 ∧ o.events = legacy.2 ∧ o.rngPos = pos ∧ storageCalls o.events = 0 ∧
    searchCalls o.events ≤ 1

/-- The operation ran the columnar read `primary` first. -/
def ColumnarFirst {α : Type} (o : Outcome α) (primary : Ret α × List Event) : Prop :=
  ∃ more, o.events = primary.2 ++ more

/-- A service made by `NewLoggingService` with the given backend name and storage
provider, with dual read at rate 1 and an OpenSearch client that answers 8 hits. -/
def backendService (backend : String) (storage : Option StorageProvider) :
    LoggingService String Nat :=
  NewLoggingService storage (some (sampleClient 8 8))
    { OpenSearchIndex := "logs-",
      Telemetry := { sampleTelemetry true (F64.fin 1) with Backend := backend } }
    sampleEnv quarterSource

/-! ## Row decoding: quantities of the statements -/

/-- The label map that the row loop of `executeLogQuery` stores for a scanned row: the
decoded payload, the empty map for a payload that does not decode, and nil for a NULL
payload. -/
def decodedLabels (p : Provider) (s : logScan) : Option GoMap :=
  match s.labelsJSON with
  | some text =>
    match p.jsonUnmarshalLabels text with
    | Except.ok labels => labels
    | Except.error _ => some []
  | none => none

/-- The lines that the row loop writes to the logger for a scanned row: one warning when
the payload does not decode. -/
def decodeWarnings (p : Provider) (s : logScan) : List LogLine :=
  match s.labelsJSON with
  | some text =>
    match p.jsonUnmarshalLabels text with
    | Except.ok _ => []
    | Except.error e =>
      [⟨Level.Warn, "Failed to decode labels JSON", [("error", LogValue.err e)]⟩]
  | none => []

/-- The total count after a sequence of scanned rows: the one of the last row that
carries one, else the count before. -/
def lastTotalCount (scans : List logScan) (before : Int) : Int :=
  scans.foldl (fun total s => s.totalCount.getD total) before

/-- A provider whose database answers every log statement with the scanned rows `scans`
and whose JSON decoder accepts the empty object and `null` only. -/
def logProvider (scans : List logScan) : Provider :=
  { builder := testBuilder,
    queryLogs := fun _ _ => QueryOutcome.rows (scans.map Except.ok) none 4,
    queryTraces := fun _ _ => QueryOutcome.rows [] none 0,
    queryCost := fun _ _ => QueryOutcome.rows [] none 0,
    jsonUnmarshalLabels := fun text =>
      if text = "\x7b\x7d" then Except.ok (some [])
      else if text = "null" then Except.ok none
      else Except.error "invalid character" }

/-- Three scanned rows: a payload that decodes, a payload that does not, and a NULL
payload; the first two carry the total count 3. -/
def sampleLogScans : List logScan :=
  [{ record := { sampleRecord with Log := "first" }, labelsJSON := some "\x7b\x7d",
     totalCount := some 3 },
   { record := { sampleRecord with Log := "second" }, labelsJSON := some "\x7bbroken",
     totalCount := some 3 },
   { record := { sampleRecord with Log := "third" }, labelsJSON := none,
     totalCount := none }]

/-! ## Escaping of pod-label keys: quantities of the statements -/

/-- Whether every single quote of a text is preceded by an odd number of consecutive
backslashes; `run` is the number of consecutive backslashes that end right before the
text. -/
def quotesEscapedFrom : List Char → Nat → Bool
  | [], _ => true
  | c :: rest, run =>
    if c = Char.ofNat 92 then quotesEscapedFrom rest (run + 1)
    else if c = Char.ofNat 39 then run % 2 == 1 && quotesEscapedFrom rest 0
    else quotesEscapedFrom rest 0

/-- Every single quote of the text is escaped. -/
def QuotesEscaped (s : String) : Bool := quotesEscapedFrom s.data 0

/-- The pod-label key made of a backslash followed by a single quote. -/
def backslashQuoteKey : String := String.mk [Char.ofNat 92, Char.ofNat 39]

/-- An organization query with the one pod label `backslashQuoteKey`. -/
def sampleBackslashQuote : OrganizationLogQuery :=
  { sampleOrganization with PodLabels := [(backslashQuoteKey, "v")] }

/-! ## Placeholders and arguments: quantities of the statements -/

/-- The number of `?` characters of a text. -/
def countPlaceholders (s : String) : Nat := s.data.count '?'

/-- The result holds a statement and exactly as many arguments as the statement has `?`
characters. -/
def PlaceholdersAgree (r : BuildResult) : Prop :=
  ∃ args, r.args = some args ∧ countPlaceholders r.sql = args.length

/-- The clauses of the builder hold as many `?` characters as the builder has
arguments. -/
def Balanced (cb : conditionBuilder) : Prop :=
  (cb.clauses.map countPlaceholders).sum = cb.args.length

/-- The time window is bound at positions `i` and `i + 1`: the call succeeded; the SQL
text holds a `BETWEEN ? AND ?` predicate that exactly `i` placeholders precede, so that
its two placeholders are the placeholders number `i` and `i + 1` of the statement, which
take the arguments at these positions; and the arguments at these positions are the UTC
forms of `s` and `e`. -/
def TimeBoundAt (r : BuildResult) (i : Nat) (s e : Time) : Prop :=
  r.err = none ∧
    (∃ pre post, r.sql = pre ++ "BETWEEN ? AND ?" ++ post ∧ countPlaceholders pre = i) ∧
    ∃ l, r.args = some l ∧ l[i]? = some (Arg.time s.UTC) ∧ l[i + 1]? = some (Arg.time e.UTC)

/-! ## Bound parameters: quantities of the statements -/

/-- The builder holds the predicates of `bs` as its clauses and their values, in the same
order, as its arguments. -/
def Binds (cb : conditionBuilder) (bs : List (String × List Arg)) : Prop :=
  cb.clauses = bs.map Prod.fst ∧ cb.args = bs.flatMap Prod.snd

/-- The result is a log statement that binds `bs`: the call succeeded, the WHERE clause is
the conjunction of the predicates of `bs`, and the arguments are the values of these
predicates, in the same order, followed by the limit. -/
def ParameterBound (qb : QueryBuilder) (base : BaseLogQuery) (r : BuildResult)
    (bs : List (String × List Arg)) : Prop :=
  r.err = none ∧
  r.sql = logSelect ++ qb.logTable ++ "\nWHERE " ++ stringsJoin (bs.map Prod.fst) " AND " ++
    "\nORDER BY timestamp " ++ qb.order base.SortOrder ++ "\nLIMIT ?" ∧
  r.args = some (bs.flatMap Prod.snd ++ [Arg.int (qb.resolveLimit base.Limit)])

/-- Each predicate holds as many placeholders as it has values. -/
def Paired (bs : List (String × List Arg)) : Prop :=
  ∀ b ∈ bs, countPlaceholders b.1 = b.2.length

/-- The base filters of the query are bound in `bs`: the time window, and each of the
search phrase, log levels, namespace, versions, version ids and log type that is present,
is in `bs` as a predicate with placeholders together with its values. -/
def BaseBound (base : BaseLogQuery) (bs : List (String × List Arg)) : Prop :=
  ("timestamp BETWEEN ? AND ?",
    [Arg.time base.TimeRange.Start.UTC, Arg.time base.TimeRange.End.UTC]) ∈ bs ∧
  (base.SearchPhrase ≠ "" →
    ("positionCaseInsensitive(log, ?) > 0", [Arg.str base.SearchPhrase]) ∈ bs) ∧
  (base.LogLevels ≠ [] →
    ("log_level IN (" ++ placeholders base.LogLevels.length ++ ")",
      base.LogLevels.map Arg.str) ∈ bs) ∧
  (base.Namespace ≠ "" → ("namespace = ?", [Arg.str base.Namespace]) ∈ bs) ∧
  (base.Versions ≠ [] →
    ("version IN (" ++ placeholders base.Versions.length ++ ")",
      base.Versions.map Arg.str) ∈ bs) ∧
  (base.VersionIDs ≠ [] →
    ("version_id IN (" ++ placeholders base.VersionIDs.length ++ ")",
      base.VersionIDs.map Arg.str) ∈ bs) ∧
  (base.LogType ≠ "" → ("log_type = ?", [Arg.str base.LogType]) ∈ bs)

/-! ## The link signer (`internal/observer/service/hyperdx.go`) -/

/-- Functions of the standard library that the signer calls: `hmac.New(sha256.New, key)`
followed by `Write` and `Sum(nil)`, from the key and the message to the bytes of the tag,
and `base64.RawURLEncoding.EncodeToString`. -/
structure Crypto where
  hmacSHA256 : String → String → List Nat
  base64RawURL : List Nat → String

/-- Go `strings.HasPrefix`. -/
def stringsHasPrefix (s pre : String) : Prop := pre.data <+: s.data

instance (s pre : String) : Decidable (stringsHasPrefix s pre) :=
  inferInstanceAs (Decidable (pre.data <+: s.data))

/-- Go `Time.Add` for a duration `d` in nanoseconds, away from the ends of the range of
`time.Time`: the division and the remainder truncate toward zero. -/
def Time.Add (t : Time) (d : Int) : Time :=
  let dsec := d.tdiv 1000000000
  let nsec : Int := t.nsec + d.tmod 1000000000
  let dsec := if nsec ≥ 1000000000 then dsec + 1 else if nsec < 0 then dsec - 1 else dsec
  let nsec := if nsec ≥ 1000000000 then nsec - 1000000000
    else if nsec < 0 then nsec + 1000000000 else nsec
  { t with sec := t.sec + dsec, nsec := nsec.toNat, mono := t.mono.map fun m => m + d }

/-- Go `Time.Unix`: the seconds elapsed since January 1, 1970 UTC. -/
def Time.Unix (t : Time) : Int := t.sec - 62135596800

/-- The verb `%d` of `fmt` on an integer. -/
def sprintfD (n : Int) : String := toString n

/-- Go `url.Values.Set`. A `url.Values` is a `map[string][]string`; the signer writes it
through `Set` alone, so that every key holds a slice of one value: it is taken as a
`map[string]string`, and `Get` is the index expression. -/
def urlValuesSet (v : GoMap) (key value : String) : GoMap :=
  if key ∈ GoMap.keys v then v.map fun e => if e.1 = key then (key, value) else e
  else v ++ [(key, value)]

/-- The bytes of the UTF-8 encoding of a rune. -/
def utf8Bytes (c : Char) : List Nat :=
  let n := c.toNat
  if n < 0x80 then [n]
  else if n < 0x800 then [0xC0 + n / 64, 0x80 + n % 64]
  else if n < 0x10000 then [0xE0 + n / 4096, 0x80 + n / 64 % 64, 0x80 + n % 64]
  else [0xF0 + n / 262144, 0x80 + n / 4096 % 64, 0x80 + n / 64 % 64, 0x80 + n % 64]

/-- The upper-case hexadecimal digit of a number below 16. -/
def upperHexDigit (n : Nat) : Char := "0123456789ABCDEF".data.getD n '0'

/-- Go `url.QueryEscape`: letters, digits, `-`, `_`, `.` and `~` stay, a space becomes
`+`, and every other byte becomes `%` followed by its two hexadecimal digits. -/
def queryEscape (s : String) : String :=
  String.mk (s.data.flatMap fun c => (utf8Bytes c).flatMap fun b =>
    if (48 ≤ b && b ≤ 57) || (65 ≤ b && b ≤ 90) || (97 ≤ b && b ≤ 122) ||
        b == 45 || b == 95 || b == 46 || b == 126 then [Char.ofNat b]
    else if b == 32 then ['+']
    else ['%', upperHexDigit (b / 16), upperHexDigit (b % 16)])

/-- Go `url.Values.Encode`: the pairs `key=value`, both escaped, in ascending order of
the keys and separated by `&`. -/
def urlValuesEncode (v : GoMap) : String :=
  (sortedKeys v).foldl (fun buf k =>
    (if buf.data.length > 0 then buf ++ "&" else buf) ++ queryEscape k ++ "=" ++
      queryEscape (GoMap.get v k)) ""

/-- The text that `sign` writes to its builder and passes to the MAC: the path followed,
for each key in ascending order, by `|`, the key, `=` and the value. -/
def canonicalString (path : String) (values : GoMap) : String :=
  (sortedKeys values).foldl (fun b k => b ++ "|" ++ k ++ "=" ++ GoMap.get values k) path

def HyperDXSigner.sign (s : HyperDXSigner) (c : Crypto) (path : String) (values : GoMap) :
    String :=
  c.base64RawURL (c.hmacSHA256 s.key (canonicalString path values))

/-- The path as `Generate` uses it: with a leading `/`. -/
def linkPath (path : String) : String :=
  if stringsHasPrefix path "/" then path else "/" ++ path

/-- The map `queryParams` of `Generate` when `sign` is called: the parameters of the
caller and the parameter `expires`. -/
def signedParams (s : HyperDXSigner) (now : Time) (params : GoMap) : GoMap :=
  urlValuesSet (params.foldl (fun q e => urlValuesSet q e.1 e.2) []) "expires"
    (sprintfD (now.Add s.ttl).Unix)

/-- The map `queryParams` of `Generate` when the link is written: the signed parameters
and the parameter `signature`. -/
def linkParams (s : HyperDXSigner) (c : Crypto) (now : Time) (path : String)
    (params : GoMap) : GoMap :=
  urlValuesSet (signedParams s now params) "signature"
    (s.sign c (linkPath path) (signedParams s now params))

/-- The method `Generate`; the receiver may be nil, `now` is the value of `time.Now()`.
The result is the link and the error. -/
def HyperDXSigner.Generate (s : Option HyperDXSigner) (c : Crypto) (now : Time)
    (path : String) (params : GoMap) : String × Option String :=
  match s with
  | none => ("", some "hyperdx signer is not configured")
  | some s =>
    let path := if stringsHasPrefix path "/" then path else "/" ++ path
    let expiry := (now.Add s.ttl).Unix
    let queryParams := params.foldl (fun q e => urlValuesSet q e.1 e.2) []
    let queryParams := urlValuesSet queryParams "expires" (sprintfD expiry)
    let sig := s.sign c path queryParams
    let queryParams := urlValuesSet queryParams "signature" sig
    (s.baseURL ++ path ++ "?" ++ urlValuesEncode queryParams, none)

def LoggingService.GenerateHyperDXLink {Body Hit : Type} (s : LoggingService Body Hit)
    (c : Crypto) (now : Time) (path : String) (params : GoMap) : String × Option String :=
  match s.hyperdx with
  | none => ("", some "hyperdx signing is not configured")
  | some h => HyperDXSigner.Generate (some h) c now path params

/-! ## Sample inputs for the link signer -/

/-- A stand-in for the MAC and the encoding: the tag of a message is the message after
the key and a colon, rune by rune, and the encoding writes the runes back. It maps
distinct messages to distinct tags. -/
def sampleCrypto : Crypto :=
  { hmacSHA256 := fun key msg => (key ++ ":" ++ msg).data.map Char.toNat,
    base64RawURL := fun bytes => String.mk (bytes.map Char.ofNat) }

/-- A signer for `https://hdx.example.com` with the key `k1` and a lifetime of 15
minutes. -/
def sampleSigner : HyperDXSigner :=
  { baseURL := "https://hdx.example.com", key := "k1", ttl := 15 * (60 * 1000000000) }

/-- An instant for `time.Now()`: January 1, 2025, 00:00:00.5 UTC, read in the local
zone with a monotonic clock reading. -/
def sampleNow : Time :=
  { sec := 63871286400, nsec := 500000000, mono := some 77, loc := some "Local" }

/-- The text `|key=value` that `sign` writes for a key, as a list of runes. -/
def canonicalSegment (values : GoMap) (k : String) : List Char :=
  '|' :: (k.data ++ '=' :: (GoMap.get values k).data)

/-- The MAC and the encoding map distinct messages to distinct signatures under the
key. -/
def CollisionFree (c : Crypto) (key : String) : Prop :=
  Function.Injective fun msg => c.base64RawURL (c.hmacSHA256 key msg)

/-- The path and the values of the parameters hold no `|`, and the keys hold no `=`. -/
def Undelimited (path : String) (values : GoMap) : Prop :=
  '|' ∉ path.data ∧ ∀ e ∈ values, '=' ∉ e.1.data ∧ '|' ∉ e.2.data

instance (path : String) (values : GoMap) : Decidable (Undelimited path values) :=
  inferInstanceAs (Decidable (_ ∧ _))

/-- The text that `sign` writes for a path and a list of keys with their values, on
lists of runes. -/
def canonicalRunes (path : List Char) (entries : List (List Char × List Char)) : List Char :=
  path ++ entries.flatMap fun e => '|' :: (e.1 ++ '=' :: e.2)

/-- A service made by `NewLoggingService` with the given link-signer configuration. -/
def linkService (hyperdx : HyperDXConfig) : LoggingService String Nat :=
  NewLoggingService none none
    { OpenSearchIndex := "logs-",
      Telemetry := { sampleTelemetry false (F64.fin 0) with HyperDX := hyperdx } }
    sampleEnv quarterSource

/-- A link-signer configuration. -/
def hyperdxConfig (baseURL key : String) (ttl : Int) : HyperDXConfig :=
  { BaseURL := baseURL, SigningKey := key, TTL := ttl }

/-! ## Calendar functions of package `time` and the month window of the cost export
(`internal/observer/handlers/handlers.go`)

The functions of package `time` are those of the standard library, for times in UTC and
away from the ends of the range of `time.Time`; days are counted in the proleptic
Gregorian calendar from January 1 of year 1. -/

/-- Go `isLeap`. -/
def isLeap (year : Int) : Bool := year % 4 == 0 && (year % 100 != 0 || year % 400 == 0)

/-- The days from January 1 of year 1 to January 1 of a year. -/
def daysBeforeYear (year : Int) : Int :=
  365 * (year - 1) + (year - 1) / 4 - (year - 1) / 100 + (year - 1) / 400

/-- The table `daysBefore` of package `time`: the days of a non-leap year before the
month that follows month `m`. -/
def daysBefore (m : Int) : Int :=
  if m ≤ 0 then 0 else if m = 1 then 31 else if m = 2 then 59 else if m = 3 then 90
  else if m = 4 then 120 else if m = 5 then 151 else if m = 6 then 181 else if m = 7 then 212
  else if m = 8 then 243 else if m = 9 then 273 else if m = 10 then 304
  else if m = 11 then 334 else 365

/-- Go `time.Date` for the location UTC: months outside 1..12 overflow into the year, and
days and clock values outside their ranges overflow into the instant. -/
def timeDate (year month day hour min sec nsec : Int) : Time :=
  let m := month - 1
  let year := year + m / 12
  let m := m % 12
  let d := daysBeforeYear year + daysBefore m + (if isLeap year && m ≥ 2 then 1 else 0) +
    (day - 1)
  { sec := d * 86400 + hour * 3600 + min * 60 + sec + nsec / 1000000000,
    nsec := (nsec % 1000000000).toNat, mono := none, loc := none }

/-- The year of a day counted from January 1 of year 1, and the day of that year counted
from 0: cycles of 400, 100, 4 and 1 years are cut off in turn. -/
def yearOfDays (d : Int) : Int × Int :=
  let n400 := d / 146097
  let d := d - 146097 * n400
  let n100 := d / 36524
  let n100 := n100 - n100 / 4
  let d := d - 36524 * n100
  let n4 := d / 1461
  let d := d - 1461 * n4
  let n1 := d / 365
  let n1 := n1 - n1 / 4
  let d := d - 365 * n1
  (400 * n400 + 100 * n100 + 4 * n4 + n1 + 1, d)

/-- The month and the day of the month of a day of the year counted from 0. -/
def monthOfYday (leap : Bool) (yday : Int) : Int × Int :=
  if leap && yday == 59 then (2, 29)
  else
    let day := if leap && yday > 59 then yday - 1 else yday
    let month := day / 31
    let last := daysBefore (month + 1)
    if day ≥ last then (month + 2, day - last + 1)
    else (month + 1, day - daysBefore month + 1)

/-- Go `Time.Date` for a time in UTC: year, month and day. -/
def Time.Date (t : Time) : Int × Int × Int :=
  let yd := yearOfDays (t.sec / 86400)
  let md := monthOfYday (isLeap yd.1) yd.2
  (yd.1, md.1, md.2)

/-- Go `Time.Clock` for a time in UTC: hour, minute and second. -/
def Time.Clock (t : Time) : Int × Int × Int :=
  let s := t.sec % 86400
  (s / 3600, s % 3600 / 60, s % 60)

/-- Go `Time.AddDate` for a time in UTC. -/
def Time.AddDate (t : Time) (years months days : Int) : Time :=
  timeDate (t.Date.1 + years) (t.Date.2.1 + months) (t.Date.2.2 + days)
    t.Clock.1 t.Clock.2.1 t.Clock.2.2 t.nsec

/-- Go `strings.TrimSpace`. -/
def stringsTrimSpace (s : String) : String :=
  String.mk ((s.data.dropWhile unicodeIsSpace).reverse.dropWhile unicodeIsSpace).reverse

/-- Whether a rune is an ASCII digit. -/
def isDigit (c : Char) : Bool := 48 ≤ c.toNat && c.toNat ≤ 57

/-- Go `time.Parse("2006-01", value)`, `none` being an error: the value is four digits,
a hyphen and two digits that name a month from 01 to 12, and nothing else; the result is
the first instant of that month in UTC. -/
def timeParseYearMonth (value : String) : Option Time :=
  match value.data with
  | [y1, y2, y3, y4, dash, m1, m2] =>
    if isDigit y1 && isDigit y2 && isDigit y3 && isDigit y4 && dash == '-' && isDigit m1 &&
        isDigit m2 then
      let year : Int := ((y1.toNat : Int) - 48) * 1000 + ((y2.toNat : Int) - 48) * 100 +
        ((y3.toNat : Int) - 48) * 10 + ((y4.toNat : Int) - 48)
      let month : Int := ((m1.toNat : Int) - 48) * 10 + ((m2.toNat : Int) - 48)
      if month ≤ 0 ∨ 12 < month then none else some (timeDate year month 1 0 0 0 0)
    else none
  | _ => none

/-- The month window of the cost export; `now` is the value of `time.Now()`. The result
is the start, the end and the error. -/
def parseMonthRange (now : Time) (value : String) : Time × Time × Option String :=
  let parsed : Option Time :=
    if stringsTrimSpace value = "" then
      let now := now.UTC
      some (timeDate now.Date.1 now.Date.2.1 1 0 0 0 0)
    else timeParseYearMonth value
  match parsed with
  | none => (zeroTime, zeroTime, some "invalid month format, expected YYYY-MM")
  | some start => (start, start.AddDate 0 1 0, none)

/-! ## The month window: quantities of the statements -/

/-- The days from January 1 of year 1 to the first day of a month. -/
def firstDayOfMonth (year month : Int) : Int :=
  daysBeforeYear year + daysBefore (month - 1) +
    (if isLeap year && month - 1 ≥ 2 then 1 else 0)

/-- The place of a day of the year in its month: `r` holds a month from 1 to 12 and a
day of the month, the day of the year is that day of that month, and it precedes the
first day of the following month. -/
def InMonth (leap : Bool) (yday : Int) (r : Int × Int) : Prop :=
  1 ≤ r.1 ∧ r.1 ≤ 12 ∧ 1 ≤ r.2 ∧
    yday = daysBefore (r.1 - 1) + (if leap && r.1 - 1 ≥ 2 then 1 else 0) + (r.2 - 1) ∧
    yday < daysBefore r.1 + (if leap && r.1 ≥ 2 then 1 else 0)

instance (leap : Bool) (yday : Int) (r : Int × Int) : Decidable (InMonth leap yday r) :=
  inferInstanceAs (Decidable (_ ∧ _))

/-- The digit rune of the last decimal digit of a number. -/
def digitChar (n : Nat) : Char := Char.ofNat (48 + n % 10)

/-- The month token `YYYY-MM` of a year up to 9999 and a month, both padded with
zeros. -/
def monthToken (year month : Nat) : String :=
  String.mk [digitChar (year / 1000), digitChar (year / 100), digitChar (year / 10),
    digitChar year, '-', digitChar (month / 10), digitChar month]

/-! ## Reading a link back: functions of `strings` and `net/url`, and the verification -/

/-- Go `strings.Cut` for a separator of one rune, on the runes of a text: the text before
the first occurrence of the separator and the text after it; the whole text and the empty
text when the separator does not occur. -/
def stringsCut (sep : Char) : List Char → List Char × List Char
  | [] => ([], [])
  | c :: t => if c = sep then ([], t) else (c :: (stringsCut sep t).1, (stringsCut sep t).2)

/-- The pieces of a text between the occurrences of a separator of one rune. -/
def splitRunes (sep : Char) : List Char → List (List Char)
  | [] => [[]]
  | c :: t =>
    if c = sep then [] :: splitRunes sep t
    else
      match splitRunes sep t with
      | [] => [[c]]
      | h :: r => (c :: h) :: r

/-- The function `unhex` of `net/url`: the value of a hexadecimal digit. -/
def unhex (c : Char) : Option Nat :=
  let n := c.toNat
  if 48 ≤ n ∧ n ≤ 57 then some (n - 48)
  else if 97 ≤ n ∧ n ≤ 102 then some (n - 97 + 10)
  else if 65 ≤ n ∧ n ≤ 70 then some (n - 65 + 10)
  else none

/-- The function `unescape` of `net/url`, from the runes of a text to the bytes of the
result: `%` and two hexadecimal digits give one byte, `+` gives a space when `plus` is set
(the mode of query components), every other rune gives its own bytes; a `%` that two
hexadecimal digits do not follow is an error. -/
def unescapeBytes (plus : Bool) : List Char → Option (List Nat)
  | [] => some []
  | c :: t =>
    if c = '%' then
      match t with
      | h1 :: h2 :: rest =>
        match unhex h1, unhex h2 with
        | some a, some b => (unescapeBytes plus rest).map fun r => (a * 16 + b) :: r
        | _, _ => none
      | _ => none
    else if c = '+' ∧ plus = true then (unescapeBytes plus t).map fun r => 32 :: r
    else (unescapeBytes plus t).map fun r => utf8Bytes c ++ r

/-- The runes that a sequence of bytes encodes in UTF-8; `none` when the bytes are not
the encoding of a sequence of runes, in which case no text of this development stands for
them. -/
def utf8Decode : List Nat → Option (List Char)
  | [] => some []
  | b0 :: t =>
    if b0 < 0x80 then (utf8Decode t).map fun r => Char.ofNat b0 :: r
    else if b0 < 0xE0 then
      match t with
      | b1 :: t1 =>
        if utf8Bytes (Char.ofNat ((b0 - 0xC0) * 64 + (b1 - 0x80))) = [b0, b1] then
          (utf8Decode t1).map fun r => Char.ofNat ((b0 - 0xC0) * 64 + (b1 - 0x80)) :: r
        else none
      | _ => none
    else if b0 < 0xF0 then
      match t with
      | b1 :: b2 :: t2 =>
        if utf8Bytes (Char.ofNat ((b0 - 0xE0) * 4096 + (b1 - 0x80) * 64 + (b2 - 0x80))) =
            [b0, b1, b2] then
          (utf8Decode t2).map fun r =>
            Char.ofNat ((b0 - 0xE0) * 4096 + (b1 - 0x80) * 64 + (b2 - 0x80)) :: r
        else none
      | _ => none
    else
      match t with
      | b1 :: b2 :: b3 :: t3 =>
        if utf8Bytes (Char.ofNat ((b0 - 0xF0) * 262144 + (b1 - 0x80) * 4096 +
            (b2 - 0x80) * 64 + (b3 - 0x80))) = [b0, b1, b2, b3] then
          (utf8Decode t3).map fun r =>
            Char.ofNat ((b0 - 0xF0) * 262144 + (b1 - 0x80) * 4096 + (b2 - 0x80) * 64 +
              (b3 - 0x80)) :: r
        else none
      | _ => none

/-- Go `url.QueryUnescape` on the runes of a text. -/
def queryUnescape (s : List Char) : Option String :=
  ((unescapeBytes true s).bind utf8Decode).map String.mk

/-- Go `url.PathUnescape` on the runes of a text: as `queryUnescape`, but `+` stays. -/
def pathUnescape (s : List Char) : Option String :=
  ((unescapeBytes false s).bind utf8Decode).map String.mk

/-- One pass of the loop of `url.ParseQuery` on a piece between two `&`: an empty piece
and a piece that holds `;` or a malformed escape give no pair; otherwise the piece is cut
at its first `=` and both sides are unescaped. -/
def parseQueryPair (piece : List Char) : Option (String × String) :=
  if piece = [] ∨ ';' ∈ piece then none
  else
    match queryUnescape (stringsCut '=' piece).1, queryUnescape (stringsCut '=' piece).2 with
    | some k, some v => some (k, v)
    | _, _ => none

/-- Go `URL.Query`, that is `url.ParseQuery` with its error dropped. The verification
reads each key with `Get`, which gives the first value of the key: the result keeps each
key with its first value. -/
def parseQuery (query : List Char) : GoMap :=
  ((splitRunes '&' query).filterMap parseQueryPair).foldl
    (fun m e => if e.1 ∈ GoMap.keys m then m else m ++ [e]) []

/-- The path and the query parameters of a link of the format `base+path?query`, read
back from its text by the syntax of URLs as `net/url` implements it: the fragment, which
starts at the first `#`, is no part of them; the query is what follows the first `?`; the
path is what stands between the base URL and the query, with its `%` escapes decoded, as
in `URL.Path`; the parameters are those of `URL.Query`. `none` when the text before the
query does not start with the base URL or the path holds a malformed escape. -/
def linkParts (baseURL link : String) : Option (String × GoMap) :=
  let u := (stringsCut '#' link.data).1
  let rest := (stringsCut '?' u).1
  let rawQuery := (stringsCut '?' u).2
  if baseURL.data <+: rest then
    match pathUnescape (rest.drop baseURL.data.length) with
    | some path => some (path, parseQuery rawQuery)
    | none => none
  else none

/-- The verification of a link under the signer `s`: the canonical string is recomputed
from the path of the link and its query parameters other than `signature`, it is signed
with the key of `s`, and the result is compared with the value of `signature` that the
link carries; a link without the parameter `signature` does not verify. -/
def HyperDXSigner.verifies (s : HyperDXSigner) (c : Crypto) (link : String) : Bool :=
  match linkParts s.baseURL link with
  | none => false
  | some (path, values) =>
    match List.lookup "signature" values with
    | none => false
    | some sig => s.sign c path (values.filter fun e => e.1 != "signature") == sig

/-- The runes that `url.QueryEscape` writes for one byte. -/
def escapeByte (b : Nat) : List Char :=
  if (48 ≤ b && b ≤ 57) || (65 ≤ b && b ≤ 90) || (97 ≤ b && b ≤ 122) ||
      b == 45 || b == 95 || b == 46 || b == 126 then [Char.ofNat b]
  else if b == 32 then ['+']
  else ['%', upperHexDigit (b / 16), upperHexDigit (b % 16)]

/-- The rune is none of `&`, `=`, `;`, `#` and `?`, the runes that delimit the parts of a
link and of its query. -/
def plainRune (c : Char) : Bool :=
  c != '&' && c != '=' && c != ';' && c != '#' && c != '?'

/-- The runes of one pair of `url.Values.Encode`: the escaped key, `=` and the escaped
value. -/
def queryPiece (v : GoMap) (k : String) : List Char :=
  (queryEscape k).data ++ '=' :: (queryEscape (GoMap.get v k)).data

/-- The sample signer under a base URL with a fragment. -/
def hashRouteSigner : HyperDXSigner :=
  { sampleSigner with baseURL := "https://hdx.example.com/#/app" }

/-- The sample signer under a base URL with a query. -/
def queryBaseSigner : HyperDXSigner :=
  { sampleSigner with baseURL := "https://hdx.example.com/app?tenant=1" }

/-! ## Auxiliary facts on strings -/

theorem stringsContains_refl (s : String) : stringsContains s s := List.infix_refl _

theorem stringsContains_append_left {a sub : String} (b : String)
    (h : stringsContains a sub) : stringsContains (a ++ b) sub := by
  unfold stringsContains at *
  rw [String.data_append]
  exact h.trans (List.infix_append' [] a.data b.data)

theorem stringsContains_append_right {b sub : String} (a : String)
    (h : stringsContains b sub) : stringsContains (a ++ b) sub := by
  unfold stringsContains at *
  rw [String.data_append]
  exact h.trans (List.suffix_append a.data b.data).isInfix

theorem stringsContains_trans {a b c : String}
    (h₁ : stringsContains a b) (h₂ : stringsContains b c) : stringsContains a c :=
  List.IsInfix.trans h₂ h₁

theorem stringsJoin_cons_cons (a b : String) (rest : List String) (sep : String) :
    stringsJoin (a :: b :: rest) sep = a ++ sep ++ stringsJoin (b :: rest) sep := rfl

theorem stringsContains_join {c : String} {l : List String} (sep : String) (h : c ∈ l) :
    stringsContains (stringsJoin l sep) c := by
  induction l with
  | nil => cases h
  | cons a t ih =>
    cases t with
    | nil =>
      have : c = a := by simpa using h
      subst this
      exact stringsContains_refl _
    | cons b rest =>
      rw [stringsJoin_cons_cons]
      rcases List.mem_cons.1 h with h | h
      · subst h
        exact stringsContains_append_left _ (stringsContains_append_left _ (stringsContains_refl _))
      · exact stringsContains_append_right _ (ih h)

/-! ## Auxiliary facts on the condition builder -/

theorem Extends.refl (c : conditionBuilder) : Extends c c :=
  ⟨List.prefix_refl _, List.prefix_refl _⟩

theorem Extends.add_right {a b : conditionBuilder} (clause : String) (args : List Arg)
    (h : Extends a b) : Extends a (b.add clause args) := by
  unfold conditionBuilder.add
  split_ifs
  · exact h
  · exact ⟨h.1.trans (List.prefix_append _ _), h.2.trans (List.prefix_append _ _)⟩
  · exact ⟨h.1.trans (List.prefix_append _ _), h.2⟩

theorem Extends.addIn_right {a b : conditionBuilder} (qb : QueryBuilder) (column : String)
    (values : List String) (h : Extends a b) : Extends a (qb.addInClause b column values) := by
  unfold QueryBuilder.addInClause
  split_ifs
  · exact h
  · exact h.add_right _ _

theorem Extends.ite {a b c : conditionBuilder} (p : Prop) [Decidable p]
    (hb : Extends a b) (hc : Extends a c) : Extends a (if p then b else c) := by
  split_ifs
  · exact hb
  · exact hc

theorem Extends.foldl_podLabel {a : conditionBuilder} (m : GoMap) (keys : List String) :
    ∀ {b : conditionBuilder}, Extends a b → Extends a (keys.foldl (podLabelStep m) b) := by
  induction keys with
  | nil => intro b h; exact h
  | cons k rest ih => intro b h; exact ih (h.add_right _ _)

theorem applyBaseFilters_zero (qb : QueryBuilder) (cb : conditionBuilder) (base : BaseLogQuery)
    (h : base.TimeRange.Start.IsZero = true ∨ base.TimeRange.End.IsZero = true) :
    qb.applyBaseFilters cb base = (cb, some "time range is required") := by
  unfold QueryBuilder.applyBaseFilters
  rw [if_pos (by simpa using h)]

theorem applyBaseFilters_ok (qb : QueryBuilder) (base : BaseLogQuery)
    (hs : base.TimeRange.Start.IsZero = false) (he : base.TimeRange.End.IsZero = false) :
    ∃ cb, qb.applyBaseFilters newConditionBuilder base = (cb, none) ∧
      Extends (timeBuilder base) cb := by
  unfold QueryBuilder.applyBaseFilters
  rw [if_neg (by simp [hs, he])]
  refine ⟨_, rfl, ?_⟩
  have h0 : newConditionBuilder.add "timestamp BETWEEN ? AND ?"
      [Arg.time base.TimeRange.Start.UTC, Arg.time base.TimeRange.End.UTC] = timeBuilder base := by
    simp [conditionBuilder.add, newConditionBuilder, timeBuilder]
  simp only [h0]
  have e0 := Extends.refl (timeBuilder base)
  have e1 := Extends.ite (base.SearchPhrase ≠ "")
    (e0.add_right "positionCaseInsensitive(log, ?) > 0" [Arg.str base.SearchPhrase]) e0
  have e2 := Extends.ite (base.LogLevels.length > 0)
    (e1.addIn_right qb "log_level" base.LogLevels) e1
  have e3 := Extends.ite (base.Namespace ≠ "")
    (e2.add_right "namespace = ?" [Arg.str base.Namespace]) e2
  have e4 := Extends.ite (base.Versions.length > 0)
    (e3.addIn_right qb "version" base.Versions) e3
  have e5 := Extends.ite (base.VersionIDs.length > 0)
    (e4.addIn_right qb "version_id" base.VersionIDs) e4
  exact Extends.ite (base.LogType ≠ "") (e5.add_right "log_type = ?" [Arg.str base.LogType]) e5

theorem NewQueryBuilder_maxLimit_ge (cfg : ClickStackConfig) :
    2000 ≤ (NewQueryBuilder cfg).maxLimit := by
  unfold NewQueryBuilder
  simp only
  split_ifs with h
  · exact le_of_lt h.2
  · exact le_refl _

theorem assembleLogQuery_ok (qb : QueryBuilder) (cb : conditionBuilder) (o : String) (l : Int)
    (h : qb.logTable ≠ "") :
    qb.assembleLogQuery cb o l =
      ⟨logSelect ++ qb.logTable ++ "\nWHERE " ++ cb.whereClause ++
        "\nORDER BY timestamp " ++ qb.order o ++ "\nLIMIT ?",
        some (cb.args ++ [Arg.int l]), none⟩ := by
  unfold QueryBuilder.assembleLogQuery
  rw [if_neg h]

theorem assembleLogQuery_noTable (qb : QueryBuilder) (cb : conditionBuilder) (o : String)
    (l : Int) (h : qb.logTable = "") :
    qb.assembleLogQuery cb o l = ⟨"", none, some "log table is not configured"⟩ := by
  unfold QueryBuilder.assembleLogQuery
  rw [if_pos h]

theorem whereClause_contains {cb : conditionBuilder} {c : String} (h : c ∈ cb.clauses) :
    stringsContains cb.whereClause c := by
  unfold conditionBuilder.whereClause
  have hne : cb.clauses.length ≠ 0 := by
    intro h0
    rw [List.length_eq_zero] at h0
    rw [h0] at h
    cases h
  rw [if_neg hne]
  exact stringsContains_join _ h

theorem assembleLogQuery_contains_clause (qb : QueryBuilder) {cb : conditionBuilder}
    (o : String) (l : Int) {c : String} (ht : qb.logTable ≠ "") (h : c ∈ cb.clauses) :
    stringsContains (qb.assembleLogQuery cb o l).sql c := by
  rw [assembleLogQuery_ok qb cb o l ht]
  exact stringsContains_append_left _ (stringsContains_append_left _
    (stringsContains_append_left _ (stringsContains_append_right _ (whereClause_contains h))))

theorem logSelect_eq : logSelect = "SELECT\n    timestamp,\n    log,\n    log_level,\n    component_id,\n    environment_id,\n    project_id,\n    version,\n    version_id,\n    namespace,\n    pod_id,\n    container_name,\n    labels_json,\n    count() OVER () AS total_count\n" ++ "FROM " := by
  rfl

theorem assembleLogQuery_contains_from (qb : QueryBuilder) (cb : conditionBuilder)
    (o : String) (l : Int) (ht : qb.logTable ≠ "") :
    stringsContains (qb.assembleLogQuery cb o l).sql ("FROM " ++ qb.logTable) := by
  rw [assembleLogQuery_ok qb cb o l ht, logSelect_eq, String.append_assoc _ "FROM "]
  exact stringsContains_append_left _ (stringsContains_append_left _
    (stringsContains_append_left _ (stringsContains_append_left _
    (stringsContains_append_left _ (stringsContains_append_right _ (stringsContains_refl _))))))

/-! ## Outcomes of the entry points -/

theorem rejected_mk (e : String) : Rejected ⟨"", none, some e⟩ :=
  ⟨by simp, rfl, rfl⟩

theorem componentLogs_zero (qb : QueryBuilder) (q : ComponentLogQuery)
    (h : q.BaseLogQuery.TimeRange.Start.IsZero = true ∨ q.BaseLogQuery.TimeRange.End.IsZero = true) :
    Rejected (qb.ComponentLogs q) := by
  unfold QueryBuilder.ComponentLogs
  by_cases hid : q.ComponentID = ""
  · rw [if_pos hid]
    exact rejected_mk _
  · rw [if_neg hid, applyBaseFilters_zero qb _ _ h]
    exact rejected_mk _

theorem projectLogs_zero (qb : QueryBuilder) (q : ProjectLogQuery)
    (h : q.BaseLogQuery.TimeRange.Start.IsZero = true ∨ q.BaseLogQuery.TimeRange.End.IsZero = true) :
    Rejected (qb.ProjectLogs q) := by
  unfold QueryBuilder.ProjectLogs
  by_cases hid : q.ProjectID = ""
  · rw [if_pos hid]
    exact rejected_mk _
  · rw [if_neg hid, applyBaseFilters_zero qb _ _ h]
    exact rejected_mk _

theorem gatewayLogs_zero (qb : QueryBuilder) (q : GatewayLogQuery)
    (h : q.BaseLogQuery.TimeRange.Start.IsZero = true ∨ q.BaseLogQuery.TimeRange.End.IsZero = true) :
    Rejected (qb.GatewayLogs q) := by
  unfold QueryBuilder.GatewayLogs
  by_cases hid : q.OrganizationID = ""
  · rw [if_pos hid]
    exact rejected_mk _
  · rw [if_neg hid, applyBaseFilters_zero qb _ _ h]
    exact rejected_mk _

theorem organizationLogs_zero (qb : QueryBuilder) (q : OrganizationLogQuery)
    (h : q.BaseLogQuery.TimeRange.Start.IsZero = true ∨ q.BaseLogQuery.TimeRange.End.IsZero = true) :
    Rejected (qb.OrganizationLogs q) := by
  unfold QueryBuilder.OrganizationLogs
  by_cases hid : q.OrganizationID = ""
  · rw [if_pos hid]
    exact rejected_mk _
  · rw [if_neg hid, applyBaseFilters_zero qb _ _ h]
    exact rejected_mk _

theorem componentLogs_ok (qb : QueryBuilder) (q : ComponentLogQuery)
    (hid : q.ComponentID ≠ "")
    (hs : q.BaseLogQuery.TimeRange.Start.IsZero = false)
    (he : q.BaseLogQuery.TimeRange.End.IsZero = false) :
    ∃ cb, Extends (timeBuilder q.BaseLogQuery) cb ∧
      qb.ComponentLogs q = qb.assembleLogQuery cb q.BaseLogQuery.SortOrder
        (qb.resolveLimit q.BaseLogQuery.Limit) := by
  obtain ⟨cb0, h0, e0⟩ := applyBaseFilters_ok qb q.BaseLogQuery hs he
  unfold QueryBuilder.ComponentLogs
  rw [if_neg hid, h0]
  refine ⟨_, ?_, rfl⟩
  have e1 := e0.add_right "component_id = ?" [Arg.str q.ComponentID]
  have e2 := Extends.ite (q.EnvironmentID ≠ "")
    (e1.add_right "environment_id = ?" [Arg.str q.EnvironmentID]) e1
  have e3 := Extends.ite (q.BuildID ≠ "") (e2.add_right "build_id = ?" [Arg.str q.BuildID]) e2
  exact Extends.ite (q.BuildUUID ≠ "") (e3.add_right "build_uuid = ?" [Arg.str q.BuildUUID]) e3

theorem projectLogs_ok (qb : QueryBuilder) (q : ProjectLogQuery)
    (hid : q.ProjectID ≠ "")
    (hs : q.BaseLogQuery.TimeRange.Start.IsZero = false)
    (he : q.BaseLogQuery.TimeRange.End.IsZero = false) :
    ∃ cb, Extends (timeBuilder q.BaseLogQuery) cb ∧
      qb.ProjectLogs q = qb.assembleLogQuery cb q.BaseLogQuery.SortOrder
        (qb.resolveLimit q.BaseLogQuery.Limit) := by
  obtain ⟨cb0, h0, e0⟩ := applyBaseFilters_ok qb q.BaseLogQuery hs he
  unfold QueryBuilder.ProjectLogs
  rw [if_neg hid, h0]
  refine ⟨_, ?_, rfl⟩
  have e1 := e0.add_right "project_id = ?" [Arg.str q.ProjectID]
  have e2 := Extends.ite (q.EnvironmentID ≠ "")
    (e1.add_right "environment_id = ?" [Arg.str q.EnvironmentID]) e1
  exact Extends.ite (q.ComponentIDs.length > 0)
    (e2.addIn_right qb "component_id" q.ComponentIDs) e2

theorem gatewayLogs_ok (qb : QueryBuilder) (q : GatewayLogQuery)
    (hid : q.OrganizationID ≠ "")
    (hs : q.BaseLogQuery.TimeRange.Start.IsZero = false)
    (he : q.BaseLogQuery.TimeRange.End.IsZero = false) :
    ∃ cb, Extends (timeBuilder q.BaseLogQuery) cb ∧
      qb.GatewayLogs q = qb.assembleLogQuery cb q.BaseLogQuery.SortOrder
        (qb.resolveLimit q.BaseLogQuery.Limit) := by
  obtain ⟨cb0, h0, e0⟩ := applyBaseFilters_ok qb q.BaseLogQuery hs he
  unfold QueryBuilder.GatewayLogs
  rw [if_neg hid, h0]
  refine ⟨_, ?_, rfl⟩
  have e1 := e0.add_right "organization_id = ?" [Arg.str q.OrganizationID]
  have e2 := Extends.ite (q.GatewayVHosts.length > 0)
    (e1.addIn_right qb "gateway_vhost" q.GatewayVHosts) e1
  exact Extends.ite (q.APIIDToVersionMap.length > 0) (e2.add_right _ _) e2

theorem organizationLogs_ok (qb : QueryBuilder) (q : OrganizationLogQuery)
    (hid : q.OrganizationID ≠ "")
    (hs : q.BaseLogQuery.TimeRange.Start.IsZero = false)
    (he : q.BaseLogQuery.TimeRange.End.IsZero = false) :
    ∃ cb, Extends (timeBuilder q.BaseLogQuery) cb ∧
      qb.OrganizationLogs q = qb.assembleLogQuery cb q.BaseLogQuery.SortOrder
        (qb.resolveLimit q.BaseLogQuery.Limit) := by
  obtain ⟨cb0, h0, e0⟩ := applyBaseFilters_ok qb q.BaseLogQuery hs he
  unfold QueryBuilder.OrganizationLogs
  rw [if_neg hid, h0]
  refine ⟨_, ?_, rfl⟩
  have e1 := e0.add_right "organization_id = ?" [Arg.str q.OrganizationID]
  have e2 := Extends.ite (q.EnvironmentID ≠ "")
    (e1.add_right "environment_id = ?" [Arg.str q.EnvironmentID]) e1
  exact Extends.ite (q.PodLabels.length > 0) (Extends.foldl_podLabel _ _ e2) e2

theorem resolveLimit_bounds (qb : QueryBuilder) (x : Int) (h : 100 ≤ qb.maxLimit) :
    1 ≤ qb.resolveLimit x ∧ qb.resolveLimit x ≤ qb.maxLimit := by
  unfold QueryBuilder.resolveLimit
  simp only
  split_ifs <;> omega

theorem assembleLogQuery_limitBounded (qb : QueryBuilder) (cb : conditionBuilder) (o : String)
    (x : Int) (hmax : 100 ≤ qb.maxLimit)
    (herr : (qb.assembleLogQuery cb o (qb.resolveLimit x)).err = none) :
    LimitBounded qb (qb.assembleLogQuery cb o (qb.resolveLimit x)) := by
  by_cases ht : qb.logTable = ""
  · rw [assembleLogQuery_noTable qb cb o _ ht] at herr
    simp at herr
  · rw [assembleLogQuery_ok qb cb o _ ht]
    exact ⟨_, _, rfl, by simp, (resolveLimit_bounds qb x hmax).1,
      (resolveLimit_bounds qb x hmax).2⟩

theorem rejected_err {r : BuildResult} (h : Rejected r) (herr : r.err = none) : False :=
  h.1 herr

theorem isZero_cases (s e : Time) :
    (s.IsZero = true ∨ e.IsZero = true) ∨ (s.IsZero = false ∧ e.IsZero = false) := by
  cases s.IsZero <;> cases e.IsZero <;> simp

theorem componentLogs_noId (qb : QueryBuilder) (q : ComponentLogQuery) (h : q.ComponentID = "") :
    Rejected (qb.ComponentLogs q) := by
  unfold QueryBuilder.ComponentLogs
  rw [if_pos h]
  exact rejected_mk _

theorem projectLogs_noId (qb : QueryBuilder) (q : ProjectLogQuery) (h : q.ProjectID = "") :
    Rejected (qb.ProjectLogs q) := by
  unfold QueryBuilder.ProjectLogs
  rw [if_pos h]
  exact rejected_mk _

theorem gatewayLogs_noId (qb : QueryBuilder) (q : GatewayLogQuery) (h : q.OrganizationID = "") :
    Rejected (qb.GatewayLogs q) := by
  unfold QueryBuilder.GatewayLogs
  rw [if_pos h]
  exact rejected_mk _

theorem organizationLogs_noId (qb : QueryBuilder) (q : OrganizationLogQuery)
    (h : q.OrganizationID = "") : Rejected (qb.OrganizationLogs q) := by
  unfold QueryBuilder.OrganizationLogs
  rw [if_pos h]
  exact rejected_mk _

theorem componentTraces_zero (qb : QueryBuilder) (q : ComponentTraceQuery)
    (h : q.TimeRange.Start.IsZero = true ∨ q.TimeRange.End.IsZero = true) :
    Rejected (qb.ComponentTraces q) := by
  unfold QueryBuilder.ComponentTraces
  by_cases hn : q.ServiceName = ""
  · rw [if_pos hn]
    exact rejected_mk _
  · rw [if_neg hn, if_pos (by simpa using h)]
    exact rejected_mk _

theorem costReport_zero (qb : QueryBuilder) (q : CostReportQuery)
    (h : q.Start.IsZero = true ∨ q.End.IsZero = true) : Rejected (qb.CostReport q) := by
  unfold QueryBuilder.CostReport
  by_cases ht : qb.logTable = ""
  · rw [if_pos ht]
    exact rejected_mk _
  · rw [if_neg ht, if_pos (by simpa using h)]
    exact rejected_mk _

theorem componentTraces_ok (qb : QueryBuilder) (q : ComponentTraceQuery)
    (hn : q.ServiceName ≠ "") (hs : q.TimeRange.Start.IsZero = false)
    (he : q.TimeRange.End.IsZero = false) (ht : qb.traceTable ≠ "") :
    qb.ComponentTraces q =
      ⟨traceSelect ++ qb.traceTable ++ traceTail,
        some [Arg.str q.ServiceName, Arg.time q.TimeRange.Start.UTC,
          Arg.time q.TimeRange.End.UTC,
          Arg.int (if (if q.Limit ≤ 0 then 500 else q.Limit) > qb.maxLimit then qb.maxLimit
            else (if q.Limit ≤ 0 then 500 else q.Limit))], none⟩ := by
  unfold QueryBuilder.ComponentTraces
  rw [if_neg hn, if_neg (by simp [hs, he]), if_neg ht]

theorem costReport_ok (qb : QueryBuilder) (q : CostReportQuery)
    (ht : qb.logTable ≠ "") (hs : q.Start.IsZero = false) (he : q.End.IsZero = false) :
    qb.CostReport q =
      ⟨costSelect ++ qb.logTable ++ costTail,
        some [Arg.time q.Start.UTC, Arg.time q.End.UTC], none⟩ := by
  unfold QueryBuilder.CostReport
  rw [if_neg ht, if_neg (by simp [hs, he])]

/-! ## Claims on the entry points -/

/-- C1. With a configured log table, a component log query with a component id, an
environment id, a non-zero window and no other filter succeeds; its SQL text contains
`component_id = ?` and `FROM <logTable>`; its arguments are exactly the UTC start, the UTC
end, the component id, the environment id and the resolved limit, in that order. On a
builder made by `NewQueryBuilder`, component `comp-1`, environment `dev` and limit 50 give
the arguments start, end, `comp-1`, `dev`, 50. -/
theorem componentLogs_scenarioA (qb : QueryBuilder) (q : ComponentLogQuery)
    (hTable : qb.logTable ≠ "")
    (hComp : q.ComponentID ≠ "") (hEnv : q.EnvironmentID ≠ "")
    (hStart : q.BaseLogQuery.TimeRange.Start.IsZero = false)
    (hEnd : q.BaseLogQuery.TimeRange.End.IsZero = false)
    (hSearch : q.BaseLogQuery.SearchPhrase = "") (hLevels : q.BaseLogQuery.LogLevels = [])
    (hNs : q.BaseLogQuery.Namespace = "") (hVers : q.BaseLogQuery.Versions = [])
    (hVids : q.BaseLogQuery.VersionIDs = []) (hType : q.BaseLogQuery.LogType = "")
    (hBuild : q.BuildID = "") (hUUID : q.BuildUUID = "") :
    (qb.ComponentLogs q).err = none ∧
    stringsContains (qb.ComponentLogs q).sql "component_id = ?" ∧
    stringsContains (qb.ComponentLogs q).sql ("FROM " ++ qb.logTable) ∧
    (qb.ComponentLogs q).args =
      some [Arg.time q.BaseLogQuery.TimeRange.Start.UTC, Arg.time q.BaseLogQuery.TimeRange.End.UTC,
        Arg.str q.ComponentID, Arg.str q.EnvironmentID,
        Arg.int (qb.resolveLimit q.BaseLogQuery.Limit)] ∧
    (∀ cfg, qb = NewQueryBuilder cfg → q.ComponentID = "comp-1" → q.EnvironmentID = "dev" →
      q.BaseLogQuery.Limit = 50 →
      (qb.ComponentLogs q).args =
        some [Arg.time q.BaseLogQuery.TimeRange.Start.UTC,
          Arg.time q.BaseLogQuery.TimeRange.End.UTC,
          Arg.str "comp-1", Arg.str "dev", Arg.int 50]) := by
  have hEq : qb.ComponentLogs q = qb.assembleLogQuery
      { clauses := ["timestamp BETWEEN ? AND ?", "component_id = ?", "environment_id = ?"],
        args := [Arg.time q.BaseLogQuery.TimeRange.Start.UTC,
          Arg.time q.BaseLogQuery.TimeRange.End.UTC,
          Arg.str q.ComponentID, Arg.str q.EnvironmentID] }
      q.BaseLogQuery.SortOrder (qb.resolveLimit q.BaseLogQuery.Limit) := by
    simp [QueryBuilder.ComponentLogs, QueryBuilder.applyBaseFilters, hComp, hEnv, hStart, hEnd,
      hSearch, hLevels, hNs, hVers, hVids, hType, hBuild, hUUID, conditionBuilder.add,
      newConditionBuilder]
  have hArgs : (qb.ComponentLogs q).args =
      some [Arg.time q.BaseLogQuery.TimeRange.Start.UTC, Arg.time q.BaseLogQuery.TimeRange.End.UTC,
        Arg.str q.ComponentID, Arg.str q.EnvironmentID,
        Arg.int (qb.resolveLimit q.BaseLogQuery.Limit)] := by
    rw [hEq, assembleLogQuery_ok qb _ _ _ hTable]
    rfl
  refine ⟨?_, ?_, ?_, hArgs, ?_⟩
  · rw [hEq, assembleLogQuery_ok qb _ _ _ hTable]
  · rw [hEq]
    exact assembleLogQuery_contains_clause qb _ _ hTable (by simp)
  · rw [hEq]
    exact assembleLogQuery_contains_from qb _ _ _ hTable
  · intro cfg hcfg hc hv hl
    rw [hArgs, hc, hv, hl]
    have hmax : 2000 ≤ qb.maxLimit := hcfg ▸ NewQueryBuilder_maxLimit_ge cfg
    have : qb.resolveLimit 50 = 50 := by
      unfold QueryBuilder.resolveLimit
      simp only
      split_ifs <;> omega
    rw [this]

/-- C1, at the query of scenario A on the builder of the source's test: the arguments are
the UTC start, the UTC end, `comp-1`, `dev` and 50. -/
theorem componentLogs_scenarioA_witness :
    (testBuilder.ComponentLogs scenarioA).err = none ∧
    stringsContains (testBuilder.ComponentLogs scenarioA).sql "component_id = ?" ∧
    stringsContains (testBuilder.ComponentLogs scenarioA).sql "FROM telemetry.logs_mv" ∧
    (testBuilder.ComponentLogs scenarioA).args =
      some [Arg.time sampleStart.UTC, Arg.time sampleEnd.UTC, Arg.str "comp-1", Arg.str "dev",
        Arg.int 50] :=
  have h := componentLogs_scenarioA testBuilder scenarioA (by decide) (by decide) (by decide)
    (by decide) (by decide) rfl rfl rfl rfl rfl rfl rfl rfl
  ⟨h.1, h.2.1, h.2.2.1, h.2.2.2.2 _ rfl rfl rfl rfl⟩

/-- C2. Each of the four log builders rejects a query whose required identifying field
(component id, project id, organization id, organization id) is the empty string: an
error is returned, the SQL text is empty and the argument slice is nil, whatever the
other fields and the builder are. -/
theorem log_builders_require_id (qb : QueryBuilder) :
    (∀ q : ComponentLogQuery, q.ComponentID = "" → Rejected (qb.ComponentLogs q)) ∧
    (∀ q : ProjectLogQuery, q.ProjectID = "" → Rejected (qb.ProjectLogs q)) ∧
    (∀ q : GatewayLogQuery, q.OrganizationID = "" → Rejected (qb.GatewayLogs q)) ∧
    (∀ q : OrganizationLogQuery, q.OrganizationID = "" → Rejected (qb.OrganizationLogs q)) :=
  ⟨componentLogs_noId qb, projectLogs_noId qb, gatewayLogs_noId qb, organizationLogs_noId qb⟩

/-- C4. On every entry point, a query whose start or end is the zero time is rejected:
an error is returned, the SQL text is empty and the argument slice is nil, whatever the
other fields and the builder are. -/
theorem zero_time_rejected (qb : QueryBuilder) :
    (∀ q : ComponentLogQuery,
      q.BaseLogQuery.TimeRange.Start.IsZero = true ∨ q.BaseLogQuery.TimeRange.End.IsZero = true →
      Rejected (qb.ComponentLogs q)) ∧
    (∀ q : ProjectLogQuery,
      q.BaseLogQuery.TimeRange.Start.IsZero = true ∨ q.BaseLogQuery.TimeRange.End.IsZero = true →
      Rejected (qb.ProjectLogs q)) ∧
    (∀ q : GatewayLogQuery,
      q.BaseLogQuery.TimeRange.Start.IsZero = true ∨ q.BaseLogQuery.TimeRange.End.IsZero = true →
      Rejected (qb.GatewayLogs q)) ∧
    (∀ q : OrganizationLogQuery,
      q.BaseLogQuery.TimeRange.Start.IsZero = true ∨ q.BaseLogQuery.TimeRange.End.IsZero = true →
      Rejected (qb.OrganizationLogs q)) ∧
    (∀ q : ComponentTraceQuery,
      q.TimeRange.Start.IsZero = true ∨ q.TimeRange.End.IsZero = true →
      Rejected (qb.ComponentTraces q)) ∧
    (∀ q : CostReportQuery, q.Start.IsZero = true ∨ q.End.IsZero = true →
      Rejected (qb.CostReport q)) :=
  ⟨componentLogs_zero qb, projectLogs_zero qb, gatewayLogs_zero qb, organizationLogs_zero qb,
    componentTraces_zero qb, costReport_zero qb⟩

/-- C5. For every configuration and every integer `x`, with `b = NewQueryBuilder cfg`:
`resolveLimit x` is 100 when `x ≤ 0`, is the ceiling `b.maxLimit` when `x` exceeds it, and
is `x` itself when `1 ≤ x ≤ b.maxLimit`. -/
theorem resolveLimit_spec (cfg : ClickStackConfig) (x : Int) :
    (x ≤ 0 → (NewQueryBuilder cfg).resolveLimit x = 100) ∧
    (x > (NewQueryBuilder cfg).maxLimit →
      (NewQueryBuilder cfg).resolveLimit x = (NewQueryBuilder cfg).maxLimit) ∧
    (1 ≤ x → x ≤ (NewQueryBuilder cfg).maxLimit → (NewQueryBuilder cfg).resolveLimit x = x) := by
  have hmax := NewQueryBuilder_maxLimit_ge cfg
  unfold QueryBuilder.resolveLimit
  simp only
  refine ⟨?_, ?_, ?_⟩
  · intro h
    split_ifs <;> omega
  · intro h
    split_ifs <;> omega
  · intro h₁ h₂
    split_ifs <;> omega

/-- C6. On a builder made by `NewQueryBuilder`, every successful result of the four log
builders and of the component traces, for any requested limit, ends its arguments with an
integer `L` such that `1 ≤ L ≤ maxLimit`. -/
theorem limit_argument_bounded (cfg : ClickStackConfig) :
    (∀ q : ComponentLogQuery, ((NewQueryBuilder cfg).ComponentLogs q).err = none →
      LimitBounded (NewQueryBuilder cfg) ((NewQueryBuilder cfg).ComponentLogs q)) ∧
    (∀ q : ProjectLogQuery, ((NewQueryBuilder cfg).ProjectLogs q).err = none →
      LimitBounded (NewQueryBuilder cfg) ((NewQueryBuilder cfg).ProjectLogs q)) ∧
    (∀ q : GatewayLogQuery, ((NewQueryBuilder cfg).GatewayLogs q).err = none →
      LimitBounded (NewQueryBuilder cfg) ((NewQueryBuilder cfg).GatewayLogs q)) ∧
    (∀ q : OrganizationLogQuery, ((NewQueryBuilder cfg).OrganizationLogs q).err = none →
      LimitBounded (NewQueryBuilder cfg) ((NewQueryBuilder cfg).OrganizationLogs q)) ∧
    (∀ q : ComponentTraceQuery, ((NewQueryBuilder cfg).ComponentTraces q).err = none →
      LimitBounded (NewQueryBuilder cfg) ((NewQueryBuilder cfg).ComponentTraces q)) := by
  have hmax := NewQueryBuilder_maxLimit_ge cfg
  have h100 : 100 ≤ (NewQueryBuilder cfg).maxLimit := by omega
  generalize NewQueryBuilder cfg = qb at hmax h100 ⊢
  refine ⟨?_, ?_, ?_, ?_, ?_⟩
  · intro q herr
    by_cases hid : q.ComponentID = ""
    · exact (rejected_err (componentLogs_noId qb q hid) herr).elim
    rcases isZero_cases q.BaseLogQuery.TimeRange.Start q.BaseLogQuery.TimeRange.End with hz | hz
    · exact (rejected_err (componentLogs_zero qb q hz) herr).elim
    obtain ⟨cb, -, hEq⟩ := componentLogs_ok qb q hid hz.1 hz.2
    rw [hEq] at herr ⊢
    exact assembleLogQuery_limitBounded qb cb _ _ h100 herr
  · intro q herr
    by_cases hid : q.ProjectID = ""
    · exact (rejected_err (projectLogs_noId qb q hid) herr).elim
    rcases isZero_cases q.BaseLogQuery.TimeRange.Start q.BaseLogQuery.TimeRange.End with hz | hz
    · exact (rejected_err (projectLogs_zero qb q hz) herr).elim
    obtain ⟨cb, -, hEq⟩ := projectLogs_ok qb q hid hz.1 hz.2
    rw [hEq] at herr ⊢
    exact assembleLogQuery_limitBounded qb cb _ _ h100 herr
  · intro q herr
    by_cases hid : q.OrganizationID = ""
    · exact (rejected_err (gatewayLogs_noId qb q hid) herr).elim
    rcases isZero_cases q.BaseLogQuery.TimeRange.Start q.BaseLogQuery.TimeRange.End with hz | hz
    · exact (rejected_err (gatewayLogs_zero qb q hz) herr).elim
    obtain ⟨cb, -, hEq⟩ := gatewayLogs_ok qb q hid hz.1 hz.2
    rw [hEq] at herr ⊢
    exact assembleLogQuery_limitBounded qb cb _ _ h100 herr
  · intro q herr
    by_cases hid : q.OrganizationID = ""
    · exact (rejected_err (organizationLogs_noId qb q hid) herr).elim
    rcases isZero_cases q.BaseLogQuery.TimeRange.Start q.BaseLogQuery.TimeRange.End with hz | hz
    · exact (rejected_err (organizationLogs_zero qb q hz) herr).elim
    obtain ⟨cb, -, hEq⟩ := organizationLogs_ok qb q hid hz.1 hz.2
    rw [hEq] at herr ⊢
    exact assembleLogQuery_limitBounded qb cb _ _ h100 herr
  · intro q herr
    by_cases hn : q.ServiceName = ""
    · unfold QueryBuilder.ComponentTraces at herr
      rw [if_pos hn] at herr
      simp at herr
    rcases isZero_cases q.TimeRange.Start q.TimeRange.End with hz | hz
    · exact (rejected_err (componentTraces_zero qb q hz) herr).elim
    by_cases ht : qb.traceTable = ""
    · unfold QueryBuilder.ComponentTraces at herr
      rw [if_neg hn, if_neg (by simp [hz.1, hz.2]), if_pos ht] at herr
      simp at herr
    rw [componentTraces_ok qb q hn hz.1 hz.2 ht]
    refine ⟨_, _, rfl, rfl, ?_, ?_⟩ <;> split_ifs <;> omega

/-! ## Maps and sorted keys -/

theorem sortedKeys_perm (m : GoMap) : (sortedKeys m).Perm (GoMap.keys m) :=
  List.perm_insertionSort keyLE _

theorem sortedKeys_sorted (m : GoMap) : (sortedKeys m).Sorted keyLE :=
  List.sorted_insertionSort keyLE _

theorem sortedKeys_nodup {m : GoMap} (h : GoMap.WF m) : (sortedKeys m).Nodup :=
  (sortedKeys_perm m).nodup_iff.2 h

theorem sortedKeys_strict {m : GoMap} (h : GoMap.WF m) :
    (sortedKeys m).Sorted (fun a b => a.data < b.data) := by
  have hp : (sortedKeys m).Pairwise (fun a b => keyLE a b ∧ a ≠ b) :=
    (sortedKeys_sorted m).and (sortedKeys_nodup h)
  exact hp.imp fun {a b} hab =>
    lt_of_le_of_ne hab.1 fun hd => hab.2 (String.ext hd)

theorem sortedKeys_congr {m₁ m₂ : GoMap} (h : (GoMap.keys m₁).Perm (GoMap.keys m₂)) :
    sortedKeys m₁ = sortedKeys m₂ :=
  List.eq_of_perm_of_sorted (((sortedKeys_perm m₁).trans h).trans (sortedKeys_perm m₂).symm)
    (sortedKeys_sorted m₁) (sortedKeys_sorted m₂)

theorem sortedKeys_length (m : GoMap) : (sortedKeys m).length = m.length := by
  rw [(sortedKeys_perm m).length_eq, GoMap.keys, List.length_map]

theorem lookup_of_not_mem {m : GoMap} {k : String} (h : k ∉ GoMap.keys m) :
    m.lookup k = none := by
  induction m with
  | nil => rfl
  | cons p t ih =>
    obtain ⟨k', v'⟩ := p
    have hk : k ≠ k' := fun e => h (by simp [GoMap.keys, e])
    have ht : k ∉ GoMap.keys t := fun e => h (by
      simp only [GoMap.keys, List.map_cons, List.mem_cons]
      exact Or.inr e)
    rw [List.lookup_cons, show (k == k') = false from by simpa using hk]
    exact ih ht

theorem lookup_of_mem {m : GoMap} {k v : String} (hwf : GoMap.WF m) (h : (k, v) ∈ m) :
    m.lookup k = some v := by
  induction m with
  | nil => cases h
  | cons p t ih =>
    obtain ⟨k', v'⟩ := p
    have hnd : k' ∉ GoMap.keys t ∧ GoMap.WF t := by
      simpa [GoMap.WF, GoMap.keys] using hwf
    rcases List.mem_cons.1 h with he | ht
    · cases he
      simp
    · have hk : k ≠ k' := by
        intro e
        subst e
        exact hnd.1 (List.mem_map_of_mem Prod.fst ht)
      rw [List.lookup_cons, show (k == k') = false from by simpa using hk]
      exact ih hnd.2 ht

theorem GoMap.get_perm {m₁ m₂ : GoMap} (hwf : GoMap.WF m₂) (hp : m₁.Perm m₂) (k : String) :
    GoMap.get m₁ k = GoMap.get m₂ k := by
  have hwf₁ : GoMap.WF m₁ := ((hp.map Prod.fst).nodup_iff).2 hwf
  unfold GoMap.get
  by_cases hk : k ∈ GoMap.keys m₂
  · obtain ⟨⟨k', v⟩, hmem, hfst⟩ := List.mem_map.1 hk
    simp only at hfst
    subst hfst
    rw [lookup_of_mem hwf hmem, lookup_of_mem hwf₁ (hp.mem_iff.2 hmem)]
  · have hk₁ : k ∉ GoMap.keys m₁ := fun e => hk (((hp.map Prod.fst).mem_iff).1 e)
    rw [lookup_of_not_mem hk, lookup_of_not_mem hk₁]

theorem gatewayStep_perm {m₁ m₂ : GoMap} (hwf : GoMap.WF m₂) (hp : m₁.Perm m₂) :
    gatewayStep m₁ = gatewayStep m₂ := by
  funext acc apiID
  unfold gatewayStep
  rw [GoMap.get_perm hwf hp apiID]

theorem podLabelStep_perm {m₁ m₂ : GoMap} (hwf : GoMap.WF m₂) (hp : m₁.Perm m₂) :
    podLabelStep m₁ = podLabelStep m₂ := by
  funext cb k
  unfold podLabelStep
  rw [GoMap.get_perm hwf hp k]

/-- C7. The gateway and organization log builders do not depend on the order in which
a map is iterated: replacing the API-id-to-version map (resp. the pod-label map) of a
query by a map holding the same entries in another order leaves the whole result, SQL
text and argument sequence included, unchanged. -/
theorem map_order_deterministic (qb : QueryBuilder) :
    (∀ (q : GatewayLogQuery) (m : GoMap), GoMap.WF q.APIIDToVersionMap →
      m.Perm q.APIIDToVersionMap →
      qb.GatewayLogs { q with APIIDToVersionMap := m } = qb.GatewayLogs q) ∧
    (∀ (q : OrganizationLogQuery) (m : GoMap), GoMap.WF q.PodLabels →
      m.Perm q.PodLabels →
      qb.OrganizationLogs { q with PodLabels := m } = qb.OrganizationLogs q) := by
  constructor
  · intro q m hwf hp
    unfold QueryBuilder.GatewayLogs
    simp only [gatewayStep_perm hwf hp, sortedKeys_congr (hp.map Prod.fst), hp.length_eq]
  · intro q m hwf hp
    unfold QueryBuilder.OrganizationLogs
    simp only [podLabelStep_perm hwf hp, sortedKeys_congr (hp.map Prod.fst), hp.length_eq]

/-- C7, at two concrete maps visited in the opposite order. -/
theorem map_order_deterministic_witness :
    testBuilder.GatewayLogs
        { sampleGateway with APIIDToVersionMap := [("billing", ""), ("orders", "v2")] } =
      testBuilder.GatewayLogs sampleGateway ∧
    testBuilder.OrganizationLogs
        { sampleOrganization with PodLabels := [("app", "shop"), ("tier", "web")] } =
      testBuilder.OrganizationLogs sampleOrganization :=
  ⟨(map_order_deterministic testBuilder).1 sampleGateway _ (by decide)
      (List.Perm.swap _ _ _),
    (map_order_deterministic testBuilder).2 sampleOrganization _ (by decide)
      (List.Perm.swap _ _ _)⟩

/-! ## Exact effect of the builder steps -/

theorem ne_empty_of_length_pos {s : String} (h : 0 < s.length) : s ≠ "" := by
  intro e
  rw [e] at h
  exact absurd h (by decide)

theorem add_eq (cb : conditionBuilder) {clause : String} (args : List Arg)
    (h : clause ≠ "") :
    cb.add clause args = { clauses := cb.clauses ++ [clause], args := cb.args ++ args } := by
  unfold conditionBuilder.add
  rw [if_neg h]
  by_cases ha : args.length > 0
  · rw [if_pos ha]
  · rw [if_neg ha]
    have : args = [] := List.length_eq_zero.1 (by omega)
    rw [this, List.append_nil]

theorem inClause_ne_empty (column : String) (n : Nat) :
    column ++ " IN (" ++ placeholders n ++ ")" ≠ "" := by
  apply ne_empty_of_length_pos
  simp only [String.length_append]
  have : (")" : String).length = 1 := by decide
  omega

theorem addInClause_eq (qb : QueryBuilder) (cb : conditionBuilder) (column : String)
    {values : List String} (h : values ≠ []) :
    qb.addInClause cb column values =
      { clauses := cb.clauses ++ [column ++ " IN (" ++ placeholders values.length ++ ")"],
        args := cb.args ++ values.map Arg.str } := by
  unfold QueryBuilder.addInClause
  rw [if_neg (by simpa using h), add_eq _ _ (inClause_ne_empty _ _)]

theorem foldl_gatewayStep (m : GoMap) (keys : List String) :
    ∀ acc : List String × List Arg,
      keys.foldl (gatewayStep m) acc =
        (acc.1 ++ keys.map (apiClause m), acc.2 ++ keys.flatMap (apiArgs m)) := by
  induction keys with
  | nil => intro acc; simp
  | cons k rest ih =>
    intro acc
    rw [List.foldl_cons, ih]
    unfold gatewayStep apiClause apiArgs
    by_cases hv : GoMap.get m k = ""
    · simp [hv]
    · simp [hv]

theorem podLabelClause_ne_empty (k : String) : podLabelClause k ≠ "" := by
  apply ne_empty_of_length_pos
  unfold podLabelClause
  simp only [String.length_append]
  have : ("') = ?" : String).length = 6 := by decide
  omega

theorem foldl_podLabelStep (m : GoMap) (keys : List String) :
    ∀ cb : conditionBuilder,
      keys.foldl (podLabelStep m) cb =
        { clauses := cb.clauses ++ keys.map podLabelClause,
          args := cb.args ++ keys.map fun k => Arg.str (GoMap.get m k) } := by
  induction keys with
  | nil => intro cb; simp
  | cons k rest ih =>
    intro cb
    rw [List.foldl_cons, ih]
    have hstep : podLabelStep m cb k =
        { clauses := cb.clauses ++ [podLabelClause k],
          args := cb.args ++ [Arg.str (GoMap.get m k)] } :=
      add_eq cb _ (podLabelClause_ne_empty k)
    rw [hstep]
    simp

theorem apiChain_ne_empty (cs : List String) : "(" ++ stringsJoin cs " OR " ++ ")" ≠ "" := by
  apply ne_empty_of_length_pos
  simp only [String.length_append]
  have : (")" : String).length = 1 := by decide
  omega

theorem assembleLogQuery_sql (qb : QueryBuilder) (cb : conditionBuilder) (o : String) (l : Int)
    (ht : qb.logTable ≠ "") (hc : cb.clauses ≠ []) :
    (qb.assembleLogQuery cb o l).sql =
      logSelect ++ qb.logTable ++ "\nWHERE " ++ stringsJoin cb.clauses " AND " ++
        "\nORDER BY timestamp " ++ qb.order o ++ "\nLIMIT ?" := by
  rw [assembleLogQuery_ok qb cb o l ht]
  unfold conditionBuilder.whereClause
  rw [if_neg (by simpa using hc)]

theorem gatewayLogs_eq (qb : QueryBuilder) (q : GatewayLogQuery)
    (hid : q.OrganizationID ≠ "")
    (hs : q.BaseLogQuery.TimeRange.Start.IsZero = false)
    (he : q.BaseLogQuery.TimeRange.End.IsZero = false)
    (hne : q.APIIDToVersionMap ≠ []) :
    qb.GatewayLogs q = qb.assembleLogQuery
      { clauses := gatewayLeadClauses qb q ++
          ["(" ++ stringsJoin ((sortedKeys q.APIIDToVersionMap).map
            (apiClause q.APIIDToVersionMap)) " OR " ++ ")"],
        args := gatewayLeadArgs qb q ++
          (sortedKeys q.APIIDToVersionMap).flatMap (apiArgs q.APIIDToVersionMap) }
      q.BaseLogQuery.SortOrder (qb.resolveLimit q.BaseLogQuery.Limit) := by
  obtain ⟨cb0, h0, -⟩ := applyBaseFilters_ok qb q.BaseLogQuery hs he
  have hlen : q.APIIDToVersionMap.length > 0 := List.length_pos.2 hne
  unfold QueryBuilder.GatewayLogs gatewayLeadClauses gatewayLeadArgs
  rw [if_neg hid, h0]
  simp only [if_pos hlen, foldl_gatewayStep, add_eq _ _ (apiChain_ne_empty _),
    add_eq _ _ (show "organization_id = ?" ≠ "" by decide), List.nil_append]
  by_cases hv : q.GatewayVHosts = []
  · simp [hv]
  · have hvl : q.GatewayVHosts.length > 0 := List.length_pos.2 hv
    simp only [if_pos hvl, if_neg hv, addInClause_eq qb _ _ hv]

/-- C9. For a valid gateway query with a non-empty API map there is a list `keys` holding
each API id once, in strictly ascending order, such that: the WHERE clause ends with one
parenthesised chain joining by ` OR ` one clause per id of `keys` in that order
(`(api_id = ?)` for an id with empty version, `(api_id = ? AND api_version = ?)`
otherwise), and the arguments are those of the base filters, the organization id and the
virtual hosts, then for each id of `keys` in order the id (followed by its version when
non-empty), then the limit. -/
theorem gatewayLogs_api_chain (qb : QueryBuilder) (q : GatewayLogQuery)
    (hTable : qb.logTable ≠ "") (hid : q.OrganizationID ≠ "")
    (hs : q.BaseLogQuery.TimeRange.Start.IsZero = false)
    (he : q.BaseLogQuery.TimeRange.End.IsZero = false)
    (hwf : GoMap.WF q.APIIDToVersionMap) (hne : q.APIIDToVersionMap ≠ []) :
    ∃ keys : List String,
      keys.Perm (GoMap.keys q.APIIDToVersionMap) ∧
      keys.Sorted (fun a b => a.data < b.data) ∧
      (qb.GatewayLogs q).err = none ∧
      (qb.GatewayLogs q).sql =
        logSelect ++ qb.logTable ++ "\nWHERE " ++
          stringsJoin (gatewayLeadClauses qb q ++
            ["(" ++ stringsJoin (keys.map (apiClause q.APIIDToVersionMap)) " OR " ++ ")"])
            " AND " ++
          "\nORDER BY timestamp " ++ qb.order q.BaseLogQuery.SortOrder ++ "\nLIMIT ?" ∧
      stringsContains (qb.GatewayLogs q).sql
        ("(" ++ stringsJoin (keys.map (apiClause q.APIIDToVersionMap)) " OR " ++ ")") ∧
      (qb.GatewayLogs q).args =
        some (gatewayLeadArgs qb q ++ keys.flatMap (apiArgs q.APIIDToVersionMap) ++
          [Arg.int (qb.resolveLimit q.BaseLogQuery.Limit)]) := by
  refine ⟨sortedKeys q.APIIDToVersionMap, sortedKeys_perm _, sortedKeys_strict hwf, ?_⟩
  rw [gatewayLogs_eq qb q hid hs he hne]
  refine ⟨?_, ?_, ?_, ?_⟩
  · rw [assembleLogQuery_ok qb _ _ _ hTable]
  · exact assembleLogQuery_sql qb _ _ _ hTable (by simp)
  · exact assembleLogQuery_contains_clause qb _ _ hTable (by simp)
  · rw [assembleLogQuery_ok qb _ _ _ hTable]

/-- C9, at a query with the API ids `orders` (version `v2`) and `billing` (no version),
visited in that order: the chain lists `billing` before `orders`. -/
theorem gatewayLogs_api_chain_witness :
    stringsContains (testBuilder.GatewayLogs sampleGateway).sql
      "((api_id = ?) OR (api_id = ? AND api_version = ?))" ∧
    (testBuilder.GatewayLogs sampleGateway).args =
      some [Arg.time sampleStart.UTC, Arg.time sampleEnd.UTC, Arg.str "org-1",
        Arg.str "gw.example", Arg.str "billing", Arg.str "orders", Arg.str "v2", Arg.int 50] := by
  obtain ⟨keys, hperm, hsorted, -, -, hsql, hargs⟩ :=
    gatewayLogs_api_chain testBuilder sampleGateway (by decide) (by decide) (by decide)
      (by decide) (by decide) (by decide)
  have hkeys : keys = ["billing", "orders"] := by
    have h₁ : (["billing", "orders"] : List String).Sorted (fun a b => a.data < b.data) := by
      decide
    have h₂ : (["billing", "orders"] : List String).Perm (GoMap.keys sampleGateway.APIIDToVersionMap) :=
      List.Perm.swap _ _ _
    haveI : IsAntisymm String (fun a b => a.data < b.data) :=
      ⟨fun _ _ h h' => absurd h (lt_asymm h')⟩
    exact List.eq_of_perm_of_sorted (hperm.trans h₂.symm) hsorted h₁
  subst hkeys
  exact ⟨hsql, hargs⟩

theorem podLabelClause_head (k : String) : (podLabelClause k).data.head? = some 'J' := by
  unfold podLabelClause
  rw [String.data_append, String.data_append]
  rfl

theorem ne_podLabelClause_of_head {c : String} {x : Char} (h : c.data.head? = some x)
    (hx : x ≠ 'J') (k : String) : c ≠ podLabelClause k := by
  intro e
  rw [e, podLabelClause_head] at h
  exact hx (Option.some.inj h).symm

theorem inClause_head (column rest₁ rest₂ rest₃ : String) {x : Char}
    (h : column.data.head? = some x) :
    (column ++ rest₁ ++ rest₂ ++ rest₃).data.head? = some x := by
  rw [String.data_append, String.data_append, String.data_append]
  cases hc : column.data with
  | nil => rw [hc] at h; cases h
  | cons a t => rw [hc] at h; simpa using h

theorem NoLabelClause.add {cb : conditionBuilder} (h : NoLabelClause cb) {clause : String}
    (args : List Arg) (hc : ∀ k, clause ≠ podLabelClause k) :
    NoLabelClause (cb.add clause args) := by
  unfold conditionBuilder.add
  split_ifs
  · exact h
  all_goals
    intro c hmem
    rcases List.mem_append.1 hmem with hm | hm
    · exact h c hm
    · rw [List.mem_singleton.1 hm]
      exact hc

theorem NoLabelClause.addIn {cb : conditionBuilder} (h : NoLabelClause cb) (qb : QueryBuilder)
    (column : String) (values : List String) {x : Char}
    (hcol : column.data.head? = some x) (hx : x ≠ 'J') :
    NoLabelClause (qb.addInClause cb column values) := by
  unfold QueryBuilder.addInClause
  split_ifs
  · exact h
  · exact h.add _ (ne_podLabelClause_of_head (inClause_head _ _ _ _ hcol) hx)

theorem NoLabelClause.branch {b c : conditionBuilder} (p : Prop) [Decidable p]
    (hb : NoLabelClause b) (hc : NoLabelClause c) : NoLabelClause (if p then b else c) := by
  split_ifs
  · exact hb
  · exact hc

theorem applyBaseFilters_noLabel (qb : QueryBuilder) (base : BaseLogQuery) :
    NoLabelClause (qb.applyBaseFilters newConditionBuilder base).1 := by
  have e : NoLabelClause newConditionBuilder := fun c hc => absurd hc (List.not_mem_nil c)
  unfold QueryBuilder.applyBaseFilters
  by_cases hz : (base.TimeRange.Start.IsZero || base.TimeRange.End.IsZero) = true
  · rw [if_pos hz]
    exact e
  rw [if_neg hz]
  have e0 := e.add [Arg.time base.TimeRange.Start.UTC, Arg.time base.TimeRange.End.UTC]
    (ne_podLabelClause_of_head (c := "timestamp BETWEEN ? AND ?") (x := 't') rfl (by decide))
  have e1 := NoLabelClause.branch (base.SearchPhrase ≠ "")
    (e0.add [Arg.str base.SearchPhrase]
      (ne_podLabelClause_of_head (c := "positionCaseInsensitive(log, ?) > 0") (x := 'p') rfl
        (by decide))) e0
  have e2 := NoLabelClause.branch (base.LogLevels.length > 0)
    (e1.addIn qb "log_level" base.LogLevels (x := 'l') rfl (by decide)) e1
  have e3 := NoLabelClause.branch (base.Namespace ≠ "")
    (e2.add [Arg.str base.Namespace]
      (ne_podLabelClause_of_head (c := "namespace = ?") (x := 'n') rfl (by decide))) e2
  have e4 := NoLabelClause.branch (base.Versions.length > 0)
    (e3.addIn qb "version" base.Versions (x := 'v') rfl (by decide)) e3
  have e5 := NoLabelClause.branch (base.VersionIDs.length > 0)
    (e4.addIn qb "version_id" base.VersionIDs (x := 'v') rfl (by decide)) e4
  exact NoLabelClause.branch (base.LogType ≠ "")
    (e5.add [Arg.str base.LogType]
      (ne_podLabelClause_of_head (c := "log_type = ?") (x := 'l') rfl (by decide))) e5

theorem organizationLogs_eq (qb : QueryBuilder) (q : OrganizationLogQuery)
    (hid : q.OrganizationID ≠ "")
    (hs : q.BaseLogQuery.TimeRange.Start.IsZero = false)
    (he : q.BaseLogQuery.TimeRange.End.IsZero = false)
    (hne : q.PodLabels ≠ []) :
    qb.OrganizationLogs q = qb.assembleLogQuery
      { clauses := organizationLeadClauses qb q ++ (sortedKeys q.PodLabels).map podLabelClause,
        args := organizationLeadArgs qb q ++
          (sortedKeys q.PodLabels).map fun k => Arg.str (GoMap.get q.PodLabels k) }
      q.BaseLogQuery.SortOrder (qb.resolveLimit q.BaseLogQuery.Limit) := by
  obtain ⟨cb0, h0, -⟩ := applyBaseFilters_ok qb q.BaseLogQuery hs he
  have hlen : q.PodLabels.length > 0 := List.length_pos.2 hne
  unfold QueryBuilder.OrganizationLogs organizationLeadClauses organizationLeadArgs
  rw [if_neg hid, h0]
  simp only [if_pos hlen, foldl_podLabelStep,
    add_eq _ _ (show "organization_id = ?" ≠ "" by decide)]
  by_cases hv : q.EnvironmentID = ""
  · simp [hv]
  · have hv' : q.EnvironmentID ≠ "" := hv
    simp only [if_pos hv', if_neg hv, add_eq _ _ (show "environment_id = ?" ≠ "" by decide)]

theorem organizationLeadClauses_noLabel (qb : QueryBuilder) (q : OrganizationLogQuery) :
    ∀ c ∈ organizationLeadClauses qb q, ∀ k, c ≠ podLabelClause k := by
  intro c hc
  unfold organizationLeadClauses at hc
  rcases List.mem_append.1 hc with h | h
  · rcases List.mem_append.1 h with h | h
    · exact applyBaseFilters_noLabel qb q.BaseLogQuery c h
    · rw [List.mem_singleton.1 h]
      exact ne_podLabelClause_of_head (x := 'o') rfl (by decide)
  · by_cases hv : q.EnvironmentID = ""
    · rw [if_pos hv] at h
      cases h
    · rw [if_neg hv] at h
      rw [List.mem_singleton.1 h]
      exact ne_podLabelClause_of_head (x := 'e') rfl (by decide)

/-- C10. For a valid organization query with a non-empty pod-label map there is a list
`keys` holding each label key once, in strictly ascending order, such that: the WHERE
clause joins by ` AND ` the base, organization and environment clauses (none of which is
a pod-label clause) followed by one clause
`JSONExtractString(labels_json, '<escaped key>') = ?` per key of `keys` in that order,
the escaped key being the key with every single quote replaced by a backslash and a
single quote; and the arguments are the base, organization and environment arguments,
then the label values in the order of `keys`, then the limit. -/
theorem organizationLogs_pod_labels (qb : QueryBuilder) (q : OrganizationLogQuery)
    (hTable : qb.logTable ≠ "") (hid : q.OrganizationID ≠ "")
    (hs : q.BaseLogQuery.TimeRange.Start.IsZero = false)
    (he : q.BaseLogQuery.TimeRange.End.IsZero = false)
    (hwf : GoMap.WF q.PodLabels) (hne : q.PodLabels ≠ []) :
    ∃ keys : List String,
      keys.Perm (GoMap.keys q.PodLabels) ∧
      keys.Sorted (fun a b => a.data < b.data) ∧
      (qb.OrganizationLogs q).err = none ∧
      (qb.OrganizationLogs q).sql =
        logSelect ++ qb.logTable ++ "\nWHERE " ++
          stringsJoin (organizationLeadClauses qb q ++ keys.map fun k =>
            "JSONExtractString(labels_json, '" ++ escapeJSONPath k ++ "') = ?") " AND " ++
          "\nORDER BY timestamp " ++ qb.order q.BaseLogQuery.SortOrder ++ "\nLIMIT ?" ∧
      (∀ c ∈ organizationLeadClauses qb q, ∀ k,
        c ≠ "JSONExtractString(labels_json, '" ++ escapeJSONPath k ++ "') = ?") ∧
      (∀ k ∈ keys, stringsContains (qb.OrganizationLogs q).sql
        ("JSONExtractString(labels_json, '" ++ escapeJSONPath k ++ "') = ?")) ∧
      (qb.OrganizationLogs q).args =
        some (organizationLeadArgs qb q ++ (keys.map fun k => Arg.str (GoMap.get q.PodLabels k)) ++
          [Arg.int (qb.resolveLimit q.BaseLogQuery.Limit)]) := by
  refine ⟨sortedKeys q.PodLabels, sortedKeys_perm _, sortedKeys_strict hwf, ?_⟩
  rw [organizationLogs_eq qb q hid hs he hne]
  refine ⟨?_, ?_, organizationLeadClauses_noLabel qb q, ?_, ?_⟩
  · rw [assembleLogQuery_ok qb _ _ _ hTable]
  · exact assembleLogQuery_sql qb _ _ _ hTable (by simp [organizationLeadClauses])
  · intro k hk
    exact assembleLogQuery_contains_clause qb _ _ hTable
      (List.mem_append_right _ (List.mem_map_of_mem podLabelClause hk))
  · rw [assembleLogQuery_ok qb _ _ _ hTable]

set_option maxRecDepth 100000 in
/-- C10, at a query with the pod labels `o'k` and `app`, visited in that order: the
clause of `app` precedes that of `o'k`, whose quote is escaped. -/
theorem organizationLogs_pod_labels_witness :
    stringsContains (testBuilder.OrganizationLogs sampleQuoted).sql
      "timestamp BETWEEN ? AND ? AND organization_id = ? AND environment_id = ? AND JSONExtractString(labels_json, 'app') = ? AND JSONExtractString(labels_json, 'o\\'k') = ?" ∧
    (testBuilder.OrganizationLogs sampleQuoted).args =
      some [Arg.time sampleStart.UTC, Arg.time sampleEnd.UTC, Arg.str "org-1", Arg.str "dev",
        Arg.str "shop", Arg.str "yes", Arg.int 50] := by
  obtain ⟨keys, hperm, hsorted, -, hsql, -, -, hargs⟩ :=
    organizationLogs_pod_labels testBuilder sampleQuoted (by decide) (by decide) (by decide)
      (by decide) (by decide) (by decide)
  have hkeys : keys = ["app", "o'k"] := by
    have h₁ : (["app", "o'k"] : List String).Sorted (fun a b => a.data < b.data) := by
      decide
    have h₂ : (["app", "o'k"] : List String).Perm (GoMap.keys sampleQuoted.PodLabels) :=
      List.Perm.swap _ _ _
    haveI : IsAntisymm String (fun a b => a.data < b.data) :=
      ⟨fun _ _ h h' => absurd h (lt_asymm h')⟩
    exact List.eq_of_perm_of_sorted (hperm.trans h₂.symm) hsorted h₁
  subst hkeys
  refine ⟨?_, hargs⟩
  rw [hsql]
  decide

/-! ## Dependence of the SQL text on the query -/

theorem add_clauses_congr {c₁ c₂ : conditionBuilder} (clause : String) (a₁ a₂ : List Arg)
    (h : c₁.clauses = c₂.clauses) : (c₁.add clause a₁).clauses = (c₂.add clause a₂).clauses := by
  unfold conditionBuilder.add
  by_cases hc : clause = ""
  · rw [if_pos hc, if_pos hc]
    exact h
  · rw [if_neg hc, if_neg hc]
    simp only [h]

theorem addIn_clauses_congr (qb : QueryBuilder) {c₁ c₂ : conditionBuilder} (column : String)
    {v₁ v₂ : List String} (h : c₁.clauses = c₂.clauses) (hv : v₁.length = v₂.length) :
    (qb.addInClause c₁ column v₁).clauses = (qb.addInClause c₂ column v₂).clauses := by
  unfold QueryBuilder.addInClause
  rw [hv]
  by_cases hz : v₂.length = 0
  · rw [if_pos hz, if_pos hz]
    exact h
  · rw [if_neg hz, if_neg hz]
    exact add_clauses_congr _ _ _ h

theorem ite_clauses_congr {p₁ p₂ : Prop} [Decidable p₁] [Decidable p₂]
    {a₁ a₂ b₁ b₂ : conditionBuilder} (hp : p₁ ↔ p₂) (ha : a₁.clauses = a₂.clauses)
    (hb : b₁.clauses = b₂.clauses) :
    (if p₁ then a₁ else b₁).clauses = (if p₂ then a₂ else b₂).clauses := by
  by_cases h : p₁
  · rw [if_pos h, if_pos (hp.1 h)]
    exact ha
  · rw [if_neg h, if_neg (fun h₂ => h (hp.2 h₂))]
    exact hb

theorem samePresence_ne {a b : String} (h : SamePresence a b) : a ≠ "" ↔ b ≠ "" :=
  not_congr h

theorem length_pos_congr {α : Type} {l₁ l₂ : List α} (h : l₁.length = l₂.length) :
    l₁.length > 0 ↔ l₂.length > 0 := by
  rw [h]

theorem applyBaseFilters_clauses_congr (qb : QueryBuilder) {b₁ b₂ : BaseLogQuery}
    (h : BaseShapeAgree qb b₁ b₂) :
    ∃ c₁ c₂, qb.applyBaseFilters newConditionBuilder b₁ = (c₁, none) ∧
      qb.applyBaseFilters newConditionBuilder b₂ = (c₂, none) ∧ c₁.clauses = c₂.clauses := by
  obtain ⟨hs₁, he₁, hs₂, he₂, hSearch, hLevels, hNs, hVers, hVids, hType, -⟩ := h
  unfold QueryBuilder.applyBaseFilters
  rw [if_neg (by simp [hs₁, he₁]), if_neg (by simp [hs₂, he₂])]
  refine ⟨_, _, rfl, rfl, ?_⟩
  have e0 : (newConditionBuilder.add "timestamp BETWEEN ? AND ?"
      [Arg.time b₁.TimeRange.Start.UTC, Arg.time b₁.TimeRange.End.UTC]).clauses =
      (newConditionBuilder.add "timestamp BETWEEN ? AND ?"
      [Arg.time b₂.TimeRange.Start.UTC, Arg.time b₂.TimeRange.End.UTC]).clauses :=
    add_clauses_congr _ _ _ rfl
  have e1 := ite_clauses_congr (samePresence_ne hSearch)
    (add_clauses_congr "positionCaseInsensitive(log, ?) > 0" [Arg.str b₁.SearchPhrase]
      [Arg.str b₂.SearchPhrase] e0) e0
  have e2 := ite_clauses_congr (length_pos_congr hLevels)
    (addIn_clauses_congr qb "log_level" e1 hLevels) e1
  have e3 := ite_clauses_congr (samePresence_ne hNs)
    (add_clauses_congr "namespace = ?" [Arg.str b₁.Namespace] [Arg.str b₂.Namespace] e2) e2
  have e4 := ite_clauses_congr (length_pos_congr hVers)
    (addIn_clauses_congr qb "version" e3 hVers) e3
  have e5 := ite_clauses_congr (length_pos_congr hVids)
    (addIn_clauses_congr qb "version_id" e4 hVids) e4
  exact ite_clauses_congr (samePresence_ne hType)
    (add_clauses_congr "log_type = ?" [Arg.str b₁.LogType] [Arg.str b₂.LogType] e5) e5

theorem assembleLogQuery_sql_congr (qb : QueryBuilder) {c₁ c₂ : conditionBuilder}
    {o₁ o₂ : String} (l₁ l₂ : Int) (h : c₁.clauses = c₂.clauses)
    (ho : qb.order o₁ = qb.order o₂) :
    (qb.assembleLogQuery c₁ o₁ l₁).sql = (qb.assembleLogQuery c₂ o₂ l₂).sql := by
  unfold QueryBuilder.assembleLogQuery conditionBuilder.whereClause
  by_cases ht : qb.logTable = ""
  · rw [if_pos ht, if_pos ht]
  · rw [if_neg ht, if_neg ht]
    simp only [h, ho]

theorem apiClause_map_pattern (m : GoMap) :
    (sortedKeys m).map (apiClause m) =
      (versionPattern m).map fun b =>
        if b then "(api_id = ?)" else "(api_id = ? AND api_version = ?)" := by
  unfold versionPattern apiClause
  rw [List.map_map]
  apply List.map_congr_left
  intro k _
  by_cases hv : GoMap.get m k = "" <;> simp [hv]

theorem versionPattern_length (m : GoMap) : (versionPattern m).length = m.length := by
  unfold versionPattern
  rw [List.length_map, sortedKeys_length]

theorem foldl_podLabelStep_clauses_congr (m₁ m₂ : GoMap) (keys : List String)
    {c₁ c₂ : conditionBuilder} (h : c₁.clauses = c₂.clauses) :
    (keys.foldl (podLabelStep m₁) c₁).clauses = (keys.foldl (podLabelStep m₂) c₂).clauses := by
  rw [foldl_podLabelStep, foldl_podLabelStep]
  simp only [h]

/-- Two valid queries of the same shape yield the same SQL text in every log builder,
whatever the values of their filters. -/
theorem log_sql_congr (qb : QueryBuilder) :
    (∀ q₁ q₂ : ComponentLogQuery, q₁.ComponentID ≠ "" → q₂.ComponentID ≠ "" →
      BaseShapeAgree qb q₁.BaseLogQuery q₂.BaseLogQuery →
      SamePresence q₁.EnvironmentID q₂.EnvironmentID →
      SamePresence q₁.BuildID q₂.BuildID → SamePresence q₁.BuildUUID q₂.BuildUUID →
      (qb.ComponentLogs q₁).sql = (qb.ComponentLogs q₂).sql) ∧
    (∀ q₁ q₂ : ProjectLogQuery, q₁.ProjectID ≠ "" → q₂.ProjectID ≠ "" →
      BaseShapeAgree qb q₁.BaseLogQuery q₂.BaseLogQuery →
      SamePresence q₁.EnvironmentID q₂.EnvironmentID →
      q₁.ComponentIDs.length = q₂.ComponentIDs.length →
      (qb.ProjectLogs q₁).sql = (qb.ProjectLogs q₂).sql) ∧
    (∀ q₁ q₂ : GatewayLogQuery, q₁.OrganizationID ≠ "" → q₂.OrganizationID ≠ "" →
      BaseShapeAgree qb q₁.BaseLogQuery q₂.BaseLogQuery →
      q₁.GatewayVHosts.length = q₂.GatewayVHosts.length →
      versionPattern q₁.APIIDToVersionMap = versionPattern q₂.APIIDToVersionMap →
      (qb.GatewayLogs q₁).sql = (qb.GatewayLogs q₂).sql) ∧
    (∀ q₁ q₂ : OrganizationLogQuery, q₁.OrganizationID ≠ "" → q₂.OrganizationID ≠ "" →
      BaseShapeAgree qb q₁.BaseLogQuery q₂.BaseLogQuery →
      SamePresence q₁.EnvironmentID q₂.EnvironmentID →
      GoMap.WF q₁.PodLabels → GoMap.WF q₂.PodLabels →
      (∀ k, k ∈ GoMap.keys q₁.PodLabels ↔ k ∈ GoMap.keys q₂.PodLabels) →
      (qb.OrganizationLogs q₁).sql = (qb.OrganizationLogs q₂).sql) := by
  refine ⟨?_, ?_, ?_, ?_⟩
  · intro q₁ q₂ hid₁ hid₂ hb hEnv hBuild hUUID
    obtain ⟨c₁, c₂, h₁, h₂, hc⟩ := applyBaseFilters_clauses_congr qb hb
    unfold QueryBuilder.ComponentLogs
    rw [if_neg hid₁, if_neg hid₂, h₁, h₂]
    have e1 := add_clauses_congr "component_id = ?" [Arg.str q₁.ComponentID]
      [Arg.str q₂.ComponentID] hc
    have e2 := ite_clauses_congr (samePresence_ne hEnv)
      (add_clauses_congr "environment_id = ?" [Arg.str q₁.EnvironmentID]
        [Arg.str q₂.EnvironmentID] e1) e1
    have e3 := ite_clauses_congr (samePresence_ne hBuild)
      (add_clauses_congr "build_id = ?" [Arg.str q₁.BuildID] [Arg.str q₂.BuildID] e2) e2
    have e4 := ite_clauses_congr (samePresence_ne hUUID)
      (add_clauses_congr "build_uuid = ?" [Arg.str q₁.BuildUUID] [Arg.str q₂.BuildUUID] e3) e3
    exact assembleLogQuery_sql_congr qb _ _ e4 hb.2.2.2.2.2.2.2.2.2.2
  · intro q₁ q₂ hid₁ hid₂ hb hEnv hIDs
    obtain ⟨c₁, c₂, h₁, h₂, hc⟩ := applyBaseFilters_clauses_congr qb hb
    unfold QueryBuilder.ProjectLogs
    rw [if_neg hid₁, if_neg hid₂, h₁, h₂]
    have e1 := add_clauses_congr "project_id = ?" [Arg.str q₁.ProjectID]
      [Arg.str q₂.ProjectID] hc
    have e2 := ite_clauses_congr (samePresence_ne hEnv)
      (add_clauses_congr "environment_id = ?" [Arg.str q₁.EnvironmentID]
        [Arg.str q₂.EnvironmentID] e1) e1
    have e3 := ite_clauses_congr (length_pos_congr hIDs)
      (addIn_clauses_congr qb "component_id" e2 hIDs) e2
    exact assembleLogQuery_sql_congr qb _ _ e3 hb.2.2.2.2.2.2.2.2.2.2
  · intro q₁ q₂ hid₁ hid₂ hb hHosts hPat
    obtain ⟨c₁, c₂, h₁, h₂, hc⟩ := applyBaseFilters_clauses_congr qb hb
    have hlen : q₁.APIIDToVersionMap.length = q₂.APIIDToVersionMap.length := by
      rw [← versionPattern_length, ← versionPattern_length, hPat]
    have hcl : (sortedKeys q₁.APIIDToVersionMap).map (apiClause q₁.APIIDToVersionMap) =
        (sortedKeys q₂.APIIDToVersionMap).map (apiClause q₂.APIIDToVersionMap) := by
      rw [apiClause_map_pattern, apiClause_map_pattern, hPat]
    unfold QueryBuilder.GatewayLogs
    rw [if_neg hid₁, if_neg hid₂, h₁, h₂]
    simp only [foldl_gatewayStep, List.nil_append, hcl]
    have e1 := add_clauses_congr "organization_id = ?" [Arg.str q₁.OrganizationID]
      [Arg.str q₂.OrganizationID] hc
    have e2 := ite_clauses_congr (length_pos_congr hHosts)
      (addIn_clauses_congr qb "gateway_vhost" e1 hHosts) e1
    have e3 := ite_clauses_congr (length_pos_congr hlen)
      (add_clauses_congr
        ("(" ++ stringsJoin ((sortedKeys q₂.APIIDToVersionMap).map
          (apiClause q₂.APIIDToVersionMap)) " OR " ++ ")")
        ((sortedKeys q₁.APIIDToVersionMap).flatMap (apiArgs q₁.APIIDToVersionMap))
        ((sortedKeys q₂.APIIDToVersionMap).flatMap (apiArgs q₂.APIIDToVersionMap)) e2) e2
    exact assembleLogQuery_sql_congr qb _ _ e3 hb.2.2.2.2.2.2.2.2.2.2
  · intro q₁ q₂ hid₁ hid₂ hb hEnv hwf₁ hwf₂ hkeys
    obtain ⟨c₁, c₂, h₁, h₂, hc⟩ := applyBaseFilters_clauses_congr qb hb
    have hperm : (GoMap.keys q₁.PodLabels).Perm (GoMap.keys q₂.PodLabels) :=
      (List.perm_ext_iff_of_nodup hwf₁ hwf₂).2 hkeys
    have hlen : q₁.PodLabels.length = q₂.PodLabels.length := by
      have := hperm.length_eq
      simpa [GoMap.keys] using this
    unfold QueryBuilder.OrganizationLogs
    rw [if_neg hid₁, if_neg hid₂, h₁, h₂, sortedKeys_congr hperm]
    have e1 := add_clauses_congr "organization_id = ?" [Arg.str q₁.OrganizationID]
      [Arg.str q₂.OrganizationID] hc
    have e2 := ite_clauses_congr (samePresence_ne hEnv)
      (add_clauses_congr "environment_id = ?" [Arg.str q₁.EnvironmentID]
        [Arg.str q₂.EnvironmentID] e1) e1
    have e3 := ite_clauses_congr (length_pos_congr hlen)
      (foldl_podLabelStep_clauses_congr q₁.PodLabels q₂.PodLabels
        (sortedKeys q₂.PodLabels) e2) e2
    exact assembleLogQuery_sql_congr qb _ _ e3 hb.2.2.2.2.2.2.2.2.2.2

set_option maxRecDepth 100000 in
/-- C8 as stated fails: two valid gateway queries that are equal outside the API map, hold
two API ids each, and agree on which API ids have an empty version (`b` alone in both),
but differ in another API id (`a` against `c`), yield different SQL texts, the clause of
`b` coming second in one and first in the other. -/
theorem gatewayLogs_sql_depends_on_api_ids :
    (testBuilder.GatewayLogs gatewayLeft).err = none ∧
    (testBuilder.GatewayLogs gatewayRight).err = none ∧
    gatewayLeft.BaseLogQuery = gatewayRight.BaseLogQuery ∧
    gatewayLeft.OrganizationID = gatewayRight.OrganizationID ∧
    gatewayLeft.GatewayVHosts = gatewayRight.GatewayVHosts ∧
    GoMap.WF gatewayLeft.APIIDToVersionMap ∧ GoMap.WF gatewayRight.APIIDToVersionMap ∧
    gatewayLeft.APIIDToVersionMap.length = gatewayRight.APIIDToVersionMap.length ∧
    (GoMap.keys gatewayLeft.APIIDToVersionMap).filter
        (fun k => decide (GoMap.get gatewayLeft.APIIDToVersionMap k = "")) =
      (GoMap.keys gatewayRight.APIIDToVersionMap).filter
        (fun k => decide (GoMap.get gatewayRight.APIIDToVersionMap k = "")) ∧
    stringsContains (testBuilder.GatewayLogs gatewayLeft).sql
      "((api_id = ? AND api_version = ?) OR (api_id = ?))" ∧
    stringsContains (testBuilder.GatewayLogs gatewayRight).sql
      "((api_id = ?) OR (api_id = ? AND api_version = ?))" ∧
    (testBuilder.GatewayLogs gatewayLeft).sql ≠ (testBuilder.GatewayLogs gatewayRight).sql := by
  refine ⟨by decide, by decide, rfl, rfl, rfl, by decide, by decide, rfl, by decide,
    by decide, by decide, by decide⟩

/-- C2, at four queries without their identifying field. -/
theorem log_builders_require_id_witness :
    Rejected (testBuilder.ComponentLogs { scenarioA with ComponentID := "" }) ∧
    Rejected (testBuilder.ProjectLogs { sampleProject with ProjectID := "" }) ∧
    Rejected (testBuilder.GatewayLogs { sampleGateway with OrganizationID := "" }) ∧
    Rejected (testBuilder.OrganizationLogs { sampleOrganization with OrganizationID := "" }) :=
  ⟨(log_builders_require_id testBuilder).1 _ rfl, (log_builders_require_id testBuilder).2.1 _ rfl,
    (log_builders_require_id testBuilder).2.2.1 _ rfl,
    (log_builders_require_id testBuilder).2.2.2 _ rfl⟩

/-- C4, at one query per entry point whose start or end is the zero time. -/
theorem zero_time_rejected_witness :
    Rejected (testBuilder.ComponentLogs
      { scenarioA with BaseLogQuery := sampleBaseAt zeroTime sampleEnd }) ∧
    Rejected (testBuilder.ProjectLogs
      { sampleProject with BaseLogQuery := sampleBaseAt sampleStart zeroTime }) ∧
    Rejected (testBuilder.GatewayLogs
      { sampleGateway with BaseLogQuery := sampleBaseAt zeroTime zeroTime }) ∧
    Rejected (testBuilder.OrganizationLogs
      { sampleOrganization with BaseLogQuery := sampleBaseAt sampleStart zeroTimeLocal }) ∧
    Rejected (testBuilder.ComponentTraces
      { sampleTrace with TimeRange := { Start := zeroTime, End := sampleEnd } }) ∧
    Rejected (testBuilder.CostReport { Start := sampleStart, End := zeroTime }) :=
  ⟨(zero_time_rejected testBuilder).1 _ (Or.inl rfl),
    (zero_time_rejected testBuilder).2.1 _ (Or.inr rfl),
    (zero_time_rejected testBuilder).2.2.1 _ (Or.inl rfl),
    (zero_time_rejected testBuilder).2.2.2.1 _ (Or.inr rfl),
    (zero_time_rejected testBuilder).2.2.2.2.1 _ (Or.inl rfl),
    (zero_time_rejected testBuilder).2.2.2.2.2 _ (Or.inr rfl)⟩

/-- C5, at the configuration of the source's test (ceiling 2000). -/
theorem resolveLimit_spec_witness :
    testBuilder.resolveLimit (-3) = 100 ∧
    testBuilder.resolveLimit 5000 = testBuilder.maxLimit ∧
    testBuilder.resolveLimit 50 = 50 :=
  ⟨(resolveLimit_spec testConfig (-3)).1 (by decide),
    (resolveLimit_spec testConfig 5000).2.1 (by decide),
    (resolveLimit_spec testConfig 50).2.2 (by decide) (by decide)⟩

/-- C6, at a configuration whose connection count overflows the multiplication (the
ceiling stays 2000) and at the largest requested limit. -/
theorem limit_argument_bounded_witness :
    (NewQueryBuilder overflowConfig).maxLimit = 2000 ∧
    LimitBounded (NewQueryBuilder overflowConfig)
      ((NewQueryBuilder overflowConfig).ComponentLogs
        { scenarioA with BaseLogQuery := { sampleBase with Limit := 9223372036854775807 } }) ∧
    LimitBounded (NewQueryBuilder overflowConfig)
      ((NewQueryBuilder overflowConfig).ComponentTraces sampleTrace) :=
  ⟨by decide, (limit_argument_bounded overflowConfig).1 _ (by decide),
    (limit_argument_bounded overflowConfig).2.2.2.2 _ (by decide)⟩

/-! ## Component traces, sort direction and idempotence of the limit -/

/-- C11. On a builder made by `NewQueryBuilder` with a configured trace table: a trace
query with an empty service name is rejected with no SQL; a query with a service name
and non-zero start and end succeeds, its SQL text is the fixed text around the trace
table name, and its arguments are exactly the service name, the UTC start, the UTC end
and `L`, where `L` is 500 when `Limit ≤ 0` and `min Limit maxLimit` otherwise. -/
theorem componentTraces_spec (cfg : ClickStackConfig) (q : ComponentTraceQuery)
    (ht : cfg.TracesTable ≠ "") :
    (q.ServiceName = "" → Rejected ((NewQueryBuilder cfg).ComponentTraces q)) ∧
    (q.ServiceName ≠ "" → q.TimeRange.Start.IsZero = false →
      q.TimeRange.End.IsZero = false →
      (NewQueryBuilder cfg).ComponentTraces q =
        ⟨traceSelect ++ cfg.TracesTable ++ traceTail,
          some [Arg.str q.ServiceName, Arg.time q.TimeRange.Start.UTC,
            Arg.time q.TimeRange.End.UTC,
            Arg.int (if q.Limit ≤ 0 then 500 else min q.Limit (NewQueryBuilder cfg).maxLimit)],
          none⟩) := by
  have hmax := NewQueryBuilder_maxLimit_ge cfg
  have htab : (NewQueryBuilder cfg).traceTable = cfg.TracesTable := rfl
  constructor
  · intro hn
    unfold QueryBuilder.ComponentTraces
    rw [if_pos hn]
    exact rejected_mk _
  · intro hn hs he
    rw [componentTraces_ok _ q hn hs he (by rw [htab]; exact ht), htab]
    congr 3
    by_cases hl : q.Limit ≤ 0
    · simp only [if_pos hl]
      rw [if_neg (by omega)]
    · simp only [if_neg hl]
      by_cases hc : q.Limit > (NewQueryBuilder cfg).maxLimit
      · rw [if_pos hc, min_eq_right (le_of_lt hc)]
      · rw [if_neg hc, min_eq_left (not_lt.1 hc)]

/-- C11, on the builder of the source's test: limit 0 gives 500, limit 70 gives 70 and
the largest 64-bit limit gives the ceiling 2000. -/
theorem componentTraces_spec_witness :
    Rejected (testBuilder.ComponentTraces { sampleTrace with ServiceName := "" }) ∧
    (testBuilder.ComponentTraces (sampleTraceLimit 0)).args =
      some [Arg.str "checkout", Arg.time sampleStart.UTC, Arg.time sampleEnd.UTC, Arg.int 500] ∧
    (testBuilder.ComponentTraces (sampleTraceLimit 70)).args =
      some [Arg.str "checkout", Arg.time sampleStart.UTC, Arg.time sampleEnd.UTC, Arg.int 70] ∧
    (testBuilder.ComponentTraces sampleTrace).args =
      some [Arg.str "checkout", Arg.time sampleStart.UTC, Arg.time sampleEnd.UTC, Arg.int 2000] ∧
    (testBuilder.ComponentTraces sampleTrace).sql =
      traceSelect ++ "telemetry.traces_mv" ++ traceTail :=
  ⟨(componentTraces_spec testConfig _ (by decide)).1 rfl,
    congrArg BuildResult.args
      ((componentTraces_spec testConfig (sampleTraceLimit 0) (by decide)).2 (by decide)
        (by decide) (by decide)),
    congrArg BuildResult.args
      ((componentTraces_spec testConfig (sampleTraceLimit 70) (by decide)).2 (by decide)
        (by decide) (by decide)),
    congrArg BuildResult.args
      ((componentTraces_spec testConfig sampleTrace (by decide)).2 (by decide)
        (by decide) (by decide)),
    congrArg BuildResult.sql
      ((componentTraces_spec testConfig sampleTrace (by decide)).2 (by decide)
        (by decide) (by decide))⟩

/-- C13. `resolveLimit` is idempotent, for every builder whatever its ceiling and for
every integer. -/
theorem resolveLimit_idempotent (qb : QueryBuilder) (x : Int) :
    qb.resolveLimit (qb.resolveLimit x) = qb.resolveLimit x := by
  unfold QueryBuilder.resolveLimit
  simp only
  split_ifs <;> omega

theorem equalFoldAsc_of_mem {o : String} (h : o ∈ ascSpellings) : equalFoldAsc o = true := by
  simp only [ascSpellings, List.mem_cons, List.mem_singleton, List.not_mem_nil, or_false] at h
  rcases h with h | h | h | h | h | h | h | h | h | h | h | h <;> subst h <;> decide

theorem mem_of_equalFoldAsc {o : String} (h : equalFoldAsc o = true) : o ∈ ascSpellings := by
  obtain ⟨d⟩ := o
  unfold equalFoldAsc at h
  match d, h with
  | [x, y, z], h =>
    simp only [Bool.and_eq_true, Bool.or_eq_true, beq_iff_eq] at h
    obtain ⟨⟨hx, hy⟩, hz⟩ := h
    rcases hx with rfl | rfl <;> rcases hy with (rfl | rfl) | rfl <;> rcases hz with rfl | rfl <;>
      decide

theorem equalFoldAsc_iff (o : String) : equalFoldAsc o = true ↔ o ∈ ascSpellings :=
  ⟨mem_of_equalFoldAsc, equalFoldAsc_of_mem⟩

theorem assembleLogQuery_ordersBy (qb : QueryBuilder) (cb : conditionBuilder) (o : String)
    (l : Int) (ht : qb.logTable ≠ "") :
    OrdersBy (qb.assembleLogQuery cb o l) (qb.order o) := by
  unfold OrdersBy stringsHasSuffix
  rw [assembleLogQuery_ok qb cb o l ht]
  refine ⟨(logSelect ++ qb.logTable ++ "\nWHERE " ++ cb.whereClause).data, ?_⟩
  simp only [String.data_append, List.append_assoc]

theorem ordersBy_exclusive {r : BuildResult} (ha : OrdersBy r "ASC") (hd : OrdersBy r "DESC") :
    False := by
  unfold OrdersBy stringsHasSuffix at ha hd
  rcases List.suffix_or_suffix_of_suffix ha hd with h | h
  · exact absurd h (by decide)
  · exact absurd h (by decide)

theorem assembleLogQuery_sortResolved (qb : QueryBuilder) (cb : conditionBuilder) (o : String)
    (l : Int) (ht : qb.logTable ≠ "") : SortResolved (qb.assembleLogQuery cb o l) o := by
  have h := assembleLogQuery_ordersBy qb cb o l ht
  unfold QueryBuilder.order at h
  by_cases hf : equalFoldAsc o = true
  · rw [if_pos hf] at h
    have hm := mem_of_equalFoldAsc hf
    exact ⟨⟨fun _ => hm, fun _ => h⟩, ⟨fun hd => (ordersBy_exclusive h hd).elim,
      fun hn => (hn hm).elim⟩⟩
  · rw [if_neg hf] at h
    have hm : o ∉ ascSpellings := fun hm => hf (equalFoldAsc_of_mem hm)
    exact ⟨⟨fun ha => (ordersBy_exclusive ha h).elim, fun hm' => (hm hm').elim⟩,
      ⟨fun _ => hm, fun _ => h⟩⟩

/-- C12. With a configured log table, the statement of every valid log query (of each of
the four log builders) ends with `ORDER BY timestamp ASC` followed by the limit clause
if and only if its sort order equals `asc` up to letter case, and with
`ORDER BY timestamp DESC` followed by the limit clause for every other sort order, the
empty string and unknown strings included. -/
theorem sort_direction (qb : QueryBuilder) (ht : qb.logTable ≠ "") :
    (∀ q : ComponentLogQuery, q.ComponentID ≠ "" →
      q.BaseLogQuery.TimeRange.Start.IsZero = false →
      q.BaseLogQuery.TimeRange.End.IsZero = false →
      SortResolved (qb.ComponentLogs q) q.BaseLogQuery.SortOrder) ∧
    (∀ q : ProjectLogQuery, q.ProjectID ≠ "" →
      q.BaseLogQuery.TimeRange.Start.IsZero = false →
      q.BaseLogQuery.TimeRange.End.IsZero = false →
      SortResolved (qb.ProjectLogs q) q.BaseLogQuery.SortOrder) ∧
    (∀ q : GatewayLogQuery, q.OrganizationID ≠ "" →
      q.BaseLogQuery.TimeRange.Start.IsZero = false →
      q.BaseLogQuery.TimeRange.End.IsZero = false →
      SortResolved (qb.GatewayLogs q) q.BaseLogQuery.SortOrder) ∧
    (∀ q : OrganizationLogQuery, q.OrganizationID ≠ "" →
      q.BaseLogQuery.TimeRange.Start.IsZero = false →
      q.BaseLogQuery.TimeRange.End.IsZero = false →
      SortResolved (qb.OrganizationLogs q) q.BaseLogQuery.SortOrder) := by
  refine ⟨?_, ?_, ?_, ?_⟩
  · intro q hid hs he
    obtain ⟨cb, -, hEq⟩ := componentLogs_ok qb q hid hs he
    rw [hEq]
    exact assembleLogQuery_sortResolved qb cb _ _ ht
  · intro q hid hs he
    obtain ⟨cb, -, hEq⟩ := projectLogs_ok qb q hid hs he
    rw [hEq]
    exact assembleLogQuery_sortResolved qb cb _ _ ht
  · intro q hid hs he
    obtain ⟨cb, -, hEq⟩ := gatewayLogs_ok qb q hid hs he
    rw [hEq]
    exact assembleLogQuery_sortResolved qb cb _ _ ht
  · intro q hid hs he
    obtain ⟨cb, -, hEq⟩ := organizationLogs_ok qb q hid hs he
    rw [hEq]
    exact assembleLogQuery_sortResolved qb cb _ _ ht

/-- C12, at the sort orders `ASC`, `Asc`, the empty string, `desc` and `ascending`. -/
theorem sort_direction_witness :
    OrdersBy (testBuilder.ComponentLogs (scenarioSorted "ASC")) "ASC" ∧
    OrdersBy (testBuilder.ComponentLogs (scenarioSorted "Asc")) "ASC" ∧
    OrdersBy (testBuilder.ComponentLogs (scenarioSorted "")) "DESC" ∧
    OrdersBy (testBuilder.ComponentLogs (scenarioSorted "desc")) "DESC" ∧
    OrdersBy (testBuilder.ComponentLogs (scenarioSorted "ascending")) "DESC" :=
  ⟨((sort_direction testBuilder (by decide)).1 (scenarioSorted "ASC") (by decide) (by decide)
      (by decide)).1.2 (by decide),
    ((sort_direction testBuilder (by decide)).1 (scenarioSorted "Asc") (by decide) (by decide)
      (by decide)).1.2 (by decide),
    ((sort_direction testBuilder (by decide)).1 (scenarioSorted "") (by decide) (by decide)
      (by decide)).2.2 (by decide),
    ((sort_direction testBuilder (by decide)).1 (scenarioSorted "desc") (by decide) (by decide)
      (by decide)).2.2 (by decide),
    ((sort_direction testBuilder (by decide)).1 (scenarioSorted "ascending") (by decide)
      (by decide) (by decide)).2.2 (by decide)⟩

/-! ## The window and the rows of the cost report -/

theorem Time.le_UTC (t u : Time) : Time.le t.UTC u.UTC = Time.le t u := rfl

theorem costReport_window_closed (qb : QueryBuilder) (q : CostReportQuery) (t : Time)
    (ht : qb.logTable ≠ "") (hs : q.Start.IsZero = false) (he : q.End.IsZero = false) :
    costWindowAdmits (qb.CostReport q) t = true ↔
      Time.le q.Start t = true ∧ Time.le t q.End = true := by
  rw [costReport_ok qb q ht hs he]
  simp [costWindowAdmits, sqlBetween, Time.le, Time.UTC]

set_option maxRecDepth 100000 in
/-- C14, the code at the failing input. The statement built for January 2025, whose end
is the first instant of February, holds the predicate `timestamp BETWEEN ? AND ?` bound
to the two instants, and that predicate admits a row stamped with the end itself; the
statement built for February 2025 admits the same row. -/
theorem costReport_admits_window_end :
    (testBuilder.CostReport januaryQuery).err = none ∧
    stringsContains (testBuilder.CostReport januaryQuery).sql
      "WHERE timestamp BETWEEN ? AND ?" ∧
    (testBuilder.CostReport januaryQuery).args =
      some [Arg.time january2025, Arg.time february2025] ∧
    costWindowAdmits (testBuilder.CostReport januaryQuery) february2025 = true ∧
    costWindowAdmits (testBuilder.CostReport februaryQuery) february2025 = true := by
  refine ⟨by decide, by decide, by decide, by decide, by decide⟩

theorem costReportLoop_ok (scans : List costScan) :
    ∀ report : CostReport,
      costReportLoop (scans.map Except.ok) report =
        Except.ok
          { report with
            Rows := report.Rows ++ scans.map fun s =>
              { OrganizationID := nullString s.org "unknown",
                ProjectID := nullString s.project "unknown",
                ComponentID := nullString s.component "unknown",
                LogCount := s.logCount,
                EstimatedStorageB := s.rawBytes,
                EstimatedCostUSD :=
                  s.rawBytes / 2 ^ 40 * (1 / 2) + (s.logCount : ℚ) / 1000000 * 2 },
            Total := report.Total + (scans.map fun s =>
              s.rawBytes / 2 ^ 40 * (1 / 2) + (s.logCount : ℚ) / 1000000 * 2).sum } := by
  induction scans with
  | nil => intro report; simp [costReportLoop]
  | cons s rest ih =>
    intro report
    simp only [List.map_cons, costReportLoop, ih, storageCostPerTBUSD,
      logProcessingCostPerMillion, List.sum_cons, List.append_assoc, List.singleton_append]
    congr 2
    norm_num
    ring

/-- C15. When the cost query is valid and the database answers its statement with a
sequence of rows and no error, `GetCostReport` returns a report holding one row per
answered row, in order, whose estimated cost is
`rawBytes / 2^40 × 0.50 + logCount / 1,000,000 × 2.00`, and whose total is the sum of the
estimated costs of its rows (the `float64` values being read as rationals). -/
theorem costReport_rows_and_total (p : Provider) (params : CostReportQuery)
    (scans : List costScan) (elapsed : Int)
    (ht : p.builder.logTable ≠ "") (hs : params.Start.IsZero = false)
    (he : params.End.IsZero = false)
    (hq : p.queryCost (costSelect ++ p.builder.logTable ++ costTail)
      [Arg.time params.Start.UTC, Arg.time params.End.UTC] =
        QueryOutcome.rows (scans.map Except.ok) none elapsed) :
    ∃ report, (p.GetCostReport params).1 = Except.ok report ∧
      report.Rows = scans.map (fun s =>
        { OrganizationID := nullString s.org "unknown",
          ProjectID := nullString s.project "unknown",
          ComponentID := nullString s.component "unknown",
          LogCount := s.logCount,
          EstimatedStorageB := s.rawBytes,
          EstimatedCostUSD :=
            s.rawBytes / 2 ^ 40 * (1 / 2) + (s.logCount : ℚ) / 1000000 * 2 }) ∧
      report.Rows.length = scans.length ∧
      report.Total = (report.Rows.map fun row => row.EstimatedCostUSD).sum := by
  unfold Provider.GetCostReport
  simp only [costReport_ok p.builder params ht hs he, Option.getD_some, hq, costReportLoop_ok]
  refine ⟨_, rfl, ?_, ?_, ?_⟩
  · simp
  · simp
  · simp [List.map_map, Function.comp_def]

/-- C15, at two rows: one tebibyte with a million lines costs 5/2, half a million lines
without bytes cost 1, and the total is 7/2. -/
theorem costReport_rows_and_total_witness :
    ∃ report, ((costProvider sampleCostScans).GetCostReport januaryQuery).1 =
        Except.ok report ∧
      (report.Rows.map fun row => row.EstimatedCostUSD) = [5 / 2, 1] ∧
      (report.Rows.map fun row => row.OrganizationID) = ["acme", "unknown"] ∧
      report.Total = 7 / 2 := by
  obtain ⟨report, hr, hrows, -, htotal⟩ :=
    costReport_rows_and_total (costProvider sampleCostScans) januaryQuery sampleCostScans 3
      (by decide) (by decide) (by decide) rfl
  have hcost : (report.Rows.map fun row => row.EstimatedCostUSD) = [5 / 2, 1] := by
    rw [hrows]
    simp only [sampleCostScans, List.map_cons, List.map_nil]
    norm_num
  refine ⟨report, hr, hcost, ?_, ?_⟩
  · rw [hrows]
    simp [sampleCostScans, nullString]
  · rw [htotal, hcost]
    norm_num

theorem useClickStack_storage {Body Hit : Type} (s : LoggingService Body Hit)
    (h : s.useClickStack = true) : ∃ st, s.storage = some st := by
  unfold LoggingService.useClickStack at h
  cases hs : s.storage with
  | none => rw [hs] at h; simp at h
  | some st => exact ⟨st, rfl⟩

/-- C16. On the columnar backend, for a valid cost query whose statement the database
answers with no row and no error: `GetCostReport` returns, without error, a report with
no row and total 0, and `GenerateCostReportCSV` returns, without error, the header line
`organization_id,project_id,component_id,log_count,estimated_storage_bytes,estimated_cost_usd`
alone. -/
theorem costReport_empty_window {Body Hit : Type} (s : LoggingService Body Hit)
    (p : Provider) (ping : Option String) (params : CostReportQuery) (elapsed : Int)
    (hstore : s.storage = some (p.asStorage ping)) (hback : s.useClickStack = true)
    (ht : p.builder.logTable ≠ "") (hs : params.Start.IsZero = false)
    (he : params.End.IsZero = false)
    (hq : p.queryCost (costSelect ++ p.builder.logTable ++ costTail)
      [Arg.time params.Start.UTC, Arg.time params.End.UTC] =
        QueryOutcome.rows [] none elapsed) :
    (p.GetCostReport params).1 =
      Except.ok { Start := params.Start, End := params.End, Rows := [], Total := 0 } ∧
    (s.GenerateCostReportCSV params).1 =
      Ret.ok "organization_id,project_id,component_id,log_count,estimated_storage_bytes,estimated_cost_usd\n" := by
  have hget : p.GetCostReport params =
      (Except.ok { Start := params.Start, End := params.End, Rows := [], Total := 0 }, []) := by
    unfold Provider.GetCostReport
    simp only [costReport_ok p.builder params ht hs he, Option.getD_some, hq, costReportLoop]
  refine ⟨by rw [hget], ?_⟩
  unfold LoggingService.GenerateCostReportCSV LoggingService.supportsCostReporting
  simp only [hstore, hback, Option.isSome_some, Bool.and_self, Bool.not_true,
    Bool.false_eq_true, if_false, Provider.asStorage, hget, List.foldl_nil]
  decide

/-- C16, at a service over a provider whose database answers with no row. -/
theorem costReport_empty_window_witness :
    ((costProvider []).GetCostReport januaryQuery).1 =
      Except.ok { Start := january2025, End := february2025, Rows := [], Total := 0 } ∧
    ((costService []).GenerateCostReportCSV januaryQuery).1 =
      Ret.ok "organization_id,project_id,component_id,log_count,estimated_storage_bytes,estimated_cost_usd\n" :=
  costReport_empty_window (costService []) (costProvider []) none januaryQuery 3 rfl
    (by decide) (by decide) (by decide) (by decide) rfl

/-! ## The sampler -/

/-- C17. For every telemetry configuration, generator and position, the sampler built by
`newDualSampler` decides without panic, and it decides to sample if and only if the
dual-read flag is set, the rate is greater than 0, and the rate is at least 1 or the
value drawn is below the rate (comparisons of `float64`). A sampler whose flag is unset
or whose rate is not greater than 0 never samples; with the flag set and a rate of at
least 1 it samples and leaves the generator where it was. -/
theorem dualSampler_decision (cfg : TelemetryConfig) (source : Nat → ℚ) (pos : Nat) :
    ∃ b, ((newDualSampler cfg source).shouldSample pos).1 = some b ∧
      (b = true ↔ cfg.DualRead = true ∧ F64.lt (F64.fin 0) cfg.DualSampleRate = true ∧
        (F64.le (F64.fin 1) cfg.DualSampleRate = true ∨
          F64.lt (F64.fin (source pos)) cfg.DualSampleRate = true)) ∧
      (cfg.DualRead = false ∨ F64.lt (F64.fin 0) cfg.DualSampleRate = false → b = false) ∧
      (cfg.DualRead = true → F64.le (F64.fin 1) cfg.DualSampleRate = true →
        b = true ∧ ((newDualSampler cfg source).shouldSample pos).2 = pos) := by
  obtain ⟨backend, dualRead, rate, hyperdx⟩ := cfg
  cases dualRead with
  | false =>
    refine ⟨false, ?_, ?_, ?_, ?_⟩ <;> simp [newDualSampler, dualSampler.shouldSample]
  | true =>
    cases rate with
    | NaN =>
      refine ⟨false, ?_, ?_, ?_, ?_⟩ <;>
        simp [newDualSampler, dualSampler.shouldSample, F64.le, F64.lt]
    | negInf =>
      refine ⟨false, ?_, ?_, ?_, ?_⟩ <;>
        simp [newDualSampler, dualSampler.shouldSample, F64.le, F64.lt]
    | posInf =>
      refine ⟨true, ?_, ?_, ?_, ?_⟩ <;>
        simp [newDualSampler, dualSampler.shouldSample, F64.le, F64.lt]
    | fin q =>
      by_cases h0 : q ≤ 0
      · have h1 : ¬ (1 : ℚ) ≤ q := fun h => absurd (le_trans h h0) (by norm_num)
        have h0' : ¬ (0 : ℚ) < q := not_lt.2 h0
        refine ⟨false, ?_, ?_, ?_, ?_⟩ <;>
          simp [newDualSampler, dualSampler.shouldSample, F64.le, F64.lt, h0, h1, h0']
      · have h0' : (0 : ℚ) < q := not_le.1 h0
        by_cases h1 : (1 : ℚ) ≤ q
        · refine ⟨true, ?_, ?_, ?_, ?_⟩ <;>
            simp [newDualSampler, dualSampler.shouldSample, F64.le, F64.lt, h0, h1, h0']
        · refine ⟨decide (source pos < q), ?_, ?_, ?_, ?_⟩ <;>
            simp [newDualSampler, dualSampler.shouldSample, F64.le, F64.lt, h0, h1, h0']

/-! ## The dispatcher and the shadow read -/

theorem shouldSample_new (cfg : TelemetryConfig) (source : Nat → ℚ) (pos : Nat) :
    ((newDualSampler cfg source).shouldSample pos).1 ≠ none := by
  unfold newDualSampler
  split_ifs
  · simp [dualSampler.shouldSample]
  · simp only [dualSampler.shouldSample]
    split_ifs <;> simp

theorem NewLoggingService_samplerReady {Body Hit : Type} (storage : Option StorageProvider)
    (osClient : Option (OpenSearchClient Body Hit)) (cfg : Config) (env : Env Body Hit)
    (source : Nat → ℚ) : SamplerReady (NewLoggingService storage osClient cfg env source) := by
  intro pos
  unfold LoggingService.shouldDualRead NewLoggingService
  simp only
  split_ifs
  · exact shouldSample_new cfg.Telemetry source pos
  · exact Option.some_ne_none false

theorem shouldDualRead_client {Body Hit : Type} (s : LoggingService Body Hit) (pos : Nat)
    (h : (s.shouldDualRead pos).1 = some true) : ∃ client, s.osClient = some client := by
  unfold LoggingService.shouldDualRead at h
  cases hd : s.dualSampler with
  | none => rw [hd] at h; simp at h
  | some d =>
    rw [hd] at h
    cases hc : s.osClient with
    | none => rw [hc] at h; simp at h
    | some client => exact ⟨client, rfl⟩

theorem componentLogs_shadow_noPanic {Body Hit : Type} (s : LoggingService Body Hit)
    (params : opensearch.ComponentQueryParams) {client : OpenSearchClient Body Hit}
    (h : s.osClient = some client) :
    (s.getComponentLogsFromOpenSearch params).1 ≠ Ret.panic := by
  unfold LoggingService.getComponentLogsFromOpenSearch
  simp only [h]
  split
  · simp
  · split <;> simp

theorem projectLogs_shadow_noPanic {Body Hit : Type} (s : LoggingService Body Hit)
    (params : opensearch.QueryParams) (componentIDs : List String)
    {client : OpenSearchClient Body Hit} (h : s.osClient = some client) :
    (s.getProjectLogsFromOpenSearch params componentIDs).1 ≠ Ret.panic := by
  unfold LoggingService.getProjectLogsFromOpenSearch
  simp only [h]
  split
  · simp
  · split <;> simp

theorem gatewayLogs_shadow_noPanic {Body Hit : Type} (s : LoggingService Body Hit)
    (params : opensearch.GatewayQueryParams) {client : OpenSearchClient Body Hit}
    (h : s.osClient = some client) :
    (s.getGatewayLogsFromOpenSearch params).1 ≠ Ret.panic := by
  unfold LoggingService.getGatewayLogsFromOpenSearch
  simp only [h]
  split
  · simp
  · split <;> simp

theorem organizationLogs_shadow_noPanic {Body Hit : Type} (s : LoggingService Body Hit)
    (params : opensearch.QueryParams) (podLabels : GoMap)
    {client : OpenSearchClient Body Hit} (h : s.osClient = some client) :
    (s.getOrganizationLogsFromOpenSearch params podLabels).1 ≠ Ret.panic := by
  unfold LoggingService.getOrganizationLogsFromOpenSearch
  simp only [h]
  split
  · simp
  · split <;> simp

theorem componentTraces_shadow_noPanic {Body Hit : Type} (s : LoggingService Body Hit)
    (params : opensearch.ComponentTracesRequestParams) {client : OpenSearchClient Body Hit}
    (h : s.osClient = some client) :
    (s.getComponentTracesFromOpenSearch params).1 ≠ Ret.panic := by
  unfold LoggingService.getComponentTracesFromOpenSearch
  simp only [h]
  split <;> simp

theorem emitFetched_ret {Body Hit : Type} (s : LoggingService Body Hit) (scope : String)
    (primary : LogResponse) (fetched : Ret LogResponse × List Event) (pos : Nat)
    (h : fetched.1 ≠ Ret.panic) : (s.emitFetched scope primary fetched pos).ret = Ret.ok () := by
  obtain ⟨r, events⟩ := fetched
  cases r with
  | ok val => rfl
  | err e => rfl
  | panic => exact absurd rfl h

theorem maybeDualReadComponentLogs_ret {Body Hit : Type} (s : LoggingService Body Hit)
    (hs : SamplerReady s) (pos : Nat) (params : opensearch.ComponentQueryParams)
    (primary : LogResponse) :
    (s.maybeDualReadComponentLogs pos params primary).ret = Ret.ok () := by
  unfold LoggingService.maybeDualReadComponentLogs
  rcases hd : s.shouldDualRead pos with ⟨_ | _ | _, n⟩
  · exact absurd (by rw [hd]) (hs pos)
  · rfl
  · obtain ⟨client, hc⟩ := shouldDualRead_client s pos (by rw [hd])
    exact emitFetched_ret s _ _ _ _ (componentLogs_shadow_noPanic s params hc)

theorem maybeDualReadProjectLogs_ret {Body Hit : Type} (s : LoggingService Body Hit)
    (hs : SamplerReady s) (pos : Nat) (params : opensearch.QueryParams)
    (componentIDs : List String) (primary : LogResponse) :
    (s.maybeDualReadProjectLogs pos params componentIDs primary).ret = Ret.ok () := by
  unfold LoggingService.maybeDualReadProjectLogs
  rcases hd : s.shouldDualRead pos with ⟨_ | _ | _, n⟩
  · exact absurd (by rw [hd]) (hs pos)
  · rfl
  · obtain ⟨client, hc⟩ := shouldDualRead_client s pos (by rw [hd])
    exact emitFetched_ret s _ _ _ _ (projectLogs_shadow_noPanic s params componentIDs hc)

theorem maybeDualReadGatewayLogs_ret {Body Hit : Type} (s : LoggingService Body Hit)
    (hs : SamplerReady s) (pos : Nat) (params : opensearch.GatewayQueryParams)
    (primary : LogResponse) :
    (s.maybeDualReadGatewayLogs pos params primary).ret = Ret.ok () := by
  unfold LoggingService.maybeDualReadGatewayLogs
  rcases hd : s.shouldDualRead pos with ⟨_ | _ | _, n⟩
  · exact absurd (by rw [hd]) (hs pos)
  · rfl
  · obtain ⟨client, hc⟩ := shouldDualRead_client s pos (by rw [hd])
    exact emitFetched_ret s _ _ _ _ (gatewayLogs_shadow_noPanic s params hc)

theorem maybeDualReadOrganizationLogs_ret {Body Hit : Type} (s : LoggingService Body Hit)
    (hs : SamplerReady s) (pos : Nat) (params : opensearch.QueryParams) (podLabels : GoMap)
    (primary : LogResponse) :
    (s.maybeDualReadOrganizationLogs pos params podLabels primary).ret = Ret.ok () := by
  unfold LoggingService.maybeDualReadOrganizationLogs
  rcases hd : s.shouldDualRead pos with ⟨_ | _ | _, n⟩
  · exact absurd (by rw [hd]) (hs pos)
  · rfl
  · obtain ⟨client, hc⟩ := shouldDualRead_client s pos (by rw [hd])
    exact emitFetched_ret s _ _ _ _ (organizationLogs_shadow_noPanic s params podLabels hc)

theorem maybeDualReadComponentTraces_ret {Body Hit : Type} (s : LoggingService Body Hit)
    (hs : SamplerReady s) (pos : Nat) (params : opensearch.ComponentTracesRequestParams)
    (primary : opensearch.TraceResponse) :
    (s.maybeDualReadComponentTraces pos params primary).ret = Ret.ok () := by
  unfold LoggingService.maybeDualReadComponentTraces
  rcases hd : s.shouldDualRead pos with ⟨_ | _ | _, n⟩
  · exact absurd (by rw [hd]) (hs pos)
  · rfl
  · obtain ⟨client, hc⟩ := shouldDualRead_client s pos (by rw [hd])
    have hnp := componentTraces_shadow_noPanic s params hc
    rcases hf : s.getComponentTracesFromOpenSearch params with ⟨_ | _ | _, events⟩
    · simp only
      split_ifs <;> rfl
    · rfl
    · exact absurd (by rw [hf]) hnp

theorem dispatchPrimary_ok {α : Type} (resp : α) (events : List Event) (pos : Nat)
    (shadow : α → Outcome Unit) (h : (shadow resp).ret = Ret.ok ()) :
    (dispatchPrimary (Ret.ok resp, events) pos shadow).ret = Ret.ok resp := by
  unfold dispatchPrimary
  rcases hsh : shadow resp with ⟨_ | _ | _, more, n⟩
  · simp only [hsh]
  · rw [hsh] at h; cases h
  · rw [hsh] at h; cases h

/-- C18. On a service made by `NewLoggingService` that runs on the columnar backend,
whenever the query conversion succeeds and the storage provider answers the primary read
with a result `r`, each of the five dispatcher operations returns the conversion of `r`
with a nil error, whatever the OpenSearch client, the collaborators of the legacy path,
the dual-read flag, the sample rate, the generator and its position are: not sampled,
shadow result equal, shadow result mismatching and shadow error are all covered. -/
theorem primary_result_unaffected {Body Hit : Type} (st : StorageProvider)
    (osClient : Option (OpenSearchClient Body Hit)) (cfg : Config) (env : Env Body Hit)
    (source : Nat → ℚ) (pos : Nat)
    (hback : (NewLoggingService (some st) osClient cfg env source).useClickStack = true) :
    (∀ params q r lines, buildComponentLogQuery env params = Except.ok q →
      st.GetComponentLogs q = (Except.ok r, lines) →
      ((NewLoggingService (some st) osClient cfg env source).GetComponentLogs pos params).ret =
        Ret.ok (convertLogResult r)) ∧
    (∀ params componentIDs q r lines,
      buildProjectLogQuery env params componentIDs = Except.ok q →
      st.GetProjectLogs q = (Except.ok r, lines) →
      ((NewLoggingService (some st) osClient cfg env source).GetProjectLogs pos params
        componentIDs).ret = Ret.ok (convertLogResult r)) ∧
    (∀ params q r lines, buildGatewayLogQuery env params = Except.ok q →
      st.GetGatewayLogs q = (Except.ok r, lines) →
      ((NewLoggingService (some st) osClient cfg env source).GetGatewayLogs pos params).ret =
        Ret.ok (convertLogResult r)) ∧
    (∀ params podLabels q r lines,
      buildOrganizationLogQuery env params podLabels = Except.ok q →
      st.GetOrganizationLogs q = (Except.ok r, lines) →
      ((NewLoggingService (some st) osClient cfg env source).GetOrganizationLogs pos params
        podLabels).ret = Ret.ok (convertLogResult r)) ∧
    (∀ params q r lines, buildComponentTraceQuery env params = Except.ok q →
      st.GetComponentTraces q = (Except.ok r, lines) →
      ((NewLoggingService (some st) osClient cfg env source).GetComponentTraces pos params).ret =
        Ret.ok (convertTraceResult r)) := by
  have hready := NewLoggingService_samplerReady (some st) osClient cfg env source
  generalize hs : NewLoggingService (some st) osClient cfg env source = s at hback hready ⊢
  have hst : s.storage = some st := by rw [← hs]; rfl
  have henv : s.env = env := by rw [← hs]; rfl
  refine ⟨?_, ?_, ?_, ?_, ?_⟩
  · intro params q r lines hq hr
    have hp : s.getComponentLogsFromClickStack params =
        (Ret.ok (convertLogResult r), [Event.storage "GetComponentLogs" lines]) := by
      unfold LoggingService.getComponentLogsFromClickStack
      simp only [henv, hq, hst, hr]
    unfold LoggingService.GetComponentLogs
    rw [if_pos hback, hp]
    exact dispatchPrimary_ok _ _ _ _ (maybeDualReadComponentLogs_ret s hready pos params _)
  · intro params componentIDs q r lines hq hr
    have hp : s.getProjectLogsFromClickStack params componentIDs =
        (Ret.ok (convertLogResult r), [Event.storage "GetProjectLogs" lines]) := by
      unfold LoggingService.getProjectLogsFromClickStack
      simp only [henv, hq, hst, hr]
    unfold LoggingService.GetProjectLogs
    rw [if_pos hback, hp]
    exact dispatchPrimary_ok _ _ _ _
      (maybeDualReadProjectLogs_ret s hready pos params componentIDs _)
  · intro params q r lines hq hr
    have hp : s.getGatewayLogsFromClickStack params =
        (Ret.ok (convertLogResult r), [Event.storage "GetGatewayLogs" lines]) := by
      unfold LoggingService.getGatewayLogsFromClickStack
      simp only [henv, hq, hst, hr]
    unfold LoggingService.GetGatewayLogs
    rw [if_pos hback, hp]
    exact dispatchPrimary_ok _ _ _ _ (maybeDualReadGatewayLogs_ret s hready pos params _)
  · intro params podLabels q r lines hq hr
    have hp : s.getOrganizationLogsFromClickStack params podLabels =
        (Ret.ok (convertLogResult r), [Event.storage "GetOrganizationLogs" lines]) := by
      unfold LoggingService.getOrganizationLogsFromClickStack
      simp only [henv, hq, hst, hr]
    unfold LoggingService.GetOrganizationLogs
    rw [if_pos hback, hp]
    exact dispatchPrimary_ok _ _ _ _
      (maybeDualReadOrganizationLogs_ret s hready pos params podLabels _)
  · intro params q r lines hq hr
    have hp : s.getComponentTracesFromClickStack params =
        (Ret.ok (convertTraceResult r), [Event.storage "GetComponentTraces" lines]) := by
      unfold LoggingService.getComponentTracesFromClickStack
      simp only [henv, hq, hst, hr]
    unfold LoggingService.GetComponentTraces
    rw [if_pos hback, hp]
    exact dispatchPrimary_ok _ _ _ _ (maybeDualReadComponentTraces_ret s hready pos params _)

/-- C18, at four services that differ in the shadow path only: dual read off, shadow
answer equal to the primary one (10 records, total 10), shadow answer mismatching
(8 records, total 8), and shadow search failing; each returns the same response. -/
theorem primary_result_unaffected_witness :
    ((dualService (some (sampleClient 8 8)) false (F64.fin 1)).GetComponentLogs 0
      sampleComponentParams).ret = Ret.ok tenRecords ∧
    ((dualService (some (sampleClient 10 10)) true (F64.fin 1)).GetComponentLogs 0
      sampleComponentParams).ret = Ret.ok tenRecords ∧
    ((dualService (some (sampleClient 8 8)) true (F64.fin 1)).GetComponentLogs 0
      sampleComponentParams).ret = Ret.ok tenRecords ∧
    ((dualService (some failingClient) true (F64.fin 1)).GetComponentLogs 0
      sampleComponentParams).ret = Ret.ok tenRecords ∧
    ((dualService (some failingClient) true (F64.fin 1)).GetComponentTraces 0
      sampleTraceParams).ret = Ret.ok tenSpans :=
  ⟨(primary_result_unaffected (sampleStorage 10 10) (some (sampleClient 8 8))
      (sampleConfig false (F64.fin 1)) sampleEnv quarterSource 0 (by decide)).1
      sampleComponentParams _ _ [] rfl rfl,
    (primary_result_unaffected (sampleStorage 10 10) (some (sampleClient 10 10))
      (sampleConfig true (F64.fin 1)) sampleEnv quarterSource 0 (by decide)).1
      sampleComponentParams _ _ [] rfl rfl,
    (primary_result_unaffected (sampleStorage 10 10) (some (sampleClient 8 8))
      (sampleConfig true (F64.fin 1)) sampleEnv quarterSource 0 (by decide)).1
      sampleComponentParams _ _ [] rfl rfl,
    (primary_result_unaffected (sampleStorage 10 10) (some failingClient)
      (sampleConfig true (F64.fin 1)) sampleEnv quarterSource 0 (by decide)).1
      sampleComponentParams _ _ [] rfl rfl,
    (primary_result_unaffected (sampleStorage 10 10) (some failingClient)
      (sampleConfig true (F64.fin 1)) sampleEnv quarterSource 0 (by decide)).2.2.2.2
      sampleTraceParams _ _ [] rfl rfl⟩

theorem mismatchWarnings_append (a b : List Event) :
    mismatchWarnings (a ++ b) = mismatchWarnings a + mismatchWarnings b := by
  unfold mismatchWarnings
  rw [List.filter_append, List.length_append]

theorem emitDualReadResult_eq {Body Hit : Type} (s : LoggingService Body Hit) (scope : String)
    (primary secondary : LogResponse) :
    s.emitDualReadResult scope none primary (some secondary) =
      if responsesDiffer primary secondary then
        [Event.log (mismatchLine scope primary secondary)]
      else [] := rfl

theorem emitDualReadResult_count {Body Hit : Type} (s : LoggingService Body Hit)
    (scope : String) (primary secondary : LogResponse) :
    mismatchWarnings (s.emitDualReadResult scope none primary (some secondary)) =
      if responsesDiffer primary secondary then 1 else 0 := by
  rw [emitDualReadResult_eq]
  split_ifs <;> rfl

theorem componentLogs_primary_quiet {Body Hit : Type} (s : LoggingService Body Hit)
    (params : opensearch.ComponentQueryParams) :
    mismatchWarnings (s.getComponentLogsFromClickStack params).2 = 0 := by
  unfold LoggingService.getComponentLogsFromClickStack
  repeat' split
  all_goals rfl

theorem projectLogs_primary_quiet {Body Hit : Type} (s : LoggingService Body Hit)
    (params : opensearch.QueryParams) (componentIDs : List String) :
    mismatchWarnings (s.getProjectLogsFromClickStack params componentIDs).2 = 0 := by
  unfold LoggingService.getProjectLogsFromClickStack
  repeat' split
  all_goals rfl

theorem gatewayLogs_primary_quiet {Body Hit : Type} (s : LoggingService Body Hit)
    (params : opensearch.GatewayQueryParams) :
    mismatchWarnings (s.getGatewayLogsFromClickStack params).2 = 0 := by
  unfold LoggingService.getGatewayLogsFromClickStack
  repeat' split
  all_goals rfl

theorem organizationLogs_primary_quiet {Body Hit : Type} (s : LoggingService Body Hit)
    (params : opensearch.QueryParams) (podLabels : GoMap) :
    mismatchWarnings (s.getOrganizationLogsFromClickStack params podLabels).2 = 0 := by
  unfold LoggingService.getOrganizationLogsFromClickStack
  repeat' split
  all_goals rfl

theorem componentLogs_shadow_quiet {Body Hit : Type} (s : LoggingService Body Hit)
    (params : opensearch.ComponentQueryParams) :
    mismatchWarnings (s.getComponentLogsFromOpenSearch params).2 = 0 := by
  unfold LoggingService.getComponentLogsFromOpenSearch
  dsimp only
  repeat' split
  all_goals rfl

theorem projectLogs_shadow_quiet {Body Hit : Type} (s : LoggingService Body Hit)
    (params : opensearch.QueryParams) (componentIDs : List String) :
    mismatchWarnings (s.getProjectLogsFromOpenSearch params componentIDs).2 = 0 := by
  unfold LoggingService.getProjectLogsFromOpenSearch
  dsimp only
  repeat' split
  all_goals rfl

theorem gatewayLogs_shadow_quiet {Body Hit : Type} (s : LoggingService Body Hit)
    (params : opensearch.GatewayQueryParams) :
    mismatchWarnings (s.getGatewayLogsFromOpenSearch params).2 = 0 := by
  unfold LoggingService.getGatewayLogsFromOpenSearch
  dsimp only
  repeat' split
  all_goals rfl

theorem organizationLogs_shadow_quiet {Body Hit : Type} (s : LoggingService Body Hit)
    (params : opensearch.QueryParams) (podLabels : GoMap) :
    mismatchWarnings (s.getOrganizationLogsFromOpenSearch params podLabels).2 = 0 := by
  unfold LoggingService.getOrganizationLogsFromOpenSearch
  dsimp only
  repeat' split
  all_goals rfl

theorem dispatchPrimary_eq {α : Type} (resp : α) (events more : List Event) (pos n : Nat)
    (shadow : α → Outcome Unit) (h : shadow resp = ⟨Ret.ok (), more, n⟩) :
    dispatchPrimary (Ret.ok resp, events) pos shadow = ⟨Ret.ok resp, events ++ more, n⟩ := by
  unfold dispatchPrimary
  simp only [h]

/-- The outcome of a log operation on the columnar backend whose primary read and
shadow read both succeed. -/
theorem dispatch_shadowed {Body Hit : Type} (s : LoggingService Body Hit) (scope : String)
    (pos n : Nat) (primary secondary : LogResponse) (ev0 ev1 : List Event)
    (h0 : mismatchWarnings ev0 = 0) (h1 : mismatchWarnings ev1 = 0) :
    (dispatchPrimary (Ret.ok primary, ev0) pos fun resp =>
        s.emitFetched scope resp (Ret.ok secondary, ev1) n).ret = Ret.ok primary ∧
    mismatchWarnings (dispatchPrimary (Ret.ok primary, ev0) pos fun resp =>
        s.emitFetched scope resp (Ret.ok secondary, ev1) n).events =
      if responsesDiffer primary secondary then 1 else 0 := by
  rw [dispatchPrimary_eq primary ev0
    (ev1 ++ s.emitDualReadResult scope none primary (some secondary)) pos n _ rfl]
  refine ⟨rfl, ?_⟩
  simp only [mismatchWarnings_append, h0, h1, emitDualReadResult_count, zero_add]

theorem maybeDualReadComponentLogs_eq {Body Hit : Type} (s : LoggingService Body Hit)
    (pos : Nat) (params : opensearch.ComponentQueryParams) (primary : LogResponse)
    (h : (s.shouldDualRead pos).1 = some true) :
    s.maybeDualReadComponentLogs pos params primary =
      s.emitFetched "component" primary (s.getComponentLogsFromOpenSearch params)
        (s.shouldDualRead pos).2 := by
  unfold LoggingService.maybeDualReadComponentLogs
  rcases hd : s.shouldDualRead pos with ⟨b, n⟩
  rw [hd] at h
  cases h
  rfl

theorem maybeDualReadProjectLogs_eq {Body Hit : Type} (s : LoggingService Body Hit)
    (pos : Nat) (params : opensearch.QueryParams) (componentIDs : List String)
    (primary : LogResponse) (h : (s.shouldDualRead pos).1 = some true) :
    s.maybeDualReadProjectLogs pos params componentIDs primary =
      s.emitFetched "project" primary (s.getProjectLogsFromOpenSearch params componentIDs)
        (s.shouldDualRead pos).2 := by
  unfold LoggingService.maybeDualReadProjectLogs
  rcases hd : s.shouldDualRead pos with ⟨b, n⟩
  rw [hd] at h
  cases h
  rfl

theorem maybeDualReadGatewayLogs_eq {Body Hit : Type} (s : LoggingService Body Hit)
    (pos : Nat) (params : opensearch.GatewayQueryParams) (primary : LogResponse)
    (h : (s.shouldDualRead pos).1 = some true) :
    s.maybeDualReadGatewayLogs pos params primary =
      s.emitFetched "gateway" primary (s.getGatewayLogsFromOpenSearch params)
        (s.shouldDualRead pos).2 := by
  unfold LoggingService.maybeDualReadGatewayLogs
  rcases hd : s.shouldDualRead pos with ⟨b, n⟩
  rw [hd] at h
  cases h
  rfl

theorem maybeDualReadOrganizationLogs_eq {Body Hit : Type} (s : LoggingService Body Hit)
    (pos : Nat) (params : opensearch.QueryParams) (podLabels : GoMap)
    (primary : LogResponse) (h : (s.shouldDualRead pos).1 = some true) :
    s.maybeDualReadOrganizationLogs pos params podLabels primary =
      s.emitFetched "organization" primary
        (s.getOrganizationLogsFromOpenSearch params podLabels) (s.shouldDualRead pos).2 := by
  unfold LoggingService.maybeDualReadOrganizationLogs
  rcases hd : s.shouldDualRead pos with ⟨b, n⟩
  rw [hd] at h
  cases h
  rfl

/-- C19. When the shadow read is issued and succeeds, `emitDualReadResult` writes exactly
the one warning `dual-read mismatch` if the primary and the shadow response differ in
total count or in number of records, and nothing if they agree. Hence each of the four
log operations, on the columnar backend with a successful primary read, returns the
primary response and logs exactly one mismatch warning in the first case and none in
the second. -/
theorem dualRead_mismatch_warning {Body Hit : Type} (s : LoggingService Body Hit) (pos : Nat)
    (hback : s.useClickStack = true) (hdual : (s.shouldDualRead pos).1 = some true) :
    (∀ scope primary secondary,
      s.emitDualReadResult scope none primary (some secondary) =
        if responsesDiffer primary secondary then
          [Event.log (mismatchLine scope primary secondary)]
        else []) ∧
    (∀ params primary ev0 secondary ev1,
      s.getComponentLogsFromClickStack params = (Ret.ok primary, ev0) →
      s.getComponentLogsFromOpenSearch params = (Ret.ok secondary, ev1) →
      (s.GetComponentLogs pos params).ret = Ret.ok primary ∧
      mismatchWarnings (s.GetComponentLogs pos params).events =
        if responsesDiffer primary secondary then 1 else 0) ∧
    (∀ params componentIDs primary ev0 secondary ev1,
      s.getProjectLogsFromClickStack params componentIDs = (Ret.ok primary, ev0) →
      s.getProjectLogsFromOpenSearch params componentIDs = (Ret.ok secondary, ev1) →
      (s.GetProjectLogs pos params componentIDs).ret = Ret.ok primary ∧
      mismatchWarnings (s.GetProjectLogs pos params componentIDs).events =
        if responsesDiffer primary secondary then 1 else 0) ∧
    (∀ params primary ev0 secondary ev1,
      s.getGatewayLogsFromClickStack params = (Ret.ok primary, ev0) →
      s.getGatewayLogsFromOpenSearch params = (Ret.ok secondary, ev1) →
      (s.GetGatewayLogs pos params).ret = Ret.ok primary ∧
      mismatchWarnings (s.GetGatewayLogs pos params).events =
        if responsesDiffer primary secondary then 1 else 0) ∧
    (∀ params podLabels primary ev0 secondary ev1,
      s.getOrganizationLogsFromClickStack params podLabels = (Ret.ok primary, ev0) →
      s.getOrganizationLogsFromOpenSearch params podLabels = (Ret.ok secondary, ev1) →
      (s.GetOrganizationLogs pos params podLabels).ret = Ret.ok primary ∧
      mismatchWarnings (s.GetOrganizationLogs pos params podLabels).events =
        if responsesDiffer primary secondary then 1 else 0) := by
  refine ⟨fun scope primary secondary => emitDualReadResult_eq s scope primary secondary,
    ?_, ?_, ?_, ?_⟩
  · intro params primary ev0 secondary ev1 hp hsh
    have h0 : mismatchWarnings ev0 = 0 := by
      have := componentLogs_primary_quiet s params
      rwa [hp] at this
    have h1 : mismatchWarnings ev1 = 0 := by
      have := componentLogs_shadow_quiet s params
      rwa [hsh] at this
    unfold LoggingService.GetComponentLogs
    rw [if_pos hback, hp]
    simp only [maybeDualReadComponentLogs_eq s pos params _ hdual, hsh]
    exact dispatch_shadowed s "component" pos _ primary secondary ev0 ev1 h0 h1
  · intro params componentIDs primary ev0 secondary ev1 hp hsh
    have h0 : mismatchWarnings ev0 = 0 := by
      have := projectLogs_primary_quiet s params componentIDs
      rwa [hp] at this
    have h1 : mismatchWarnings ev1 = 0 := by
      have := projectLogs_shadow_quiet s params componentIDs
      rwa [hsh] at this
    unfold LoggingService.GetProjectLogs
    rw [if_pos hback, hp]
    simp only [maybeDualReadProjectLogs_eq s pos params componentIDs _ hdual, hsh]
    exact dispatch_shadowed s "project" pos _ primary secondary ev0 ev1 h0 h1
  · intro params primary ev0 secondary ev1 hp hsh
    have h0 : mismatchWarnings ev0 = 0 := by
      have := gatewayLogs_primary_quiet s params
      rwa [hp] at this
    have h1 : mismatchWarnings ev1 = 0 := by
      have := gatewayLogs_shadow_quiet s params
      rwa [hsh] at this
    unfold LoggingService.GetGatewayLogs
    rw [if_pos hback, hp]
    simp only [maybeDualReadGatewayLogs_eq s pos params _ hdual, hsh]
    exact dispatch_shadowed s "gateway" pos _ primary secondary ev0 ev1 h0 h1
  · intro params podLabels primary ev0 secondary ev1 hp hsh
    have h0 : mismatchWarnings ev0 = 0 := by
      have := organizationLogs_primary_quiet s params podLabels
      rwa [hp] at this
    have h1 : mismatchWarnings ev1 = 0 := by
      have := organizationLogs_shadow_quiet s params podLabels
      rwa [hsh] at this
    unfold LoggingService.GetOrganizationLogs
    rw [if_pos hback, hp]
    simp only [maybeDualReadOrganizationLogs_eq s pos params podLabels _ hdual, hsh]
    exact dispatch_shadowed s "organization" pos _ primary secondary ev0 ev1 h0 h1

/-- C19, at scenario C: dual read at rate 1, the primary answers 10 records with total
10 and the shadow 8 records with total 8; the caller receives the primary response and
exactly one mismatch warning is logged. With a shadow answer of 10 records and total 10
no warning is logged. -/
theorem dualRead_mismatch_warning_witness :
    ((dualService (some (sampleClient 8 8)) true (F64.fin 1)).GetComponentLogs 0
      sampleComponentParams).ret = Ret.ok tenRecords ∧
    mismatchWarnings ((dualService (some (sampleClient 8 8)) true (F64.fin 1)).GetComponentLogs 0
      sampleComponentParams).events = 1 ∧
    mismatchWarnings ((dualService (some (sampleClient 10 10)) true
      (F64.fin 1)).GetComponentLogs 0 sampleComponentParams).events = 0 :=
  have h8 := (dualRead_mismatch_warning (dualService (some (sampleClient 8 8)) true (F64.fin 1))
    0 (by decide) (by decide)).2.1 sampleComponentParams _ _ _ _ rfl rfl
  have h10 := (dualRead_mismatch_warning
    (dualService (some (sampleClient 10 10)) true (F64.fin 1))
    0 (by decide) (by decide)).2.1 sampleComponentParams _ _ _ _ rfl rfl
  ⟨h8.1, h8.2.trans (by decide), h10.2.trans (by decide)⟩

/-- C20, the code at the failing input. Dual read at rate 1 on the columnar backend; the
primary answers 10 spans with total 10 and the shadow 8 spans with the same total 10.
`GetComponentTraces` returns the primary response and no warning at all is logged,
whereas the log operation on the same counts logs one mismatch warning. -/
theorem traces_length_mismatch_unreported :
    ((dualService (some (sampleClient 8 10)) true (F64.fin 1)).GetComponentTraces 0
      sampleTraceParams).ret = Ret.ok tenSpans ∧
    ((dualService (some (sampleClient 8 10)) true (F64.fin 1)).shouldDualRead 0).1 =
      some true ∧
    (((dualService (some (sampleClient 8 10)) true (F64.fin 1)).getComponentTracesFromOpenSearch
      sampleTraceParams).1 =
        Ret.ok { Spans := (List.range 8).map sampleEnv.ParseSpanEntry, TotalCount := 10,
                 Took := 7 }) ∧
    tenSpans.Spans.length = 10 ∧ tenSpans.TotalCount = 10 ∧
    warnings ((dualService (some (sampleClient 8 10)) true (F64.fin 1)).GetComponentTraces 0
      sampleTraceParams).events = [] ∧
    mismatchWarnings ((dualService (some (sampleClient 8 10)) true
      (F64.fin 1)).GetComponentLogs 0 sampleComponentParams).events = 1 := by
  refine ⟨by decide, by decide, by decide, by decide, by decide, by decide, by decide⟩

/-! ## Backend selection -/

theorem char_eq_of_toNat {x y : Char} (h : x.toNat = y.toNat) : x = y := by
  have := congrArg Char.ofNat h
  simpa [Char.ofNat_toNat] using this

theorem toNat_ofNat_small (n : Nat) (h : n < 55296) : (Char.ofNat n).toNat = n := by
  have hv : n.isValidChar := Or.inl h
  simp only [Char.ofNat, hv, dif_pos, Char.toNat, Char.ofNatAux]
  simp [UInt32.toNat]

theorem toNat_toLower (x : Char) :
    x.toLower.toNat = if 65 ≤ x.toNat ∧ x.toNat ≤ 90 then x.toNat + 32 else x.toNat := by
  unfold Char.toLower
  simp only [ge_iff_le]
  split_ifs with h
  · exact toNat_ofNat_small _ (by omega)
  · rfl

/-- For an ASCII rune and a lower-case ASCII letter, folding is lowering. -/
theorem foldsToLetter_ascii (x t : Char) (hx : x.toNat < 128) (h1 : 97 ≤ t.toNat)
    (h2 : t.toNat ≤ 122) : foldsToLetter x t = true ↔ x.toLower = t := by
  have hk : x ≠ Char.ofNat 0x212A := by
    intro h; rw [h] at hx; revert hx; decide
  have hs : x ≠ Char.ofNat 0x17F := by
    intro h; rw [h] at hx; revert hx; decide
  unfold foldsToLetter
  simp only [Bool.or_eq_true, Bool.and_eq_true, beq_iff_eq, hk, hs, and_false, or_false]
  constructor
  · rintro (h | h)
    · subst h
      apply char_eq_of_toNat
      rw [toNat_toLower, if_neg (by omega)]
    · apply char_eq_of_toNat
      rw [toNat_toLower, if_pos (by omega)]
      exact h
  · intro h
    have := congrArg Char.toNat h
    rw [toNat_toLower] at this
    split_ifs at this with hc
    · right; exact this
    · left; exact char_eq_of_toNat this

theorem equalFold_ascii_list (xs ts : List Char) (hx : ∀ c ∈ xs, c.toNat < 128)
    (ht : ∀ c ∈ ts, 97 ≤ c.toNat ∧ c.toNat ≤ 122) :
    (xs.length == ts.length && (List.zip xs ts).all fun p => foldsToLetter p.1 p.2) = true ↔
      xs.map Char.toLower = ts := by
  induction xs generalizing ts with
  | nil => cases ts <;> simp
  | cons x xs ih =>
    cases ts with
    | nil => simp
    | cons t ts =>
      have hx' : ∀ c ∈ xs, c.toNat < 128 := fun c hc => hx c (List.mem_cons_of_mem _ hc)
      have ht' : ∀ c ∈ ts, 97 ≤ c.toNat ∧ c.toNat ≤ 122 :=
        fun c hc => ht c (List.mem_cons_of_mem _ hc)
      have hfold := foldsToLetter_ascii x t (hx x (List.mem_cons_self _ _))
        (ht t (List.mem_cons_self _ _)).1 (ht t (List.mem_cons_self _ _)).2
      have ih' := ih ts hx' ht'
      simp only [Bool.and_eq_true, beq_iff_eq] at ih'
      simp only [List.length_cons, List.zip_cons_cons, List.all_cons, List.map_cons,
        Bool.and_eq_true, beq_iff_eq, List.cons.injEq, add_left_inj]
      rw [hfold, ← ih']
      tauto

theorem equalFold_clickstack (b : String) (hb : ∀ c ∈ b.data, c.toNat < 128) :
    equalFoldLetters b "clickstack" = true ↔ b.data.map Char.toLower = "clickstack".data := by
  unfold equalFoldLetters
  exact equalFold_ascii_list b.data "clickstack".data hb (by decide)

theorem componentLogs_legacy_calls {Body Hit : Type} (s : LoggingService Body Hit)
    (params : opensearch.ComponentQueryParams) :
    storageCalls (s.getComponentLogsFromOpenSearch params).2 = 0 ∧
      searchCalls (s.getComponentLogsFromOpenSearch params).2 ≤ 1 := by
  unfold LoggingService.getComponentLogsFromOpenSearch
  dsimp only
  repeat' split
  all_goals first | exact ⟨rfl, Nat.zero_le 1⟩ | exact ⟨rfl, Nat.le_refl 1⟩

theorem projectLogs_legacy_calls {Body Hit : Type} (s : LoggingService Body Hit)
    (params : opensearch.QueryParams) (componentIDs : List String) :
    storageCalls (s.getProjectLogsFromOpenSearch params componentIDs).2 = 0 ∧
      searchCalls (s.getProjectLogsFromOpenSearch params componentIDs).2 ≤ 1 := by
  unfold LoggingService.getProjectLogsFromOpenSearch
  dsimp only
  repeat' split
  all_goals first | exact ⟨rfl, Nat.zero_le 1⟩ | exact ⟨rfl, Nat.le_refl 1⟩

theorem gatewayLogs_legacy_calls {Body Hit : Type} (s : LoggingService Body Hit)
    (params : opensearch.GatewayQueryParams) :
    storageCalls (s.getGatewayLogsFromOpenSearch params).2 = 0 ∧
      searchCalls (s.getGatewayLogsFromOpenSearch params).2 ≤ 1 := by
  unfold LoggingService.getGatewayLogsFromOpenSearch
  dsimp only
  repeat' split
  all_goals first | exact ⟨rfl, Nat.zero_le 1⟩ | exact ⟨rfl, Nat.le_refl 1⟩

theorem organizationLogs_legacy_calls {Body Hit : Type} (s : LoggingService Body Hit)
    (params : opensearch.QueryParams) (podLabels : GoMap) :
    storageCalls (s.getOrganizationLogsFromOpenSearch params podLabels).2 = 0 ∧
      searchCalls (s.getOrganizationLogsFromOpenSearch params podLabels).2 ≤ 1 := by
  unfold LoggingService.getOrganizationLogsFromOpenSearch
  dsimp only
  repeat' split
  all_goals first | exact ⟨rfl, Nat.zero_le 1⟩ | exact ⟨rfl, Nat.le_refl 1⟩

theorem componentTraces_legacy_calls {Body Hit : Type} (s : LoggingService Body Hit)
    (params : opensearch.ComponentTracesRequestParams) :
    storageCalls (s.getComponentTracesFromOpenSearch params).2 = 0 ∧
      searchCalls (s.getComponentTracesFromOpenSearch params).2 ≤ 1 := by
  unfold LoggingService.getComponentTracesFromOpenSearch
  dsimp only
  repeat' split
  all_goals first | exact ⟨rfl, Nat.zero_le 1⟩ | exact ⟨rfl, Nat.le_refl 1⟩

theorem legacyOnly_mk {α : Type} (legacy : Ret α × List Event) (pos : Nat)
    (h : storageCalls legacy.2 = 0 ∧ searchCalls legacy.2 ≤ 1) :
    LegacyOnly (⟨legacy.1, legacy.2, pos⟩ : Outcome α) legacy pos :=
  ⟨rfl, rfl, rfl, h.1, h.2⟩

theorem dispatchPrimary_columnarFirst {α : Type} (primary : Ret α × List Event) (pos : Nat)
    (shadow : α → Outcome Unit) : ColumnarFirst (dispatchPrimary primary pos shadow) primary := by
  unfold ColumnarFirst dispatchPrimary
  rcases primary with ⟨r, events⟩
  cases r with
  | panic => exact ⟨[], (List.append_nil _).symm⟩
  | err e => exact ⟨[], (List.append_nil _).symm⟩
  | ok resp =>
    dsimp only
    rcases hsh : shadow resp with ⟨r', more, n⟩
    cases r' <;> exact ⟨more, rfl⟩

/-- C21. The service uses the columnar backend exactly when a storage provider is present
and the configured backend name equals `clickstack` under `strings.EqualFold`, which for
a name of ASCII characters means that its lower-cased letters spell `clickstack`. On the
columnar backend each of the five dispatcher operations runs the columnar read first. On
every other service, whatever its dual-read flag, sample rate, generator and position,
each of the five operations is answered by the legacy search path alone: same return and
same effects as the legacy read, no call of the storage provider, the sampler not
consulted and at most one search. -/
theorem backend_selection {Body Hit : Type} (s : LoggingService Body Hit) (pos : Nat) :
    (s.useClickStack = true ↔
      s.storage.isSome = true ∧
        equalFoldLetters s.config.Telemetry.Backend "clickstack" = true) ∧
    ((∀ c ∈ s.config.Telemetry.Backend.data, c.toNat < 128) →
      (equalFoldLetters s.config.Telemetry.Backend "clickstack" = true ↔
        s.config.Telemetry.Backend.data.map Char.toLower = "clickstack".data)) ∧
    (s.useClickStack = true →
      (∀ params, ColumnarFirst (s.GetComponentLogs pos params)
        (s.getComponentLogsFromClickStack params)) ∧
      (∀ params componentIDs, ColumnarFirst (s.GetProjectLogs pos params componentIDs)
        (s.getProjectLogsFromClickStack params componentIDs)) ∧
      (∀ params, ColumnarFirst (s.GetGatewayLogs pos params)
        (s.getGatewayLogsFromClickStack params)) ∧
      (∀ params podLabels, ColumnarFirst (s.GetOrganizationLogs pos params podLabels)
        (s.getOrganizationLogsFromClickStack params podLabels)) ∧
      (∀ params, ColumnarFirst (s.GetComponentTraces pos params)
        (s.getComponentTracesFromClickStack params))) ∧
    (s.useClickStack = false →
      (∀ params, LegacyOnly (s.GetComponentLogs pos params)
        (s.getComponentLogsFromOpenSearch params) pos) ∧
      (∀ params componentIDs, LegacyOnly (s.GetProjectLogs pos params componentIDs)
        (s.getProjectLogsFromOpenSearch params componentIDs) pos) ∧
      (∀ params, LegacyOnly (s.GetGatewayLogs pos params)
        (s.getGatewayLogsFromOpenSearch params) pos) ∧
      (∀ params podLabels, LegacyOnly (s.GetOrganizationLogs pos params podLabels)
        (s.getOrganizationLogsFromOpenSearch params podLabels) pos) ∧
      (∀ params, LegacyOnly (s.GetComponentTraces pos params)
        (s.getComponentTracesFromOpenSearch params) pos)) := by
  refine ⟨?_, equalFold_clickstack _, ?_, ?_⟩
  · unfold LoggingService.useClickStack
    rw [Bool.and_eq_true]
  · intro h
    refine ⟨fun params => ?_, fun params componentIDs => ?_, fun params => ?_,
      fun params podLabels => ?_, fun params => ?_⟩
    · unfold LoggingService.GetComponentLogs
      rw [if_pos h]
      exact dispatchPrimary_columnarFirst _ _ _
    · unfold LoggingService.GetProjectLogs
      rw [if_pos h]
      exact dispatchPrimary_columnarFirst _ _ _
    · unfold LoggingService.GetGatewayLogs
      rw [if_pos h]
      exact dispatchPrimary_columnarFirst _ _ _
    · unfold LoggingService.GetOrganizationLogs
      rw [if_pos h]
      exact dispatchPrimary_columnarFirst _ _ _
    · unfold LoggingService.GetComponentTraces
      rw [if_pos h]
      exact dispatchPrimary_columnarFirst _ _ _
  · intro h
    have hn : ¬ (s.useClickStack = true) := by rw [h]; exact Bool.false_ne_true
    refine ⟨fun params => ?_, fun params componentIDs => ?_, fun params => ?_,
      fun params podLabels => ?_, fun params => ?_⟩
    · unfold LoggingService.GetComponentLogs
      rw [if_neg hn]
      exact legacyOnly_mk _ pos (componentLogs_legacy_calls s params)
    · unfold LoggingService.GetProjectLogs
      rw [if_neg hn]
      exact legacyOnly_mk _ pos (projectLogs_legacy_calls s params componentIDs)
    · unfold LoggingService.GetGatewayLogs
      rw [if_neg hn]
      exact legacyOnly_mk _ pos (gatewayLogs_legacy_calls s params)
    · unfold LoggingService.GetOrganizationLogs
      rw [if_neg hn]
      exact legacyOnly_mk _ pos (organizationLogs_legacy_calls s params podLabels)
    · unfold LoggingService.GetComponentTraces
      rw [if_neg hn]
      exact legacyOnly_mk _ pos (componentTraces_legacy_calls s params)

/-- C21, at four services with dual read at rate 1: the backend names `CLICKSTACK` and
`ClickStack` with a storage provider select the columnar backend; the name `opensearch`,
and the name `clickstack` without a storage provider, select the legacy path, whose
answer of 8 records is returned with no call of the storage provider. -/
theorem backend_selection_witness :
    (backendService "CLICKSTACK" (some (sampleStorage 10 10))).useClickStack = true ∧
    (backendService "ClickStack" (some (sampleStorage 10 10))).useClickStack = true ∧
    (backendService "clickstack" none).useClickStack = false ∧
    (backendService "click-stack" (some (sampleStorage 10 10))).useClickStack = false ∧
    LegacyOnly ((backendService "opensearch" (some (sampleStorage 10 10))).GetComponentLogs 0
        sampleComponentParams)
      ((backendService "opensearch" (some (sampleStorage 10 10))).getComponentLogsFromOpenSearch
        sampleComponentParams) 0 ∧
    (((backendService "opensearch" (some (sampleStorage 10 10))).GetComponentLogs 0
        sampleComponentParams).ret =
      Ret.ok { Logs := (List.range 8).map sampleEnv.ParseLogEntry, TotalCount := 8,
               Took := 7 }) :=
  ⟨by decide, by decide, by decide, by decide,
    ((backend_selection (backendService "opensearch" (some (sampleStorage 10 10))) 0).2.2.2
      (by decide)).1 sampleComponentParams,
    by decide⟩

/-! ## Row decoding in `executeLogQuery` -/

theorem executeLogLoop_ok (p : Provider) (scans : List logScan) (result : LogResult) :
    executeLogLoop p (scans.map Except.ok) result =
      (Except.ok { result with
          TotalCount := lastTotalCount scans result.TotalCount,
          Logs := result.Logs ++
            scans.map fun s => { s.record with Labels := decodedLabels p s } },
        scans.flatMap (decodeWarnings p)) := by
  induction scans generalizing result with
  | nil => simp [executeLogLoop, lastTotalCount]
  | cons s rest ih =>
    simp only [List.map_cons, executeLogLoop, ih, List.flatMap_cons, lastTotalCount,
      List.foldl_cons, List.append_assoc, List.singleton_append]
    have hl : decodedLabels p s =
        (match s.labelsJSON with
          | some text =>
            match p.jsonUnmarshalLabels text with
            | Except.ok labels => ((labels, []) : Option GoMap × List LogLine)
            | Except.error e =>
              (some [], [⟨Level.Warn, "Failed to decode labels JSON",
                [("error", LogValue.err e)]⟩])
          | none => (none, [])).1 := by
      unfold decodedLabels
      cases s.labelsJSON with
      | none => rfl
      | some text => dsimp only; cases p.jsonUnmarshalLabels text <;> rfl
    have hw : decodeWarnings p s =
        (match s.labelsJSON with
          | some text =>
            match p.jsonUnmarshalLabels text with
            | Except.ok labels => ((labels, []) : Option GoMap × List LogLine)
            | Except.error e =>
              (some [], [⟨Level.Warn, "Failed to decode labels JSON",
                [("error", LogValue.err e)]⟩])
          | none => (none, [])).2 := by
      unfold decodeWarnings
      cases s.labelsJSON with
      | none => rfl
      | some text => dsimp only; cases p.jsonUnmarshalLabels text <;> rfl
    rw [← hl, ← hw]
    cases s.totalCount <;> rfl

/-- C28. When the database answers a log statement with rows that all scan and the
iteration ends without error, `executeLogQuery` returns, with a nil error, a result that
holds exactly one record per row in row order (no row: no record and total count 0). A
row whose label payload is present but does not decode yields, at its place, its record
with the empty label map, and one warning is logged for it; the total count is the one
of the last row that carries one. -/
theorem label_decode_failure_contained (p : Provider) (sqlStmt : String) (args : List Arg)
    (scans : List logScan) (elapsed : Int)
    (hq : p.queryLogs sqlStmt args = QueryOutcome.rows (scans.map Except.ok) none elapsed) :
    ∃ result, (p.executeLogQuery sqlStmt args).1 = Except.ok result ∧
      result.Logs.length = scans.length ∧
      result.Logs = scans.map (fun s => { s.record with Labels := decodedLabels p s }) ∧
      (scans = [] → result.Logs = [] ∧ result.TotalCount = 0) ∧
      result.TotalCount = lastTotalCount scans 0 ∧
      (∀ i (hi : i < scans.length) text e, scans[i].labelsJSON = some text →
        p.jsonUnmarshalLabels text = Except.error e →
        result.Logs[i]? = some { scans[i].record with Labels := some [] }) ∧
      (p.executeLogQuery sqlStmt args).2 = scans.flatMap (decodeWarnings p) := by
  have hrun : p.executeLogQuery sqlStmt args =
      (Except.ok { Logs := scans.map fun s => { s.record with Labels := decodedLabels p s },
                   TotalCount := lastTotalCount scans 0, Took := elapsed },
        scans.flatMap (decodeWarnings p)) := by
    unfold Provider.executeLogQuery
    rw [hq]
    simp only [executeLogLoop_ok, List.nil_append]
  refine ⟨_, by rw [hrun], ?_, rfl, ?_, rfl, ?_, by rw [hrun]⟩
  · simp
  · intro h
    subst h
    exact ⟨rfl, rfl⟩
  · intro i hi text e hl he
    have hd : decodedLabels p scans[i] = some [] := by
      unfold decodedLabels
      rw [hl]
      dsimp only
      rw [he]
    simp only [List.getElem?_map, List.getElem?_eq_getElem hi, Option.map_some', hd]

/-- C28, at three rows of which the second holds a payload that does not decode: three
records in row order, the second with the empty label map, the third with a nil map for
its NULL payload, the total count 3 and one warning. -/
theorem label_decode_failure_contained_witness :
    ∃ result, ((logProvider sampleLogScans).executeLogQuery "q" []).1 = Except.ok result ∧
      (result.Logs.map fun r => r.Log) = ["first", "second", "third"] ∧
      (result.Logs.map fun r => r.Labels) = [some [], some [], none] ∧
      result.TotalCount = 3 ∧
      ((logProvider sampleLogScans).executeLogQuery "q" []).2.length = 1 := by
  obtain ⟨result, hr, -, hlogs, -, htotal, -, hlines⟩ :=
    label_decode_failure_contained (logProvider sampleLogScans) "q" [] sampleLogScans 4 rfl
  refine ⟨result, hr, ?_, ?_, ?_, ?_⟩
  · rw [hlogs]; decide
  · rw [hlogs]; decide
  · rw [htotal]; decide
  · rw [hlines]; decide

/-! ## Escaping of pod-label keys -/

theorem quotesEscapedFrom_plain (l : List Char) (h : Char.ofNat 92 ∉ l) :
    quotesEscapedFrom
      (l.flatMap fun c => if c = Char.ofNat 39 then [Char.ofNat 92, Char.ofNat 39] else [c])
      0 = true := by
  induction l with
  | nil => rfl
  | cons c rest ih =>
    have hc : c ≠ Char.ofNat 92 := fun e => h (e ▸ List.mem_cons_self _ _)
    have hrest : Char.ofNat 92 ∉ rest := fun m => h (List.mem_cons_of_mem _ m)
    by_cases hq : c = Char.ofNat 39
    · subst hq
      show quotesEscapedFrom (Char.ofNat 92 :: Char.ofNat 39 ::
        rest.flatMap fun c =>
          if c = Char.ofNat 39 then [Char.ofNat 92, Char.ofNat 39] else [c]) 0 = true
      rw [quotesEscapedFrom, if_pos rfl, quotesEscapedFrom, if_neg (by decide), if_pos rfl,
        ih hrest]
      rfl
    · have hstep : ((c :: rest).flatMap fun c =>
          if c = Char.ofNat 39 then [Char.ofNat 92, Char.ofNat 39] else [c]) =
          c :: rest.flatMap fun c =>
            if c = Char.ofNat 39 then [Char.ofNat 92, Char.ofNat 39] else [c] := by
        rw [List.flatMap_cons, if_neg hq]
        rfl
      rw [hstep, quotesEscapedFrom, if_neg hc, if_neg hq, ih hrest]

/-- A key without backslash is escaped so that each of its single quotes is preceded by
exactly one backslash. -/
theorem escapeJSONPath_plain (k : String) (h : Char.ofNat 92 ∉ k.data) :
    QuotesEscaped (escapeJSONPath k) = true :=
  quotesEscapedFrom_plain k.data h

set_option maxRecDepth 100000 in
/-- C30, the code at the key made of a backslash and a single quote. The escaped key is
backslash, backslash, single quote: its single quote is preceded by two backslashes, an
even number, and is not escaped. `OrganizationLogs` puts this text between single quotes
in the statement it returns without error. Keys without backslash are escaped as the
claim says. -/
theorem escapeJSONPath_backslash_quote :
    escapeJSONPath backslashQuoteKey =
      String.mk [Char.ofNat 92, Char.ofNat 92, Char.ofNat 39] ∧
    QuotesEscaped (escapeJSONPath backslashQuoteKey) = false ∧
    (testBuilder.OrganizationLogs sampleBackslashQuote).err = none ∧
    stringsContains (testBuilder.OrganizationLogs sampleBackslashQuote).sql
      ("JSONExtractString(labels_json, '" ++
        String.mk [Char.ofNat 92, Char.ofNat 92, Char.ofNat 39] ++ "') = ?") ∧
    (∀ k : String, Char.ofNat 92 ∉ k.data → QuotesEscaped (escapeJSONPath k) = true) := by
  refine ⟨by decide, by decide, by decide, by decide, escapeJSONPath_plain⟩

/-! ## Placeholders and arguments -/

theorem countPlaceholders_append (a b : String) :
    countPlaceholders (a ++ b) = countPlaceholders a + countPlaceholders b := by
  unfold countPlaceholders
  rw [String.data_append, List.count_append]

theorem countPlaceholders_join (l : List String) (sep : String)
    (hs : countPlaceholders sep = 0) :
    countPlaceholders (stringsJoin l sep) = (l.map countPlaceholders).sum := by
  induction l with
  | nil => rfl
  | cons a rest ih =>
    cases rest with
    | nil => simp [stringsJoin]
    | cons b rest =>
      rw [stringsJoin_cons_cons, countPlaceholders_append, countPlaceholders_append, hs, ih]
      simp

theorem countPlaceholders_placeholders (n : Nat) : countPlaceholders (placeholders n) = n := by
  unfold placeholders
  split_ifs with h
  · have h0 : n = 0 := by omega
    subst h0
    rfl
  · rw [countPlaceholders_join _ _ (by decide)]
    have h1 : countPlaceholders "?" = 1 := by decide
    simp [List.map_replicate, h1]

theorem countPlaceholders_escapeJSONPath (k : String) :
    countPlaceholders (escapeJSONPath k) = countPlaceholders k := by
  unfold countPlaceholders escapeJSONPath
  show List.count '?' (k.data.flatMap _) = List.count '?' k.data
  induction k.data with
  | nil => rfl
  | cons c rest ih =>
    rw [List.flatMap_cons, List.count_append, ih, List.count_cons]
    by_cases hq : c = Char.ofNat 39
    · subst hq
      rw [if_pos rfl]
      have h1 : List.count '?' [Char.ofNat 92, Char.ofNat 39] = 0 := by decide
      have h2 : (Char.ofNat 39 == '?') = false := by decide
      rw [h1, h2]
      simp
    · rw [if_neg hq, List.count_cons, List.count_nil]
      omega

theorem Balanced.empty : Balanced newConditionBuilder := rfl

theorem Balanced.with_clause {cb : conditionBuilder} (h : Balanced cb) (clause : String)
    (args : List Arg) (hc : countPlaceholders clause = args.length) :
    Balanced (cb.add clause args) := by
  by_cases he : clause = ""
  · unfold conditionBuilder.add
    rw [if_pos he]
    exact h
  · rw [add_eq cb args he]
    unfold Balanced at *
    simp only [List.map_append, List.sum_append, List.map_cons, List.map_nil, List.sum_cons,
      List.sum_nil, List.length_append, h, hc, add_zero]

theorem Balanced.with_inClause {cb : conditionBuilder} (h : Balanced cb) (qb : QueryBuilder)
    (column : String) (values : List String) (hc : countPlaceholders column = 0) :
    Balanced (qb.addInClause cb column values) := by
  unfold QueryBuilder.addInClause
  split_ifs
  · exact h
  · apply h.with_clause
    rw [countPlaceholders_append, countPlaceholders_append, countPlaceholders_append, hc,
      countPlaceholders_placeholders, List.length_map]
    have h1 : countPlaceholders " IN (" = 0 := by decide
    have h2 : countPlaceholders ")" = 0 := by decide
    omega

theorem Balanced.either {b c : conditionBuilder} (p : Prop) [Decidable p]
    (hb : Balanced b) (hc : Balanced c) : Balanced (if p then b else c) := by
  split_ifs
  · exact hb
  · exact hc

theorem applyBaseFilters_balanced (qb : QueryBuilder) (cb : conditionBuilder)
    (base : BaseLogQuery) (hb : Balanced cb) : Balanced (qb.applyBaseFilters cb base).1 := by
  unfold QueryBuilder.applyBaseFilters
  by_cases hz : (base.TimeRange.Start.IsZero || base.TimeRange.End.IsZero) = true
  · rw [if_pos hz]
    exact hb
  · rw [if_neg hz]
    have b0 := hb.with_clause "timestamp BETWEEN ? AND ?"
      [Arg.time base.TimeRange.Start.UTC, Arg.time base.TimeRange.End.UTC] rfl
    have b1 := Balanced.either (base.SearchPhrase ≠ "")
      (b0.with_clause "positionCaseInsensitive(log, ?) > 0" [Arg.str base.SearchPhrase] rfl) b0
    have b2 := Balanced.either (base.LogLevels.length > 0)
      (b1.with_inClause qb "log_level" base.LogLevels (by decide)) b1
    have b3 := Balanced.either (base.Namespace ≠ "")
      (b2.with_clause "namespace = ?" [Arg.str base.Namespace] rfl) b2
    have b4 := Balanced.either (base.Versions.length > 0)
      (b3.with_inClause qb "version" base.Versions (by decide)) b3
    have b5 := Balanced.either (base.VersionIDs.length > 0)
      (b4.with_inClause qb "version_id" base.VersionIDs (by decide)) b4
    exact Balanced.either (base.LogType ≠ "")
      (b5.with_clause "log_type = ?" [Arg.str base.LogType] rfl) b5

theorem countPlaceholders_apiClause (m : GoMap) (id : String) :
    countPlaceholders (apiClause m id) = (apiArgs m id).length := by
  unfold apiClause apiArgs
  split_ifs <;> rfl

theorem countPlaceholders_apiChain (m : GoMap) (keys : List String) :
    countPlaceholders ("(" ++ stringsJoin (keys.map (apiClause m)) " OR " ++ ")") =
      (keys.flatMap (apiArgs m)).length := by
  rw [countPlaceholders_append, countPlaceholders_append,
    countPlaceholders_join _ _ (by decide)]
  have h1 : countPlaceholders "(" = 0 := by decide
  have h2 : countPlaceholders ")" = 0 := by decide
  rw [h1, h2, zero_add, add_zero]
  induction keys with
  | nil => rfl
  | cons k rest ih =>
    simp only [List.map_cons, List.sum_cons, List.flatMap_cons, List.length_append]
    rw [← ih, countPlaceholders_apiClause]

theorem Balanced.with_podLabels (m : GoMap) (keys : List String)
    (hk : ∀ k ∈ keys, countPlaceholders k = 0) :
    ∀ {cb : conditionBuilder}, Balanced cb → Balanced (keys.foldl (podLabelStep m) cb) := by
  induction keys with
  | nil => intro cb h; exact h
  | cons k rest ih =>
    intro cb h
    rw [List.foldl_cons]
    apply ih (fun k hm => hk k (List.mem_cons_of_mem _ hm))
    unfold podLabelStep
    apply h.with_clause
    rw [countPlaceholders_append, countPlaceholders_append, countPlaceholders_escapeJSONPath,
      hk k (List.mem_cons_self _ _)]
    rfl

set_option maxRecDepth 100000 in
theorem countPlaceholders_logSelect : countPlaceholders logSelect = 0 := by decide

theorem assembleLogQuery_agree (qb : QueryBuilder) (cb : conditionBuilder) (o : String)
    (l : Int) (hl : countPlaceholders qb.logTable = 0) (hb : Balanced cb)
    (herr : (qb.assembleLogQuery cb o l).err = none) :
    PlaceholdersAgree (qb.assembleLogQuery cb o l) := by
  by_cases ht : qb.logTable = ""
  · rw [assembleLogQuery_noTable qb cb o l ht] at herr
    cases herr
  · rw [assembleLogQuery_ok qb cb o l ht]
    refine ⟨_, rfl, ?_⟩
    have hw : countPlaceholders cb.whereClause = cb.args.length := by
      unfold conditionBuilder.whereClause
      split_ifs with h0
      · have hc : cb.clauses = [] := List.length_eq_zero.1 h0
        unfold Balanced at hb
        rw [hc] at hb
        rw [← hb]
        rfl
      · rw [countPlaceholders_join _ _ (by decide)]
        exact hb
    have ho : countPlaceholders (qb.order o) = 0 := by
      unfold QueryBuilder.order
      split_ifs <;> decide
    have h1 : countPlaceholders "\nWHERE " = 0 := by decide
    have h2 : countPlaceholders "\nORDER BY timestamp " = 0 := by decide
    have h3 : countPlaceholders "\nLIMIT ?" = 1 := by decide
    simp only [countPlaceholders_append, countPlaceholders_logSelect, hl, hw, ho, h1, h2, h3,
      List.length_append, List.length_cons, List.length_nil]
    omega

theorem componentLogs_agree (qb : QueryBuilder) (hl : countPlaceholders qb.logTable = 0)
    (q : ComponentLogQuery) (herr : (qb.ComponentLogs q).err = none) :
    PlaceholdersAgree (qb.ComponentLogs q) := by
  have hbase := applyBaseFilters_balanced qb newConditionBuilder q.BaseLogQuery Balanced.empty
  unfold QueryBuilder.ComponentLogs at herr ⊢
  by_cases hid : q.ComponentID = ""
  · rw [if_pos hid] at herr
    cases herr
  · rw [if_neg hid] at herr ⊢
    rcases hf : qb.applyBaseFilters newConditionBuilder q.BaseLogQuery with ⟨cb, e⟩
    rw [hf] at herr hbase
    cases e with
    | some err => cases herr
    | none =>
      have b1 := hbase.with_clause "component_id = ?" [Arg.str q.ComponentID] rfl
      have b2 := Balanced.either (q.EnvironmentID ≠ "")
        (b1.with_clause "environment_id = ?" [Arg.str q.EnvironmentID] rfl) b1
      have b3 := Balanced.either (q.BuildID ≠ "")
        (b2.with_clause "build_id = ?" [Arg.str q.BuildID] rfl) b2
      have b4 := Balanced.either (q.BuildUUID ≠ "")
        (b3.with_clause "build_uuid = ?" [Arg.str q.BuildUUID] rfl) b3
      exact assembleLogQuery_agree qb _ _ _ hl b4 herr

theorem projectLogs_agree (qb : QueryBuilder) (hl : countPlaceholders qb.logTable = 0)
    (q : ProjectLogQuery) (herr : (qb.ProjectLogs q).err = none) :
    PlaceholdersAgree (qb.ProjectLogs q) := by
  have hbase := applyBaseFilters_balanced qb newConditionBuilder q.BaseLogQuery Balanced.empty
  unfold QueryBuilder.ProjectLogs at herr ⊢
  by_cases hid : q.ProjectID = ""
  · rw [if_pos hid] at herr
    cases herr
  · rw [if_neg hid] at herr ⊢
    rcases hf : qb.applyBaseFilters newConditionBuilder q.BaseLogQuery with ⟨cb, e⟩
    rw [hf] at herr hbase
    cases e with
    | some err => cases herr
    | none =>
      have b1 := hbase.with_clause "project_id = ?" [Arg.str q.ProjectID] rfl
      have b2 := Balanced.either (q.EnvironmentID ≠ "")
        (b1.with_clause "environment_id = ?" [Arg.str q.EnvironmentID] rfl) b1
      have b3 := Balanced.either (q.ComponentIDs.length > 0)
        (b2.with_inClause qb "component_id" q.ComponentIDs (by decide)) b2
      exact assembleLogQuery_agree qb _ _ _ hl b3 herr

theorem gatewayLogs_agree (qb : QueryBuilder) (hl : countPlaceholders qb.logTable = 0)
    (q : GatewayLogQuery) (herr : (qb.GatewayLogs q).err = none) :
    PlaceholdersAgree (qb.GatewayLogs q) := by
  have hbase := applyBaseFilters_balanced qb newConditionBuilder q.BaseLogQuery Balanced.empty
  unfold QueryBuilder.GatewayLogs at herr ⊢
  by_cases hid : q.OrganizationID = ""
  · rw [if_pos hid] at herr
    cases herr
  · rw [if_neg hid] at herr ⊢
    rcases hf : qb.applyBaseFilters newConditionBuilder q.BaseLogQuery with ⟨cb, e⟩
    rw [hf] at herr hbase
    cases e with
    | some err => cases herr
    | none =>
      have b1 := hbase.with_clause "organization_id = ?" [Arg.str q.OrganizationID] rfl
      have b2 := Balanced.either (q.GatewayVHosts.length > 0)
        (b1.with_inClause qb "gateway_vhost" q.GatewayVHosts (by decide)) b1
      have hchain : countPlaceholders
          ("(" ++ stringsJoin ((sortedKeys q.APIIDToVersionMap).foldl
            (gatewayStep q.APIIDToVersionMap) ([], [])).1 " OR " ++ ")") =
          ((sortedKeys q.APIIDToVersionMap).foldl
            (gatewayStep q.APIIDToVersionMap) ([], [])).2.length := by
        rw [foldl_gatewayStep]
        exact countPlaceholders_apiChain _ _
      have b3 := Balanced.either (q.APIIDToVersionMap.length > 0) (b2.with_clause _ _ hchain) b2
      exact assembleLogQuery_agree qb _ _ _ hl b3 herr

theorem organizationLogs_agree (qb : QueryBuilder) (hl : countPlaceholders qb.logTable = 0)
    (q : OrganizationLogQuery)
    (hk : ∀ k ∈ GoMap.keys q.PodLabels, countPlaceholders k = 0)
    (herr : (qb.OrganizationLogs q).err = none) :
    PlaceholdersAgree (qb.OrganizationLogs q) := by
  have hbase := applyBaseFilters_balanced qb newConditionBuilder q.BaseLogQuery Balanced.empty
  unfold QueryBuilder.OrganizationLogs at herr ⊢
  by_cases hid : q.OrganizationID = ""
  · rw [if_pos hid] at herr
    cases herr
  · rw [if_neg hid] at herr ⊢
    rcases hf : qb.applyBaseFilters newConditionBuilder q.BaseLogQuery with ⟨cb, e⟩
    rw [hf] at herr hbase
    cases e with
    | some err => cases herr
    | none =>
      have b1 := hbase.with_clause "organization_id = ?" [Arg.str q.OrganizationID] rfl
      have b2 := Balanced.either (q.EnvironmentID ≠ "")
        (b1.with_clause "environment_id = ?" [Arg.str q.EnvironmentID] rfl) b1
      have hkeys : ∀ k ∈ sortedKeys q.PodLabels, countPlaceholders k = 0 :=
        fun k hm => hk k ((sortedKeys_perm q.PodLabels).mem_iff.1 hm)
      have b3 := Balanced.either (q.PodLabels.length > 0)
        (Balanced.with_podLabels q.PodLabels (sortedKeys q.PodLabels) hkeys b2) b2
      exact assembleLogQuery_agree qb _ _ _ hl b3 herr

set_option maxRecDepth 100000 in
theorem componentTraces_agree (qb : QueryBuilder) (ht : countPlaceholders qb.traceTable = 0)
    (q : ComponentTraceQuery) (herr : (qb.ComponentTraces q).err = none) :
    PlaceholdersAgree (qb.ComponentTraces q) := by
  unfold QueryBuilder.ComponentTraces at herr ⊢
  split_ifs at herr ⊢
  refine ⟨_, rfl, ?_⟩
  have h1 : countPlaceholders traceSelect = 0 := by decide
  have h2 : countPlaceholders traceTail = 4 := by decide
  simp only [countPlaceholders_append, h1, h2, ht, List.length_cons, List.length_nil]

set_option maxRecDepth 100000 in
theorem costReport_agree (qb : QueryBuilder) (hl : countPlaceholders qb.logTable = 0)
    (q : CostReportQuery) (herr : (qb.CostReport q).err = none) :
    PlaceholdersAgree (qb.CostReport q) := by
  unfold QueryBuilder.CostReport at herr ⊢
  split_ifs at herr ⊢
  refine ⟨_, rfl, ?_⟩
  have h1 : countPlaceholders costSelect = 0 := by decide
  have h2 : countPlaceholders costTail = 2 := by decide
  simp only [countPlaceholders_append, h1, h2, hl, List.length_cons, List.length_nil]

/-- C29. On a builder whose table names hold no `?`, every successful result of
`ComponentLogs`, `ProjectLogs`, `GatewayLogs`, `ComponentTraces` and `CostReport`, and
every successful result of `OrganizationLogs` for pod-label keys that hold no `?`, is a
statement with exactly as many `?` characters as it has arguments. -/
theorem placeholders_match_arguments (qb : QueryBuilder)
    (hl : countPlaceholders qb.logTable = 0) (ht : countPlaceholders qb.traceTable = 0) :
    (∀ q, (qb.ComponentLogs q).err = none → PlaceholdersAgree (qb.ComponentLogs q)) ∧
    (∀ q, (qb.ProjectLogs q).err = none → PlaceholdersAgree (qb.ProjectLogs q)) ∧
    (∀ q, (qb.GatewayLogs q).err = none → PlaceholdersAgree (qb.GatewayLogs q)) ∧
    (∀ q, (∀ k ∈ GoMap.keys q.PodLabels, countPlaceholders k = 0) →
      (qb.OrganizationLogs q).err = none → PlaceholdersAgree (qb.OrganizationLogs q)) ∧
    (∀ q, (qb.ComponentTraces q).err = none → PlaceholdersAgree (qb.ComponentTraces q)) ∧
    (∀ q, (qb.CostReport q).err = none → PlaceholdersAgree (qb.CostReport q)) :=
  ⟨componentLogs_agree qb hl, projectLogs_agree qb hl, gatewayLogs_agree qb hl,
    organizationLogs_agree qb hl, componentTraces_agree qb ht, costReport_agree qb hl⟩

set_option maxRecDepth 100000 in
/-- C29, on the builder of the source's test: the gateway statement of the sample query
holds as many `?` as it has arguments, and so do the statements of the sample
organization, project, trace and cost queries. -/
theorem placeholders_match_arguments_witness :
    PlaceholdersAgree (testBuilder.GatewayLogs sampleGateway) ∧
    PlaceholdersAgree (testBuilder.OrganizationLogs sampleQuoted) ∧
    PlaceholdersAgree (testBuilder.ProjectLogs sampleProject) ∧
    PlaceholdersAgree (testBuilder.ComponentTraces sampleTrace) ∧
    PlaceholdersAgree (testBuilder.CostReport januaryQuery) ∧
    ((testBuilder.GatewayLogs sampleGateway).args.map List.length) =
      some (countPlaceholders (testBuilder.GatewayLogs sampleGateway).sql) :=
  ⟨(placeholders_match_arguments testBuilder (by decide) (by decide)).2.2.1 sampleGateway
      (by decide),
    (placeholders_match_arguments testBuilder (by decide) (by decide)).2.2.2.1 sampleQuoted
      (by decide) (by decide),
    (placeholders_match_arguments testBuilder (by decide) (by decide)).2.1 sampleProject
      (by decide),
    (placeholders_match_arguments testBuilder (by decide) (by decide)).2.2.2.2.1 sampleTrace
      (by decide),
    (placeholders_match_arguments testBuilder (by decide) (by decide)).2.2.2.2.2 januaryQuery
      (by decide),
    by decide⟩

/-! ## The link signer: maps of query parameters -/

theorem keys_urlValuesSet_of_mem {v : GoMap} {key : String} (value : String)
    (h : key ∈ GoMap.keys v) : GoMap.keys (urlValuesSet v key value) = GoMap.keys v := by
  unfold urlValuesSet
  rw [if_pos h]
  unfold GoMap.keys
  rw [List.map_map]
  apply List.map_congr_left
  intro e _
  by_cases he : e.1 = key
  · simp [he]
  · simp [he]

theorem urlValuesSet_of_not_mem {v : GoMap} {key : String} (value : String)
    (h : key ∉ GoMap.keys v) : urlValuesSet v key value = v ++ [(key, value)] := by
  unfold urlValuesSet
  rw [if_neg h]

theorem mem_keys_urlValuesSet (v : GoMap) (key value k : String) :
    k ∈ GoMap.keys (urlValuesSet v key value) ↔ k ∈ GoMap.keys v ∨ k = key := by
  by_cases h : key ∈ GoMap.keys v
  · rw [keys_urlValuesSet_of_mem value h]
    constructor
    · exact Or.inl
    · rintro (hk | hk)
      · exact hk
      · rw [hk]; exact h
  · rw [urlValuesSet_of_not_mem value h]
    simp [GoMap.keys]

theorem urlValuesSet_wf {v : GoMap} (key value : String) (h : GoMap.WF v) :
    GoMap.WF (urlValuesSet v key value) := by
  by_cases hk : key ∈ GoMap.keys v
  · unfold GoMap.WF
    rw [keys_urlValuesSet_of_mem value hk]
    exact h
  · rw [urlValuesSet_of_not_mem value hk]
    unfold GoMap.WF GoMap.keys at *
    rw [List.map_append, List.nodup_append]
    refine ⟨h, List.nodup_singleton _, ?_⟩
    intro a ha hb
    simp only [List.map_cons, List.map_nil, List.mem_singleton] at hb
    exact hk (hb ▸ ha)

theorem urlValuesSet_perm {v₁ v₂ : GoMap} (key value : String) (hp : v₁.Perm v₂) :
    (urlValuesSet v₁ key value).Perm (urlValuesSet v₂ key value) := by
  have hmem : key ∈ GoMap.keys v₁ ↔ key ∈ GoMap.keys v₂ := (hp.map Prod.fst).mem_iff
  unfold urlValuesSet
  by_cases hk : key ∈ GoMap.keys v₂
  · rw [if_pos hk, if_pos (hmem.2 hk)]
    exact hp.map _
  · rw [if_neg hk, if_neg (fun h => hk (hmem.1 h))]
    exact hp.append_right _

theorem get_urlValuesSet_self {v : GoMap} (key value : String) (h : GoMap.WF v) :
    GoMap.get (urlValuesSet v key value) key = value := by
  have hwf := urlValuesSet_wf key value h
  have hmem : (key, value) ∈ urlValuesSet v key value := by
    by_cases hk : key ∈ GoMap.keys v
    · unfold urlValuesSet
      rw [if_pos hk]
      obtain ⟨e, he, hfst⟩ := List.mem_map.1 hk
      exact List.mem_map.2 ⟨e, he, by simp [hfst]⟩
    · rw [urlValuesSet_of_not_mem value hk]
      simp
  unfold GoMap.get
  rw [lookup_of_mem hwf hmem]
  rfl

theorem get_urlValuesSet_of_ne {v : GoMap} (key value : String) {k : String} (h : GoMap.WF v)
    (hk : k ≠ key) : GoMap.get (urlValuesSet v key value) k = GoMap.get v k := by
  have hwf := urlValuesSet_wf key value h
  unfold GoMap.get
  by_cases hm : k ∈ GoMap.keys v
  · obtain ⟨⟨k', x⟩, he, hfst⟩ := List.mem_map.1 hm
    simp only at hfst
    subst hfst
    have hmem : (k', x) ∈ urlValuesSet v key value := by
      unfold urlValuesSet
      split_ifs
      · exact List.mem_map.2 ⟨(k', x), he, by simp [hk]⟩
      · exact List.mem_append_left _ he
    rw [lookup_of_mem hwf hmem, lookup_of_mem h he]
  · have hm' : k ∉ GoMap.keys (urlValuesSet v key value) := by
      rw [mem_keys_urlValuesSet]
      exact fun h' => h'.elim hm hk
    rw [lookup_of_not_mem hm, lookup_of_not_mem hm']

theorem foldl_urlValuesSet_wf (params : GoMap) :
    ∀ acc : GoMap, GoMap.WF acc →
      GoMap.WF (params.foldl (fun q e => urlValuesSet q e.1 e.2) acc) := by
  induction params with
  | nil => intro acc h; exact h
  | cons e rest ih => intro acc h; exact ih _ (urlValuesSet_wf e.1 e.2 h)

theorem mem_keys_foldl_urlValuesSet (params : GoMap) (k : String) :
    ∀ acc : GoMap, k ∈ GoMap.keys (params.foldl (fun q e => urlValuesSet q e.1 e.2) acc) ↔
      k ∈ GoMap.keys acc ∨ k ∈ GoMap.keys params := by
  induction params with
  | nil => intro acc; simp [GoMap.keys]
  | cons e rest ih =>
    intro acc
    rw [List.foldl_cons, ih, mem_keys_urlValuesSet]
    simp only [GoMap.keys, List.map_cons, List.mem_cons]
    tauto

/-- Copying a map entry by entry through `Set` into an empty `url.Values` yields the map
itself. -/
theorem foldl_urlValuesSet_eq (params : GoMap) :
    ∀ acc : GoMap, GoMap.WF (acc ++ params) →
      params.foldl (fun q e => urlValuesSet q e.1 e.2) acc = acc ++ params := by
  induction params with
  | nil => intro acc _; simp
  | cons e rest ih =>
    intro acc h
    have hk : e.1 ∉ GoMap.keys acc := by
      intro hm
      unfold GoMap.WF GoMap.keys at h
      rw [List.map_append, List.nodup_append] at h
      exact h.2.2 hm (by simp)
    rw [List.foldl_cons, urlValuesSet_of_not_mem _ hk]
    have h' : GoMap.WF ((acc ++ [(e.1, e.2)]) ++ rest) := by
      simpa using h
    rw [ih _ h']
    simp

/-! ## The link signer: the canonical string -/

theorem foldl_canonical_data (values : GoMap) (keys : List String) :
    ∀ b : String,
      (keys.foldl (fun b k => b ++ "|" ++ k ++ "=" ++ GoMap.get values k) b).data =
        b.data ++ keys.flatMap (canonicalSegment values) := by
  induction keys with
  | nil => intro b; simp
  | cons k rest ih =>
    intro b
    rw [List.foldl_cons, ih, List.flatMap_cons]
    simp only [String.data_append, canonicalSegment, List.append_assoc]
    simp

theorem canonicalString_data (path : String) (values : GoMap) :
    (canonicalString path values).data =
      path.data ++ (sortedKeys values).flatMap (canonicalSegment values) :=
  foldl_canonical_data values _ path

theorem stringsJoin_absorb (a x sep : String) (l : List String) :
    stringsJoin ((a ++ sep ++ x) :: l) sep = a ++ sep ++ stringsJoin (x :: l) sep := by
  cases l with
  | nil => rfl
  | cons y rest =>
    rw [stringsJoin_cons_cons, stringsJoin_cons_cons]
    simp only [String.append_assoc]

theorem foldl_canonical_join (values : GoMap) (keys : List String) :
    ∀ b : String,
      keys.foldl (fun b k => b ++ "|" ++ k ++ "=" ++ GoMap.get values k) b =
        stringsJoin (b :: keys.map fun k => k ++ "=" ++ GoMap.get values k) "|" := by
  induction keys with
  | nil => intro b; rfl
  | cons k rest ih =>
    intro b
    rw [List.foldl_cons, ih, List.map_cons]
    have h : b ++ "|" ++ k ++ "=" ++ GoMap.get values k =
        b ++ "|" ++ (k ++ "=" ++ GoMap.get values k) := by
      simp only [String.append_assoc]
    rw [h, stringsJoin_absorb]
    cases rest <;> rfl

theorem canonicalString_perm (path : String) {v₁ v₂ : GoMap} (hwf : GoMap.WF v₂)
    (hp : v₁.Perm v₂) : canonicalString path v₁ = canonicalString path v₂ := by
  unfold canonicalString
  rw [sortedKeys_congr (hp.map Prod.fst)]
  congr 1
  funext b k
  rw [GoMap.get_perm hwf hp k]

theorem urlValuesEncode_perm {v₁ v₂ : GoMap} (hwf : GoMap.WF v₂) (hp : v₁.Perm v₂) :
    urlValuesEncode v₁ = urlValuesEncode v₂ := by
  unfold urlValuesEncode
  rw [sortedKeys_congr (hp.map Prod.fst)]
  congr 1
  funext buf k
  rw [GoMap.get_perm hwf hp k]

theorem signedParams_perm (s : HyperDXSigner) (now : Time) {p₁ p₂ : GoMap}
    (hwf : GoMap.WF p₂) (hp : p₁.Perm p₂) :
    (signedParams s now p₁).Perm (signedParams s now p₂) ∧ GoMap.WF (signedParams s now p₂) := by
  have hwf₁ : GoMap.WF p₁ := ((hp.map Prod.fst).nodup_iff).2 hwf
  unfold signedParams
  rw [foldl_urlValuesSet_eq p₁ [] (by simpa using hwf₁),
    foldl_urlValuesSet_eq p₂ [] (by simpa using hwf)]
  simp only [List.nil_append]
  exact ⟨urlValuesSet_perm _ _ hp, urlValuesSet_wf _ _ hwf⟩

theorem generate_eq (s : HyperDXSigner) (c : Crypto) (now : Time) (path : String)
    (params : GoMap) :
    HyperDXSigner.Generate (some s) c now path params =
      (s.baseURL ++ linkPath path ++ "?" ++ urlValuesEncode (linkParams s c now path params),
        none) := rfl

/-- C22. The canonical string and the signature do not depend on the order in which the
parameters are held: two maps with the same entries in different orders give the same
canonical string, which is the path and the texts `key=value` in strictly ascending order
of the keys, joined by `|`, and the same signature. Hence `Generate` returns the same
link for the parameters of the caller in any order. -/
theorem signature_order_independent (s : HyperDXSigner) (c : Crypto) (path : String)
    (values₁ values₂ : GoMap) (hwf : GoMap.WF values₂) (hp : values₁.Perm values₂) :
    canonicalString path values₁ = canonicalString path values₂ ∧
    s.sign c path values₁ = s.sign c path values₂ ∧
    canonicalString path values₂ =
      stringsJoin (path :: (sortedKeys values₂).map fun k => k ++ "=" ++ GoMap.get values₂ k)
        "|" ∧
    (sortedKeys values₂).Sorted (fun a b => a.data < b.data) ∧
    (sortedKeys values₂).Perm (GoMap.keys values₂) ∧
    (∀ now : Time, HyperDXSigner.Generate (some s) c now path values₁ =
      HyperDXSigner.Generate (some s) c now path values₂) := by
  have hcanon := canonicalString_perm path hwf hp
  refine ⟨hcanon, ?_, foldl_canonical_join values₂ _ path, sortedKeys_strict hwf,
    sortedKeys_perm values₂, ?_⟩
  · unfold HyperDXSigner.sign
    rw [hcanon]
  · intro now
    obtain ⟨hsp, hswf⟩ := signedParams_perm s now hwf hp
    have hsig : s.sign c (linkPath path) (signedParams s now values₁) =
        s.sign c (linkPath path) (signedParams s now values₂) := by
      unfold HyperDXSigner.sign
      rw [canonicalString_perm _ hswf hsp]
    rw [generate_eq, generate_eq]
    have hlp : (linkParams s c now path values₁).Perm (linkParams s c now path values₂) := by
      unfold linkParams
      rw [hsig]
      exact urlValuesSet_perm _ _ hsp
    have hlwf : GoMap.WF (linkParams s c now path values₂) := urlValuesSet_wf _ _ hswf
    rw [urlValuesEncode_perm hlwf hlp]

/-- C22, at the parameters `team=a`, `env=dev` held in the two orders: the canonical
string is `/dash|env=dev|team=a` in both, and the links are equal. -/
theorem signature_order_independent_witness :
    canonicalString "/dash" [("team", "a"), ("env", "dev")] = "/dash|env=dev|team=a" ∧
    canonicalString "/dash" [("env", "dev"), ("team", "a")] = "/dash|env=dev|team=a" ∧
    sampleSigner.sign sampleCrypto "/dash" [("team", "a"), ("env", "dev")] =
      sampleSigner.sign sampleCrypto "/dash" [("env", "dev"), ("team", "a")] ∧
    HyperDXSigner.Generate (some sampleSigner) sampleCrypto sampleNow "/dash"
        [("team", "a"), ("env", "dev")] =
      HyperDXSigner.Generate (some sampleSigner) sampleCrypto sampleNow "/dash"
        [("env", "dev"), ("team", "a")] :=
  have h := signature_order_independent sampleSigner sampleCrypto "/dash"
    [("team", "a"), ("env", "dev")] [("env", "dev"), ("team", "a")] (by decide)
    (List.Perm.swap _ _ _)
  ⟨by decide, by decide, h.2.1, h.2.2.2.2.2 sampleNow⟩

theorem flatMap_canonicalSegment_congr {v₁ v₂ : GoMap} (keys : List String)
    (h : ∀ k ∈ keys, GoMap.get v₁ k = GoMap.get v₂ k) :
    keys.flatMap (canonicalSegment v₁) = keys.flatMap (canonicalSegment v₂) := by
  induction keys with
  | nil => rfl
  | cons k rest ih =>
    rw [List.flatMap_cons, List.flatMap_cons,
      ih fun k' hk' => h k' (List.mem_cons_of_mem _ hk')]
    unfold canonicalSegment
    rw [h k (List.mem_cons_self _ _)]

/-- C23. Two parameter maps with the same keys that hold the same value under every key
but one, under which their values differ, have different canonical strings for every
path; with a MAC and an encoding that map distinct messages to distinct signatures, the
signature recomputed over the altered map differs from the one of the original map. -/
theorem altered_value_changes_signature (s : HyperDXSigner) (c : Crypto) (path : String)
    (values altered : GoMap) (key : String)
    (hwf : GoMap.WF values)
    (hkeys : (GoMap.keys altered).Perm (GoMap.keys values))
    (hkey : key ∈ GoMap.keys values)
    (hsame : ∀ k, k ≠ key → GoMap.get altered k = GoMap.get values k)
    (hdiff : GoMap.get altered key ≠ GoMap.get values key) :
    canonicalString path altered ≠ canonicalString path values ∧
    (CollisionFree c s.key → s.sign c path altered ≠ s.sign c path values) := by
  have hne : canonicalString path altered ≠ canonicalString path values := by
    intro heq
    have hdata := congrArg String.data heq
    rw [canonicalString_data, canonicalString_data, sortedKeys_congr hkeys] at hdata
    have hmem : key ∈ sortedKeys values := (sortedKeys_perm values).mem_iff.2 hkey
    obtain ⟨pre, post, hsplit⟩ := List.append_of_mem hmem
    have hnd : (pre ++ key :: post).Nodup := hsplit ▸ sortedKeys_nodup hwf
    have hpre : ∀ k ∈ pre, GoMap.get altered k = GoMap.get values k := by
      intro k hk
      apply hsame
      intro e
      subst e
      have := (List.nodup_append.1 hnd).2.2 hk
      exact this (List.mem_cons_self _ _)
    have hpost : ∀ k ∈ post, GoMap.get altered k = GoMap.get values k := by
      intro k hk
      apply hsame
      intro e
      subst e
      have := (List.nodup_cons.1 (List.nodup_append.1 hnd).2.1).1
      exact this hk
    rw [hsplit, List.flatMap_append, List.flatMap_append, List.flatMap_cons, List.flatMap_cons,
      flatMap_canonicalSegment_congr pre hpre, flatMap_canonicalSegment_congr post hpost] at hdata
    simp only [canonicalSegment, List.append_assoc, List.cons_append, List.append_cancel_left_eq,
      List.cons.injEq, true_and, List.append_cancel_right_eq] at hdata
    exact hdiff (String.ext hdata)
  refine ⟨hne, fun hinj hsig => hne (hinj hsig)⟩

theorem sampleCrypto_collisionFree (key : String) : CollisionFree sampleCrypto key := by
  intro a b h
  have hd := congrArg String.data h
  simp only [sampleCrypto, List.map_map] at hd
  have hid : (Char.ofNat ∘ Char.toNat) = id := by
    funext x
    exact Char.ofNat_toNat x
  rw [hid, List.map_id, List.map_id] at hd
  simp only [String.data_append, List.append_cancel_left_eq] at hd
  exact String.ext hd

/-- C23, at the parameters `env=dev`, `expires=1735690500` with `env` altered to `prod`:
the canonical strings and the signatures differ. -/
theorem altered_value_changes_signature_witness :
    canonicalString "/dash" [("env", "prod"), ("expires", "1735690500")] ≠
      canonicalString "/dash" [("env", "dev"), ("expires", "1735690500")] ∧
    sampleSigner.sign sampleCrypto "/dash" [("env", "prod"), ("expires", "1735690500")] ≠
      sampleSigner.sign sampleCrypto "/dash" [("env", "dev"), ("expires", "1735690500")] :=
  have h := altered_value_changes_signature sampleSigner sampleCrypto "/dash"
    [("env", "dev"), ("expires", "1735690500")] [("env", "prod"), ("expires", "1735690500")]
    "env" (by decide) (List.Perm.refl _) (by decide)
    (fun k hk => by
      have hb : (k == "env") = false := by simpa using hk
      unfold GoMap.get
      simp only [List.lookup, hb])
    (by decide)
  ⟨h.1, h.2 (sampleCrypto_collisionFree _)⟩

/-! ## The link signer: when the canonical string determines its input -/

theorem split_at_delimiter {d : Char} :
    ∀ {a b x y : List Char}, d ∉ a → d ∉ b → a ++ d :: x = b ++ d :: y → a = b ∧ x = y := by
  intro a
  induction a with
  | nil =>
    intro b x y _ hb h
    cases b with
    | nil => simpa using h
    | cons c b' =>
      simp only [List.nil_append, List.cons_append, List.cons.injEq] at h
      exact (hb (h.1 ▸ List.mem_cons_self _ _)).elim
  | cons c a' ih =>
    intro b x y ha hb h
    cases b with
    | nil =>
      simp only [List.nil_append, List.cons_append, List.cons.injEq] at h
      exact (ha (h.1 ▸ List.mem_cons_self _ _)).elim
    | cons c' b' =>
      simp only [List.cons_append, List.cons.injEq] at h
      obtain ⟨hab, hxy⟩ := ih (fun m => ha (List.mem_cons_of_mem _ m))
        (fun m => hb (List.mem_cons_of_mem _ m)) h.2
      exact ⟨by rw [h.1, hab], hxy⟩

theorem canonicalRunes_injective :
    ∀ (l₁ l₂ : List (List Char × List Char)) (p₁ p₂ : List Char),
      '|' ∉ p₁ → '|' ∉ p₂ →
      (∀ e ∈ l₁, '=' ∉ e.1 ∧ '|' ∉ e.2) → (∀ e ∈ l₂, '=' ∉ e.1 ∧ '|' ∉ e.2) →
      canonicalRunes p₁ l₁ = canonicalRunes p₂ l₂ → p₁ = p₂ ∧ l₁ = l₂ := by
  intro l₁
  induction l₁ with
  | nil =>
    intro l₂ p₁ p₂ hp₁ _ _ _ h
    cases l₂ with
    | nil => simpa [canonicalRunes] using h
    | cons e t =>
      simp only [canonicalRunes, List.flatMap_nil, List.append_nil, List.flatMap_cons,
        List.cons_append] at h
      exact (hp₁ (h ▸ List.mem_append_right _ (List.mem_cons_self _ _))).elim
  | cons e₁ t₁ ih =>
    intro l₂ p₁ p₂ hp₁ hp₂ h₁ h₂ h
    cases l₂ with
    | nil =>
      simp only [canonicalRunes, List.flatMap_nil, List.append_nil, List.flatMap_cons,
        List.cons_append] at h
      exact (hp₂ (h ▸ List.mem_append_right _ (List.mem_cons_self _ _))).elim
    | cons e₂ t₂ =>
      simp only [canonicalRunes, List.flatMap_cons, List.cons_append, List.append_assoc] at h
      obtain ⟨hp, hrest⟩ := split_at_delimiter hp₁ hp₂ h
      obtain ⟨hk, hv⟩ := split_at_delimiter (h₁ e₁ (List.mem_cons_self _ _)).1
        (h₂ e₂ (List.mem_cons_self _ _)).1 hrest
      obtain ⟨hv', ht⟩ := ih t₂ e₁.2 e₂.2 (h₁ e₁ (List.mem_cons_self _ _)).2
        (h₂ e₂ (List.mem_cons_self _ _)).2
        (fun e he => h₁ e (List.mem_cons_of_mem _ he))
        (fun e he => h₂ e (List.mem_cons_of_mem _ he)) hv
      exact ⟨hp, by rw [Prod.ext hk hv', ht]⟩

theorem canonicalString_runes (path : String) (values : GoMap) :
    (canonicalString path values).data =
      canonicalRunes path.data
        ((sortedKeys values).map fun k => (k.data, (GoMap.get values k).data)) := by
  rw [canonicalString_data]
  unfold canonicalRunes
  congr 1
  induction sortedKeys values with
  | nil => rfl
  | cons k rest ih =>
    rw [List.flatMap_cons, List.map_cons, List.flatMap_cons, ih]
    rfl

/-- A well-formed map is the list of its keys, each with the value read under it. -/
theorem wf_eq_map_keys {v : GoMap} (h : GoMap.WF v) :
    v = (GoMap.keys v).map fun k => (k, GoMap.get v k) := by
  induction v with
  | nil => rfl
  | cons e t ih =>
    obtain ⟨k, x⟩ := e
    have hnd : k ∉ GoMap.keys t ∧ GoMap.WF t := by
      simpa [GoMap.WF, GoMap.keys] using h
    have hhead : GoMap.get ((k, x) :: t) k = x := by
      simp [GoMap.get]
    have htail : ∀ k' ∈ GoMap.keys t, GoMap.get ((k, x) :: t) k' = GoMap.get t k' := by
      intro k' hk'
      have hne : (k' == k) = false := by
        simpa using fun e : k' = k => hnd.1 (e ▸ hk')
      simp only [GoMap.get, List.lookup, hne]
    show (k, x) :: t = (k, GoMap.get ((k, x) :: t) k) ::
      (GoMap.keys t).map fun k' => (k', GoMap.get ((k, x) :: t) k')
    rw [hhead, List.map_congr_left fun k' hk' => by rw [htail k' hk'], ← ih hnd.2]

theorem undelimited_entries {path : String} {values : GoMap} (hwf : GoMap.WF values)
    (hu : Undelimited path values) :
    ∀ e ∈ (sortedKeys values).map fun k => (k.data, (GoMap.get values k).data),
      '=' ∉ e.1 ∧ '|' ∉ e.2 := by
  intro e he
  obtain ⟨k, hk, rfl⟩ := List.mem_map.1 he
  have hk' : k ∈ GoMap.keys values := (sortedKeys_perm values).mem_iff.1 hk
  obtain ⟨⟨k₀, x⟩, hmem, hfst⟩ := List.mem_map.1 hk'
  simp only at hfst
  subst hfst
  have hget : GoMap.get values k₀ = x := by
    unfold GoMap.get
    rw [lookup_of_mem hwf hmem]
    rfl
  rw [hget]
  exact hu.2 (k₀, x) hmem

/-- When the paths and the values hold no `|` and the keys hold no `=`, the canonical
string determines the path and the parameter map. -/
theorem canonicalString_determines {path₁ path₂ : String} {values₁ values₂ : GoMap}
    (hwf₁ : GoMap.WF values₁) (hwf₂ : GoMap.WF values₂)
    (hu₁ : Undelimited path₁ values₁) (hu₂ : Undelimited path₂ values₂)
    (h : canonicalString path₁ values₁ = canonicalString path₂ values₂) :
    path₁ = path₂ ∧ values₁.Perm values₂ := by
  have hdata := congrArg String.data h
  rw [canonicalString_runes, canonicalString_runes] at hdata
  obtain ⟨hp, hl⟩ := canonicalRunes_injective _ _ _ _ hu₁.1 hu₂.1
    (undelimited_entries hwf₁ hu₁) (undelimited_entries hwf₂ hu₂) hdata
  refine ⟨String.ext hp, ?_⟩
  have hinj : Function.Injective fun e : String × String => (e.1.data, e.2.data) := by
    intro a b hab
    simp only [Prod.mk.injEq] at hab
    exact Prod.ext (String.ext hab.1) (String.ext hab.2)
  have hl' : ((sortedKeys values₁).map fun k => (k, GoMap.get values₁ k)) =
      (sortedKeys values₂).map fun k => (k, GoMap.get values₂ k) := by
    apply List.map_injective_iff.2 hinj
    simpa [List.map_map] using hl
  have h₁ : values₁.Perm ((sortedKeys values₁).map fun k => (k, GoMap.get values₁ k)) := by
    conv_lhs => rw [wf_eq_map_keys hwf₁]
    exact ((sortedKeys_perm values₁).map _).symm
  have h₂ : values₂.Perm ((sortedKeys values₂).map fun k => (k, GoMap.get values₂ k)) := by
    conv_lhs => rw [wf_eq_map_keys hwf₂]
    exact ((sortedKeys_perm values₂).map _).symm
  exact h₁.trans (hl' ▸ h₂.symm)

/-- C24 as stated fails: the path `/a|b=c` with the one parameter `expires` and the path
`/a` with the parameters `b=c` and the same `expires` differ in the path and in a key,
yet both have the canonical string `/a|b=c|expires=1735690500`, so that every signer
gives both the same signature, and the links that `Generate` returns for the two at the
same instant carry the same signature. -/
theorem canonical_string_collision :
    ("/a|b=c" : String) ≠ "/a" ∧
    GoMap.keys [("expires", "1735690500")] ≠
      GoMap.keys [("b", "c"), ("expires", "1735690500")] ∧
    canonicalString "/a|b=c" [("expires", "1735690500")] = "/a|b=c|expires=1735690500" ∧
    canonicalString "/a" [("b", "c"), ("expires", "1735690500")] =
      "/a|b=c|expires=1735690500" ∧
    (∀ (s : HyperDXSigner) (c : Crypto),
      s.sign c "/a|b=c" [("expires", "1735690500")] =
        s.sign c "/a" [("b", "c"), ("expires", "1735690500")]) ∧
    signedParams sampleSigner sampleNow [] = [("expires", "1735690500")] ∧
    signedParams sampleSigner sampleNow [("b", "c")] =
      [("b", "c"), ("expires", "1735690500")] ∧
    GoMap.get (linkParams sampleSigner sampleCrypto sampleNow "/a|b=c" []) "signature" =
      GoMap.get (linkParams sampleSigner sampleCrypto sampleNow "/a" [("b", "c")])
        "signature" := by
  refine ⟨by decide, by decide, by decide, by decide, ?_, by decide, by decide, by decide⟩
  intro s c
  unfold HyperDXSigner.sign
  have h : canonicalString "/a|b=c" [("expires", "1735690500")] =
      canonicalString "/a" [("b", "c"), ("expires", "1735690500")] := by decide
  rw [h]

/-- C24, amended. Two inputs whose paths and values hold no `|` and whose keys hold no
`=`, and that differ in the path, in a key or in a value, have different canonical
strings; with a MAC and an encoding that map distinct messages to distinct signatures,
the signature of one is not the signature of the other. -/
theorem undelimited_inputs_distinct_signatures (s : HyperDXSigner) (c : Crypto)
    (path₁ path₂ : String) (values₁ values₂ : GoMap)
    (hwf₁ : GoMap.WF values₁) (hwf₂ : GoMap.WF values₂)
    (hu₁ : Undelimited path₁ values₁) (hu₂ : Undelimited path₂ values₂)
    (hdiff : path₁ ≠ path₂ ∨ ¬ values₁.Perm values₂) :
    canonicalString path₁ values₁ ≠ canonicalString path₂ values₂ ∧
    (CollisionFree c s.key → s.sign c path₁ values₁ ≠ s.sign c path₂ values₂) := by
  have hne : canonicalString path₁ values₁ ≠ canonicalString path₂ values₂ := by
    intro h
    obtain ⟨hp, hv⟩ := canonicalString_determines hwf₁ hwf₂ hu₁ hu₂ h
    rcases hdiff with hd | hd
    · exact hd hp
    · exact hd hv
  exact ⟨hne, fun hinj hsig => hne (hinj hsig)⟩

/-- C24 amended, at inputs that differ in the path alone, and at inputs that differ in a
value alone. -/
theorem undelimited_inputs_distinct_signatures_witness :
    sampleSigner.sign sampleCrypto "/a" [("b", "c"), ("expires", "1735690500")] ≠
      sampleSigner.sign sampleCrypto "/b" [("b", "c"), ("expires", "1735690500")] ∧
    canonicalString "/a" [("b", "c"), ("expires", "1735690500")] ≠
      canonicalString "/a" [("b", "d"), ("expires", "1735690500")] :=
  ⟨(undelimited_inputs_distinct_signatures sampleSigner sampleCrypto "/a" "/b"
      [("b", "c"), ("expires", "1735690500")] [("b", "c"), ("expires", "1735690500")]
      (by decide) (by decide) (by decide) (by decide) (Or.inl (by decide))).2
      (sampleCrypto_collisionFree _),
    (undelimited_inputs_distinct_signatures sampleSigner sampleCrypto "/a" "/a"
      [("b", "c"), ("expires", "1735690500")] [("b", "d"), ("expires", "1735690500")]
      (by decide) (by decide) (by decide) (by decide)
      (Or.inr fun h => absurd (h.mem_iff.1 (List.mem_cons_self _ _)) (by decide))).1⟩

/-! ## The link signer: links and their verification -/

theorem signature_not_signed (s : HyperDXSigner) (now : Time) {params : GoMap}
    (h : "signature" ∉ GoMap.keys params) :
    "signature" ∉ GoMap.keys (signedParams s now params) := by
  unfold signedParams
  rw [mem_keys_urlValuesSet, mem_keys_foldl_urlValuesSet]
  rintro ((hm | hm) | hm)
  · simp [GoMap.keys] at hm
  · exact h hm
  · revert hm
    decide

theorem linkParams_eq {s : HyperDXSigner} (c : Crypto) {now : Time} (path : String)
    {params : GoMap} (h : "signature" ∉ GoMap.keys params) :
    linkParams s c now path params =
      signedParams s now params ++
        [("signature", s.sign c (linkPath path) (signedParams s now params))] := by
  unfold linkParams
  rw [urlValuesSet_of_not_mem _ (signature_not_signed s now h)]

theorem Time.Add_unix (t : Time) (d : Int) (hd : 0 ≤ d) (hn : t.nsec < 1000000000) :
    (t.Add d).Unix = (t.Unix * 1000000000 + t.nsec + d) / 1000000000 := by
  unfold Time.Add Time.Unix
  simp only [Int.tdiv_eq_ediv hd (by norm_num : (0 : Int) ≤ 1000000000),
    Int.tmod_eq_emod hd (by norm_num : (0 : Int) ≤ 1000000000)]
  have hn' : (t.nsec : Int) < 1000000000 := by exact_mod_cast hn
  have hn0 : (0 : Int) ≤ t.nsec := Int.natCast_nonneg _
  split_ifs <;> omega

theorem foldl_encode_contains (v : GoMap) (keys : List String) :
    ∀ buf : String,
      (∀ sub, stringsContains buf sub →
        stringsContains (keys.foldl (fun buf k =>
          (if buf.data.length > 0 then buf ++ "&" else buf) ++ queryEscape k ++ "=" ++
            queryEscape (GoMap.get v k)) buf) sub) ∧
      (∀ k ∈ keys, stringsContains (keys.foldl (fun buf k =>
          (if buf.data.length > 0 then buf ++ "&" else buf) ++ queryEscape k ++ "=" ++
            queryEscape (GoMap.get v k)) buf)
        (queryEscape k ++ "=" ++ queryEscape (GoMap.get v k))) := by
  induction keys with
  | nil =>
    intro buf
    exact ⟨fun _ h => h, fun k hk => by cases hk⟩
  | cons k₀ rest ih =>
    intro buf
    obtain ⟨ihl, ihr⟩ := ih ((if buf.data.length > 0 then buf ++ "&" else buf) ++
      queryEscape k₀ ++ "=" ++ queryEscape (GoMap.get v k₀))
    constructor
    · intro sub hsub
      rw [List.foldl_cons]
      apply ihl
      apply stringsContains_append_left
      apply stringsContains_append_left
      apply stringsContains_append_left
      split_ifs
      · exact stringsContains_append_left _ hsub
      · exact hsub
    · intro k hk
      rw [List.foldl_cons]
      rcases List.mem_cons.1 hk with he | ht
      · subst he
        apply ihl
        have hassoc : (if buf.data.length > 0 then buf ++ "&" else buf) ++ queryEscape k ++
            "=" ++ queryEscape (GoMap.get v k) =
            (if buf.data.length > 0 then buf ++ "&" else buf) ++
              (queryEscape k ++ "=" ++ queryEscape (GoMap.get v k)) := by
          simp only [String.append_assoc]
        rw [hassoc]
        exact stringsContains_append_right _ (stringsContains_refl _)
      · exact ihr k ht

theorem urlValuesEncode_contains (v : GoMap) {k : String} (hk : k ∈ GoMap.keys v) :
    stringsContains (urlValuesEncode v) (queryEscape k ++ "=" ++ queryEscape (GoMap.get v k)) :=
  (foldl_encode_contains v (sortedKeys v) "").2 k ((sortedKeys_perm v).mem_iff.2 hk)

theorem signedParams_wf (s : HyperDXSigner) (now : Time) (params : GoMap) :
    GoMap.WF (signedParams s now params) :=
  urlValuesSet_wf _ _ (foldl_urlValuesSet_wf params [] List.nodup_nil)

theorem get_linkParams_expires (s : HyperDXSigner) (c : Crypto) (now : Time) (path : String)
    (params : GoMap) :
    GoMap.get (linkParams s c now path params) "expires" = sprintfD (now.Add s.ttl).Unix := by
  unfold linkParams
  rw [get_urlValuesSet_of_ne _ _ (signedParams_wf s now params) (by decide)]
  unfold signedParams
  exact get_urlValuesSet_self _ _ (foldl_urlValuesSet_wf params [] List.nodup_nil)

theorem newHyperDXSigner_some (cfg : HyperDXConfig) (hk : cfg.SigningKey ≠ "")
    (hb : cfg.BaseURL ≠ "") :
    ∃ signer, newHyperDXSigner cfg = some signer ∧ signer.key = cfg.SigningKey ∧
      signer.ttl = (if 0 < cfg.TTL then cfg.TTL else 15 * 60 * 1000000000) ∧
      0 ≤ signer.ttl := by
  have hcfg : ¬ (cfg.SigningKey = "" ∨ cfg.BaseURL = "") := fun h => h.elim hk hb
  unfold newHyperDXSigner
  rw [if_neg hcfg]
  refine ⟨_, rfl, rfl, ?_, ?_⟩
  · show (if cfg.TTL ≤ 0 then 15 * (60 * 1000000000) else cfg.TTL) = _
    split_ifs <;> omega
  · show (0 : Int) ≤ if cfg.TTL ≤ 0 then 15 * (60 * 1000000000) else cfg.TTL
    split_ifs <;> omega

/-- C26. The signer of a service is absent exactly when the signing key or the base URL
of the configuration is empty, and `GenerateHyperDXLink` then returns an error for every
path and parameter map. Otherwise the signer holds the configured lifetime when it is
positive and 15 minutes when it is not, `GenerateHyperDXLink` returns a link without
error, and the parameter `expires` of the link is the decimal Unix time, in seconds, of
the current instant plus the lifetime; the text of the link holds it. -/
theorem signer_configuration {Body Hit : Type} (storage : Option StorageProvider)
    (osClient : Option (OpenSearchClient Body Hit)) (cfg : Config) (env : Env Body Hit)
    (source : Nat → ℚ) (c : Crypto) (now : Time) (path : String) (params : GoMap) :
    ((NewLoggingService storage osClient cfg env source).hyperdx = none ↔
      cfg.Telemetry.HyperDX.SigningKey = "" ∨ cfg.Telemetry.HyperDX.BaseURL = "") ∧
    (cfg.Telemetry.HyperDX.SigningKey = "" ∨ cfg.Telemetry.HyperDX.BaseURL = "" →
      (NewLoggingService storage osClient cfg env source).GenerateHyperDXLink c now path
        params = ("", some "hyperdx signing is not configured")) ∧
    (cfg.Telemetry.HyperDX.SigningKey ≠ "" → cfg.Telemetry.HyperDX.BaseURL ≠ "" →
      ∃ signer, (NewLoggingService storage osClient cfg env source).hyperdx = some signer ∧
        signer.key = cfg.Telemetry.HyperDX.SigningKey ∧
        signer.ttl = (if 0 < cfg.Telemetry.HyperDX.TTL then cfg.Telemetry.HyperDX.TTL
          else 15 * 60 * 1000000000) ∧
        (NewLoggingService storage osClient cfg env source).GenerateHyperDXLink c now path
            params =
          (signer.baseURL ++ linkPath path ++ "?" ++
            urlValuesEncode (linkParams signer c now path params), none) ∧
        GoMap.get (linkParams signer c now path params) "expires" =
          sprintfD (now.Add signer.ttl).Unix ∧
        (now.nsec < 1000000000 →
          (now.Add signer.ttl).Unix =
            (now.Unix * 1000000000 + now.nsec + signer.ttl) / 1000000000) ∧
        stringsContains
          ((NewLoggingService storage osClient cfg env source).GenerateHyperDXLink c now path
            params).1
          ("expires=" ++ queryEscape (sprintfD (now.Add signer.ttl).Unix))) := by
  have hnone : newHyperDXSigner cfg.Telemetry.HyperDX = none ↔
      cfg.Telemetry.HyperDX.SigningKey = "" ∨ cfg.Telemetry.HyperDX.BaseURL = "" := by
    unfold newHyperDXSigner
    split_ifs with h
    · exact ⟨fun _ => h, fun _ => rfl⟩
    · exact ⟨fun e => e.elim, fun e => (h e).elim⟩
  refine ⟨hnone, ?_, ?_⟩
  · intro h
    have hs : (NewLoggingService storage osClient cfg env source).hyperdx = none := hnone.2 h
    unfold LoggingService.GenerateHyperDXLink
    rw [hs]
  · intro hk hb
    obtain ⟨signer, hs, hkey, httl, hpos⟩ := newHyperDXSigner_some cfg.Telemetry.HyperDX hk hb
    have hs' : (NewLoggingService storage osClient cfg env source).hyperdx = some signer := hs
    have hgen : (NewLoggingService storage osClient cfg env source).GenerateHyperDXLink c now
        path params = HyperDXSigner.Generate (some signer) c now path params := by
      unfold LoggingService.GenerateHyperDXLink
      rw [hs']
    refine ⟨signer, hs', hkey, httl, ?_, get_linkParams_expires signer c now path params,
      fun hn => Time.Add_unix _ _ hpos hn, ?_⟩
    · rw [hgen, generate_eq]
    · rw [hgen, generate_eq]
      apply stringsContains_append_right
      have hmem : "expires" ∈ GoMap.keys (linkParams signer c now path params) := by
        unfold linkParams signedParams
        rw [mem_keys_urlValuesSet, mem_keys_urlValuesSet]
        exact Or.inl (Or.inr rfl)
      have hc := urlValuesEncode_contains _ hmem
      rw [get_linkParams_expires] at hc
      have he : queryEscape "expires" = "expires" := by decide
      rw [he] at hc
      exact hc

/-- C26, at three configurations: without signing key and without base URL the service
returns an error; with both and the lifetime 0 the link expires 15 minutes after the
current instant, 2025-01-01T00:00:00.5Z, that is at the Unix time 1735690500. -/
theorem signer_configuration_witness :
    (linkService (hyperdxConfig "https://hdx.example.com/" "" 0)).GenerateHyperDXLink
        sampleCrypto sampleNow "dash" [] = ("", some "hyperdx signing is not configured") ∧
    (linkService (hyperdxConfig "" "k1" 0)).GenerateHyperDXLink
        sampleCrypto sampleNow "dash" [] = ("", some "hyperdx signing is not configured") ∧
    (linkService (hyperdxConfig "https://hdx.example.com/" "k1" 0)).GenerateHyperDXLink
        sampleCrypto sampleNow "dash" [] =
      ("https://hdx.example.com/dash?expires=1735690500&signature=k1%3A%2Fdash%7Cexpires%3D1735690500",
        none) ∧
    (linkService (hyperdxConfig "https://hdx.example.com/" "k1"
        (60 * 1000000000))).GenerateHyperDXLink sampleCrypto sampleNow "dash" [] =
      ("https://hdx.example.com/dash?expires=1735689660&signature=k1%3A%2Fdash%7Cexpires%3D1735689660",
        none) :=
  ⟨(signer_configuration none none _ sampleEnv quarterSource sampleCrypto sampleNow "dash"
      []).2.1 (Or.inl rfl),
    (signer_configuration none none _ sampleEnv quarterSource sampleCrypto sampleNow "dash"
      []).2.1 (Or.inr rfl),
    by decide, by decide⟩

/-! ## The calendar -/

theorem isLeap_iff (y : Int) :
    isLeap y = true ↔ (y - 1) % 4 = 3 ∧ ((y - 1) % 100 ≠ 99 ∨ (y - 1) % 400 = 399) := by
  unfold isLeap
  simp only [Bool.and_eq_true, Bool.or_eq_true, beq_iff_eq, bne_iff_ne, ne_eq]
  omega

theorem daysBeforeYear_eq (y : Int) :
    daysBeforeYear y = 146097 * ((y - 1) / 400) + 36524 * ((y - 1) % 400 / 100) +
      1461 * ((y - 1) % 100 / 4) + 365 * ((y - 1) % 4) := by
  unfold daysBeforeYear
  omega


theorem ediv_of_bounds {n d q : Int} (hd : 0 < d) (h1 : d * q ≤ n) (h2 : n < d * q + d) :
    n / d = q :=
  ((Int.ediv_emod_unique hd).2 ⟨by ring, by omega, by omega⟩ : n / d = q ∧ n % d = n - d * q).1

theorem yearOfDays_build (a b c e off : Int) (hb : 0 ≤ b ∧ b ≤ 3) (hc : 0 ≤ c ∧ c ≤ 24)
    (he : 0 ≤ e ∧ e ≤ 3) (h0 : 0 ≤ off)
    (hoff : off ≤ 364 ∨ (off = 365 ∧ e = 3 ∧ (c ≠ 24 ∨ b = 3))) :
    yearOfDays (146097 * a + 36524 * b + 1461 * c + 365 * e + off) =
      (400 * a + 100 * b + 4 * c + e + 1, off) := by
  unfold yearOfDays
  have h400 : (146097 * a + 36524 * b + 1461 * c + 365 * e + off) / 146097 = a :=
    ediv_of_bounds (by norm_num) (by omega) (by omega)
  simp only [h400]
  have hd1 : 146097 * a + 36524 * b + 1461 * c + 365 * e + off - 146097 * a =
      36524 * b + 1461 * c + 365 * e + off := by ring
  rw [hd1]
  have h100 : (36524 * b + 1461 * c + 365 * e + off) / 36524 -
      (36524 * b + 1461 * c + 365 * e + off) / 36524 / 4 = b := by
    by_cases hfull : 1461 * c + 365 * e + off < 36524
    · have hq : (36524 * b + 1461 * c + 365 * e + off) / 36524 = b :=
        ediv_of_bounds (by norm_num) (by omega) (by omega)
      rw [hq]
      omega
    · have hq : (36524 * b + 1461 * c + 365 * e + off) / 36524 = b + 1 :=
        ediv_of_bounds (by norm_num) (by omega) (by omega)
      rw [hq]
      omega
  simp only [h100]
  have hd2 : 36524 * b + 1461 * c + 365 * e + off - 36524 * b = 1461 * c + 365 * e + off := by
    ring
  rw [hd2]
  have h4 : (1461 * c + 365 * e + off) / 1461 = c :=
    ediv_of_bounds (by norm_num) (by omega) (by omega)
  simp only [h4]
  have hd3 : 1461 * c + 365 * e + off - 1461 * c = 365 * e + off := by ring
  rw [hd3]
  have h1' : (365 * e + off) / 365 - (365 * e + off) / 365 / 4 = e := by
    by_cases hfull : off < 365
    · have hq : (365 * e + off) / 365 = e := ediv_of_bounds (by norm_num) (by omega) (by omega)
      rw [hq]
      omega
    · have hq : (365 * e + off) / 365 = e + 1 :=
        ediv_of_bounds (by norm_num) (by omega) (by omega)
      rw [hq]
      omega
  simp only [h1']
  simp only [Prod.mk.injEq, true_and]
  omega

theorem yearOfDays_inv (y off : Int) (h0 : 0 ≤ off)
    (h1 : off < if isLeap y then 366 else 365) :
    yearOfDays (daysBeforeYear y + off) = (y, off) := by
  have hleap := isLeap_iff y
  have hoff : off ≤ 364 ∨ (off = 365 ∧ (y - 1) % 4 = 3 ∧
      ((y - 1) % 100 / 4 ≠ 24 ∨ (y - 1) % 400 / 100 = 3)) := by
    by_cases hl : isLeap y = true
    · rw [if_pos hl] at h1
      have := hleap.1 hl
      omega
    · rw [if_neg hl] at h1
      omega
  rw [daysBeforeYear_eq, yearOfDays_build _ _ _ _ _ (by omega) (by omega) (by omega) h0 hoff]
  simp only [Prod.mk.injEq, and_true]
  omega

theorem monthOfYday_first (leap : Bool) (m : Int) (h1 : 1 ≤ m) (h2 : m ≤ 12) :
    monthOfYday leap (daysBefore (m - 1) + (if leap && m - 1 ≥ 2 then 1 else 0)) = (m, 1) := by
  interval_cases m <;> cases leap <;> decide

theorem daysBefore_bounds (m : Int) (h1 : 1 ≤ m) (h2 : m ≤ 12) :
    0 ≤ daysBefore (m - 1) ∧ daysBefore (m - 1) ≤ 334 ∧ daysBefore (m - 1) < daysBefore m ∧
      daysBefore m ≤ 365 ∧ (m ≤ 2 → daysBefore (m - 1) ≤ 31) := by
  interval_cases m <;> decide

theorem timeDate_first (y m : Int) (h1 : 1 ≤ m) (h2 : m ≤ 12) :
    timeDate y m 1 0 0 0 0 =
      { sec := firstDayOfMonth y m * 86400, nsec := 0, mono := none, loc := none } := by
  have hq : (m - 1) / 12 = 0 := by omega
  have hr : (m - 1) % 12 = m - 1 := by omega
  unfold timeDate firstDayOfMonth
  simp only [hq, hr, add_zero]
  congr 1
  ring

theorem timeDate_rollover (y : Int) :
    timeDate y 13 1 0 0 0 0 = timeDate (y + 1) 1 1 0 0 0 0 := by
  unfold timeDate
  norm_num

theorem timeDate_first_Date (y m : Int) (h1 : 1 ≤ m) (h2 : m ≤ 12) :
    (timeDate y m 1 0 0 0 0).Date = (y, m, 1) := by
  rw [timeDate_first y m h1 h2]
  unfold Time.Date
  have hb := daysBefore_bounds m h1 h2
  have hdiv : firstDayOfMonth y m * 86400 / 86400 = firstDayOfMonth y m := by omega
  simp only [hdiv]
  have hy : yearOfDays (firstDayOfMonth y m) =
      (y, daysBefore (m - 1) + (if isLeap y && m - 1 ≥ 2 then 1 else 0)) := by
    unfold firstDayOfMonth
    rw [add_assoc]
    apply yearOfDays_inv
    · split_ifs <;> omega
    · split_ifs <;> omega
  rw [hy]
  simp only
  rw [monthOfYday_first _ m h1 h2]

theorem year_digits (a b c e : Int) (hb : 0 ≤ b ∧ b ≤ 3) (hc : 0 ≤ c ∧ c ≤ 24)
    (he : 0 ≤ e ∧ e ≤ 3) :
    (400 * a + 100 * b + 4 * c + e + 1 - 1) / 400 = a ∧
    (400 * a + 100 * b + 4 * c + e + 1 - 1) % 400 / 100 = b ∧
    (400 * a + 100 * b + 4 * c + e + 1 - 1) % 100 / 4 = c ∧
    (400 * a + 100 * b + 4 * c + e + 1 - 1) % 4 = e := by
  have h400 : (400 * a + 100 * b + 4 * c + e + 1 - 1) / 400 = a :=
    ediv_of_bounds (by norm_num) (by omega) (by omega)
  have h100 : (400 * a + 100 * b + 4 * c + e + 1 - 1) / 100 = 4 * a + b :=
    ediv_of_bounds (by norm_num) (by omega) (by omega)
  have h4 : (400 * a + 100 * b + 4 * c + e + 1 - 1) / 4 = 100 * a + 25 * b + c :=
    ediv_of_bounds (by norm_num) (by omega) (by omega)
  have r400 : (400 * a + 100 * b + 4 * c + e + 1 - 1) % 400 = 100 * b + 4 * c + e := by
    rw [Int.emod_def, h400]; ring
  have r100 : (400 * a + 100 * b + 4 * c + e + 1 - 1) % 100 = 4 * c + e := by
    rw [Int.emod_def, h100]; ring
  have r4 : (400 * a + 100 * b + 4 * c + e + 1 - 1) % 4 = e := by
    rw [Int.emod_def, h4]; ring
  refine ⟨h400, ?_, ?_, r4⟩
  · rw [r400]
    exact ediv_of_bounds (by norm_num) (by omega) (by omega)
  · rw [r100]
    exact ediv_of_bounds (by norm_num) (by omega) (by omega)

theorem yearOfDays_spec (D : Int) :
    D = daysBeforeYear (yearOfDays D).1 + (yearOfDays D).2 ∧ 0 ≤ (yearOfDays D).2 ∧
      (yearOfDays D).2 < (if isLeap (yearOfDays D).1 then 366 else 365) := by
  obtain ⟨a, ha⟩ : ∃ a, a = D / 146097 := ⟨_, rfl⟩
  obtain ⟨r1, hr1⟩ : ∃ r, r = D - 146097 * a := ⟨_, rfl⟩
  obtain ⟨n, hn⟩ : ∃ n, n = r1 / 36524 := ⟨_, rfl⟩
  obtain ⟨b, hb⟩ : ∃ b, b = n - n / 4 := ⟨_, rfl⟩
  obtain ⟨r2, hr2⟩ : ∃ r, r = r1 - 36524 * b := ⟨_, rfl⟩
  obtain ⟨c, hc⟩ : ∃ c, c = r2 / 1461 := ⟨_, rfl⟩
  obtain ⟨r3, hr3⟩ : ∃ r, r = r2 - 1461 * c := ⟨_, rfl⟩
  obtain ⟨k, hk⟩ : ∃ k, k = r3 / 365 := ⟨_, rfl⟩
  obtain ⟨e, he⟩ : ∃ e, e = k - k / 4 := ⟨_, rfl⟩
  obtain ⟨r4, hr4⟩ : ∃ r, r = r3 - 365 * e := ⟨_, rfl⟩
  have hval : yearOfDays D = (400 * a + 100 * b + 4 * c + e + 1, r4) := by
    unfold yearOfDays
    simp only [← ha, ← hr1, ← hn, ← hb, ← hr2, ← hc, ← hr3, ← hk, ← he, ← hr4]
  have hr1b : 0 ≤ r1 ∧ r1 < 146097 := by omega
  have hnb : 0 ≤ n ∧ n ≤ 3 ∨ (n = 4 ∧ r1 = 146096) := by omega
  have hbb : 0 ≤ b ∧ b ≤ 3 := by omega
  have hr2b : 0 ≤ r2 ∧ (r2 < 36524 ∨ (r2 = 36524 ∧ b = 3)) := by omega
  have hcb : 0 ≤ c ∧ c ≤ 24 := by omega
  have hr3b : 0 ≤ r3 ∧ r3 ≤ 1460 ∧ (c = 24 → r3 ≤ 1459 ∨ b = 3) := by omega
  have hkb : 0 ≤ k ∧ k ≤ 4 := by omega
  have heb : 0 ≤ e ∧ e ≤ 3 := by omega
  have hr4b : 0 ≤ r4 ∧ (r4 ≤ 364 ∨ (r4 = 365 ∧ e = 3 ∧ (c ≠ 24 ∨ b = 3))) := by omega
  have hD : D = 146097 * a + 36524 * b + 1461 * c + 365 * e + r4 := by omega
  rw [hval]
  simp only
  have hleap := isLeap_iff (400 * a + 100 * b + 4 * c + e + 1)
  have hdb := daysBeforeYear_eq (400 * a + 100 * b + 4 * c + e + 1)
  obtain ⟨m400, m100, m4, m1⟩ := year_digits a b c e hbb hcb heb
  rw [m400, m100, m4, m1] at hdb
  refine ⟨by rw [hdb]; exact hD, hr4b.1, ?_⟩
  have r100 : (400 * a + 100 * b + 4 * c + e + 1 - 1) % 100 = 4 * c + e := by
    have := Int.emod_emod_of_dvd (400 * a + 100 * b + 4 * c + e + 1 - 1)
      (by norm_num : (100 : Int) ∣ 400)
    omega
  have r400 : (400 * a + 100 * b + 4 * c + e + 1 - 1) % 400 = 100 * b + 4 * c + e := by
    omega
  by_cases hl : isLeap (400 * a + 100 * b + 4 * c + e + 1) = true
  · rw [if_pos hl]
    rcases hr4b.2 with h | ⟨h365, -, -⟩ <;> omega
  · rw [if_neg hl]
    have hnl := fun h => hl (hleap.2 h)
    rcases hr4b.2 with h | ⟨h365, he3, hc'⟩
    · omega
    · exfalso
      apply hnl
      rw [m1, r100, r400]
      refine ⟨he3, ?_⟩
      rcases hc' with h24 | h3
      · left; omega
      · by_cases h24 : c = 24
        · right; omega
        · left; omega

theorem monthOfYday_spec (leap : Bool) (yd : Int) (h0 : 0 ≤ yd)
    (h1 : yd < if leap then 366 else 365) : InMonth leap yd (monthOfYday leap yd) := by
  have h2 : yd ≤ 365 := by split_ifs at h1 <;> omega
  cases leap
  · have h3 : yd ≤ 364 := by simpa using Int.lt_add_one_iff.1 (by simpa using h1)
    interval_cases yd <;> decide
  · interval_cases yd <;> decide

theorem daysBeforeYear_succ (y : Int) :
    daysBeforeYear (y + 1) = daysBeforeYear y + (if isLeap y then 366 else 365) := by
  have hleap := isLeap_iff y
  unfold daysBeforeYear
  by_cases hl : isLeap y = true
  · rw [if_pos hl]
    have := hleap.1 hl
    omega
  · rw [if_neg hl]
    have hn : ¬ ((y - 1) % 4 = 3 ∧ ((y - 1) % 100 ≠ 99 ∨ (y - 1) % 400 = 399)) :=
      fun h => hl (hleap.2 h)
    omega

/-- The first instant of the month that follows month `m` of year `y`, as `time.Date`
builds it from the month number `m + 1`. -/
theorem timeDate_next_sec (y m : Int) (h1 : 1 ≤ m) (h2 : m ≤ 12) :
    (timeDate y (m + 1) 1 0 0 0 0).sec =
      (daysBeforeYear y + daysBefore m + (if isLeap y && m ≥ 2 then 1 else 0)) * 86400 := by
  by_cases h12 : m = 12
  · subst h12
    have h13 : (12 : Int) + 1 = 13 := by norm_num
    rw [h13, timeDate_rollover, timeDate_first (y + 1) 1 (by norm_num) (by norm_num)]
    unfold firstDayOfMonth
    rw [daysBeforeYear_succ]
    have hd0 : daysBefore (1 - 1) = 0 := by decide
    have hd12 : daysBefore 12 = 365 := by decide
    simp only [hd0, hd12]
    cases isLeap y <;> cases isLeap (y + 1) <;> simp <;> omega
  · rw [timeDate_first y (m + 1) (by omega) (by omega)]
    unfold firstDayOfMonth
    simp only [add_sub_cancel_right]

theorem timeDate_first_lt (y m : Int) (h1 : 1 ≤ m) (h2 : m ≤ 12) :
    (timeDate y m 1 0 0 0 0).sec < (timeDate y (m + 1) 1 0 0 0 0).sec := by
  rw [timeDate_next_sec y m h1 h2, timeDate_first y m h1 h2]
  unfold firstDayOfMonth
  have hb := daysBefore_bounds m h1 h2
  simp only
  by_cases hl : isLeap y = true
  · by_cases hm : m - 1 ≥ 2
    · have hm' : m ≥ 2 := by omega
      simp only [hl, hm, hm', decide_True, Bool.and_self, if_true]
      omega
    · by_cases hm' : m ≥ 2
      · simp only [hl, hm, hm', decide_True, decide_False, Bool.and_false, Bool.and_self,
          if_true, if_false]
        omega
      · simp only [hl, hm, hm', decide_False, Bool.and_false, if_false]
        omega
  · have hl' : isLeap y = false := by simpa using hl
    simp only [hl', Bool.false_and, if_false]
    omega

theorem timeDate_first_AddDate (y m : Int) (h1 : 1 ≤ m) (h2 : m ≤ 12) :
    (timeDate y m 1 0 0 0 0).AddDate 0 1 0 = timeDate y (m + 1) 1 0 0 0 0 := by
  unfold Time.AddDate
  rw [timeDate_first_Date y m h1 h2]
  rw [timeDate_first y m h1 h2]
  unfold Time.Clock
  have hmod : firstDayOfMonth y m * 86400 % 86400 = 0 := by omega
  simp only [hmod]
  norm_num

/-- The month that `Time.Date` reads contains the instant: the instant is not before the
first instant of that month and is before the first instant of the following month. -/
theorem Time.Date_contains (t : Time) :
    1 ≤ t.Date.2.1 ∧ t.Date.2.1 ≤ 12 ∧
    (timeDate t.Date.1 t.Date.2.1 1 0 0 0 0).sec ≤ t.sec ∧
    t.sec < (timeDate t.Date.1 (t.Date.2.1 + 1) 1 0 0 0 0).sec := by
  obtain ⟨hD, h0, h1⟩ := yearOfDays_spec (t.sec / 86400)
  have hm := monthOfYday_spec (isLeap (yearOfDays (t.sec / 86400)).1)
    (yearOfDays (t.sec / 86400)).2 h0 h1
  obtain ⟨hm1, hm12, hd1, hyd, hlt⟩ := hm
  have hdate : t.Date = ((yearOfDays (t.sec / 86400)).1,
      (monthOfYday (isLeap (yearOfDays (t.sec / 86400)).1) (yearOfDays (t.sec / 86400)).2).1,
      (monthOfYday (isLeap (yearOfDays (t.sec / 86400)).1)
        (yearOfDays (t.sec / 86400)).2).2) := rfl
  rw [hdate]
  simp only
  refine ⟨hm1, hm12, ?_, ?_⟩
  · rw [timeDate_first _ _ hm1 hm12]
    unfold firstDayOfMonth
    simp only
    have hfirst : daysBeforeYear (yearOfDays (t.sec / 86400)).1 +
        daysBefore ((monthOfYday (isLeap (yearOfDays (t.sec / 86400)).1)
          (yearOfDays (t.sec / 86400)).2).1 - 1) +
        (if (isLeap (yearOfDays (t.sec / 86400)).1 &&
          decide ((monthOfYday (isLeap (yearOfDays (t.sec / 86400)).1)
            (yearOfDays (t.sec / 86400)).2).1 - 1 ≥ 2)) = true then 1 else 0) ≤
        t.sec / 86400 := by
      omega
    omega
  · rw [timeDate_next_sec _ _ hm1 hm12]
    have hnext : t.sec / 86400 < daysBeforeYear (yearOfDays (t.sec / 86400)).1 +
        daysBefore (monthOfYday (isLeap (yearOfDays (t.sec / 86400)).1)
          (yearOfDays (t.sec / 86400)).2).1 +
        (if (isLeap (yearOfDays (t.sec / 86400)).1 &&
          decide ((monthOfYday (isLeap (yearOfDays (t.sec / 86400)).1)
            (yearOfDays (t.sec / 86400)).2).1 ≥ 2)) = true then 1 else 0) := by
      omega
    omega

/-! ## The month window of the cost export -/

theorem trimSpace_eq_empty_iff (s : String) :
    stringsTrimSpace s = "" ↔ ∀ c ∈ s.data, unicodeIsSpace c = true := by
  unfold stringsTrimSpace
  have hmk : ∀ l : List Char, String.mk l = "" ↔ l = [] := by
    intro l
    constructor
    · intro h
      exact congrArg String.data h
    · intro h
      rw [h]
  rw [hmk, List.reverse_eq_nil_iff, List.dropWhile_eq_nil_iff]
  constructor
  · intro h
    have hnil : s.data.dropWhile unicodeIsSpace = [] := by
      by_contra hne
      have hhead := List.head_dropWhile_not unicodeIsSpace s.data hne
      have hmem := h _ (List.mem_reverse.2 (List.head_mem hne))
      rw [hmem] at hhead
      exact Bool.noConfusion hhead
    exact List.dropWhile_eq_nil_iff.1 hnil
  · intro h x hx
    rw [List.dropWhile_eq_nil_iff.2 h] at hx
    cases hx

theorem toNat_digitChar (n : Nat) : (digitChar n).toNat = 48 + n % 10 :=
  toNat_ofNat_small _ (by omega)

theorem isDigit_digitChar (n : Nat) : isDigit (digitChar n) = true := by
  unfold isDigit
  rw [toNat_digitChar]
  simp only [Bool.and_eq_true, decide_eq_true_eq]
  omega

theorem unicodeIsSpace_digitChar (n : Nat) : unicodeIsSpace (digitChar n) = false := by
  unfold unicodeIsSpace
  rw [toNat_digitChar]
  have h := Nat.mod_lt n (by norm_num : 10 > 0)
  simp only [Bool.or_eq_false_iff, Bool.and_eq_false_iff, decide_eq_false_iff_not,
    beq_eq_false_iff_ne, ne_eq]
  omega

theorem trimSpace_monthToken (y m : Nat) : stringsTrimSpace (monthToken y m) ≠ "" := by
  intro h
  have hall := (trimSpace_eq_empty_iff _).1 h (digitChar (y / 1000)) (by simp [monthToken])
  rw [unicodeIsSpace_digitChar] at hall
  exact Bool.noConfusion hall

theorem timeParse_monthToken (y m : Nat) (hy : y ≤ 9999) (h1 : 1 ≤ m) (h2 : m ≤ 12) :
    timeParseYearMonth (monthToken y m) = some (timeDate y m 1 0 0 0 0) := by
  unfold timeParseYearMonth monthToken
  simp only [isDigit_digitChar, Bool.and_self, beq_self_eq_true, if_true, toNat_digitChar]
  have hyear : (((48 + y / 1000 % 10 : Nat) : Int) - 48) * 1000 +
      (((48 + y / 100 % 10 : Nat) : Int) - 48) * 100 +
      (((48 + y / 10 % 10 : Nat) : Int) - 48) * 10 + (((48 + y % 10 : Nat) : Int) - 48) =
      (y : Int) := by
    omega
  have hmonth : (((48 + m / 10 % 10 : Nat) : Int) - 48) * 10 +
      (((48 + m % 10 : Nat) : Int) - 48) = (m : Int) := by
    omega
  rw [hyear, hmonth]
  rw [if_neg (by omega)]

theorem timeParse_some {value : String} {t : Time} (h : timeParseYearMonth value = some t) :
    ∃ y m : Nat, y ≤ 9999 ∧ 1 ≤ m ∧ m ≤ 12 ∧ value = monthToken y m := by
  unfold timeParseYearMonth at h
  split at h
  · rename_i y1 y2 y3 y4 dash m1 m2 hdata
    dsimp only at h
    split_ifs at h with hc hm
    simp only [Bool.and_eq_true, beq_iff_eq, isDigit, decide_eq_true_eq] at hc
    obtain ⟨⟨⟨⟨⟨⟨hy1, hy2⟩, hy3⟩, hy4⟩, hdash⟩, hm1⟩, hm2⟩ := hc
    refine ⟨(y1.toNat - 48) * 1000 + (y2.toNat - 48) * 100 + (y3.toNat - 48) * 10 +
      (y4.toNat - 48), (m1.toNat - 48) * 10 + (m2.toNat - 48), by omega, by omega, by omega, ?_⟩
    apply String.ext
    rw [hdata]
    unfold monthToken
    simp only [List.cons.injEq, and_true]
    refine ⟨?_, ?_, ?_, ?_, hdash, ?_, ?_⟩ <;> apply char_eq_of_toNat <;>
      rw [toNat_digitChar] <;> omega
  · cases h

theorem parseMonthRange_token (now : Time) (y m : Nat) (hy : y ≤ 9999) (h1 : 1 ≤ m)
    (h2 : m ≤ 12) :
    parseMonthRange now (monthToken y m) =
      (timeDate y m 1 0 0 0 0, timeDate y (m + 1) 1 0 0 0 0, none) := by
  unfold parseMonthRange
  rw [if_neg (trimSpace_monthToken y m), timeParse_monthToken y m hy h1 h2]
  simp only
  rw [timeDate_first_AddDate y m (by exact_mod_cast h1) (by exact_mod_cast h2)]

theorem parseMonthRange_blank (now : Time) (value : String)
    (h : ∀ c ∈ value.data, unicodeIsSpace c = true) :
    parseMonthRange now value =
      (timeDate now.UTC.Date.1 now.UTC.Date.2.1 1 0 0 0 0,
        timeDate now.UTC.Date.1 (now.UTC.Date.2.1 + 1) 1 0 0 0 0, none) := by
  unfold parseMonthRange
  rw [if_pos ((trimSpace_eq_empty_iff value).2 h)]
  simp only
  rw [timeDate_first_AddDate _ _ (Time.Date_contains now.UTC).1 (Time.Date_contains now.UTC).2.1]

theorem parseMonthRange_other (now : Time) (value : String)
    (hs : ∃ c ∈ value.data, unicodeIsSpace c = false)
    (ht : ∀ y m : Nat, y ≤ 9999 → 1 ≤ m → m ≤ 12 → value ≠ monthToken y m) :
    parseMonthRange now value =
      (zeroTime, zeroTime, some "invalid month format, expected YYYY-MM") := by
  have htrim : stringsTrimSpace value ≠ "" := by
    intro h
    obtain ⟨c, hc, hf⟩ := hs
    rw [(trimSpace_eq_empty_iff value).1 h c hc] at hf
    exact Bool.noConfusion hf
  have hparse : timeParseYearMonth value = none := by
    cases hp : timeParseYearMonth value with
    | none => rfl
    | some t =>
      obtain ⟨y, m, hy, h1, h2, hv⟩ := timeParse_some hp
      exact (ht y m hy h1 h2 hv).elim
  unfold parseMonthRange
  rw [if_neg htrim, hparse]

/-- C27, amended. For every month token `YYYY-MM` with a month from 01 to 12,
`parseMonthRange` returns without error the first instant of that month in UTC as start
and the first instant of the following month in UTC as end, January of the next year
after December, and the start precedes the end. For a token that is empty or made of
white space alone it returns, in the same way, the month that `time.Date` reads from the
current instant in UTC, which contains that instant. Every other token is rejected with
an error. -/
theorem parseMonthRange_spec (now : Time) :
    (∀ y m : Nat, y ≤ 9999 → 1 ≤ m → m ≤ 12 →
      parseMonthRange now (monthToken y m) =
        (timeDate y m 1 0 0 0 0, timeDate y (m + 1) 1 0 0 0 0, none) ∧
      (timeDate y m 1 0 0 0 0).Date = ((y : Int), (m : Int), 1) ∧
      (timeDate y m 1 0 0 0 0).Clock = (0, 0, 0) ∧
      (timeDate y m 1 0 0 0 0).nsec = 0 ∧ (timeDate y m 1 0 0 0 0).loc = none ∧
      (timeDate y (m + 1) 1 0 0 0 0).Date =
        (if m = 12 then ((y : Int) + 1, 1, 1) else ((y : Int), (m : Int) + 1, 1)) ∧
      (timeDate y (m + 1) 1 0 0 0 0).Clock = (0, 0, 0) ∧
      (timeDate y m 1 0 0 0 0).sec < (timeDate y (m + 1) 1 0 0 0 0).sec) ∧
    (∀ value : String, (∀ c ∈ value.data, unicodeIsSpace c = true) →
      parseMonthRange now value =
        (timeDate now.UTC.Date.1 now.UTC.Date.2.1 1 0 0 0 0,
          timeDate now.UTC.Date.1 (now.UTC.Date.2.1 + 1) 1 0 0 0 0, none) ∧
      1 ≤ now.UTC.Date.2.1 ∧ now.UTC.Date.2.1 ≤ 12 ∧
      (parseMonthRange now value).1.sec ≤ now.sec ∧
      now.sec < (parseMonthRange now value).2.1.sec) ∧
    (∀ value : String, (∃ c ∈ value.data, unicodeIsSpace c = false) →
      (∀ y m : Nat, y ≤ 9999 → 1 ≤ m → m ≤ 12 → value ≠ monthToken y m) →
      parseMonthRange now value =
        (zeroTime, zeroTime, some "invalid month format, expected YYYY-MM")) := by
  refine ⟨?_, ?_, parseMonthRange_other now⟩
  · intro y m hy h1 h2
    have h1' : (1 : Int) ≤ m := by exact_mod_cast h1
    have h2' : (m : Int) ≤ 12 := by exact_mod_cast h2
    have hclock : ∀ (y' m' : Int), 1 ≤ m' → m' ≤ 12 →
        (timeDate y' m' 1 0 0 0 0).Clock = (0, 0, 0) := by
      intro y' m' ha hb
      rw [timeDate_first y' m' ha hb]
      unfold Time.Clock
      have hmod : firstDayOfMonth y' m' * 86400 % 86400 = 0 := by omega
      simp only [hmod]
      norm_num
    refine ⟨parseMonthRange_token now y m hy h1 h2, timeDate_first_Date y m h1' h2',
      hclock y m h1' h2', ?_, ?_, ?_, ?_, timeDate_first_lt y m h1' h2'⟩
    · rw [timeDate_first y m h1' h2']
    · rw [timeDate_first y m h1' h2']
    · by_cases h12 : m = 12
      · subst h12
        rw [if_pos rfl]
        have h13 : ((12 : Nat) : Int) + 1 = 13 := by norm_num
        rw [h13, timeDate_rollover, timeDate_first_Date _ 1 (by norm_num) (by norm_num)]
      · rw [if_neg h12]
        exact timeDate_first_Date y (m + 1) (by omega) (by omega)
    · by_cases h12 : m = 12
      · subst h12
        have h13 : ((12 : Nat) : Int) + 1 = 13 := by norm_num
        rw [h13, timeDate_rollover]
        exact hclock _ 1 (by norm_num) (by norm_num)
      · exact hclock y (m + 1) (by omega) (by omega)
  · intro value h
    have hc := Time.Date_contains now.UTC
    rw [parseMonthRange_blank now value h]
    exact ⟨rfl, hc.1, hc.2.1, hc.2.2.1, hc.2.2.2⟩

/-- C27 amended, at the tokens `2024-12` and `2025-01`, at the empty token with the
current instant 2025-01-01T00:00:00.5Z, and at the tokens `2025-13`, `2025-1` and
`2025-01` followed by a blank. -/
theorem parseMonthRange_spec_witness :
    (parseMonthRange sampleNow "2024-12").2.1 = january2025 ∧
    parseMonthRange sampleNow "2025-01" = (january2025, february2025, none) ∧
    parseMonthRange sampleNow "" = (january2025, february2025, none) ∧
    (parseMonthRange sampleNow "2025-13").2.2 = some "invalid month format, expected YYYY-MM" ∧
    (parseMonthRange sampleNow "2025-1").2.2 = some "invalid month format, expected YYYY-MM" ∧
    (parseMonthRange sampleNow "2025-01 ").2.2 =
      some "invalid month format, expected YYYY-MM" :=
  have h := parseMonthRange_spec sampleNow
  have hdec : parseMonthRange sampleNow (monthToken 2024 12) =
      (timeDate (2024 : Nat) (12 : Nat) 1 0 0 0 0,
        timeDate (2024 : Nat) ((12 : Nat) + 1) 1 0 0 0 0, none) :=
    (h.1 2024 12 (by decide) (by decide) (by decide)).1
  have hjan : parseMonthRange sampleNow (monthToken 2025 1) =
      (timeDate (2025 : Nat) (1 : Nat) 1 0 0 0 0,
        timeDate (2025 : Nat) ((1 : Nat) + 1) 1 0 0 0 0, none) :=
    (h.1 2025 1 (by decide) (by decide) (by decide)).1
  have hnow := (h.2.1 "" (by decide)).1
  ⟨(congrArg (fun r => r.2.1) hdec).trans (by decide), hjan.trans (by decide),
    hnow.trans (by decide), by decide, by decide, by decide⟩

/-- C27 as stated fails: the token made of one blank is not empty and is not of the form
`YYYY-MM`, yet `parseMonthRange` does not reject it: at the current instant
2025-01-01T00:00:00.5Z it returns the window of January 2025 with a nil error, as it does
for the empty token. -/
theorem blank_month_token_accepted :
    (" " : String) ≠ "" ∧
    (∀ y m : Nat, (" " : String) ≠ monthToken y m) ∧
    parseMonthRange sampleNow " " = (january2025, february2025, none) ∧
    parseMonthRange sampleNow " " = parseMonthRange sampleNow "" := by
  refine ⟨by decide, ?_, by decide, by decide⟩
  intro y m h
  have hlen := congrArg String.length h
  revert hlen
  simp [monthToken, String.length]

/-! ## The time window and its placeholders -/

theorem stringsJoin_head (a : String) (rest : List String) (sep : String) :
    ∃ post, stringsJoin (a :: rest) sep = a ++ post := by
  cases rest with
  | nil => exact ⟨"", by simp [stringsJoin]⟩
  | cons b t => exact ⟨sep ++ stringsJoin (b :: t) sep, by
      rw [stringsJoin_cons_cons, String.append_assoc]⟩

set_option maxRecDepth 100000 in
theorem assembleLogQuery_timeBound (qb : QueryBuilder) (base : BaseLogQuery)
    {cb : conditionBuilder} (o : String) (l : Int) (ht : qb.logTable ≠ "")
    (hq : countPlaceholders qb.logTable = 0)
    (h : Extends (timeBuilder base) cb) :
    TimeBoundAt (qb.assembleLogQuery cb o l) 0 base.TimeRange.Start base.TimeRange.End := by
  obtain ⟨⟨cs, hcs⟩, ⟨as, has⟩⟩ := h
  have hcl : cb.clauses = "timestamp BETWEEN ? AND ?" :: cs := by
    rw [← hcs]; simp [timeBuilder]
  have hne : cb.clauses ≠ [] := by rw [hcl]; simp
  obtain ⟨post, hpost⟩ := stringsJoin_head "timestamp BETWEEN ? AND ?" cs " AND "
  refine ⟨?_, ?_, ?_⟩
  · rw [assembleLogQuery_ok qb cb o l ht]
  · refine ⟨logSelect ++ qb.logTable ++ "\nWHERE timestamp ",
      post ++ "\nORDER BY timestamp " ++ qb.order o ++ "\nLIMIT ?", ?_, ?_⟩
    · rw [assembleLogQuery_sql qb cb o l ht hne, hcl, hpost]
      have e : ("timestamp BETWEEN ? AND ?" : String) = "timestamp " ++ "BETWEEN ? AND ?" := by
        decide
      have e2 : ("\nWHERE timestamp " : String) = "\nWHERE " ++ "timestamp " := by decide
      rw [e, e2]
      simp only [String.append_assoc]
    · rw [countPlaceholders_append, countPlaceholders_append, countPlaceholders_logSelect, hq]
      decide
  · rw [assembleLogQuery_ok qb cb o l ht]
    refine ⟨_, rfl, ?_, ?_⟩ <;> simp [← has, timeBuilder]

set_option maxRecDepth 100000 in
/-- C3. On every entry point of a builder whose table name holds no `?`, an otherwise
valid query with non-zero start and end succeeds with SQL text that holds a
`BETWEEN ? AND ?` predicate, and the UTC start immediately followed by the UTC end are
the arguments bound to the two placeholders of this predicate: no placeholder precedes
the predicate and the two arguments stand at positions 0 and 1 for the four log builders
and the cost report; one placeholder precedes it and they stand at positions 1 and 2 for
the component traces. -/
theorem time_window_bound (qb : QueryBuilder) :
    (∀ q : ComponentLogQuery, qb.logTable ≠ "" → countPlaceholders qb.logTable = 0 →
      q.ComponentID ≠ "" →
      q.BaseLogQuery.TimeRange.Start.IsZero = false →
      q.BaseLogQuery.TimeRange.End.IsZero = false →
      TimeBoundAt (qb.ComponentLogs q) 0 q.BaseLogQuery.TimeRange.Start
        q.BaseLogQuery.TimeRange.End) ∧
    (∀ q : ProjectLogQuery, qb.logTable ≠ "" → countPlaceholders qb.logTable = 0 →
      q.ProjectID ≠ "" →
      q.BaseLogQuery.TimeRange.Start.IsZero = false →
      q.BaseLogQuery.TimeRange.End.IsZero = false →
      TimeBoundAt (qb.ProjectLogs q) 0 q.BaseLogQuery.TimeRange.Start
        q.BaseLogQuery.TimeRange.End) ∧
    (∀ q : GatewayLogQuery, qb.logTable ≠ "" → countPlaceholders qb.logTable = 0 →
      q.OrganizationID ≠ "" →
      q.BaseLogQuery.TimeRange.Start.IsZero = false →
      q.BaseLogQuery.TimeRange.End.IsZero = false →
      TimeBoundAt (qb.GatewayLogs q) 0 q.BaseLogQuery.TimeRange.Start
        q.BaseLogQuery.TimeRange.End) ∧
    (∀ q : OrganizationLogQuery, qb.logTable ≠ "" → countPlaceholders qb.logTable = 0 →
      q.OrganizationID ≠ "" →
      q.BaseLogQuery.TimeRange.Start.IsZero = false →
      q.BaseLogQuery.TimeRange.End.IsZero = false →
      TimeBoundAt (qb.OrganizationLogs q) 0 q.BaseLogQuery.TimeRange.Start
        q.BaseLogQuery.TimeRange.End) ∧
    (∀ q : ComponentTraceQuery, qb.traceTable ≠ "" → countPlaceholders qb.traceTable = 0 →
      q.ServiceName ≠ "" →
      q.TimeRange.Start.IsZero = false → q.TimeRange.End.IsZero = false →
      TimeBoundAt (qb.ComponentTraces q) 1 q.TimeRange.Start q.TimeRange.End) ∧
    (∀ q : CostReportQuery, qb.logTable ≠ "" → countPlaceholders qb.logTable = 0 →
      q.Start.IsZero = false → q.End.IsZero = false →
      TimeBoundAt (qb.CostReport q) 0 q.Start q.End) := by
  refine ⟨?_, ?_, ?_, ?_, ?_, ?_⟩
  · intro q ht hq hid hs he
    obtain ⟨cb, hcb, hEq⟩ := componentLogs_ok qb q hid hs he
    rw [hEq]
    exact assembleLogQuery_timeBound qb _ _ _ ht hq hcb
  · intro q ht hq hid hs he
    obtain ⟨cb, hcb, hEq⟩ := projectLogs_ok qb q hid hs he
    rw [hEq]
    exact assembleLogQuery_timeBound qb _ _ _ ht hq hcb
  · intro q ht hq hid hs he
    obtain ⟨cb, hcb, hEq⟩ := gatewayLogs_ok qb q hid hs he
    rw [hEq]
    exact assembleLogQuery_timeBound qb _ _ _ ht hq hcb
  · intro q ht hq hid hs he
    obtain ⟨cb, hcb, hEq⟩ := organizationLogs_ok qb q hid hs he
    rw [hEq]
    exact assembleLogQuery_timeBound qb _ _ _ ht hq hcb
  · intro q ht hq hn hs he
    rw [componentTraces_ok qb q hn hs he ht]
    refine ⟨rfl, ⟨traceSelect ++ qb.traceTable ++ "\nWHERE service_name = ?\n  AND start_time ",
      "\nORDER BY start_time DESC\nLIMIT ?", ?_, ?_⟩, _, rfl, rfl, rfl⟩
    · have e : traceTail = "\nWHERE service_name = ?\n  AND start_time " ++
          ("BETWEEN ? AND ?" ++ "\nORDER BY start_time DESC\nLIMIT ?") := by decide
      show traceSelect ++ qb.traceTable ++ traceTail = _
      rw [e]
      simp only [String.append_assoc]
    · rw [countPlaceholders_append, countPlaceholders_append, hq]
      decide
  · intro q ht hq hs he
    rw [costReport_ok qb q ht hs he]
    refine ⟨rfl, ⟨costSelect ++ qb.logTable ++ "\nWHERE timestamp ",
      "\nGROUP BY organization_id, project_id, component_id\nORDER BY organization_id, project_id, component_id",
      ?_, ?_⟩, _, rfl, rfl, rfl⟩
    · have e : costTail = "\nWHERE timestamp " ++ ("BETWEEN ? AND ?" ++
          "\nGROUP BY organization_id, project_id, component_id\nORDER BY organization_id, project_id, component_id") := by
        decide
      show costSelect ++ qb.logTable ++ costTail = _
      rw [e]
      simp only [String.append_assoc]
    · rw [countPlaceholders_append, countPlaceholders_append, hq]
      decide

/-- C3, at one concrete query per entry point. -/
theorem time_window_bound_witness :
    TimeBoundAt (testBuilder.ComponentLogs scenarioA) 0 sampleStart sampleEnd ∧
    TimeBoundAt (testBuilder.ProjectLogs sampleProject) 0 sampleStart sampleEnd ∧
    TimeBoundAt (testBuilder.GatewayLogs sampleGateway) 0 sampleStart sampleEnd ∧
    TimeBoundAt (testBuilder.OrganizationLogs sampleOrganization) 0 sampleStart sampleEnd ∧
    TimeBoundAt (testBuilder.ComponentTraces sampleTrace) 1 sampleStart sampleEnd ∧
    TimeBoundAt (testBuilder.CostReport { Start := sampleStart, End := sampleEnd }) 0
      sampleStart sampleEnd :=
  ⟨(time_window_bound testBuilder).1 scenarioA (by decide) (by decide) (by decide) (by decide)
      (by decide),
    (time_window_bound testBuilder).2.1 sampleProject (by decide) (by decide) (by decide)
      (by decide) (by decide),
    (time_window_bound testBuilder).2.2.1 sampleGateway (by decide) (by decide) (by decide)
      (by decide) (by decide),
    (time_window_bound testBuilder).2.2.2.1 sampleOrganization (by decide) (by decide)
      (by decide) (by decide) (by decide),
    (time_window_bound testBuilder).2.2.2.2.1 sampleTrace (by decide) (by decide) (by decide)
      (by decide) (by decide),
    (time_window_bound testBuilder).2.2.2.2.2 _ (by decide) (by decide) (by decide)
      (by decide)⟩

/-! ## Filter values as bound parameters -/

theorem binds_add {cb : conditionBuilder} {bs : List (String × List Arg)} (h : Binds cb bs)
    (clause : String) (args : List Arg) (hne : clause ≠ "") :
    Binds (cb.add clause args) (bs ++ [(clause, args)]) := by
  rw [add_eq cb args hne]
  obtain ⟨h1, h2⟩ := h
  constructor
  · simp [h1]
  · simp [h2]

theorem binds_step {cb : conditionBuilder} {bs : List (String × List Arg)}
    (G : String × List Arg → Prop) (h : Binds cb bs) (hg : ∀ b ∈ bs, G b)
    (p : Prop) [Decidable p] (clause : String) (args : List Arg) (hne : clause ≠ "")
    (hc : G (clause, args)) :
    ∃ bs', Binds (if p then cb.add clause args else cb) bs' ∧ (∀ b ∈ bs, b ∈ bs') ∧
      (∀ b ∈ bs', G b) ∧ (p → (clause, args) ∈ bs') := by
  by_cases hp : p
  · refine ⟨bs ++ [(clause, args)], ?_, ?_, ?_, ?_⟩
    · rw [if_pos hp]
      exact binds_add h clause args hne
    · intro b hb
      exact List.mem_append_left _ hb
    · intro b hb
      rcases List.mem_append.1 hb with hb | hb
      · exact hg b hb
      · rw [List.mem_singleton.1 hb]
        exact hc
    · intro _
      simp
  · refine ⟨bs, ?_, fun b hb => hb, hg, fun hp' => (hp hp').elim⟩
    rw [if_neg hp]
    exact h

theorem binds_step_in (qb : QueryBuilder) {cb : conditionBuilder}
    {bs : List (String × List Arg)}
    (G : String × List Arg → Prop) (h : Binds cb bs) (hg : ∀ b ∈ bs, G b)
    (column : String) (values : List String)
    (hc : G (column ++ " IN (" ++ placeholders values.length ++ ")", values.map Arg.str)) :
    ∃ bs', Binds (if values.length > 0 then qb.addInClause cb column values else cb) bs' ∧
      (∀ b ∈ bs, b ∈ bs') ∧ (∀ b ∈ bs', G b) ∧
      (values ≠ [] →
        (column ++ " IN (" ++ placeholders values.length ++ ")", values.map Arg.str) ∈ bs') := by
  by_cases hv : values = []
  · refine ⟨bs, ?_, fun b hb => hb, hg, fun hp' => (hp' hv).elim⟩
    rw [if_neg (by simp [hv])]
    exact h
  · obtain ⟨bs', h1, h2, h3, h4⟩ := binds_step G h hg (values.length > 0) _
      (values.map Arg.str) (inClause_ne_empty column values.length) hc
    refine ⟨bs', ?_, h2, h3, fun _ => h4 (List.length_pos.2 hv)⟩
    have e : qb.addInClause cb column values =
        cb.add (column ++ " IN (" ++ placeholders values.length ++ ")")
          (values.map Arg.str) := by
      rw [addInClause_eq qb cb column hv, add_eq cb _ (inClause_ne_empty column values.length)]
    rw [e]
    exact h1

theorem paired_in (column : String) (hcol : countPlaceholders column = 0)
    (values : List String) :
    countPlaceholders (column ++ " IN (" ++ placeholders values.length ++ ")") =
      (values.map Arg.str).length := by
  rw [countPlaceholders_append, countPlaceholders_append, countPlaceholders_append,
    countPlaceholders_placeholders, hcol, List.length_map]
  have h1 : countPlaceholders " IN (" = 0 := by decide
  have h2 : countPlaceholders ")" = 0 := by decide
  rw [h1, h2]
  omega

theorem applyBaseFilters_binds (qb : QueryBuilder) (base : BaseLogQuery)
    (hs : base.TimeRange.Start.IsZero = false) (he : base.TimeRange.End.IsZero = false) :
    ∃ cb bs, qb.applyBaseFilters newConditionBuilder base = (cb, none) ∧ Binds cb bs ∧
      Paired bs ∧ BaseBound base bs := by
  unfold QueryBuilder.applyBaseFilters
  rw [if_neg (by simp [hs, he])]
  have h0 : Binds (newConditionBuilder.add "timestamp BETWEEN ? AND ?"
      [Arg.time base.TimeRange.Start.UTC, Arg.time base.TimeRange.End.UTC])
      [("timestamp BETWEEN ? AND ?",
        [Arg.time base.TimeRange.Start.UTC, Arg.time base.TimeRange.End.UTC])] := by
    have hnew : Binds newConditionBuilder [] := ⟨rfl, rfl⟩
    have := binds_add hnew "timestamp BETWEEN ? AND ?"
      [Arg.time base.TimeRange.Start.UTC, Arg.time base.TimeRange.End.UTC] (by decide)
    simpa using this
  have g0 : Paired [("timestamp BETWEEN ? AND ?",
      [Arg.time base.TimeRange.Start.UTC, Arg.time base.TimeRange.End.UTC])] := by
    intro b hb
    rw [List.mem_singleton.1 hb]
    exact (by decide : countPlaceholders "timestamp BETWEEN ? AND ?" = 2)
  obtain ⟨b1, h1, s1, g1, m1⟩ := binds_step _ h0 g0 (base.SearchPhrase ≠ "")
    "positionCaseInsensitive(log, ?) > 0" [Arg.str base.SearchPhrase] (by decide)
    (by decide : countPlaceholders "positionCaseInsensitive(log, ?) > 0" = 1)
  obtain ⟨b2, h2, s2, g2, m2⟩ := binds_step_in qb _ h1 g1 "log_level" base.LogLevels
    (paired_in _ (by decide) _)
  obtain ⟨b3, h3, s3, g3, m3⟩ := binds_step _ h2 g2 (base.Namespace ≠ "")
    "namespace = ?" [Arg.str base.Namespace] (by decide)
    (by decide : countPlaceholders "namespace = ?" = 1)
  obtain ⟨b4, h4, s4, g4, m4⟩ := binds_step_in qb _ h3 g3 "version" base.Versions
    (paired_in _ (by decide) _)
  obtain ⟨b5, h5, s5, g5, m5⟩ := binds_step_in qb _ h4 g4 "version_id" base.VersionIDs
    (paired_in _ (by decide) _)
  obtain ⟨b6, h6, s6, g6, m6⟩ := binds_step _ h5 g5 (base.LogType ≠ "")
    "log_type = ?" [Arg.str base.LogType] (by decide)
    (by decide : countPlaceholders "log_type = ?" = 1)
  refine ⟨_, b6, rfl, h6, g6, ?_, ?_, ?_, ?_, ?_, ?_, ?_⟩
  · exact s6 _ (s5 _ (s4 _ (s3 _ (s2 _ (s1 _ (List.mem_singleton.2 rfl))))))
  · exact fun hp => s6 _ (s5 _ (s4 _ (s3 _ (s2 _ (m1 hp)))))
  · exact fun hp => s6 _ (s5 _ (s4 _ (s3 _ (m2 hp))))
  · exact fun hp => s6 _ (s5 _ (s4 _ (m3 hp)))
  · exact fun hp => s6 _ (s5 _ (m4 hp))
  · exact fun hp => s6 _ (m5 hp)
  · exact m6

theorem BaseBound.mono {base : BaseLogQuery} {bs bs' : List (String × List Arg)}
    (h : BaseBound base bs) (hsub : ∀ b ∈ bs, b ∈ bs') : BaseBound base bs' :=
  ⟨hsub _ h.1, fun hp => hsub _ (h.2.1 hp), fun hp => hsub _ (h.2.2.1 hp),
    fun hp => hsub _ (h.2.2.2.1 hp), fun hp => hsub _ (h.2.2.2.2.1 hp),
    fun hp => hsub _ (h.2.2.2.2.2.1 hp), fun hp => hsub _ (h.2.2.2.2.2.2 hp)⟩

theorem assembleLogQuery_bound (qb : QueryBuilder) (base : BaseLogQuery)
    {cb : conditionBuilder} {bs : List (String × List Arg)} (ht : qb.logTable ≠ "")
    (h : Binds cb bs) (hne : bs ≠ []) :
    ParameterBound qb base
      (qb.assembleLogQuery cb base.SortOrder (qb.resolveLimit base.Limit)) bs := by
  obtain ⟨h1, h2⟩ := h
  have hc : cb.clauses ≠ [] := by
    rw [h1]
    simpa using hne
  refine ⟨?_, ?_, ?_⟩
  · rw [assembleLogQuery_ok qb cb _ _ ht]
  · rw [assembleLogQuery_sql qb cb _ _ ht hc, h1]
  · rw [assembleLogQuery_ok qb cb _ _ ht, h2]

theorem binds_podLabels (m : GoMap) (keys : List String) {cb : conditionBuilder}
    {bs : List (String × List Arg)} (h : Binds cb bs) :
    Binds (keys.foldl (podLabelStep m) cb)
      (bs ++ keys.map fun k => (podLabelClause k, [Arg.str (GoMap.get m k)])) := by
  rw [foldl_podLabelStep]
  obtain ⟨h1, h2⟩ := h
  constructor
  · simp [h1, Function.comp_def]
  · simp only [h2, List.flatMap_append, List.append_cancel_left_eq]
    induction keys with
    | nil => rfl
    | cons k t ih => simp [List.flatMap_cons, ih]


theorem countPlaceholders_podLabelClause (k : String) :
    countPlaceholders (podLabelClause k) = countPlaceholders k + 1 := by
  unfold podLabelClause
  rw [countPlaceholders_append, countPlaceholders_append, countPlaceholders_escapeJSONPath]
  have h1 : countPlaceholders "JSONExtractString(labels_json, '" = 0 := by decide
  have h2 : countPlaceholders "') = ?" = 1 := by decide
  rw [h1, h2]
  omega

theorem binds_step_labels {cb : conditionBuilder} {bs : List (String × List Arg)}
    (G : String × List Arg → Prop) (h : Binds cb bs) (hg : ∀ b ∈ bs, G b) (m : GoMap)
    (hc : ∀ k ∈ GoMap.keys m, G (podLabelClause k, [Arg.str (GoMap.get m k)])) :
    ∃ bs', Binds (if m.length > 0 then (sortedKeys m).foldl (podLabelStep m) cb else cb) bs' ∧
      (∀ b ∈ bs, b ∈ bs') ∧ (∀ b ∈ bs', G b) ∧
      (∀ k ∈ GoMap.keys m, (podLabelClause k, [Arg.str (GoMap.get m k)]) ∈ bs') := by
  have hsame : (if m.length > 0 then (sortedKeys m).foldl (podLabelStep m) cb else cb) =
      (sortedKeys m).foldl (podLabelStep m) cb := by
    split_ifs with hl
    · rfl
    · have hm : m = [] := List.length_eq_zero.1 (by omega)
      subst hm
      rfl
  rw [hsame]
  refine ⟨_, binds_podLabels m (sortedKeys m) h, fun b hb => List.mem_append_left _ hb, ?_, ?_⟩
  · intro b hb
    rcases List.mem_append.1 hb with hb | hb
    · exact hg b hb
    · obtain ⟨k, hk, rfl⟩ := List.mem_map.1 hb
      exact hc k ((sortedKeys_perm m).mem_iff.1 hk)
  · intro k hk
    exact List.mem_append_right _
      (List.mem_map.2 ⟨k, (sortedKeys_perm m).mem_iff.2 hk, rfl⟩)

theorem componentLogs_bound (qb : QueryBuilder) (q : ComponentLogQuery)
    (ht : qb.logTable ≠ "") (hid : q.ComponentID ≠ "")
    (hs : q.BaseLogQuery.TimeRange.Start.IsZero = false)
    (he : q.BaseLogQuery.TimeRange.End.IsZero = false) :
    ∃ bs, ParameterBound qb q.BaseLogQuery (qb.ComponentLogs q) bs ∧ Paired bs ∧
      BaseBound q.BaseLogQuery bs ∧
      ("component_id = ?", [Arg.str q.ComponentID]) ∈ bs ∧
      (q.EnvironmentID ≠ "" → ("environment_id = ?", [Arg.str q.EnvironmentID]) ∈ bs) ∧
      (q.BuildID ≠ "" → ("build_id = ?", [Arg.str q.BuildID]) ∈ bs) ∧
      (q.BuildUUID ≠ "" → ("build_uuid = ?", [Arg.str q.BuildUUID]) ∈ bs) := by
  obtain ⟨cb, b0, hEq, h0, g0, hbase⟩ := applyBaseFilters_binds qb q.BaseLogQuery hs he
  unfold QueryBuilder.ComponentLogs
  rw [if_neg hid, hEq]
  have h1 := binds_add h0 "component_id = ?" [Arg.str q.ComponentID] (by decide)
  have g1 : Paired (b0 ++ [("component_id = ?", [Arg.str q.ComponentID])]) := by
    intro b hb
    rcases List.mem_append.1 hb with hb | hb
    · exact g0 b hb
    · rw [List.mem_singleton.1 hb]
      exact (by decide : countPlaceholders "component_id = ?" = 1)
  obtain ⟨b2, h2, s2, g2, m2⟩ := binds_step _ h1 g1 (q.EnvironmentID ≠ "")
    "environment_id = ?" [Arg.str q.EnvironmentID] (by decide)
    (by decide : countPlaceholders "environment_id = ?" = 1)
  obtain ⟨b3, h3, s3, g3, m3⟩ := binds_step _ h2 g2 (q.BuildID ≠ "")
    "build_id = ?" [Arg.str q.BuildID] (by decide)
    (by decide : countPlaceholders "build_id = ?" = 1)
  obtain ⟨b4, h4, s4, g4, m4⟩ := binds_step _ h3 g3 (q.BuildUUID ≠ "")
    "build_uuid = ?" [Arg.str q.BuildUUID] (by decide)
    (by decide : countPlaceholders "build_uuid = ?" = 1)
  have hid1 : ("component_id = ?", [Arg.str q.ComponentID]) ∈ b4 :=
    s4 _ (s3 _ (s2 _ (List.mem_append_right _ (List.mem_singleton.2 rfl))))
  exact ⟨b4, assembleLogQuery_bound qb _ ht h4 (List.ne_nil_of_mem hid1), g4,
    hbase.mono fun b hb => s4 _ (s3 _ (s2 _ (List.mem_append_left _ hb))), hid1,
    fun hp => s4 _ (s3 _ (m2 hp)), fun hp => s4 _ (m3 hp), m4⟩

theorem projectLogs_bound (qb : QueryBuilder) (q : ProjectLogQuery)
    (ht : qb.logTable ≠ "") (hid : q.ProjectID ≠ "")
    (hs : q.BaseLogQuery.TimeRange.Start.IsZero = false)
    (he : q.BaseLogQuery.TimeRange.End.IsZero = false) :
    ∃ bs, ParameterBound qb q.BaseLogQuery (qb.ProjectLogs q) bs ∧ Paired bs ∧
      BaseBound q.BaseLogQuery bs ∧
      ("project_id = ?", [Arg.str q.ProjectID]) ∈ bs ∧
      (q.EnvironmentID ≠ "" → ("environment_id = ?", [Arg.str q.EnvironmentID]) ∈ bs) ∧
      (q.ComponentIDs ≠ [] →
        ("component_id IN (" ++ placeholders q.ComponentIDs.length ++ ")",
          q.ComponentIDs.map Arg.str) ∈ bs) := by
  obtain ⟨cb, b0, hEq, h0, g0, hbase⟩ := applyBaseFilters_binds qb q.BaseLogQuery hs he
  unfold QueryBuilder.ProjectLogs
  rw [if_neg hid, hEq]
  have h1 := binds_add h0 "project_id = ?" [Arg.str q.ProjectID] (by decide)
  have g1 : Paired (b0 ++ [("project_id = ?", [Arg.str q.ProjectID])]) := by
    intro b hb
    rcases List.mem_append.1 hb with hb | hb
    · exact g0 b hb
    · rw [List.mem_singleton.1 hb]
      exact (by decide : countPlaceholders "project_id = ?" = 1)
  obtain ⟨b2, h2, s2, g2, m2⟩ := binds_step _ h1 g1 (q.EnvironmentID ≠ "")
    "environment_id = ?" [Arg.str q.EnvironmentID] (by decide)
    (by decide : countPlaceholders "environment_id = ?" = 1)
  obtain ⟨b3, h3, s3, g3, m3⟩ := binds_step_in qb _ h2 g2 "component_id" q.ComponentIDs
    (paired_in _ (by decide) _)
  have hid1 : ("project_id = ?", [Arg.str q.ProjectID]) ∈ b3 :=
    s3 _ (s2 _ (List.mem_append_right _ (List.mem_singleton.2 rfl)))
  exact ⟨b3, assembleLogQuery_bound qb _ ht h3 (List.ne_nil_of_mem hid1), g3,
    hbase.mono fun b hb => s3 _ (s2 _ (List.mem_append_left _ hb)), hid1,
    fun hp => s3 _ (m2 hp), m3⟩

theorem gatewayLogs_bound (qb : QueryBuilder) (q : GatewayLogQuery)
    (ht : qb.logTable ≠ "") (hid : q.OrganizationID ≠ "")
    (hs : q.BaseLogQuery.TimeRange.Start.IsZero = false)
    (he : q.BaseLogQuery.TimeRange.End.IsZero = false) :
    ∃ bs, ParameterBound qb q.BaseLogQuery (qb.GatewayLogs q) bs ∧ Paired bs ∧
      BaseBound q.BaseLogQuery bs ∧
      ("organization_id = ?", [Arg.str q.OrganizationID]) ∈ bs ∧
      (q.GatewayVHosts ≠ [] →
        ("gateway_vhost IN (" ++ placeholders q.GatewayVHosts.length ++ ")",
          q.GatewayVHosts.map Arg.str) ∈ bs) ∧
      (q.APIIDToVersionMap ≠ [] →
        ("(" ++ stringsJoin ((sortedKeys q.APIIDToVersionMap).map
            (apiClause q.APIIDToVersionMap)) " OR " ++ ")",
          (sortedKeys q.APIIDToVersionMap).flatMap (apiArgs q.APIIDToVersionMap)) ∈ bs) := by
  obtain ⟨cb, b0, hEq, h0, g0, hbase⟩ := applyBaseFilters_binds qb q.BaseLogQuery hs he
  unfold QueryBuilder.GatewayLogs
  rw [if_neg hid, hEq]
  simp only [foldl_gatewayStep, List.nil_append]
  have h1 := binds_add h0 "organization_id = ?" [Arg.str q.OrganizationID] (by decide)
  have g1 : Paired (b0 ++ [("organization_id = ?", [Arg.str q.OrganizationID])]) := by
    intro b hb
    rcases List.mem_append.1 hb with hb | hb
    · exact g0 b hb
    · rw [List.mem_singleton.1 hb]
      exact (by decide : countPlaceholders "organization_id = ?" = 1)
  obtain ⟨b2, h2, s2, g2, m2⟩ := binds_step_in qb _ h1 g1 "gateway_vhost" q.GatewayVHosts
    (paired_in _ (by decide) _)
  obtain ⟨b3, h3, s3, g3, m3⟩ := binds_step _ h2 g2 (q.APIIDToVersionMap.length > 0)
    ("(" ++ stringsJoin ((sortedKeys q.APIIDToVersionMap).map
      (apiClause q.APIIDToVersionMap)) " OR " ++ ")")
    ((sortedKeys q.APIIDToVersionMap).flatMap (apiArgs q.APIIDToVersionMap))
    (apiChain_ne_empty _) (countPlaceholders_apiChain _ _)
  have hid1 : ("organization_id = ?", [Arg.str q.OrganizationID]) ∈ b3 :=
    s3 _ (s2 _ (List.mem_append_right _ (List.mem_singleton.2 rfl)))
  exact ⟨b3, assembleLogQuery_bound qb _ ht h3 (List.ne_nil_of_mem hid1), g3,
    hbase.mono fun b hb => s3 _ (s2 _ (List.mem_append_left _ hb)), hid1,
    fun hp => s3 _ (m2 hp), fun hp => m3 (List.length_pos.2 hp)⟩

theorem organizationLogs_bound (qb : QueryBuilder) (q : OrganizationLogQuery)
    (ht : qb.logTable ≠ "") (hid : q.OrganizationID ≠ "")
    (hs : q.BaseLogQuery.TimeRange.Start.IsZero = false)
    (he : q.BaseLogQuery.TimeRange.End.IsZero = false) :
    ∃ bs, ParameterBound qb q.BaseLogQuery (qb.OrganizationLogs q) bs ∧
      ((∀ k ∈ GoMap.keys q.PodLabels, countPlaceholders k = 0) → Paired bs) ∧
      BaseBound q.BaseLogQuery bs ∧
      ("organization_id = ?", [Arg.str q.OrganizationID]) ∈ bs ∧
      (q.EnvironmentID ≠ "" → ("environment_id = ?", [Arg.str q.EnvironmentID]) ∈ bs) ∧
      (∀ k ∈ GoMap.keys q.PodLabels,
        ("JSONExtractString(labels_json, '" ++ escapeJSONPath k ++ "') = ?",
          [Arg.str (GoMap.get q.PodLabels k)]) ∈ bs) := by
  obtain ⟨cb, b0, hEq, h0, g0, hbase⟩ := applyBaseFilters_binds qb q.BaseLogQuery hs he
  unfold QueryBuilder.OrganizationLogs
  rw [if_neg hid, hEq]
  have h1 := binds_add h0 "organization_id = ?" [Arg.str q.OrganizationID] (by decide)
  have g1 : ∀ b ∈ b0 ++ [("organization_id = ?", [Arg.str q.OrganizationID])],
      (∀ k ∈ GoMap.keys q.PodLabels, countPlaceholders k = 0) →
        countPlaceholders b.1 = b.2.length := by
    intro b hb _
    rcases List.mem_append.1 hb with hb | hb
    · exact g0 b hb
    · rw [List.mem_singleton.1 hb]
      exact (by decide : countPlaceholders "organization_id = ?" = 1)
  obtain ⟨b2, h2, s2, g2, m2⟩ := binds_step _ h1 g1 (q.EnvironmentID ≠ "")
    "environment_id = ?" [Arg.str q.EnvironmentID] (by decide)
    (fun _ => (by decide : countPlaceholders "environment_id = ?" = 1))
  obtain ⟨b3, h3, s3, g3, m3⟩ := binds_step_labels _ h2 g2 q.PodLabels (by
    intro k hk hall
    show countPlaceholders (podLabelClause k) = 1
    rw [countPlaceholders_podLabelClause, hall k hk])
  have hid1 : ("organization_id = ?", [Arg.str q.OrganizationID]) ∈ b3 :=
    s3 _ (s2 _ (List.mem_append_right _ (List.mem_singleton.2 rfl)))
  exact ⟨b3, assembleLogQuery_bound qb _ ht h3 (List.ne_nil_of_mem hid1),
    fun hall b hb => g3 b hb hall,
    hbase.mono fun b hb => s3 _ (s2 _ (List.mem_append_left _ hb)), hid1,
    fun hp => s3 _ (m2 hp), m3⟩


/-- C8, amended. In every log builder the filter values are bound as parameters and never
reach the SQL text. Two valid queries of the same shape that agree on which optional
filters are present, on the length of every list filter, on the sort direction, on the set
of pod-label keys and on the sequence of empty and non-empty versions read along the API
ids in ascending order yield the same SQL text, however the values of the search phrase,
log levels, namespace, versions, version ids, log type, ids, environment, build fields,
virtual hosts, API versions and pod-label values differ. And every valid query yields a
statement whose WHERE clause is the conjunction of a list of predicates and whose
arguments are the values of these predicates, in the same order, followed by the limit;
each predicate holds as many placeholders as it has values (for the pod-label predicates,
when the keys hold no `?`); and each filter that is present is in the list as a predicate
with placeholders together with its values: the time window, the search phrase, the log
levels, the namespace, the versions, the version ids, the log type, the identifying
field, the environment, the build fields, the component ids, the virtual hosts, the API
ids with their versions, and the pod-label values. -/
theorem log_filter_values_parameterized (qb : QueryBuilder) :
    (∀ q₁ q₂ : ComponentLogQuery, q₁.ComponentID ≠ "" → q₂.ComponentID ≠ "" →
      BaseShapeAgree qb q₁.BaseLogQuery q₂.BaseLogQuery →
      SamePresence q₁.EnvironmentID q₂.EnvironmentID →
      SamePresence q₁.BuildID q₂.BuildID → SamePresence q₁.BuildUUID q₂.BuildUUID →
      (qb.ComponentLogs q₁).sql = (qb.ComponentLogs q₂).sql) ∧
    (∀ q₁ q₂ : ProjectLogQuery, q₁.ProjectID ≠ "" → q₂.ProjectID ≠ "" →
      BaseShapeAgree qb q₁.BaseLogQuery q₂.BaseLogQuery →
      SamePresence q₁.EnvironmentID q₂.EnvironmentID →
      q₁.ComponentIDs.length = q₂.ComponentIDs.length →
      (qb.ProjectLogs q₁).sql = (qb.ProjectLogs q₂).sql) ∧
    (∀ q₁ q₂ : GatewayLogQuery, q₁.OrganizationID ≠ "" → q₂.OrganizationID ≠ "" →
      BaseShapeAgree qb q₁.BaseLogQuery q₂.BaseLogQuery →
      q₁.GatewayVHosts.length = q₂.GatewayVHosts.length →
      versionPattern q₁.APIIDToVersionMap = versionPattern q₂.APIIDToVersionMap →
      (qb.GatewayLogs q₁).sql = (qb.GatewayLogs q₂).sql) ∧
    (∀ q₁ q₂ : OrganizationLogQuery, q₁.OrganizationID ≠ "" → q₂.OrganizationID ≠ "" →
      BaseShapeAgree qb q₁.BaseLogQuery q₂.BaseLogQuery →
      SamePresence q₁.EnvironmentID q₂.EnvironmentID →
      GoMap.WF q₁.PodLabels → GoMap.WF q₂.PodLabels →
      (∀ k, k ∈ GoMap.keys q₁.PodLabels ↔ k ∈ GoMap.keys q₂.PodLabels) →
      (qb.OrganizationLogs q₁).sql = (qb.OrganizationLogs q₂).sql) ∧
    (∀ q : ComponentLogQuery, qb.logTable ≠ "" → q.ComponentID ≠ "" →
      q.BaseLogQuery.TimeRange.Start.IsZero = false →
      q.BaseLogQuery.TimeRange.End.IsZero = false →
      ∃ bs, ParameterBound qb q.BaseLogQuery (qb.ComponentLogs q) bs ∧ Paired bs ∧
        BaseBound q.BaseLogQuery bs ∧
        ("component_id = ?", [Arg.str q.ComponentID]) ∈ bs ∧
        (q.EnvironmentID ≠ "" → ("environment_id = ?", [Arg.str q.EnvironmentID]) ∈ bs) ∧
        (q.BuildID ≠ "" → ("build_id = ?", [Arg.str q.BuildID]) ∈ bs) ∧
        (q.BuildUUID ≠ "" → ("build_uuid = ?", [Arg.str q.BuildUUID]) ∈ bs)) ∧
    (∀ q : ProjectLogQuery, qb.logTable ≠ "" → q.ProjectID ≠ "" →
      q.BaseLogQuery.TimeRange.Start.IsZero = false →
      q.BaseLogQuery.TimeRange.End.IsZero = false →
      ∃ bs, ParameterBound qb q.BaseLogQuery (qb.ProjectLogs q) bs ∧ Paired bs ∧
        BaseBound q.BaseLogQuery bs ∧
        ("project_id = ?", [Arg.str q.ProjectID]) ∈ bs ∧
        (q.EnvironmentID ≠ "" → ("environment_id = ?", [Arg.str q.EnvironmentID]) ∈ bs) ∧
        (q.ComponentIDs ≠ [] →
          ("component_id IN (" ++ placeholders q.ComponentIDs.length ++ ")",
            q.ComponentIDs.map Arg.str) ∈ bs)) ∧
    (∀ q : GatewayLogQuery, qb.logTable ≠ "" → q.OrganizationID ≠ "" →
      q.BaseLogQuery.TimeRange.Start.IsZero = false →
      q.BaseLogQuery.TimeRange.End.IsZero = false →
      ∃ bs, ParameterBound qb q.BaseLogQuery (qb.GatewayLogs q) bs ∧ Paired bs ∧
        BaseBound q.BaseLogQuery bs ∧
        ("organization_id = ?", [Arg.str q.OrganizationID]) ∈ bs ∧
        (q.GatewayVHosts ≠ [] →
          ("gateway_vhost IN (" ++ placeholders q.GatewayVHosts.length ++ ")",
            q.GatewayVHosts.map Arg.str) ∈ bs) ∧
        (q.APIIDToVersionMap ≠ [] →
          ("(" ++ stringsJoin ((sortedKeys q.APIIDToVersionMap).map
              (apiClause q.APIIDToVersionMap)) " OR " ++ ")",
            (sortedKeys q.APIIDToVersionMap).flatMap (apiArgs q.APIIDToVersionMap)) ∈ bs)) ∧
    (∀ q : OrganizationLogQuery, qb.logTable ≠ "" → q.OrganizationID ≠ "" →
      q.BaseLogQuery.TimeRange.Start.IsZero = false →
      q.BaseLogQuery.TimeRange.End.IsZero = false →
      ∃ bs, ParameterBound qb q.BaseLogQuery (qb.OrganizationLogs q) bs ∧
        ((∀ k ∈ GoMap.keys q.PodLabels, countPlaceholders k = 0) → Paired bs) ∧
        BaseBound q.BaseLogQuery bs ∧
        ("organization_id = ?", [Arg.str q.OrganizationID]) ∈ bs ∧
        (q.EnvironmentID ≠ "" → ("environment_id = ?", [Arg.str q.EnvironmentID]) ∈ bs) ∧
        (∀ k ∈ GoMap.keys q.PodLabels,
          (podLabelClause k, [Arg.str (GoMap.get q.PodLabels k)]) ∈ bs)) :=
  ⟨(log_sql_congr qb).1, (log_sql_congr qb).2.1, (log_sql_congr qb).2.2.1,
    (log_sql_congr qb).2.2.2, componentLogs_bound qb, projectLogs_bound qb,
    gatewayLogs_bound qb, organizationLogs_bound qb⟩

set_option maxRecDepth 100000 in
/-- C8, amended, at concrete pairs of component, project, gateway and organization
queries, and at the project query with the search phrase `timeout`, the log level `ERROR`
and the component ids `c1` and `c2`, whose values are bound to the placeholders of their
predicates. -/
theorem log_filter_values_parameterized_witness :
    (testBuilder.ComponentLogs scenarioA).sql = (testBuilder.ComponentLogs scenarioAlt).sql ∧
    (testBuilder.ProjectLogs sampleProject).sql = (testBuilder.ProjectLogs sampleProjectAlt).sql ∧
    (testBuilder.GatewayLogs sampleGateway).sql = (testBuilder.GatewayLogs sampleGatewayAlt).sql ∧
    (testBuilder.OrganizationLogs sampleOrganization).sql =
      (testBuilder.OrganizationLogs sampleOrganizationAlt).sql ∧
    (∃ bs, ParameterBound testBuilder sampleProject.BaseLogQuery
        (testBuilder.ProjectLogs sampleProject) bs ∧ Paired bs ∧
      ("positionCaseInsensitive(log, ?) > 0", [Arg.str "timeout"]) ∈ bs ∧
      ("log_level IN (?)", [Arg.str "ERROR"]) ∈ bs ∧
      ("project_id = ?", [Arg.str "proj-1"]) ∈ bs ∧
      ("component_id IN (?, ?)", [Arg.str "c1", Arg.str "c2"]) ∈ bs) ∧
    (testBuilder.ProjectLogs sampleProject).args =
      some [Arg.time sampleStart.UTC, Arg.time sampleEnd.UTC, Arg.str "timeout",
        Arg.str "ERROR", Arg.str "proj-1", Arg.str "c1", Arg.str "c2", Arg.int 50] :=
  have h := log_filter_values_parameterized testBuilder
  have hp := h.2.2.2.2.2.1 sampleProject (by decide) (by decide) (by decide) (by decide)
  ⟨h.1 scenarioA scenarioAlt (by decide) (by decide) (by decide) (by decide) (by decide)
      (by decide),
    h.2.1 sampleProject sampleProjectAlt (by decide) (by decide) (by decide) (by decide)
      (by decide),
    h.2.2.1 sampleGateway sampleGatewayAlt (by decide) (by decide) (by decide) (by decide)
      (by decide),
    h.2.2.2.1 sampleOrganization sampleOrganizationAlt (by decide) (by decide) (by decide)
      (by decide) (by decide) (by decide)
      (by simp [GoMap.keys, sampleOrganization, sampleOrganizationAlt]; tauto),
    hp.elim fun bs hb => ⟨bs, hb.1, hb.2.1, hb.2.2.1.2.1 (by decide),
      hb.2.2.1.2.2.1 (by decide), hb.2.2.2.1, hb.2.2.2.2.2 (by decide)⟩,
    by decide⟩

/-! ## Reading a link back -/

theorem stringsCut_not_mem (sep : Char) {l : List Char} (h : sep ∉ l) :
    stringsCut sep l = (l, []) := by
  induction l with
  | nil => rfl
  | cons c t ih =>
    have hc : c ≠ sep := fun e => h (e ▸ List.mem_cons_self _ _)
    have ht : sep ∉ t := fun m => h (List.mem_cons_of_mem _ m)
    simp only [stringsCut, if_neg hc, ih ht]

theorem stringsCut_append (sep : Char) {l : List Char} (r : List Char) (h : sep ∉ l) :
    stringsCut sep (l ++ sep :: r) = (l, r) := by
  induction l with
  | nil => simp [stringsCut]
  | cons c t ih =>
    have hc : c ≠ sep := fun e => h (e ▸ List.mem_cons_self _ _)
    have ht : sep ∉ t := fun m => h (List.mem_cons_of_mem _ m)
    show stringsCut sep (c :: (t ++ sep :: r)) = _
    rw [stringsCut, if_neg hc, ih ht]

theorem splitRunes_not_mem (sep : Char) {l : List Char} (h : sep ∉ l) :
    splitRunes sep l = [l] := by
  induction l with
  | nil => rfl
  | cons c t ih =>
    have hc : c ≠ sep := fun e => h (e ▸ List.mem_cons_self _ _)
    have ht : sep ∉ t := fun m => h (List.mem_cons_of_mem _ m)
    simp only [splitRunes, if_neg hc, ih ht]

theorem splitRunes_append (sep : Char) {l : List Char} (r : List Char) (h : sep ∉ l) :
    splitRunes sep (l ++ sep :: r) = l :: splitRunes sep r := by
  induction l with
  | nil => simp [splitRunes]
  | cons c t ih =>
    have hc : c ≠ sep := fun e => h (e ▸ List.mem_cons_self _ _)
    have ht : sep ∉ t := fun m => h (List.mem_cons_of_mem _ m)
    show splitRunes sep (c :: (t ++ sep :: r)) = _
    rw [splitRunes, if_neg hc, ih ht]

theorem toNat_lt_of_char (c : Char) : c.toNat < 0x110000 := by
  have h := c.valid
  unfold UInt32.isValidChar Nat.isValidChar at h
  have e : c.toNat = c.val.toNat := rfl
  omega

theorem ofNat_toNat_char (c : Char) : Char.ofNat c.toNat = c := Char.ofNat_toNat c

theorem utf8Decode_one (b0 : Nat) (t : List Nat) (h : b0 < 0x80) :
    utf8Decode (b0 :: t) = (utf8Decode t).map fun r => Char.ofNat b0 :: r := by
  rcases t with _ | ⟨b1, _ | ⟨b2, _ | ⟨b3, t3⟩⟩⟩ <;>
    (show (if b0 < 0x80 then _ else _) = _; rw [if_pos h])

theorem utf8Decode_two (b0 b1 : Nat) (t : List Nat) (h1 : ¬ b0 < 0x80) (h2 : b0 < 0xE0) :
    utf8Decode (b0 :: b1 :: t) =
      if utf8Bytes (Char.ofNat ((b0 - 0xC0) * 64 + (b1 - 0x80))) = [b0, b1] then
        (utf8Decode t).map fun r => Char.ofNat ((b0 - 0xC0) * 64 + (b1 - 0x80)) :: r
      else none := by
  rcases t with _ | ⟨b2, _ | ⟨b3, t3⟩⟩ <;>
    (show (if b0 < 0x80 then _ else if b0 < 0xE0 then _ else _) = _; rw [if_neg h1, if_pos h2])

theorem utf8Decode_three (b0 b1 b2 : Nat) (t : List Nat) (h1 : ¬ b0 < 0x80) (h2 : ¬ b0 < 0xE0)
    (h3 : b0 < 0xF0) :
    utf8Decode (b0 :: b1 :: b2 :: t) =
      if utf8Bytes (Char.ofNat ((b0 - 0xE0) * 4096 + (b1 - 0x80) * 64 + (b2 - 0x80))) =
          [b0, b1, b2] then
        (utf8Decode t).map fun r =>
          Char.ofNat ((b0 - 0xE0) * 4096 + (b1 - 0x80) * 64 + (b2 - 0x80)) :: r
      else none := by
  rcases t with _ | ⟨b3, t3⟩ <;>
    (show (if b0 < 0x80 then _ else if b0 < 0xE0 then _ else if b0 < 0xF0 then _ else _) = _
     rw [if_neg h1, if_neg h2, if_pos h3])

theorem utf8Decode_four (b0 b1 b2 b3 : Nat) (t : List Nat) (h1 : ¬ b0 < 0x80)
    (h2 : ¬ b0 < 0xE0) (h3 : ¬ b0 < 0xF0) :
    utf8Decode (b0 :: b1 :: b2 :: b3 :: t) =
      if utf8Bytes (Char.ofNat ((b0 - 0xF0) * 262144 + (b1 - 0x80) * 4096 +
          (b2 - 0x80) * 64 + (b3 - 0x80))) = [b0, b1, b2, b3] then
        (utf8Decode t).map fun r =>
          Char.ofNat ((b0 - 0xF0) * 262144 + (b1 - 0x80) * 4096 + (b2 - 0x80) * 64 +
            (b3 - 0x80)) :: r
      else none := by
  show (if b0 < 0x80 then _ else if b0 < 0xE0 then _ else if b0 < 0xF0 then _ else _) = _
  rw [if_neg h1, if_neg h2, if_neg h3]

theorem unescapeBytes_pct (plus : Bool) (h1 h2 : Char) (rest : List Char) :
    unescapeBytes plus ('%' :: h1 :: h2 :: rest) =
      match unhex h1, unhex h2 with
      | some a, some b => (unescapeBytes plus rest).map fun r => (a * 16 + b) :: r
      | _, _ => none := by
  show (if '%' = '%' then _ else _) = _
  rw [if_pos rfl]

theorem unescapeBytes_plus (t : List Char) :
    unescapeBytes true ('+' :: t) = (unescapeBytes true t).map fun r => 32 :: r := by
  rcases t with _ | ⟨b1, _ | ⟨b2, t2⟩⟩ <;>
    (show (if '+' = '%' then _ else if '+' = '+' ∧ true = true then _ else _) = _
     rw [if_neg (by decide), if_pos ⟨rfl, rfl⟩])

theorem unescapeBytes_other (plus : Bool) (c : Char) (t : List Char) (h1 : c ≠ '%')
    (h2 : ¬ (c = '+' ∧ plus = true)) :
    unescapeBytes plus (c :: t) = (unescapeBytes plus t).map fun r => utf8Bytes c ++ r := by
  rcases t with _ | ⟨b1, _ | ⟨b2, t2⟩⟩ <;>
    (show (if c = '%' then _ else if c = '+' ∧ plus = true then _ else _) = _
     rw [if_neg h1, if_neg h2])


theorem utf8Decode_append (c : Char) (rest : List Nat) :
    utf8Decode (utf8Bytes c ++ rest) = (utf8Decode rest).map fun r => c :: r := by
  have hlt := toNat_lt_of_char c
  by_cases h1 : c.toNat < 0x80
  · have hb : utf8Bytes c = [c.toNat] := by
      unfold utf8Bytes
      simp only
      rw [if_pos h1]
    rw [hb]
    show utf8Decode (c.toNat :: rest) = _
    rw [utf8Decode_one _ _ h1, ofNat_toNat_char]
  · by_cases h2 : c.toNat < 0x800
    · have hb : utf8Bytes c = [0xC0 + c.toNat / 64, 0x80 + c.toNat % 64] := by
        unfold utf8Bytes
        simp only
        rw [if_neg h1, if_pos h2]
      have hcode : (0xC0 + c.toNat / 64 - 0xC0) * 64 + (0x80 + c.toNat % 64 - 0x80) =
          c.toNat := by omega
      rw [hb]
      show utf8Decode ((0xC0 + c.toNat / 64) :: (0x80 + c.toNat % 64) :: rest) = _
      rw [utf8Decode_two _ _ _ (by omega) (by omega), hcode, ofNat_toNat_char, if_pos hb]
    · by_cases h3 : c.toNat < 0x10000
      · have hb : utf8Bytes c =
            [0xE0 + c.toNat / 4096, 0x80 + c.toNat / 64 % 64, 0x80 + c.toNat % 64] := by
          unfold utf8Bytes
          simp only
          rw [if_neg h1, if_neg h2, if_pos h3]
        have hcode : (0xE0 + c.toNat / 4096 - 0xE0) * 4096 +
            (0x80 + c.toNat / 64 % 64 - 0x80) * 64 + (0x80 + c.toNat % 64 - 0x80) =
            c.toNat := by omega
        rw [hb]
        show utf8Decode ((0xE0 + c.toNat / 4096) :: (0x80 + c.toNat / 64 % 64) ::
          (0x80 + c.toNat % 64) :: rest) = _
        rw [utf8Decode_three _ _ _ _ (by omega) (by omega) (by omega), hcode,
          ofNat_toNat_char, if_pos hb]
      · have hb : utf8Bytes c =
            [0xF0 + c.toNat / 262144, 0x80 + c.toNat / 4096 % 64, 0x80 + c.toNat / 64 % 64,
              0x80 + c.toNat % 64] := by
          unfold utf8Bytes
          simp only
          rw [if_neg h1, if_neg h2, if_neg h3]
        have hcode : (0xF0 + c.toNat / 262144 - 0xF0) * 262144 +
            (0x80 + c.toNat / 4096 % 64 - 0x80) * 4096 +
            (0x80 + c.toNat / 64 % 64 - 0x80) * 64 + (0x80 + c.toNat % 64 - 0x80) =
            c.toNat := by omega
        rw [hb]
        show utf8Decode ((0xF0 + c.toNat / 262144) :: (0x80 + c.toNat / 4096 % 64) ::
          (0x80 + c.toNat / 64 % 64) :: (0x80 + c.toNat % 64) :: rest) = _
        rw [utf8Decode_four _ _ _ _ _ (by omega) (by omega) (by omega), hcode,
          ofNat_toNat_char, if_pos hb]

theorem utf8Decode_flatMap (l : List Char) : utf8Decode (l.flatMap utf8Bytes) = some l := by
  induction l with
  | nil => rfl
  | cons c t ih => rw [List.flatMap_cons, utf8Decode_append, ih]; rfl

theorem utf8Bytes_lt (c : Char) : ∀ b ∈ utf8Bytes c, b < 256 := by
  have hlt := toNat_lt_of_char c
  intro b hb
  unfold utf8Bytes at hb
  simp only at hb
  split_ifs at hb <;> simp only [List.mem_cons, List.mem_singleton, List.not_mem_nil,
    or_false] at hb <;> omega


theorem queryEscape_data (s : String) :
    (queryEscape s).data = (s.data.flatMap utf8Bytes).flatMap escapeByte := by
  unfold queryEscape
  show (s.data.flatMap fun c => (utf8Bytes c).flatMap escapeByte) = _
  induction s.data with
  | nil => rfl
  | cons c t ih => simp only [List.flatMap_cons, List.flatMap_append, ih]

theorem unhex_upperHexDigit (n : Nat) (h : n < 16) : unhex (upperHexDigit n) = some n := by
  interval_cases n <;> rfl

theorem unescapeBytes_escapeByte (b : Nat) (hb : b < 256) (rest : List Char) :
    unescapeBytes true (escapeByte b ++ rest) =
      (unescapeBytes true rest).map fun r => b :: r := by
  unfold escapeByte
  split_ifs with h1 h2
  · have hlt : b < 128 := by
      simp only [Bool.or_eq_true, Bool.and_eq_true, decide_eq_true_eq, beq_iff_eq] at h1
      omega
    have htn : (Char.ofNat b).toNat = b := toNat_ofNat_small b (by omega)
    have hp : Char.ofNat b ≠ '%' := by
      intro e
      have := congrArg Char.toNat e
      rw [htn] at this
      simp only [Bool.or_eq_true, Bool.and_eq_true, decide_eq_true_eq, beq_iff_eq] at h1
      have h37 : ('%' : Char).toNat = 37 := rfl
      omega
    have hq : ¬ (Char.ofNat b = '+' ∧ true = true) := by
      rintro ⟨e, _⟩
      have := congrArg Char.toNat e
      rw [htn] at this
      simp only [Bool.or_eq_true, Bool.and_eq_true, decide_eq_true_eq, beq_iff_eq] at h1
      have h43 : ('+' : Char).toNat = 43 := rfl
      omega
    have hbytes : utf8Bytes (Char.ofNat b) = [b] := by
      unfold utf8Bytes
      simp only
      rw [htn, if_pos hlt]
    show unescapeBytes true (Char.ofNat b :: rest) = _
    rw [unescapeBytes_other true _ _ hp hq, hbytes]
    rfl
  · have hb32 : b = 32 := by simpa using h2
    subst hb32
    exact unescapeBytes_plus rest
  · show unescapeBytes true ('%' :: upperHexDigit (b / 16) :: upperHexDigit (b % 16) :: rest) = _
    rw [unescapeBytes_pct, unhex_upperHexDigit _ (by omega), unhex_upperHexDigit _ (by omega)]
    have e : b / 16 * 16 + b % 16 = b := by omega
    simp only [e]

theorem unescapeBytes_flatMap (bytes : List Nat) (h : ∀ b ∈ bytes, b < 256) :
    unescapeBytes true (bytes.flatMap escapeByte) = some bytes := by
  induction bytes with
  | nil => rfl
  | cons b t ih =>
    rw [List.flatMap_cons, unescapeBytes_escapeByte b (h b (List.mem_cons_self _ _)),
      ih fun x hx => h x (List.mem_cons_of_mem _ hx)]
    rfl

theorem flatMap_utf8Bytes_lt (l : List Char) : ∀ b ∈ l.flatMap utf8Bytes, b < 256 := by
  intro b hb
  obtain ⟨c, _, hc⟩ := List.mem_flatMap.1 hb
  exact utf8Bytes_lt c b hc

theorem queryUnescape_queryEscape (s : String) :
    queryUnescape (queryEscape s).data = some s := by
  unfold queryUnescape
  rw [queryEscape_data, unescapeBytes_flatMap _ (flatMap_utf8Bytes_lt _)]
  show (utf8Decode (s.data.flatMap utf8Bytes)).map String.mk = _
  rw [utf8Decode_flatMap]
  rfl

set_option maxRecDepth 100000 in
theorem escapeByte_plain : ∀ b < 256, (escapeByte b).all plainRune = true := by
  decide

theorem queryEscape_plain (s : String) : ∀ c ∈ (queryEscape s).data, plainRune c = true := by
  intro c hc
  rw [queryEscape_data] at hc
  obtain ⟨b, hb, hcb⟩ := List.mem_flatMap.1 hc
  exact List.all_eq_true.1 (escapeByte_plain b (flatMap_utf8Bytes_lt _ b hb)) c hcb

theorem unescapeBytes_path {l : List Char} (h : '%' ∉ l) :
    unescapeBytes false l = some (l.flatMap utf8Bytes) := by
  induction l with
  | nil => rfl
  | cons c t ih =>
    have hc : c ≠ '%' := fun e => h (e ▸ List.mem_cons_self _ _)
    have ht : '%' ∉ t := fun m => h (List.mem_cons_of_mem _ m)
    rw [unescapeBytes_other false c t hc (by simp), ih ht]
    rfl

theorem pathUnescape_plain {l : List Char} (h : '%' ∉ l) :
    pathUnescape l = some (String.mk l) := by
  unfold pathUnescape
  rw [unescapeBytes_path h]
  show (utf8Decode (l.flatMap utf8Bytes)).map String.mk = _
  rw [utf8Decode_flatMap]
  rfl


theorem plainRune_ne {c : Char} (h : plainRune c = true) :
    c ≠ '&' ∧ c ≠ '=' ∧ c ≠ ';' ∧ c ≠ '#' ∧ c ≠ '?' := by
  unfold plainRune at h
  simpa [and_assoc] using h

theorem queryEscape_not_mem (s : String) {sep : Char} (h : plainRune sep = false) :
    sep ∉ (queryEscape s).data := by
  intro hm
  rw [queryEscape_plain s sep hm] at h
  exact Bool.noConfusion h

theorem queryPiece_not_mem (v : GoMap) (k : String) {sep : Char} (h : plainRune sep = false)
    (hne : sep ≠ '=') : sep ∉ queryPiece v k := by
  unfold queryPiece
  intro hm
  rcases List.mem_append.1 hm with hm | hm
  · exact queryEscape_not_mem _ h hm
  · rcases List.mem_cons.1 hm with hm | hm
    · exact hne hm
    · exact queryEscape_not_mem _ h hm

theorem foldl_encode_data (v : GoMap) (keys : List String) :
    ∀ buf : String, buf.data ≠ [] →
      (keys.foldl (fun buf k =>
        (if buf.data.length > 0 then buf ++ "&" else buf) ++ queryEscape k ++ "=" ++
          queryEscape (GoMap.get v k)) buf).data =
        buf.data ++ keys.flatMap fun k => '&' :: queryPiece v k := by
  induction keys with
  | nil => intro buf _; simp
  | cons k t ih =>
    intro buf hbuf
    have hlen : buf.data.length > 0 := List.length_pos.2 hbuf
    rw [List.foldl_cons, ih]
    · simp only [if_pos hlen, String.data_append, List.flatMap_cons, queryPiece,
        List.append_assoc]
      simp
    · simp only [if_pos hlen, String.data_append]
      intro e
      have := congrArg List.length e
      simp at this

theorem urlValuesEncode_data (v : GoMap) :
    (urlValuesEncode v).data =
      match sortedKeys v with
      | [] => []
      | k :: t => queryPiece v k ++ t.flatMap fun k => '&' :: queryPiece v k := by
  unfold urlValuesEncode
  cases sortedKeys v with
  | nil => rfl
  | cons k t =>
    rw [List.foldl_cons, foldl_encode_data]
    · simp only [String.data_append, queryPiece, List.append_assoc]
      rfl
    · intro e
      have := congrArg List.length e
      simp [String.data_append] at this

theorem splitRunes_pieces (v : GoMap) (t : List String) :
    ∀ p : List Char, '&' ∉ p →
      splitRunes '&' (p ++ t.flatMap fun k => '&' :: queryPiece v k) =
        p :: t.map (queryPiece v) := by
  induction t with
  | nil =>
    intro p hp
    simp only [List.flatMap_nil, List.append_nil, List.map_nil]
    exact splitRunes_not_mem '&' hp
  | cons k t ih =>
    intro p hp
    rw [List.flatMap_cons, List.cons_append, splitRunes_append '&' _ hp,
      ih _ (queryPiece_not_mem v k (by decide) (by decide)), List.map_cons]

theorem parseQueryPair_piece (v : GoMap) (k : String) :
    parseQueryPair (queryPiece v k) = some (k, GoMap.get v k) := by
  have hsemi : ';' ∉ queryPiece v k := queryPiece_not_mem v k (by decide) (by decide)
  have hne : queryPiece v k ≠ [] := by
    unfold queryPiece
    simp
  unfold parseQueryPair
  rw [if_neg (by simp [hne, hsemi])]
  have hcut : stringsCut '=' (queryPiece v k) =
      ((queryEscape k).data, (queryEscape (GoMap.get v k)).data) :=
    stringsCut_append '=' _ (queryEscape_not_mem k (by decide))
  rw [hcut]
  simp only [queryUnescape_queryEscape]

theorem foldl_first_value (l : GoMap) :
    ∀ acc : GoMap, GoMap.WF (acc ++ l) →
      l.foldl (fun m e => if e.1 ∈ GoMap.keys m then m else m ++ [e]) acc = acc ++ l := by
  induction l with
  | nil => intro acc _; simp
  | cons e t ih =>
    intro acc hwf
    have hnot : e.1 ∉ GoMap.keys acc := by
      unfold GoMap.WF GoMap.keys at hwf
      rw [List.map_append, List.nodup_append] at hwf
      intro hm
      exact hwf.2.2 hm (by simp)
    rw [List.foldl_cons, if_neg hnot, ih]
    · simp
    · simpa using hwf

theorem parseQuery_urlValuesEncode {v : GoMap} (hwf : GoMap.WF v) :
    parseQuery (urlValuesEncode v).data = (sortedKeys v).map fun k => (k, GoMap.get v k) := by
  have hpairs : (splitRunes '&' (urlValuesEncode v).data).filterMap parseQueryPair =
      (sortedKeys v).map fun k => (k, GoMap.get v k) := by
    rw [urlValuesEncode_data]
    cases sortedKeys v with
    | nil => rfl
    | cons k t =>
      simp only
      rw [splitRunes_pieces v t _ (queryPiece_not_mem v k (by decide) (by decide)),
        ← List.map_cons (queryPiece v) k t, List.filterMap_map]
      have hf : (parseQueryPair ∘ queryPiece v) = fun k => some (k, GoMap.get v k) := by
        funext x
        exact parseQueryPair_piece v x
      rw [hf]
      exact congrFun (List.filterMap_eq_map fun k => (k, GoMap.get v k)) (k :: t)
  unfold parseQuery
  rw [hpairs, foldl_first_value _ []]
  · rfl
  · have : GoMap.keys ((sortedKeys v).map fun k => (k, GoMap.get v k)) = sortedKeys v := by
      simp [GoMap.keys, Function.comp_def]
    show (GoMap.keys _).Nodup
    rw [List.nil_append, this]
    exact sortedKeys_nodup hwf

theorem sortedEntries_perm {v : GoMap} (hwf : GoMap.WF v) :
    ((sortedKeys v).map fun k => (k, GoMap.get v k)).Perm v := by
  have h := (sortedKeys_perm v).map fun k => (k, GoMap.get v k)
  rwa [← wf_eq_map_keys hwf] at h


theorem urlValuesEncode_not_mem (v : GoMap) {sep : Char} (h : plainRune sep = false)
    (hne : sep ≠ '=') (hamp : sep ≠ '&') : sep ∉ (urlValuesEncode v).data := by
  rw [urlValuesEncode_data]
  cases sortedKeys v with
  | nil => simp
  | cons k t =>
    simp only
    intro hm
    rcases List.mem_append.1 hm with hm | hm
    · exact queryPiece_not_mem v k h hne hm
    · obtain ⟨x, _, hx⟩ := List.mem_flatMap.1 hm
      rcases List.mem_cons.1 hx with hx | hx
      · exact hamp hx
      · exact queryPiece_not_mem v x h hne hx

theorem linkPath_not_mem (path : String) {sep : Char} (h : sep ∉ path.data) (hne : sep ≠ '/') :
    sep ∉ (linkPath path).data := by
  unfold linkPath
  split_ifs
  · exact h
  · rw [String.data_append]
    intro hm
    rcases List.mem_append.1 hm with hm | hm
    · exact hne (by simpa using hm)
    · exact h hm

theorem linkParams_wf (s : HyperDXSigner) (c : Crypto) (now : Time) (path : String)
    (params : GoMap) : GoMap.WF (linkParams s c now path params) :=
  urlValuesSet_wf _ _ (signedParams_wf s now params)

theorem linkParts_raw (baseURL path : String) {v : GoMap} (hwf : GoMap.WF v)
    (hb1 : '?' ∉ baseURL.data) (hb2 : '#' ∉ baseURL.data)
    (hp1 : '?' ∉ path.data) (hp2 : '#' ∉ path.data) :
    linkParts baseURL (baseURL ++ path ++ "?" ++ urlValuesEncode v) =
      (pathUnescape path.data).map fun p =>
        (p, (sortedKeys v).map fun k => (k, GoMap.get v k)) := by
  have hdata : (baseURL ++ path ++ "?" ++ urlValuesEncode v).data =
      (baseURL.data ++ path.data) ++ '?' :: (urlValuesEncode v).data := by
    simp only [String.data_append]
    simp
  have hhash : '#' ∉ (baseURL.data ++ path.data) ++ '?' :: (urlValuesEncode v).data := by
    intro hm
    rcases List.mem_append.1 hm with hm | hm
    · rcases List.mem_append.1 hm with hm | hm
      · exact hb2 hm
      · exact hp2 hm
    · rcases List.mem_cons.1 hm with hm | hm
      · revert hm
        decide
      · exact urlValuesEncode_not_mem v (by decide) (by decide) (by decide) hm
  have hq : '?' ∉ baseURL.data ++ path.data := by
    intro hm
    rcases List.mem_append.1 hm with hm | hm
    · exact hb1 hm
    · exact hp1 hm
  unfold linkParts
  simp only [hdata, stringsCut_not_mem '#' hhash, stringsCut_append '?' _ hq]
  rw [if_pos (List.prefix_append _ _), List.drop_left, parseQuery_urlValuesEncode hwf]
  cases pathUnescape path.data <;> rfl

theorem linkParts_link (baseURL path : String) {v : GoMap} (hwf : GoMap.WF v)
    (hb1 : '?' ∉ baseURL.data) (hb2 : '#' ∉ baseURL.data)
    (hp1 : '?' ∉ path.data) (hp2 : '#' ∉ path.data) (hp3 : '%' ∉ path.data) :
    linkParts baseURL (baseURL ++ path ++ "?" ++ urlValuesEncode v) =
      some (path, (sortedKeys v).map fun k => (k, GoMap.get v k)) := by
  rw [linkParts_raw baseURL path hwf hb1 hb2 hp1 hp2, pathUnescape_plain hp3]
  rfl

/-- C25, amended. For every signer whose base URL holds no `?` and no `#`, every instant,
every path that holds no `?`, no `#` and no `%`, and every parameter map of the caller
that does not hold the key `signature`, the link that `Generate` returns verifies: read
back from the text of the link, its path is the path that was signed and its query
parameters other than `signature` are the parameters that were signed, so that the
canonical string recomputed from them, signed with the same key, is the value of
`signature` that the link carries. -/
theorem generated_link_verifies (s : HyperDXSigner) (c : Crypto) (now : Time) (path : String)
    (params : GoMap) (hbase : '?' ∉ s.baseURL.data ∧ '#' ∉ s.baseURL.data)
    (hpath : '?' ∉ path.data ∧ '#' ∉ path.data ∧ '%' ∉ path.data)
    (hsig : "signature" ∉ GoMap.keys params) :
    (HyperDXSigner.Generate (some s) c now path params).2 = none ∧
    (∃ values,
      linkParts s.baseURL (HyperDXSigner.Generate (some s) c now path params).1 =
        some (linkPath path, values) ∧
      (values.filter fun e => e.1 != "signature").Perm (signedParams s now params) ∧
      values.lookup "signature" =
        some (s.sign c (linkPath path) (signedParams s now params)) ∧
      s.sign c (linkPath path) (values.filter fun e => e.1 != "signature") =
        s.sign c (linkPath path) (signedParams s now params)) ∧
    s.verifies c (HyperDXSigner.Generate (some s) c now path params).1 = true := by
  have hwf := linkParams_wf s c now path params
  have hns := signature_not_signed s now hsig
  have hparts := linkParts_link s.baseURL (linkPath path) hwf hbase.1 hbase.2
    (linkPath_not_mem path hpath.1 (by decide)) (linkPath_not_mem path hpath.2.1 (by decide))
    (linkPath_not_mem path hpath.2.2 (by decide))
  have hperm := sortedEntries_perm hwf
  have hfilter : ((sortedKeys (linkParams s c now path params)).map fun k =>
      (k, GoMap.get (linkParams s c now path params) k)).filter
        (fun e => e.1 != "signature") |>.Perm (signedParams s now params) := by
    have h1 := hperm.filter fun e => e.1 != "signature"
    have h2 : (linkParams s c now path params).filter (fun e => e.1 != "signature") =
        signedParams s now params := by
      rw [linkParams_eq c path hsig, List.filter_append]
      have h3 : (signedParams s now params).filter (fun e => e.1 != "signature") =
          signedParams s now params := by
        rw [List.filter_eq_self]
        intro e he
        have hne : e.1 ≠ "signature" := fun heq => hns (heq ▸ List.mem_map_of_mem Prod.fst he)
        simpa using hne
      rw [h3]
      simp
    rwa [h2] at h1
  have hlookup : ((sortedKeys (linkParams s c now path params)).map fun k =>
      (k, GoMap.get (linkParams s c now path params) k)).lookup "signature" =
      some (s.sign c (linkPath path) (signedParams s now params)) := by
    have hwf2 : GoMap.WF ((sortedKeys (linkParams s c now path params)).map fun k =>
        (k, GoMap.get (linkParams s c now path params) k)) := by
      show (GoMap.keys _).Nodup
      exact (hperm.map Prod.fst).nodup_iff.2 hwf
    apply lookup_of_mem hwf2
    apply hperm.mem_iff.2
    rw [linkParams_eq c path hsig]
    simp
  have hsign : s.sign c (linkPath path)
      (((sortedKeys (linkParams s c now path params)).map fun k =>
        (k, GoMap.get (linkParams s c now path params) k)).filter
          fun e => e.1 != "signature") =
      s.sign c (linkPath path) (signedParams s now params) := by
    unfold HyperDXSigner.sign
    rw [canonicalString_perm (linkPath path) (signedParams_wf s now params) hfilter]
  refine ⟨rfl, ⟨_, hparts, hfilter, hlookup, hsign⟩, ?_⟩
  unfold HyperDXSigner.verifies
  rw [generate_eq]
  simp only [hparts, hlookup, hsign]
  simp

set_option maxRecDepth 100000 in
/-- C25, amended, at the path `dash` and the parameters `team=a b` and `env=dév+1`. -/
theorem generated_link_verifies_witness :
    (HyperDXSigner.Generate (some sampleSigner) sampleCrypto sampleNow "dash"
        [("team", "a b"), ("env", "dév+1")]).1 =
      "https://hdx.example.com/dash?env=d%C3%A9v%2B1&expires=1735690500&signature=k1%3A%2Fdash%7Cenv%3Dd%C3%A9v%2B1%7Cexpires%3D1735690500%7Cteam%3Da+b&team=a+b" ∧
    sampleSigner.verifies sampleCrypto
      (HyperDXSigner.Generate (some sampleSigner) sampleCrypto sampleNow "dash"
        [("team", "a b"), ("env", "dév+1")]).1 = true :=
  ⟨by decide,
    (generated_link_verifies sampleSigner sampleCrypto sampleNow "dash"
      [("team", "a b"), ("env", "dév+1")] (by decide) (by decide) (by decide)).2.2⟩

/-! ## Links that do not verify -/

theorem verifies_false {s : HyperDXSigner} {c : Crypto} {link path path₀ : String}
    {values values₀ : GoMap} (hinj : CollisionFree c s.key)
    (hparts : linkParts s.baseURL link = some (path, values))
    (hl : values.lookup "signature" = some (s.sign c path₀ values₀))
    (hne : canonicalString path (values.filter fun e => e.1 != "signature") ≠
      canonicalString path₀ values₀) :
    s.verifies c link = false := by
  unfold HyperDXSigner.verifies
  simp only [hparts, hl]
  rw [beq_eq_false_iff_ne]
  intro h
  exact hne (hinj h)

set_option maxRecDepth 100000 in
theorem signature_key_link (c : Crypto) (hinj : CollisionFree c sampleSigner.key) :
    sampleSigner.verifies c
      (HyperDXSigner.Generate (some sampleSigner) c sampleNow "/dash"
        [("signature", "forged")]).1 = false := by
  have hparts := linkParts_raw sampleSigner.baseURL "/dash"
    (linkParams_wf sampleSigner c sampleNow "/dash" [("signature", "forged")])
    (by decide) (by decide) (by decide) (by decide)
  have hparts2 : linkParts sampleSigner.baseURL
      (HyperDXSigner.Generate (some sampleSigner) c sampleNow "/dash"
        [("signature", "forged")]).1 =
      some ("/dash", [("expires", "1735690500"), ("signature", sampleSigner.sign c "/dash"
        [("signature", "forged"), ("expires", "1735690500")])]) := hparts
  refine verifies_false hinj hparts2 rfl ?_
  show canonicalString "/dash" [("expires", "1735690500")] ≠
    canonicalString "/dash" [("signature", "forged"), ("expires", "1735690500")]
  decide

set_option maxRecDepth 100000 in
theorem escaped_path_link (c : Crypto) (hinj : CollisionFree c sampleSigner.key) :
    sampleSigner.verifies c
      (HyperDXSigner.Generate (some sampleSigner) c sampleNow "a%41" []).1 = false := by
  have hparts := linkParts_raw sampleSigner.baseURL "/a%41"
    (linkParams_wf sampleSigner c sampleNow "a%41" [])
    (by decide) (by decide) (by decide) (by decide)
  have hparts2 : linkParts sampleSigner.baseURL
      (HyperDXSigner.Generate (some sampleSigner) c sampleNow "a%41" []).1 =
      some ("/aA", [("expires", "1735690500"), ("signature", sampleSigner.sign c "/a%41"
        [("expires", "1735690500")])]) := hparts
  refine verifies_false hinj hparts2 rfl ?_
  show canonicalString "/aA" [("expires", "1735690500")] ≠
    canonicalString "/a%41" [("expires", "1735690500")]
  decide

set_option maxRecDepth 100000 in
theorem fragment_path_link (c : Crypto) :
    sampleSigner.verifies c
      (HyperDXSigner.Generate (some sampleSigner) c sampleNow "dash#x" []).1 = false := by
  have hdata : (HyperDXSigner.Generate (some sampleSigner) c sampleNow "dash#x" []).1.data =
      ("https://hdx.example.com/dash" : String).data ++ '#' ::
        (("x?" : String).data ++ (urlValuesEncode
          (linkParams sampleSigner c sampleNow "dash#x" [])).data) := by
    rw [generate_eq]
    simp only [String.data_append]
    rfl
  have hparts : linkParts sampleSigner.baseURL
      (HyperDXSigner.Generate (some sampleSigner) c sampleNow "dash#x" []).1 =
      some ("/dash", []) := by
    unfold linkParts
    simp only [hdata, stringsCut_append '#' _ (by decide : '#' ∉ ("https://hdx.example.com/dash" : String).data)]
    decide
  unfold HyperDXSigner.verifies
  rw [hparts]
  rfl

set_option maxRecDepth 100000 in
theorem fragment_base_link (c : Crypto) :
    hashRouteSigner.verifies c
      (HyperDXSigner.Generate (some hashRouteSigner) c sampleNow "dash" []).1 = false := by
  have hdata : (HyperDXSigner.Generate (some hashRouteSigner) c sampleNow "dash" []).1.data =
      ("https://hdx.example.com/" : String).data ++ '#' ::
        (("/app/dash?" : String).data ++ (urlValuesEncode
          (linkParams hashRouteSigner c sampleNow "dash" [])).data) := by
    rw [generate_eq]
    simp only [String.data_append]
    rfl
  have hparts : linkParts hashRouteSigner.baseURL
      (HyperDXSigner.Generate (some hashRouteSigner) c sampleNow "dash" []).1 = none := by
    unfold linkParts
    simp only [hdata, stringsCut_append '#' _ (by decide : '#' ∉ ("https://hdx.example.com/" : String).data)]
    decide
  unfold HyperDXSigner.verifies
  rw [hparts]

set_option maxRecDepth 100000 in
theorem query_base_link (c : Crypto) :
    queryBaseSigner.verifies c
      (HyperDXSigner.Generate (some queryBaseSigner) c sampleNow "dash" []).1 = false := by
  have hdata : (HyperDXSigner.Generate (some queryBaseSigner) c sampleNow "dash" []).1.data =
      ("https://hdx.example.com/app" : String).data ++ '?' ::
        (("tenant=1/dash" : String).data ++ '?' :: (urlValuesEncode
          (linkParams queryBaseSigner c sampleNow "dash" [])).data) := by
    rw [generate_eq]
    simp only [String.data_append]
    rfl
  have hhash : '#' ∉ ("https://hdx.example.com/app" : String).data ++ '?' ::
        (("tenant=1/dash" : String).data ++ '?' :: (urlValuesEncode
          (linkParams queryBaseSigner c sampleNow "dash" [])).data) := by
    intro hm
    rcases List.mem_append.1 hm with hm | hm
    · revert hm
      decide
    · rcases List.mem_cons.1 hm with hm | hm
      · revert hm
        decide
      · rcases List.mem_append.1 hm with hm | hm
        · revert hm
          decide
        · rcases List.mem_cons.1 hm with hm | hm
          · revert hm
            decide
          · exact urlValuesEncode_not_mem _ (by decide) (by decide) (by decide) hm
  have hparts : linkParts queryBaseSigner.baseURL
      (HyperDXSigner.Generate (some queryBaseSigner) c sampleNow "dash" []).1 = none := by
    unfold linkParts
    simp only [hdata, stringsCut_not_mem '#' hhash,
      stringsCut_append '?' _ (by decide : '?' ∉ ("https://hdx.example.com/app" : String).data)]
    rw [if_neg (by decide)]
  unfold HyperDXSigner.verifies
  rw [hparts]

set_option maxRecDepth 100000 in
theorem query_path_link (c : Crypto) (hinj : CollisionFree c sampleSigner.key) :
    sampleSigner.verifies c
      (HyperDXSigner.Generate (some sampleSigner) c sampleNow "dash?x=1" []).1 = false := by
  have hkeys : sortedKeys (linkParams sampleSigner c sampleNow "dash?x=1" []) =
      ["expires", "signature"] := rfl
  have henc : (urlValuesEncode (linkParams sampleSigner c sampleNow "dash?x=1" [])).data =
      queryPiece (linkParams sampleSigner c sampleNow "dash?x=1" []) "expires" ++
        ["signature"].flatMap fun k =>
          '&' :: queryPiece (linkParams sampleSigner c sampleNow "dash?x=1" []) k := by
    rw [urlValuesEncode_data, hkeys]
  have hdata : (HyperDXSigner.Generate (some sampleSigner) c sampleNow "dash?x=1" []).1.data =
      ("https://hdx.example.com/dash" : String).data ++ '?' ::
        (("x=1?" : String).data ++ (urlValuesEncode
          (linkParams sampleSigner c sampleNow "dash?x=1" [])).data) := by
    rw [generate_eq]
    simp only [String.data_append]
    rfl
  have hhash : '#' ∉ ("https://hdx.example.com/dash" : String).data ++ '?' ::
        (("x=1?" : String).data ++ (urlValuesEncode
          (linkParams sampleSigner c sampleNow "dash?x=1" [])).data) := by
    intro hm
    rcases List.mem_append.1 hm with hm | hm
    · revert hm
      decide
    · rcases List.mem_cons.1 hm with hm | hm
      · revert hm
        decide
      · rcases List.mem_append.1 hm with hm | hm
        · revert hm
          decide
        · exact urlValuesEncode_not_mem _ (by decide) (by decide) (by decide) hm
  have hpiece : ("x=1?" : String).data ++
      queryPiece (linkParams sampleSigner c sampleNow "dash?x=1" []) "expires" =
      ("x=1?expires=1735690500" : String).data := rfl
  have hsplit : splitRunes '&' (("x=1?" : String).data ++ (urlValuesEncode
      (linkParams sampleSigner c sampleNow "dash?x=1" [])).data) =
      [("x=1?expires=1735690500" : String).data,
        queryPiece (linkParams sampleSigner c sampleNow "dash?x=1" []) "signature"] := by
    rw [henc, ← List.append_assoc, hpiece,
      splitRunes_pieces _ ["signature"] _ (by decide)]
    rfl
  have hquery : parseQuery (("x=1?" : String).data ++ (urlValuesEncode
      (linkParams sampleSigner c sampleNow "dash?x=1" [])).data) =
      [("x", "1?expires=1735690500"),
        ("signature", sampleSigner.sign c "/dash?x=1" [("expires", "1735690500")])] := by
    unfold parseQuery
    rw [hsplit]
    have h1 : parseQueryPair ("x=1?expires=1735690500" : String).data =
        some ("x", "1?expires=1735690500") := by decide
    simp only [List.filterMap_cons, List.filterMap_nil, h1, parseQueryPair_piece]
    rfl
  have hparts : linkParts sampleSigner.baseURL
      (HyperDXSigner.Generate (some sampleSigner) c sampleNow "dash?x=1" []).1 =
      some ("/dash", [("x", "1?expires=1735690500"),
        ("signature", sampleSigner.sign c "/dash?x=1" [("expires", "1735690500")])]) := by
    unfold linkParts
    simp only [hdata, stringsCut_not_mem '#' hhash,
      stringsCut_append '?' _
        (by decide : '?' ∉ ("https://hdx.example.com/dash" : String).data), hquery]
    rw [if_pos (by decide)]
    have hp : pathUnescape (List.drop sampleSigner.baseURL.data.length
        ("https://hdx.example.com/dash" : String).data) = some "/dash" := by decide
    rw [hp]
  refine verifies_false hinj hparts rfl ?_
  show canonicalString "/dash" [("x", "1?expires=1735690500")] ≠
    canonicalString "/dash?x=1" [("expires", "1735690500")]
  decide

set_option maxRecDepth 100000 in
/-- C25 as stated fails. For every MAC and encoding that map distinct messages to distinct
signatures, the link that `Generate` returns does not verify for the parameter map that
holds the key `signature`, which is signed and then overwritten, and for the paths
`dash?x=1` and `a%41`, which are written into the link as they are, so that the link read
back has the path `/dash` with the parameter `x`, and the path `/aA`; for every MAC and
encoding whatever, it does not verify for the path `dash#x`, after which the query is part
of the fragment, and under the base URLs that hold `#` or `?`. The stand-in MAC is one
that maps distinct messages to distinct signatures; with it the first link is the text
shown, and it does not verify. -/
theorem generated_link_not_verified :
    (∀ c : Crypto, CollisionFree c sampleSigner.key →
      sampleSigner.verifies c
        (HyperDXSigner.Generate (some sampleSigner) c sampleNow "/dash"
          [("signature", "forged")]).1 = false) ∧
    (∀ c : Crypto, CollisionFree c sampleSigner.key →
      sampleSigner.verifies c
        (HyperDXSigner.Generate (some sampleSigner) c sampleNow "dash?x=1" []).1 = false) ∧
    (∀ c : Crypto, CollisionFree c sampleSigner.key →
      sampleSigner.verifies c
        (HyperDXSigner.Generate (some sampleSigner) c sampleNow "a%41" []).1 = false) ∧
    (∀ c : Crypto,
      sampleSigner.verifies c
        (HyperDXSigner.Generate (some sampleSigner) c sampleNow "dash#x" []).1 = false) ∧
    (∀ c : Crypto,
      hashRouteSigner.verifies c
        (HyperDXSigner.Generate (some hashRouteSigner) c sampleNow "dash" []).1 = false) ∧
    (∀ c : Crypto,
      queryBaseSigner.verifies c
        (HyperDXSigner.Generate (some queryBaseSigner) c sampleNow "dash" []).1 = false) ∧
    CollisionFree sampleCrypto sampleSigner.key ∧
    HyperDXSigner.Generate (some sampleSigner) sampleCrypto sampleNow "/dash"
        [("signature", "forged")] =
      ("https://hdx.example.com/dash?expires=1735690500&signature=k1%3A%2Fdash%7Cexpires%3D1735690500%7Csignature%3Dforged",
        none) ∧
    linkParts sampleSigner.baseURL
        (HyperDXSigner.Generate (some sampleSigner) sampleCrypto sampleNow "/dash"
          [("signature", "forged")]).1 =
      some ("/dash", [("expires", "1735690500"),
        ("signature", "k1:/dash|expires=1735690500|signature=forged")]) ∧
    sampleSigner.sign sampleCrypto "/dash" [("expires", "1735690500")] =
      "k1:/dash|expires=1735690500" ∧
    sampleSigner.verifies sampleCrypto
      (HyperDXSigner.Generate (some sampleSigner) sampleCrypto sampleNow "/dash"
        [("signature", "forged")]).1 = false ∧
    HyperDXSigner.Generate (some sampleSigner) sampleCrypto sampleNow "dash?x=1" [] =
      ("https://hdx.example.com/dash?x=1?expires=1735690500&signature=k1%3A%2Fdash%3Fx%3D1%7Cexpires%3D1735690500",
        none) ∧
    sampleSigner.verifies sampleCrypto
      (HyperDXSigner.Generate (some sampleSigner) sampleCrypto sampleNow "dash?x=1" []).1 =
        false :=
  ⟨signature_key_link, query_path_link, escaped_path_link, fragment_path_link,
    fragment_base_link, query_base_link, sampleCrypto_collisionFree _, by decide, by decide,
    by decide, by decide, by decide, by decide⟩

end OpenChoreo
